import Mathlib

/-!
# TFE CSID core (`cam_tfe_csid_core.c`): shallow embedding

The control plane of the TFE CSID driver, its time-stamp service and its
interrupt handling (top half, event payloads, bottom half) are embedded as
pure functions on an explicit device record `cam_tfe_csid_hw`.  Every C
function that the theorems below talk about is translated statement by
statement and keeps its C name; log statements are left out.

Conventions

* `int` return codes are `Int` (`0` is success, `-EINVAL`, `-ETIMEDOUT`).
* `uint32_t` fields are `Nat` and every increment is reduced with `u32`;
  `uint64_t` arithmetic is reduced with `u64`.
* Register writes (`cam_io_w_mb`) are appended to the log `regs`; a register
  read (`cam_io_r_mb`) of a configuration register returns the value written
  last (reset value `0`).  Status that only the hardware produces (poll
  results, completions, path status words, SOC and capability services) is an
  explicit argument of the operation.
* Locks are not modelled: the operations are executed one after the other.
* The free list of event payloads is a list of payload indices; a payload that
  was handed to the deferred scheduler travels in `tasklet_queue` with the
  contents stored at submission.  Calls of the event callback, notifications
  of the PHY and signalled completions are logged in the device record.
* A resource handle (`struct cam_isp_resource_node *`) is the `res_id` of the
  node it points to; the nodes themselves live in the device record.
-/

set_option linter.unusedVariables false

namespace TfeCsid

/-! ## Machine integers and error numbers -/

/-- Kernel error number `EINVAL`. -/
def EINVAL : Int := 22

/-- Kernel error number `ETIMEDOUT`. -/
def ETIMEDOUT : Int := 110

/-- Largest `uint32_t`. -/
def UINT_MAX : Nat := 4294967295

/-- Truncation of a natural number to `uint32_t`. -/
def u32 (x : Nat) : Nat := x % 4294967296

/-- Subtraction of two `uint32_t` values, wrapping like the C operator. -/
def u32_sub (a b : Nat) : Nat := (u32 a + 4294967296 - u32 b) % 4294967296

/-- Error number `ENOMEM`. -/
def ENOMEM : Int := 12

/-- Largest `uint64_t`, `U64_MAX`. -/
def U64_MAX : Nat := 18446744073709551615

/-- Truncation to `uint64_t`. -/
def u64 (x : Nat) : Nat := x % 18446744073709551616

/-- Subtraction of `uint64_t` values. -/
def u64_sub (a b : Nat) : Nat := (u64 a + 18446744073709551616 - u64 b) % 18446744073709551616

/-- The macro `CAM_TFE_CSID_QTIMER_MUL_FACTOR` of the source file. -/
def CAM_TFE_CSID_QTIMER_MUL_FACTOR : Nat := 10000

/-- The macro `CAM_TFE_CSID_QTIMER_DIV_FACTOR` of the source file. -/
def CAM_TFE_CSID_QTIMER_DIV_FACTOR : Nat := 192

/-- The macro `CAM_TFE_CSID_IRQ_SOF_DEBUG_CNT_MAX` of the source file. -/
def CAM_TFE_CSID_IRQ_SOF_DEBUG_CNT_MAX : Nat := 12

/-- The macro `CAM_TFE_CSID_MAX_IRQ_ERROR_COUNT` of the source file. -/
def CAM_TFE_CSID_MAX_IRQ_ERROR_COUNT : Nat := 5

/-- Bitwise complement of a `uint32_t`. -/
def u32_not (a : Nat) : Nat := 4294967295 - u32 a

/-! ## Constants of headers that are not part of the sources -/

/-- Modelled from the spec: `CAM_TFE_CSID_CID_MAX` of `cam_tfe_csid_core.h`,
the size of the CID table ("bounded, e.g. 4 slots"). -/
def CAM_TFE_CSID_CID_MAX : Nat := 4

/-- Modelled from the spec: `CAM_ISP_TFE_VC_DT_CFG` of the uapi header, the
number of (VC, DT) pairs of a slot or request ("N bounded, e.g. 4"). -/
def CAM_ISP_TFE_VC_DT_CFG : Nat := 4

/-- Modelled from the spec: enumerators of `enum cam_tfe_csid_path_res_id`
(`cam_tfe_csid_hw_intf.h`): the three RDI paths index `rdi_res[]`, then IPP. -/
def CAM_TFE_CSID_PATH_RES_RDI_0 : Nat := 0

/-- Modelled from the spec: second RDI path of `enum cam_tfe_csid_path_res_id`. -/
def CAM_TFE_CSID_PATH_RES_RDI_1 : Nat := 1

/-- Modelled from the spec: third RDI path of `enum cam_tfe_csid_path_res_id`. -/
def CAM_TFE_CSID_PATH_RES_RDI_2 : Nat := 2

/-- Modelled from the spec: the pixel path of `enum cam_tfe_csid_path_res_id`. -/
def CAM_TFE_CSID_PATH_RES_IPP : Nat := 3

/-- Modelled from the spec: number of paths, `CAM_TFE_CSID_PATH_RES_MAX`. -/
def CAM_TFE_CSID_PATH_RES_MAX : Nat := 4

/-- Modelled from the spec: `enum cam_tfe_csid_halt_cmd`, halt at the next
frame boundary. -/
def CAM_TFE_CSID_HALT_AT_FRAME_BOUNDARY : Nat := 0

/-- Modelled from the spec: `enum cam_tfe_csid_halt_cmd`, resume at the next
frame boundary. -/
def CAM_TFE_CSID_RESUME_AT_FRAME_BOUNDARY : Nat := 1

/-- Modelled from the spec: `enum cam_tfe_csid_halt_cmd`, halt immediately. -/
def CAM_TFE_CSID_HALT_IMMEDIATELY : Nat := 2

/-- Modelled from the spec: `CAM_CSID_EVT_PAYLOAD_MAX` of
`cam_tfe_csid_core.h`, the number of pooled event payloads ("bounded, e.g.
8"). -/
def CAM_CSID_EVT_PAYLOAD_MAX : Nat := 8

/-- Numeric macros of the missing headers whose value the driver only combines
bitwise or compares; they are a parameter of the embedding. -/
structure csid_defs where
  CAM_ISP_TFE_IN_RES_TPG : Nat
  CAM_ISP_TFE_IN_RES_CPHY_TPG_0 : Nat
  CAM_ISP_TFE_IN_RES_CPHY_TPG_1 : Nat
  CAM_ISP_TFE_IN_RES_CPHY_TPG_2 : Nat
  CAM_ISP_TFE_IN_RES_MAX : Nat
  CAM_ISP_LANE_TYPE_DPHY : Nat
  CAM_ISP_LANE_TYPE_CPHY : Nat
  CAM_ISP_LANE_TYPE_MAX : Nat
  CAM_ISP_TFE_IN_RES_USAGE_DUAL : Nat
  CAM_TFE_CSID_BIN_BAYER : Nat
  CAM_TFE_CSID_BIN_QCFA : Nat
  TFE_CSID_HALT_MODE_MASTER : Nat
  TFE_CSID_HALT_MODE_SLAVE : Nat
  TFE_CSID_TIMESTAMP_STB_POST_IRQ : Nat
  TFE_CSID_PATH_INFO_RST_DONE : Nat
  TFE_CSID_PATH_ERROR_FIFO_OVERFLOW : Nat
  TFE_CSID_PATH_IPP_ERROR_CCIF_VIOLATION : Nat
  TFE_CSID_PATH_IPP_OVERFLOW_IRQ : Nat
  TFE_CSID_PATH_RDI_ERROR_CCIF_VIOLATION : Nat
  TFE_CSID_PATH_RDI_OVERFLOW_IRQ : Nat
  TFE_CSID_PATH_ERROR_PIX_COUNT : Nat
  TFE_CSID_PATH_ERROR_LINE_COUNT : Nat
  TFE_CSID_PATH_INFO_INPUT_SOF : Nat
  TFE_CSID_PATH_INFO_INPUT_EOF : Nat
  TFE_CSID_CSI2_RX_INFO_RST_DONE : Nat
  TFE_CSID_CSI2_RX_ERROR_LANE0_FIFO_OVERFLOW : Nat
  TFE_CSID_CSI2_RX_ERROR_LANE1_FIFO_OVERFLOW : Nat
  TFE_CSID_CSI2_RX_ERROR_LANE2_FIFO_OVERFLOW : Nat
  TFE_CSID_CSI2_RX_ERROR_LANE3_FIFO_OVERFLOW : Nat
  TFE_CSID_CSI2_RX_ERROR_CPHY_EOT_RECEPTION : Nat
  TFE_CSID_CSI2_RX_ERROR_CPHY_SOT_RECEPTION : Nat
  TFE_CSID_CSI2_RX_ERROR_CRC : Nat
  TFE_CSID_CSI2_RX_ERROR_ECC : Nat
  TFE_CSID_CSI2_RX_ERROR_MMAPPED_VC_DT : Nat
  TFE_CSID_CSI2_RX_ERROR_STREAM_UNDERFLOW : Nat
  TFE_CSID_CSI2_RX_ERROR_UNBOUNDED_FRAME : Nat
  TFE_CSID_CSI2_RX_ERROR_CPHY_PH_CRC : Nat
  TFE_CSID_CSI2_RX_INFO_PHY_DL0_SOT_CAPTURED : Nat
  TFE_CSID_CSI2_RX_INFO_PHY_DL1_SOT_CAPTURED : Nat
  TFE_CSID_CSI2_RX_INFO_PHY_DL2_SOT_CAPTURED : Nat
  TFE_CSID_CSI2_RX_INFO_PHY_DL3_SOT_CAPTURED : Nat
  TFE_CSID_CSI2_RX_INFO_PHY_DL0_EOT_CAPTURED : Nat
  TFE_CSID_CSI2_RX_INFO_PHY_DL1_EOT_CAPTURED : Nat
  TFE_CSID_CSI2_RX_INFO_PHY_DL2_EOT_CAPTURED : Nat
  TFE_CSID_CSI2_RX_INFO_PHY_DL3_EOT_CAPTURED : Nat
  TFE_CSID_CSI2_RX_INFO_SHORT_PKT_CAPTURED : Nat
  TFE_CSID_CSI2_RX_INFO_LONG_PKT_CAPTURED : Nat
  TFE_CSID_CSI2_RX_INFO_CPHY_PKT_HDR_CAPTURED : Nat
  TFE_CSID_DEBUG_ENABLE_SOF_IRQ : Nat
  TFE_CSID_DEBUG_ENABLE_EOF_IRQ : Nat
  TFE_CSID_DEBUG_ENABLE_SOT_IRQ : Nat
  TFE_CSID_DEBUG_ENABLE_EOT_IRQ : Nat
  TFE_CSID_DEBUG_ENABLE_SHORT_PKT_CAPTURE : Nat
  TFE_CSID_DEBUG_ENABLE_LONG_PKT_CAPTURE : Nat
  TFE_CSID_DEBUG_ENABLE_CPHY_PKT_CAPTURE : Nat
  TFE_CSID_DEBUG_ENABLE_HBI_VBI_INFO : Nat
  TFE_CSID_DEBUG_DISABLE_EARLY_EOF : Nat

/-! ## Enumerations -/

/-- States of a resource node, `enum cam_isp_resource_state`. -/
inductive cam_isp_resource_state where
  | UNAVAILABLE
  | AVAILABLE
  | RESERVED
  | INIT_HW
  | STREAMING
deriving DecidableEq, Repr, Inhabited

/-- Numeric value of a resource state (enumerator order of `cam_isp_hw.h`);
`cam_tfe_csid_release` compares states with `<=` and `>=`. -/
def cam_isp_resource_state.toNat : cam_isp_resource_state → Nat
  | .UNAVAILABLE => 0
  | .AVAILABLE => 1
  | .RESERVED => 2
  | .INIT_HW => 3
  | .STREAMING => 4

/-- Power state of the block, `enum cam_hw_state`. -/
inductive cam_hw_state where
  | CAM_HW_STATE_POWER_DOWN
  | CAM_HW_STATE_POWER_UP
deriving DecidableEq, Repr, Inhabited

/-- Dual-sensor synchronisation mode, `enum cam_isp_hw_sync_mode`; the last
constructor stands for every value at or above `CAM_ISP_HW_SYNC_MAX`. -/
inductive cam_isp_hw_sync_mode where
  | CAM_ISP_HW_SYNC_NONE
  | CAM_ISP_HW_SYNC_MASTER
  | CAM_ISP_HW_SYNC_SLAVE
  | CAM_ISP_HW_SYNC_MAX
deriving DecidableEq, Repr, Inhabited

/-- Pixel formats named by the driver; `OTHER` is any other format code. -/
inductive cam_format where
  | CAM_FORMAT_MIPI_RAW_6
  | CAM_FORMAT_MIPI_RAW_8
  | CAM_FORMAT_MIPI_RAW_10
  | CAM_FORMAT_MIPI_RAW_12
  | CAM_FORMAT_MIPI_RAW_14
  | CAM_FORMAT_MIPI_RAW_16
  | CAM_FORMAT_PLAIN8
  | CAM_FORMAT_PLAIN16_10
  | CAM_FORMAT_PLAIN16_12
  | CAM_FORMAT_PLAIN16_14
  | CAM_FORMAT_PLAIN16_16
  | CAM_FORMAT_PLAIN128
  | OTHER (code : Nat)
deriving DecidableEq, Repr, Inhabited

/-! ## Data model -/

/-- One (VC, DT) pair. -/
structure cam_tfe_csid_vc_dt where
  vc : Nat
  dt : Nat
deriving DecidableEq, Repr, Inhabited

/-- One slot of the CID table, `struct cam_tfe_csid_cid_data`. -/
structure cam_tfe_csid_cid_data where
  vc_dt : List cam_tfe_csid_vc_dt
  num_valid_vc_dt : Nat
  cnt : Nat
deriving DecidableEq, Repr, Inhabited

/-- Shared receiver configuration, `struct cam_tfe_csid_csi2_rx_cfg`. -/
structure cam_tfe_csid_csi2_rx_cfg where
  phy_sel : Nat
  lane_type : Nat
  lane_num : Nat
  lane_cfg : Nat
deriving DecidableEq, Repr, Inhabited

/-- Per-path private data, `struct cam_tfe_csid_path_cfg`. -/
structure cam_tfe_csid_path_cfg where
  vc_dt : List cam_tfe_csid_vc_dt
  num_valid_vc_dt : Nat
  cid : Nat
  in_format : cam_format
  out_format : cam_format
  crop_enable : Bool
  start_pixel : Nat
  end_pixel : Nat
  width : Nat
  start_line : Nat
  end_line : Nat
  height : Nat
  sync_mode : cam_isp_hw_sync_mode
  master_idx : Nat
  usage_type : Nat
  init_frame_drop : Nat
  res_sof_cnt : Nat
  sensor_width : Nat
  sensor_height : Nat
  sensor_fps : Nat
  sensor_hbi : Nat
  sensor_vbi : Nat
  bayer_bin : Nat
  qcfa_bin : Nat
deriving DecidableEq, Repr, Inhabited

/-- A resource node with its private path data (`res_priv`). -/
structure cam_isp_resource_node where
  res_id : Nat
  res_state : cam_isp_resource_state
  res_priv : cam_tfe_csid_path_cfg
deriving DecidableEq, Repr, Inhabited

/-- Input port of a reservation, `struct cam_isp_tfe_in_port_generic_info`. -/
structure cam_isp_tfe_in_port_generic_info where
  res_id : Nat
  lane_type : Nat
  lane_num : Nat
  lane_cfg : Nat
  vc : List Nat
  dt : List Nat
  num_valid_vc_dt : Nat
  format : cam_format
  usage_type : Nat
  left_start : Nat
  left_end : Nat
  left_width : Nat
  right_start : Nat
  right_end : Nat
  right_width : Nat
  line_start : Nat
  line_end : Nat
  height : Nat
  sensor_width : Nat
  sensor_height : Nat
  sensor_fps : Nat
  sensor_hbi : Nat
  sensor_vbi : Nat
  bayer_bin : Nat
  qcfa_bin : Nat
deriving DecidableEq, Repr, Inhabited

/-- Arguments of a reservation,
`struct cam_tfe_csid_hw_reserve_resource_args`; callbacks and their context
are identified by a number, `none` is `NULL`. -/
structure cam_tfe_csid_hw_reserve_resource_args where
  res_id : Nat
  in_port : cam_isp_tfe_in_port_generic_info
  out_port_format : cam_format
  sync_mode : cam_isp_hw_sync_mode
  master_idx : Nat
  event_cb : Option Nat
  event_cb_prv : Option Nat
deriving DecidableEq, Repr, Inhabited

/-- Registers of the block that the driver writes. -/
inductive csid_reg_addr where
  | csid_top_irq_mask_addr
  | csid_top_irq_clear_addr
  | csid_irq_cmd_addr
  | csid_rst_strobes_addr
  | csid_csi2_rx_irq_mask_addr
  | csid_csi2_rx_irq_clear_addr
  | csid_csi2_rx_cfg0_addr
  | csid_csi2_rx_cfg1_addr
  | csid_csi2_rx_capture_ctrl_addr
  | csid_csi2_rx_rst_strobes_addr
  | csid_pxl_irq_mask_addr
  | csid_pxl_irq_clear_addr
  | csid_pxl_cfg0_addr
  | csid_pxl_cfg1_addr
  | csid_pxl_ctrl_addr
  | csid_pxl_hcrop_addr
  | csid_pxl_vcrop_addr
  | csid_pxl_multi_vcdt_cfg0_addr
  | csid_pxl_err_recovery_cfg0_addr
  | csid_pxl_format_measure_cfg0_addr
  | csid_pxl_rst_strobes_addr
  | csid_rdi_irq_mask_addr (id : Nat)
  | csid_rdi_irq_clear_addr (id : Nat)
  | csid_rdi_cfg0_addr (id : Nat)
  | csid_rdi_cfg1_addr (id : Nat)
  | csid_rdi_ctrl_addr (id : Nat)
  | csid_rdi_multi_vcdt_cfg0_addr (id : Nat)
  | csid_rdi_err_recovery_cfg0_addr (id : Nat)
  | csid_rdi_format_measure_cfg0_addr (id : Nat)
  | csid_rdi_rst_strobes_addr (id : Nat)
deriving DecidableEq, Repr, Inhabited

/-- Common part of the register description, `cmn_reg`. -/
structure cam_tfe_csid_common_reg_offset where
  num_rdis : Nat
  num_pix : Nat
  csid_rst_stb : Nat
  csid_reg_rst_stb : Nat
  ipp_irq_mask_all : Nat
  rdi_irq_mask_all : Nat
  ipp_path_rst_stb_all : Nat
  rdi_path_rst_stb_all : Nat
  vc_shift_val : Nat
  dt_shift_val : Nat
  dt_id_shift_val : Nat
  fmt_shift_val : Nat
  plain_fmt_shit_val : Nat
  crop_h_en_shift_val : Nat
  crop_v_en_shift_val : Nat
  crop_shift : Nat
  path_en_shift_val : Nat
  vc1_shift_val : Nat
  dt1_shift_val : Nat
  multi_vc_dt_en_shift_val : Nat
  path_rst_done_shift_val : Nat
  format_measure_support : Bool
deriving DecidableEq, Repr, Inhabited

/-- Pixel-path part of the register description, `ipp_reg`. -/
structure cam_tfe_csid_pxl_reg_offset where
  binning_supported : Nat
  bin_en_shift_val : Nat
  bin_qcfa_en_shift_val : Nat
  format_measure_en_shift_val : Nat
  pix_store_en_shift_val : Nat
  is_multi_vc_dt_supported : Bool
  early_eof_en_shift_val : Nat
  measure_en_hbi_vbi_cnt_val : Nat
  halt_mode_shift : Nat
  halt_master_sel_master_val : Nat
  halt_master_sel_shift : Nat
deriving DecidableEq, Repr, Inhabited

/-- RDI part of the register description, `rdi_reg[i]`. -/
structure cam_tfe_csid_rdi_reg_offset where
  is_multi_vc_dt_supported : Bool
  format_measure_en_shift_val : Nat
  measure_en_hbi_vbi_cnt_val : Nat
deriving DecidableEq, Repr, Inhabited

/-- Receiver part of the register description, `csi2_reg`. -/
structure cam_tfe_csid_csi2_rx_reg_offset where
  csi2_irq_mask_all : Nat
  csi2_rx_phy_num_mask : Nat
  csi2_misr_enable_shift_val : Nat
  csi2_capture_short_pkt_en_shift : Nat
  csi2_capture_short_pkt_vc_shift : Nat
  csi2_capture_long_pkt_en_shift : Nat
  csi2_capture_long_pkt_dt_shift : Nat
  csi2_capture_long_pkt_vc_shift : Nat
  csi2_capture_cphy_pkt_en_shift : Nat
  csi2_capture_cphy_pkt_dt_shift : Nat
  csi2_capture_cphy_pkt_vc_shift : Nat
  csi2_rst_done_shift_val : Nat
  csi2_rx_long_pkt_hdr_rst_stb_shift : Nat
  csi2_rx_short_pkt_hdr_rst_stb_shift : Nat
  csi2_rx_cphy_pkt_hdr_rst_stb_shift : Nat
  phy_tpg_base_id : Nat
  phy_sel_base : Nat
  need_to_sel_tpg_mux : Bool
deriving DecidableEq, Repr, Inhabited

/-- Register description of one hardware variant,
`struct cam_tfe_csid_reg_offset`; an absent `ipp_reg` or `rdi_reg[i]` is
`none`. -/
structure cam_tfe_csid_reg_offset where
  cmn_reg : cam_tfe_csid_common_reg_offset
  csi2_reg : cam_tfe_csid_csi2_rx_reg_offset
  ipp_reg : Option cam_tfe_csid_pxl_reg_offset
  rdi_reg : Nat → Option cam_tfe_csid_rdi_reg_offset

/-- Modelled from the spec: kind of an error event, `enum cam_isp_hw_err_type`
of `cam_isp_hw.h`; the driver only uses `CAM_ISP_HW_ERROR_NONE` (the generic
event) and `CAM_ISP_HW_ERROR_CSID_FATAL` (the fatal event). -/
inductive cam_isp_hw_err_type where
  | CAM_ISP_HW_ERROR_NONE
  | CAM_ISP_HW_ERROR_CSID_FATAL
  | OTHER (code : Nat)
deriving DecidableEq, Repr, Inhabited

/-- Modelled from the spec: the interrupt status words of one interrupt, the
array `irq_status[TFE_CSID_IRQ_REG_MAX]` with its six groups (`enum
cam_tfe_csid_irq_reg` of `cam_tfe_csid_core.h`).  The handler stores the word
of RDI `i` in entry `i`, so the entries of RDI0..RDI2 come first and `TOP`,
`RX` and `IPP` follow. -/
structure csid_irq_status where
  rdi0 : Nat
  rdi1 : Nat
  rdi2 : Nat
  top : Nat
  rx : Nat
  ipp : Nat
deriving DecidableEq, Repr, Inhabited

/-- The entry `irq_status[i]` of an RDI path `i`. -/
def csid_irq_status.rdi (s : csid_irq_status) (i : Nat) : Nat :=
  if i = 0 then s.rdi0 else if i = 1 then s.rdi1 else if i = 2 then s.rdi2 else 0

/-- Modelled from the spec: one pooled event payload, `struct
cam_csid_evt_payload` of `cam_tfe_csid_core.h` (event kind, status snapshot,
hardware index, callback context); `slot` is the index of the payload in the
array `csid_hw->evt_payload`. -/
structure cam_csid_evt_payload where
  slot : Nat
  evt_type : cam_isp_hw_err_type
  irq_status : csid_irq_status
  hw_idx : Nat
  priv : Option Nat
deriving DecidableEq, Repr, Inhabited

/-- The completions of the device that the interrupt handler signals. -/
inductive csid_completion where
  | csid_top_complete
  | csid_csi2_complete
  | csid_ipp_complete
  | csid_rdin_complete (i : Nat)
deriving DecidableEq, Repr, Inhabited

/-- One call of the registered event callback by the bottom half:
`event_cb(NULL, CAM_ISP_HW_EVENT_ERROR, &event_info)`. -/
structure csid_event_cb_call where
  event_cb : Nat
  err_type : cam_isp_hw_err_type
  hw_idx : Nat
deriving DecidableEq, Repr, Inhabited

/-- The device record, `struct cam_tfe_csid_hw` together with the fields of
`struct cam_hw_info` that the driver uses. -/
structure cam_tfe_csid_hw where
  csid_reg : cam_tfe_csid_reg_offset
  hw_state : cam_hw_state
  open_count : Nat
  pxl_pipe_enable : Bool
  ppi_enable : Bool
  ppi_hw_intf : Nat → Bool
  cid_res : List cam_tfe_csid_cid_data
  csi2_reserve_cnt : Nat
  in_res_id : Nat
  csi2_rx_cfg : cam_tfe_csid_csi2_rx_cfg
  ipp_res : cam_isp_resource_node
  rdi_res : Nat → cam_isp_resource_node
  event_cb : Option Nat
  event_cb_priv : Option Nat
  device_enabled : Nat
  fatal_err_detected : Bool
  error_irq_count : Nat
  prev_boot_timestamp : Nat
  prev_qtimer_ts : Nat
  csid_debug : Nat
  sof_irq_triggered : Bool
  irq_debug_cnt : Nat
  tpg_mux_sel : List Nat
  ppi_calls : List (Nat × Bool)
  regs : List (csid_reg_addr × Nat)
  hw_idx : Nat
  free_payload_list : List Nat
  tasklet_queue : List cam_csid_evt_payload
  event_cb_calls : List csid_event_cb_call
  phy_notify : List Nat
  completions : List csid_completion

/-! ## Register access -/

/-- Register write `cam_io_w_mb(val, base + addr)`: the write is logged. -/
def cam_io_w_mb (val : Nat) (addr : csid_reg_addr) (csid_hw : cam_tfe_csid_hw) :
    cam_tfe_csid_hw :=
  { csid_hw with regs := (addr, val) :: csid_hw.regs }

/-- Register read `cam_io_r_mb(base + addr)` of a configuration register: the
value written last, `0` after reset. -/
def cam_io_r_mb (addr : csid_reg_addr) (csid_hw : cam_tfe_csid_hw) : Nat :=
  match csid_hw.regs.find? (fun p => p.1 = addr) with
  | some p => p.2
  | none => 0

/-- The node a handle points to: `&csid_hw->ipp_res` for the pixel path,
`&csid_hw->rdi_res[res_id]` otherwise. -/
def get_res (csid_hw : cam_tfe_csid_hw) (res_id : Nat) : cam_isp_resource_node :=
  if res_id = CAM_TFE_CSID_PATH_RES_IPP then csid_hw.ipp_res else csid_hw.rdi_res res_id

/-- Store through a handle. -/
def set_res (csid_hw : cam_tfe_csid_hw) (res_id : Nat) (res : cam_isp_resource_node) :
    cam_tfe_csid_hw :=
  if res_id = CAM_TFE_CSID_PATH_RES_IPP then { csid_hw with ipp_res := res }
  else { csid_hw with rdi_res := Function.update csid_hw.rdi_res res_id res }

/-! ## CID table (`cam_tfe_match_vc_dt_pair`, `cam_tfe_csid_cid_get`) -/

/-- The comparison loop of `cam_tfe_match_vc_dt_pair`, at index `i` with `n`
iterations left. -/
def cam_tfe_match_vc_dt_pair_loop (vc dt : List Nat) (cid_data : cam_tfe_csid_cid_data)
    (i : Nat) : Nat → Int
  | 0 => 0
  | n + 1 =>
    if vc.getD i 0 ≠ (cid_data.vc_dt.getD i default).vc ∨
        dt.getD i 0 ≠ (cid_data.vc_dt.getD i default).dt then
      -EINVAL
    else
      cam_tfe_match_vc_dt_pair_loop vc dt cid_data (i + 1) n

/-- Translation of `cam_tfe_match_vc_dt_pair`: `0` when the first
`num_valid_vc_dt` pairs of the request equal those stored in the slot. -/
def cam_tfe_match_vc_dt_pair (vc dt : List Nat) (num_valid_vc_dt : Nat)
    (cid_data : cam_tfe_csid_cid_data) : Int :=
  if num_valid_vc_dt = 0 ∨ num_valid_vc_dt > CAM_ISP_TFE_VC_DT_CFG then
    -EINVAL
  else
    cam_tfe_match_vc_dt_pair_loop vc dt cid_data 0 num_valid_vc_dt

/-- First loop of `cam_tfe_csid_cid_get` ("Return already reserved CID if the
VC/DT matches"), at slot `i` with `n` slots left. -/
def cam_tfe_csid_cid_get_reuse (vc dt : List Nat) (num_valid_vc_dt : Nat)
    (cid_res : List cam_tfe_csid_cid_data) (i : Nat) :
    Nat → Option (Nat × List cam_tfe_csid_cid_data)
  | 0 => none
  | n + 1 =>
    if (cid_res.getD i default).cnt ≥ 1 then
      if cam_tfe_match_vc_dt_pair vc dt num_valid_vc_dt (cid_res.getD i default) = 0 then
        some (i, cid_res.set i
          { cid_res.getD i default with cnt := u32 ((cid_res.getD i default).cnt + 1) })
      else
        cam_tfe_csid_cid_get_reuse vc dt num_valid_vc_dt cid_res (i + 1) n
    else
      cam_tfe_csid_cid_get_reuse vc dt num_valid_vc_dt cid_res (i + 1) n

/-- Inner loop of the allocation in `cam_tfe_csid_cid_get`, at pair `j` with
`n` pairs left: each iteration stores one pair and increments both
`num_valid_vc_dt` and `cnt`. -/
def cam_tfe_csid_cid_get_fill (vc dt : List Nat) (cid_data : cam_tfe_csid_cid_data)
    (j : Nat) : Nat → cam_tfe_csid_cid_data
  | 0 => cid_data
  | n + 1 =>
    cam_tfe_csid_cid_get_fill vc dt
      { vc_dt := cid_data.vc_dt.set j { vc := vc.getD j 0, dt := dt.getD j 0 }
        num_valid_vc_dt := u32 (cid_data.num_valid_vc_dt + 1)
        cnt := u32 (cid_data.cnt + 1) }
      (j + 1) n

/-- Second loop of `cam_tfe_csid_cid_get`: the first slot whose `cnt` is zero
is filled, at slot `i` with `n` slots left. -/
def cam_tfe_csid_cid_get_alloc (vc dt : List Nat) (num_valid_vc_dt : Nat)
    (cid_res : List cam_tfe_csid_cid_data) (i : Nat) :
    Nat → Option (Nat × List cam_tfe_csid_cid_data)
  | 0 => none
  | n + 1 =>
    if (cid_res.getD i default).cnt = 0 then
      some (i, cid_res.set i
        (cam_tfe_csid_cid_get_fill vc dt (cid_res.getD i default) 0 num_valid_vc_dt))
    else
      cam_tfe_csid_cid_get_alloc vc dt num_valid_vc_dt cid_res (i + 1) n

/-- Translation of `cam_tfe_csid_cid_get` on the CID table: the return code,
the table afterwards and the value stored through `cid`. -/
def cam_tfe_csid_cid_get (cid_res : List cam_tfe_csid_cid_data) (vc dt : List Nat)
    (num_valid_vc_dt : Nat) : Int × List cam_tfe_csid_cid_data × Option Nat :=
  match cam_tfe_csid_cid_get_reuse vc dt num_valid_vc_dt cid_res 0 CAM_TFE_CSID_CID_MAX with
  | some (i, cid_res1) => (0, cid_res1, some i)
  | none =>
    if num_valid_vc_dt = 0 ∨ num_valid_vc_dt > CAM_ISP_TFE_VC_DT_CFG then
      (-EINVAL, cid_res, none)
    else
      match cam_tfe_csid_cid_get_alloc vc dt num_valid_vc_dt cid_res 0 CAM_TFE_CSID_CID_MAX with
      | some (i, cid_res1) => (0, cid_res1, some i)
      | none => (-EINVAL, cid_res, none)

/-! ## Reservation (`cam_tfe_csid_cid_reserve`, `cam_tfe_csid_path_reserve`) -/

/-- Translation of `cam_tfe_csid_is_ipp_format_supported`. -/
def cam_tfe_csid_is_ipp_format_supported (in_format : cam_format) : Int :=
  match in_format with
  | .CAM_FORMAT_MIPI_RAW_6 => 0
  | .CAM_FORMAT_MIPI_RAW_8 => 0
  | .CAM_FORMAT_MIPI_RAW_10 => 0
  | .CAM_FORMAT_MIPI_RAW_12 => 0
  | _ => -EINVAL

/-- The VC/DT range loop of `cam_tfe_csid_cid_reserve`: `true` when some pair
among the first `n` from index `i` has `dt > 0x3f` or `vc > 0x3`. -/
def cid_reserve_vc_dt_invalid (vc dt : List Nat) (i : Nat) : Nat → Bool
  | 0 => false
  | n + 1 =>
    if dt.getD i 0 > 0x3f ∨ vc.getD i 0 > 0x3 then true
    else cid_reserve_vc_dt_invalid vc dt (i + 1) n

/-- The VC/DT range loop of `cam_tfe_csid_path_reserve`, which also rejects
an out-of-range sync mode. -/
def path_reserve_vc_dt_invalid (vc dt : List Nat) (sync_mode : cam_isp_hw_sync_mode)
    (i : Nat) : Nat → Bool
  | 0 => false
  | n + 1 =>
    if dt.getD i 0 > 0x3f ∨ vc.getD i 0 > 0x3 ∨
        sync_mode = .CAM_ISP_HW_SYNC_MAX then true
    else path_reserve_vc_dt_invalid vc dt sync_mode (i + 1) n

/-- Translation of `cam_tfe_csid_cid_reserve`: return code, device afterwards
and `*cid_value`. -/
def cam_tfe_csid_cid_reserve (K : csid_defs) (csid_hw : cam_tfe_csid_hw)
    (cid_reserv : cam_tfe_csid_hw_reserve_resource_args) :
    Int × cam_tfe_csid_hw × Option Nat :=
  let in_port := cid_reserv.in_port
  if in_port.res_id ≥ K.CAM_ISP_TFE_IN_RES_MAX then (-EINVAL, csid_hw, none)
  else if in_port.lane_type ≥ K.CAM_ISP_LANE_TYPE_MAX then (-EINVAL, csid_hw, none)
  else if in_port.lane_type = K.CAM_ISP_LANE_TYPE_DPHY ∧ in_port.lane_num > 4 then
    (-EINVAL, csid_hw, none)
  else if in_port.lane_type = K.CAM_ISP_LANE_TYPE_CPHY ∧ in_port.lane_num > 3 then
    (-EINVAL, csid_hw, none)
  else if cid_reserve_vc_dt_invalid in_port.vc in_port.dt 0 in_port.num_valid_vc_dt then
    (-EINVAL, csid_hw, none)
  else if csid_hw.csi2_reserve_cnt = UINT_MAX then (-EINVAL, csid_hw, none)
  else if csid_hw.csi2_reserve_cnt ≠ 0 ∧ csid_hw.in_res_id ≠ in_port.res_id then
    (-EINVAL, csid_hw, none)
  else if csid_hw.csi2_reserve_cnt ≠ 0 ∧
      (csid_hw.csi2_rx_cfg.lane_cfg ≠ in_port.lane_cfg ∨
       csid_hw.csi2_rx_cfg.lane_type ≠ in_port.lane_type ∨
       csid_hw.csi2_rx_cfg.lane_num ≠ in_port.lane_num) then
    (-EINVAL, csid_hw, none)
  else
    match cam_tfe_csid_cid_get csid_hw.cid_res in_port.vc in_port.dt
        in_port.num_valid_vc_dt with
    | (rc, cid_res1, cid_value) =>
      if rc ≠ 0 then (rc, { csid_hw with cid_res := cid_res1 }, cid_value)
      else
        let hw1 : cam_tfe_csid_hw := { csid_hw with cid_res := cid_res1 }
        let hw2 : cam_tfe_csid_hw :=
          if hw1.csi2_reserve_cnt = 0 then
            { hw1 with
              in_res_id := in_port.res_id
              csi2_rx_cfg :=
                { lane_cfg := in_port.lane_cfg
                  lane_type := in_port.lane_type
                  lane_num := in_port.lane_num
                  phy_sel :=
                    if in_port.res_id = K.CAM_ISP_TFE_IN_RES_TPG then 0
                    else if in_port.res_id = K.CAM_ISP_TFE_IN_RES_CPHY_TPG_0 ∨
                        in_port.res_id = K.CAM_ISP_TFE_IN_RES_CPHY_TPG_1 ∨
                        in_port.res_id = K.CAM_ISP_TFE_IN_RES_CPHY_TPG_2 then
                      u32 (u32_sub (in_port.res_id &&& 0xFF) K.CAM_ISP_TFE_IN_RES_CPHY_TPG_0 +
                        csid_hw.csid_reg.csi2_reg.phy_tpg_base_id)
                    else u32_sub (in_port.res_id &&& 0xFF) 1 } }
          else hw1
        (0, { hw2 with csi2_reserve_cnt := u32 (hw2.csi2_reserve_cnt + 1) }, cid_value)

/-- The copy loop at the end of `cam_tfe_csid_path_reserve`, at pair `i` with
`n` pairs left. -/
def path_reserve_copy_vc_dt (vc dt : List Nat) (path_data : cam_tfe_csid_path_cfg)
    (i : Nat) : Nat → cam_tfe_csid_path_cfg
  | 0 => path_data
  | n + 1 =>
    path_reserve_copy_vc_dt vc dt
      { path_data with
        vc_dt := path_data.vc_dt.set i { vc := vc.getD i 0, dt := dt.getD i 0 }
        num_valid_vc_dt := u32 (path_data.num_valid_vc_dt + 1) }
      (i + 1) n

/-- The part of `cam_tfe_csid_path_reserve` after the `switch`: the node
`res_id` has been selected and `cid_value` obtained.  `qcfa_supported` is the
answer of `cam_cpas_is_feature_supported(CAM_CPAS_QCFA_BINNING_ENABLE, ..)`.
The result carries `reserve->node_res`. -/
def cam_tfe_csid_path_reserve_assign (csid_hw : cam_tfe_csid_hw)
    (reserve : cam_tfe_csid_hw_reserve_resource_args) (cid_value : Nat)
    (qcfa_supported : Bool) : Int × cam_tfe_csid_hw × Option Nat :=
  let in_port := reserve.in_port
  let res := get_res csid_hw reserve.res_id
  let path_data1 : cam_tfe_csid_path_cfg :=
    { res.res_priv with
      sensor_width := in_port.sensor_width
      sensor_height := in_port.sensor_height
      sensor_fps := in_port.sensor_fps
      sensor_hbi := in_port.sensor_vbi
      sensor_vbi := in_port.sensor_hbi
      cid := cid_value
      in_format := in_port.format
      out_format := reserve.out_port_format
      sync_mode := reserve.sync_mode
      height := in_port.height
      start_line := in_port.line_start
      end_line := in_port.line_end
      usage_type := in_port.usage_type
      bayer_bin := in_port.bayer_bin
      qcfa_bin := in_port.qcfa_bin }
  let hw1 : cam_tfe_csid_hw :=
    { set_res csid_hw reserve.res_id
        { res with res_state := .RESERVED, res_priv := path_data1 } with
      event_cb := reserve.event_cb
      event_cb_priv := reserve.event_cb_prv }
  if path_data1.qcfa_bin ≠ 0 ∧ qcfa_supported = false then
    (-EINVAL, hw1, none)
  else
    let path_data2 : cam_tfe_csid_path_cfg :=
      if reserve.res_id = CAM_TFE_CSID_PATH_RES_IPP then
        { path_data1 with crop_enable := true }
      else path_data1
    let path_data3 : cam_tfe_csid_path_cfg :=
      path_reserve_copy_vc_dt in_port.vc in_port.dt
        { path_data2 with num_valid_vc_dt := 0 } 0 in_port.num_valid_vc_dt
    let path_data4 : cam_tfe_csid_path_cfg :=
      if reserve.sync_mode = .CAM_ISP_HW_SYNC_MASTER then
        { path_data3 with
          start_pixel := in_port.left_start
          end_pixel := in_port.left_end
          width := in_port.left_width }
      else if reserve.sync_mode = .CAM_ISP_HW_SYNC_SLAVE then
        { path_data3 with
          master_idx := reserve.master_idx
          start_pixel := in_port.right_start
          end_pixel := in_port.right_end
          width := in_port.right_width }
      else
        { path_data3 with
          width := in_port.left_width
          start_pixel := in_port.left_start
          end_pixel := in_port.left_end }
    (0, set_res hw1 reserve.res_id
          { res with res_state := .RESERVED, res_priv := path_data4 },
        some reserve.res_id)

/-- Translation of `cam_tfe_csid_path_reserve`. -/
def cam_tfe_csid_path_reserve (K : csid_defs) (csid_hw : cam_tfe_csid_hw)
    (reserve : cam_tfe_csid_hw_reserve_resource_args) (qcfa_supported : Bool) :
    Int × cam_tfe_csid_hw × Option Nat :=
  let in_port := reserve.in_port
  if in_port.num_valid_vc_dt = 0 ∨ in_port.num_valid_vc_dt > CAM_ISP_TFE_VC_DT_CFG then
    (-EINVAL, csid_hw, none)
  else if path_reserve_vc_dt_invalid in_port.vc in_port.dt reserve.sync_mode 0
      in_port.num_valid_vc_dt then
    (-EINVAL, csid_hw, none)
  else if reserve.res_id = CAM_TFE_CSID_PATH_RES_IPP then
    if csid_hw.ipp_res.res_state ≠ .AVAILABLE then (-EINVAL, csid_hw, none)
    else if cam_tfe_csid_is_ipp_format_supported in_port.format ≠ 0 then
      (-EINVAL, csid_hw, none)
    else
      match cam_tfe_csid_cid_reserve K csid_hw reserve with
      | (rc, hw1, cid_value) =>
        if rc ≠ 0 then (rc, hw1, none)
        else cam_tfe_csid_path_reserve_assign hw1 reserve (cid_value.getD 0) qcfa_supported
  else if reserve.res_id = CAM_TFE_CSID_PATH_RES_RDI_0 ∨
      reserve.res_id = CAM_TFE_CSID_PATH_RES_RDI_1 ∨
      reserve.res_id = CAM_TFE_CSID_PATH_RES_RDI_2 then
    if (csid_hw.rdi_res reserve.res_id).res_state ≠ .AVAILABLE then
      (-EINVAL, csid_hw, none)
    else
      match cam_tfe_csid_cid_reserve K csid_hw reserve with
      | (rc, hw1, cid_value) =>
        if rc ≠ 0 then (rc, hw1, none)
        else cam_tfe_csid_path_reserve_assign hw1 reserve (cid_value.getD 0) qcfa_supported
  else (-EINVAL, csid_hw, none)

/-- Translation of `cam_tfe_csid_reserve` for a request of resource type
`CAM_ISP_RESOURCE_PIX_PATH` (any other type is rejected before the device is
touched). -/
def cam_tfe_csid_reserve (K : csid_defs) (csid_hw : cam_tfe_csid_hw)
    (reserv : cam_tfe_csid_hw_reserve_resource_args) (qcfa_supported : Bool) :
    Int × cam_tfe_csid_hw × Option Nat :=
  cam_tfe_csid_path_reserve K csid_hw reserv qcfa_supported

/-! ## Release (`cam_tfe_csid_release`) -/

/-- Translation of `cam_tfe_csid_reset_path_data`. -/
def cam_tfe_csid_reset_path_data (res : cam_isp_resource_node) : cam_isp_resource_node :=
  { res with res_priv := { res.res_priv with init_frame_drop := 0, res_sof_cnt := 0 } }

/-- Translation of `cam_tfe_csid_release` for a handle of resource type
`CAM_ISP_RESOURCE_PIX_PATH`. -/
def cam_tfe_csid_release (csid_hw : cam_tfe_csid_hw) (res_id : Nat) :
    Int × cam_tfe_csid_hw :=
  if res_id ≥ CAM_TFE_CSID_PATH_RES_MAX then (-EINVAL, csid_hw)
  else
    let hw1 : cam_tfe_csid_hw := { csid_hw with event_cb := none, event_cb_priv := none }
    let res := get_res hw1 res_id
    if res.res_state.toNat ≤ cam_isp_resource_state.AVAILABLE.toNat ∨
        res.res_state.toNat ≥ cam_isp_resource_state.STREAMING.toNat then
      (0, hw1)
    else
      let cid := res.res_priv.cid
      let hw2 : cam_tfe_csid_hw :=
        if (hw1.cid_res.getD cid default).cnt ≠ 0 then
          { hw1 with
            cid_res := hw1.cid_res.set cid
              { hw1.cid_res.getD cid default with
                cnt := (hw1.cid_res.getD cid default).cnt - 1 } }
        else hw1
      let hw3 : cam_tfe_csid_hw :=
        if hw2.csi2_reserve_cnt ≠ 0 then
          { hw2 with csi2_reserve_cnt := hw2.csi2_reserve_cnt - 1 }
        else hw2
      let hw4 : cam_tfe_csid_hw :=
        if hw3.csi2_reserve_cnt = 0 then
          { hw3 with csi2_rx_cfg := { phy_sel := 0, lane_type := 0, lane_num := 0, lane_cfg := 0 } }
        else hw3
      (0, set_res hw4 res_id
            (cam_tfe_csid_reset_path_data { res with res_state := .AVAILABLE }))

/-! ## Outcomes of the external services used by one operation -/

/-- What the hardware answers during one `cam_tfe_csid_global_reset`:
`poll_rc` is the result of `cam_common_read_poll_timeout` on the top status,
`complete_rc` the result of `cam_common_wait_for_completion_timeout`. -/
structure reset_env where
  poll_rc : Int
  complete_rc : Int
deriving DecidableEq, Repr, Inhabited

/-- Service outcomes during one `cam_tfe_csid_enable_hw`: `soc_rc` is the
result of `cam_tfe_csid_enable_soc_resources`. -/
structure enable_hw_env where
  soc_rc : Int
  reset : reset_env
deriving DecidableEq, Repr, Inhabited

/-- Service outcomes during one `cam_tfe_csid_disable_hw`: `soc_rc` is the
result of `cam_tfe_csid_disable_soc_resources`. -/
structure disable_hw_env where
  reset : reset_env
  soc_rc : Int
deriving DecidableEq, Repr, Inhabited

/-- Service outcomes during one `cam_tfe_csid_init_hw`: `retain_poll_rc` is
the poll result inside `cam_tfe_csid_reset_retain_sw_reg`. -/
structure init_hw_env where
  enable : enable_hw_env
  retain_poll_rc : Int
  disable : disable_hw_env
deriving DecidableEq, Repr, Inhabited

/-! ## Reset and power sequencing -/

/-- A `for (i = 0; i < num_rdis; i++)` loop over the RDI paths, at index `i`
with `n` iterations left. -/
def for_rdis (f : Nat → cam_tfe_csid_hw → cam_tfe_csid_hw) (i : Nat) :
    Nat → cam_tfe_csid_hw → cam_tfe_csid_hw
  | 0, csid_hw => csid_hw
  | n + 1, csid_hw => for_rdis f (i + 1) n (f i csid_hw)

/-- Assignment `path_data->res_sof_cnt = 0` on the RDI node `i`. -/
def rdi_clear_sof_cnt (i : Nat) (csid_hw : cam_tfe_csid_hw) : cam_tfe_csid_hw :=
  { csid_hw with
    rdi_res := Function.update csid_hw.rdi_res i
      { csid_hw.rdi_res i with
        res_priv := { (csid_hw.rdi_res i).res_priv with res_sof_cnt := 0 } } }

/-- Assignment `path_data->res_sof_cnt = 0` on the IPP node. -/
def ipp_clear_sof_cnt (csid_hw : cam_tfe_csid_hw) : cam_tfe_csid_hw :=
  { csid_hw with
    ipp_res := { csid_hw.ipp_res with
      res_priv := { csid_hw.ipp_res.res_priv with res_sof_cnt := 0 } } }

/-- The "clear all interrupts" block shared by `cam_tfe_csid_global_reset`
and `cam_tfe_csid_enable_hw`, up to the `csid_irq_cmd` strobe. -/
def clear_all_interrupts (csid_hw : cam_tfe_csid_hw) : cam_tfe_csid_hw :=
  let csid_reg := csid_hw.csid_reg
  let hw1 := cam_io_w_mb 1 .csid_top_irq_clear_addr csid_hw
  let hw2 := cam_io_w_mb csid_reg.csi2_reg.csi2_irq_mask_all .csid_csi2_rx_irq_clear_addr hw1
  let hw3 :=
    if hw2.pxl_pipe_enable then
      cam_io_w_mb csid_reg.cmn_reg.ipp_irq_mask_all .csid_pxl_irq_clear_addr hw2
    else hw2
  let hw4 :=
    for_rdis (fun i h => cam_io_w_mb csid_reg.cmn_reg.rdi_irq_mask_all
      (.csid_rdi_irq_clear_addr i) h) 0 csid_reg.cmn_reg.num_rdis hw3
  cam_io_w_mb 1 .csid_irq_cmd_addr hw4

/-- The "Mask all interrupts" block at the start of
`cam_tfe_csid_global_reset`. -/
def mask_all_interrupts (csid_hw : cam_tfe_csid_hw) : cam_tfe_csid_hw :=
  let hw1 := cam_io_w_mb 0 .csid_top_irq_mask_addr csid_hw
  let hw2 := cam_io_w_mb 0 .csid_csi2_rx_irq_mask_addr hw1
  let hw3 := if hw2.pxl_pipe_enable then cam_io_w_mb 0 .csid_pxl_irq_mask_addr hw2 else hw2
  for_rdis (fun i h => cam_io_w_mb 0 (.csid_rdi_irq_mask_addr i) h) 0
    csid_hw.csid_reg.cmn_reg.num_rdis hw3

/-- The block that zeroes `res_sof_cnt` of the IPP node (when the pixel pipe
is enabled) and of every RDI node; it ends both
`cam_tfe_csid_global_reset` and `cam_tfe_csid_enable_hw`. -/
def reset_sof_counters (csid_hw : cam_tfe_csid_hw) : cam_tfe_csid_hw :=
  let hw1 := if csid_hw.pxl_pipe_enable then ipp_clear_sof_cnt csid_hw else csid_hw
  for_rdis rdi_clear_sof_cnt 0 csid_hw.csid_reg.cmn_reg.num_rdis hw1

/-- The return code `cam_tfe_csid_global_reset` computes from the answers of
the hardware: the code of the status poll is assigned first and then
overwritten by the one derived from the completion wait. -/
def cam_tfe_csid_global_reset_rc (env : reset_env) : Int :=
  let rc : Int := if env.poll_rc < 0 then -ETIMEDOUT else env.poll_rc
  let rc : Int :=
    if env.complete_rc ≤ 0 then
      (if env.complete_rc = 0 then -ETIMEDOUT else env.complete_rc)
    else 0
  rc

/-- Translation of `cam_tfe_csid_global_reset`. -/
def cam_tfe_csid_global_reset (csid_hw : cam_tfe_csid_hw) (env : reset_env) :
    Int × cam_tfe_csid_hw :=
  let csid_reg := csid_hw.csid_reg
  if csid_hw.hw_state ≠ .CAM_HW_STATE_POWER_UP then (-EINVAL, csid_hw)
  else
    let hw1 := mask_all_interrupts csid_hw
    let hw2 := clear_all_interrupts hw1
    let hw3 := cam_io_w_mb 0x80 .csid_csi2_rx_cfg1_addr hw2
    let hw4 := cam_io_w_mb csid_reg.cmn_reg.csid_rst_stb .csid_rst_strobes_addr hw3
    let hw5 := cam_io_w_mb csid_reg.cmn_reg.csid_reg_rst_stb .csid_rst_strobes_addr hw4
    let hw6 : cam_tfe_csid_hw := { hw5 with error_irq_count := 0, prev_boot_timestamp := 0 }
    (cam_tfe_csid_global_reset_rc env, reset_sof_counters hw6)

/-- Translation of `cam_tfe_csid_enable_csi2`.  The result of the PPI `init`
call is stored in an unsigned variable, so its test `rc < 0` never holds and
the function always returns `0`. -/
def cam_tfe_csid_enable_csi2 (K : csid_defs) (csid_hw : cam_tfe_csid_hw) :
    Int × cam_tfe_csid_hw :=
  let csid_reg := csid_hw.csid_reg
  let cfg := csid_hw.csi2_rx_cfg
  let val0 : Nat :=
    u32 (u32_sub cfg.lane_num 1 ||| u32 (cfg.lane_cfg <<< 4) ||| u32 (cfg.lane_type <<< 24))
  let val1 : Nat :=
    val0 ||| u32 ((cfg.phy_sel &&& csid_reg.csi2_reg.csi2_rx_phy_num_mask) <<< 20)
  let hw1 := cam_io_w_mb val1 .csid_csi2_rx_cfg0_addr csid_hw
  let hw2 : cam_tfe_csid_hw :=
    if hw1.in_res_id ≥ K.CAM_ISP_TFE_IN_RES_CPHY_TPG_0 ∧
        hw1.in_res_id ≤ K.CAM_ISP_TFE_IN_RES_CPHY_TPG_2 ∧
        csid_reg.csi2_reg.need_to_sel_tpg_mux = true then
      { hw1 with
        tpg_mux_sel := u32_sub hw1.in_res_id K.CAM_ISP_TFE_IN_RES_CPHY_TPG_0 :: hw1.tpg_mux_sel }
    else hw1
  let hw3 := cam_io_w_mb (u32 (1 <<< csid_reg.csi2_reg.csi2_misr_enable_shift_val) ||| 1)
    .csid_csi2_rx_cfg1_addr hw2
  let irq0 : Nat :=
    K.TFE_CSID_CSI2_RX_INFO_RST_DONE |||
    K.TFE_CSID_CSI2_RX_ERROR_LANE0_FIFO_OVERFLOW |||
    K.TFE_CSID_CSI2_RX_ERROR_LANE1_FIFO_OVERFLOW |||
    K.TFE_CSID_CSI2_RX_ERROR_LANE2_FIFO_OVERFLOW |||
    K.TFE_CSID_CSI2_RX_ERROR_LANE3_FIFO_OVERFLOW |||
    K.TFE_CSID_CSI2_RX_ERROR_CPHY_EOT_RECEPTION |||
    K.TFE_CSID_CSI2_RX_ERROR_CPHY_SOT_RECEPTION |||
    K.TFE_CSID_CSI2_RX_ERROR_CRC |||
    K.TFE_CSID_CSI2_RX_ERROR_ECC |||
    K.TFE_CSID_CSI2_RX_ERROR_MMAPPED_VC_DT |||
    K.TFE_CSID_CSI2_RX_ERROR_STREAM_UNDERFLOW |||
    K.TFE_CSID_CSI2_RX_ERROR_UNBOUNDED_FRAME |||
    K.TFE_CSID_CSI2_RX_ERROR_CPHY_PH_CRC
  let irq1 : Nat :=
    if hw3.csid_debug &&& K.TFE_CSID_DEBUG_ENABLE_SOT_IRQ ≠ 0 then
      irq0 ||| (K.TFE_CSID_CSI2_RX_INFO_PHY_DL0_SOT_CAPTURED |||
        K.TFE_CSID_CSI2_RX_INFO_PHY_DL1_SOT_CAPTURED |||
        K.TFE_CSID_CSI2_RX_INFO_PHY_DL2_SOT_CAPTURED |||
        K.TFE_CSID_CSI2_RX_INFO_PHY_DL3_SOT_CAPTURED)
    else irq0
  let irq2 : Nat :=
    if hw3.csid_debug &&& K.TFE_CSID_DEBUG_ENABLE_EOT_IRQ ≠ 0 then
      irq1 ||| (K.TFE_CSID_CSI2_RX_INFO_PHY_DL0_EOT_CAPTURED |||
        K.TFE_CSID_CSI2_RX_INFO_PHY_DL1_EOT_CAPTURED |||
        K.TFE_CSID_CSI2_RX_INFO_PHY_DL2_EOT_CAPTURED |||
        K.TFE_CSID_CSI2_RX_INFO_PHY_DL3_EOT_CAPTURED)
    else irq1
  let irq3 : Nat :=
    if hw3.csid_debug &&& K.TFE_CSID_DEBUG_ENABLE_SHORT_PKT_CAPTURE ≠ 0 then
      irq2 ||| K.TFE_CSID_CSI2_RX_INFO_SHORT_PKT_CAPTURED
    else irq2
  let irq4 : Nat :=
    if hw3.csid_debug &&& K.TFE_CSID_DEBUG_ENABLE_LONG_PKT_CAPTURE ≠ 0 then
      irq3 ||| K.TFE_CSID_CSI2_RX_INFO_LONG_PKT_CAPTURED
    else irq3
  let irq5 : Nat :=
    if hw3.csid_debug &&& K.TFE_CSID_DEBUG_ENABLE_CPHY_PKT_CAPTURE ≠ 0 then
      irq4 ||| K.TFE_CSID_CSI2_RX_INFO_CPHY_PKT_HDR_CAPTURED
    else irq4
  let hw4 := cam_io_w_mb irq5 .csid_csi2_rx_irq_mask_addr hw3
  let ppi_index := u32_sub hw4.csi2_rx_cfg.phy_sel csid_reg.csi2_reg.phy_sel_base
  let hw5 : cam_tfe_csid_hw :=
    if hw4.ppi_hw_intf ppi_index = true ∧ hw4.ppi_enable = true then
      { hw4 with ppi_calls := (ppi_index, true) :: hw4.ppi_calls }
    else hw4
  (0, hw5)

/-- Translation of `cam_tfe_csid_disable_csi2`; as in
`cam_tfe_csid_enable_csi2` the PPI result is unsigned and never reported. -/
def cam_tfe_csid_disable_csi2 (csid_hw : cam_tfe_csid_hw) : Int × cam_tfe_csid_hw :=
  let csid_reg := csid_hw.csid_reg
  let hw1 := cam_io_w_mb 0 .csid_csi2_rx_irq_mask_addr csid_hw
  let hw2 := cam_io_w_mb 0 .csid_csi2_rx_cfg0_addr hw1
  let hw3 := cam_io_w_mb 0 .csid_csi2_rx_cfg1_addr hw2
  let ppi_index := u32_sub hw3.csi2_rx_cfg.phy_sel csid_reg.csi2_reg.phy_sel_base
  let hw4 : cam_tfe_csid_hw :=
    if hw3.ppi_hw_intf ppi_index = true ∧ hw3.ppi_enable = true then
      { hw3 with ppi_calls := (ppi_index, false) :: hw3.ppi_calls }
    else hw3
  (0, hw4)

/-- Translation of `cam_tfe_csid_enable_hw`. -/
def cam_tfe_csid_enable_hw (K : csid_defs) (csid_hw : cam_tfe_csid_hw)
    (env : enable_hw_env) : Int × cam_tfe_csid_hw :=
  if csid_hw.open_count = UINT_MAX then (-EINVAL, csid_hw)
  else
    let hw1 : cam_tfe_csid_hw := { csid_hw with open_count := u32 (csid_hw.open_count + 1) }
    if hw1.open_count > 1 then (0, hw1)
    else if env.soc_rc ≠ 0 then
      (env.soc_rc, { hw1 with open_count := u32_sub hw1.open_count 1 })
    else
      let hw2 : cam_tfe_csid_hw := { hw1 with hw_state := .CAM_HW_STATE_POWER_UP }
      let hw3 := cam_io_w_mb 0 .csid_top_irq_mask_addr hw2
      match cam_tfe_csid_global_reset hw3 env.reset with
      | (rc, hw4) =>
        if rc ≠ 0 then
          (rc, { hw4 with
                 hw_state := .CAM_HW_STATE_POWER_DOWN
                 open_count := u32_sub hw4.open_count 1 })
        else
          let hw5 := clear_all_interrupts hw4
          match cam_tfe_csid_enable_csi2 K hw5 with
          | (rc2, hw6) =>
            if rc2 ≠ 0 then
              (rc2, { hw6 with
                      hw_state := .CAM_HW_STATE_POWER_DOWN
                      open_count := u32_sub hw6.open_count 1 })
            else
              let hw7 : cam_tfe_csid_hw :=
                { hw6 with fatal_err_detected := false, device_enabled := 1 }
              (rc2, reset_sof_counters hw7)

/-- Translation of `cam_tfe_csid_disable_hw`. -/
def cam_tfe_csid_disable_hw (csid_hw : cam_tfe_csid_hw) (env : disable_hw_env) :
    Int × cam_tfe_csid_hw :=
  if csid_hw.open_count = 0 then (-EINVAL, csid_hw)
  else
    let hw1 : cam_tfe_csid_hw := { csid_hw with open_count := csid_hw.open_count - 1 }
    if hw1.open_count ≠ 0 then (0, hw1)
    else
      let hw2 := (cam_tfe_csid_disable_csi2 hw1).2
      let hw3 := (cam_tfe_csid_global_reset hw2 env.reset).2
      let hw4 := cam_io_w_mb 0 .csid_top_irq_mask_addr hw3
      (env.soc_rc,
        { hw4 with
          device_enabled := 0
          hw_state := .CAM_HW_STATE_POWER_DOWN
          error_irq_count := 0
          prev_boot_timestamp := 0 })

/-- Translation of `cam_tfe_csid_reset_retain_sw_reg`; `poll_rc` is the
result of the status poll. -/
def cam_tfe_csid_reset_retain_sw_reg (csid_hw : cam_tfe_csid_hw) (poll_rc : Int) :
    Int × cam_tfe_csid_hw :=
  let csid_reg := csid_hw.csid_reg
  let hw1 := cam_io_w_mb 0 .csid_top_irq_mask_addr csid_hw
  let hw2 := cam_io_w_mb 1 .csid_top_irq_clear_addr hw1
  let hw3 := cam_io_w_mb 1 .csid_irq_cmd_addr hw2
  let hw4 := cam_io_w_mb csid_reg.cmn_reg.csid_rst_stb .csid_rst_strobes_addr hw3
  let rc : Int := if poll_rc < 0 then poll_rc else 0
  let hw5 := cam_io_w_mb 1 .csid_top_irq_clear_addr hw4
  let hw6 := cam_io_w_mb 1 .csid_irq_cmd_addr hw5
  (rc, hw6)

/-! ## Format tables -/

/-- Translation of `cam_tfe_csid_get_format_rdi`: return code and the values
left in `*decode_fmt` and `*plain_fmt`, which the caller initialises to `0`. -/
def cam_tfe_csid_get_format_rdi (in_format out_format : cam_format) : Int × Nat × Nat :=
  match in_format with
  | .CAM_FORMAT_MIPI_RAW_6 =>
    match out_format with
    | .CAM_FORMAT_MIPI_RAW_6 => (0, 0xf, 0)
    | .CAM_FORMAT_PLAIN8 => (0, 0x0, 0x0)
    | _ => (-EINVAL, 0, 0)
  | .CAM_FORMAT_MIPI_RAW_8 =>
    match out_format with
    | .CAM_FORMAT_MIPI_RAW_8 => (0, 0xf, 0)
    | .CAM_FORMAT_PLAIN128 => (0, 0xf, 0)
    | .CAM_FORMAT_PLAIN8 => (0, 0x1, 0x0)
    | _ => (-EINVAL, 0, 0)
  | .CAM_FORMAT_MIPI_RAW_10 =>
    match out_format with
    | .CAM_FORMAT_MIPI_RAW_10 => (0, 0xf, 0)
    | .CAM_FORMAT_PLAIN128 => (0, 0xf, 0)
    | .CAM_FORMAT_PLAIN16_10 => (0, 0x2, 0x1)
    | _ => (-EINVAL, 0, 0)
  | .CAM_FORMAT_MIPI_RAW_12 =>
    match out_format with
    | .CAM_FORMAT_MIPI_RAW_12 => (0, 0xf, 0)
    | .CAM_FORMAT_PLAIN16_12 => (0, 0x3, 0x1)
    | _ => (-EINVAL, 0, 0)
  | .CAM_FORMAT_MIPI_RAW_14 =>
    match out_format with
    | .CAM_FORMAT_MIPI_RAW_14 => (0, 0xf, 0)
    | .CAM_FORMAT_PLAIN16_14 => (0, 0x4, 0x1)
    | _ => (-EINVAL, 0, 0)
  | .CAM_FORMAT_MIPI_RAW_16 =>
    match out_format with
    | .CAM_FORMAT_MIPI_RAW_16 => (0, 0xf, 0)
    | .CAM_FORMAT_PLAIN16_16 => (0, 0x5, 0x1)
    | _ => (-EINVAL, 0, 0)
  | _ => (-EINVAL, 0, 0)

/-- Translation of `cam_tfe_csid_get_format_ipp`: return code, `*decode_fmt`
and `*plain_fmt` (initialised to `0` by the caller). -/
def cam_tfe_csid_get_format_ipp (in_format : cam_format) : Int × Nat × Nat :=
  match in_format with
  | .CAM_FORMAT_MIPI_RAW_6 => (0, 0, 0)
  | .CAM_FORMAT_MIPI_RAW_8 => (0, 0x1, 0)
  | .CAM_FORMAT_MIPI_RAW_10 => (0, 0x2, 0x1)
  | .CAM_FORMAT_MIPI_RAW_12 => (0, 0x3, 0x1)
  | _ => (-EINVAL, 0, 0)

/-! ## Per-path programming -/

/-- The "rx packet capture" value computed at the end of both
`init_config` functions from the debug mask, starting from `val`. -/
def rx_capture_ctrl_val (K : csid_defs) (csid_hw : cam_tfe_csid_hw)
    (path_data : cam_tfe_csid_path_cfg) (val : Nat) : Nat :=
  let csi2_reg := csid_hw.csid_reg.csi2_reg
  let vc0 := (path_data.vc_dt.getD 0 default).vc
  let dt0 := (path_data.vc_dt.getD 0 default).dt
  let val1 : Nat :=
    if csid_hw.csid_debug &&& K.TFE_CSID_DEBUG_ENABLE_SHORT_PKT_CAPTURE ≠ 0 then
      u32 ((1 <<< csi2_reg.csi2_capture_short_pkt_en_shift) |||
        (vc0 <<< csi2_reg.csi2_capture_short_pkt_vc_shift))
    else val
  let val2 : Nat :=
    if csid_hw.csid_debug &&& K.TFE_CSID_DEBUG_ENABLE_LONG_PKT_CAPTURE ≠ 0 then
      val1 ||| u32 ((1 <<< csi2_reg.csi2_capture_long_pkt_en_shift) |||
        (dt0 <<< csi2_reg.csi2_capture_long_pkt_dt_shift) |||
        (vc0 <<< csi2_reg.csi2_capture_long_pkt_vc_shift))
    else val1
  if csid_hw.csid_debug &&& K.TFE_CSID_DEBUG_ENABLE_CPHY_PKT_CAPTURE ≠ 0 then
    val2 ||| u32 ((1 <<< csi2_reg.csi2_capture_cphy_pkt_en_shift) |||
      (dt0 <<< csi2_reg.csi2_capture_cphy_pkt_dt_shift) |||
      (vc0 <<< csi2_reg.csi2_capture_cphy_pkt_vc_shift))
  else val2

/-- Translation of `cam_tfe_csid_init_config_pxl_path` (the node is
`csid_hw->ipp_res`). -/
def cam_tfe_csid_init_config_pxl_path (K : csid_defs) (csid_hw : cam_tfe_csid_hw) :
    Int × cam_tfe_csid_hw :=
  let path_data := csid_hw.ipp_res.res_priv
  let cmn_reg := csid_hw.csid_reg.cmn_reg
  match csid_hw.csid_reg.ipp_reg with
  | none => (-EINVAL, csid_hw)
  | some pxl_reg =>
    match cam_tfe_csid_get_format_ipp path_data.in_format with
    | (rc, decode_format, plain_format) =>
      if rc ≠ 0 then (rc, csid_hw)
      else
        let crop : Nat := if path_data.crop_enable then 1 else 0
        let val0 : Nat :=
          u32 (((path_data.vc_dt.getD 0 default).vc <<< cmn_reg.vc_shift_val) |||
            ((path_data.vc_dt.getD 0 default).dt <<< cmn_reg.dt_shift_val) |||
            (path_data.cid <<< cmn_reg.dt_id_shift_val) |||
            (decode_format <<< cmn_reg.fmt_shift_val) |||
            (crop <<< cmn_reg.crop_h_en_shift_val) |||
            (crop <<< cmn_reg.crop_v_en_shift_val) |||
            (1 <<< 1))
        let binning : Bool :=
          decide (pxl_reg.binning_supported ≠ 0 ∧
            (path_data.qcfa_bin ≠ 0 ∨ path_data.bayer_bin ≠ 0))
        if binning = true ∧ path_data.bayer_bin ≠ 0 ∧
            pxl_reg.binning_supported &&& K.CAM_TFE_CSID_BIN_BAYER = 0 then
          (-EINVAL, csid_hw)
        else if binning = true ∧ path_data.qcfa_bin ≠ 0 ∧
            pxl_reg.binning_supported &&& K.CAM_TFE_CSID_BIN_QCFA = 0 then
          (-EINVAL, csid_hw)
        else if binning = true ∧ path_data.qcfa_bin ≠ 0 ∧ path_data.bayer_bin ≠ 0 then
          (-EINVAL, csid_hw)
        else
          let val1 : Nat :=
            if binning = true ∧ path_data.bayer_bin ≠ 0 then
              val0 ||| u32 (1 <<< pxl_reg.bin_en_shift_val)
            else val0
          let val2 : Nat :=
            if binning = true ∧ path_data.qcfa_bin ≠ 0 then
              val1 ||| u32 (1 <<< pxl_reg.bin_qcfa_en_shift_val) |||
                u32 (1 <<< pxl_reg.bin_en_shift_val)
            else val1
          let measure : Bool :=
            decide (cmn_reg.format_measure_support = true ∧
              csid_hw.csid_debug &&& K.TFE_CSID_DEBUG_ENABLE_HBI_VBI_INFO ≠ 0)
          let val3 : Nat :=
            if measure then val2 ||| u32 (1 <<< pxl_reg.format_measure_en_shift_val) else val2
          let val4 : Nat := val3 ||| u32 (1 <<< pxl_reg.pix_store_en_shift_val)
          let hw1 := cam_io_w_mb val4 .csid_pxl_cfg0_addr csid_hw
          let hw2 :=
            if pxl_reg.is_multi_vc_dt_supported = true ∧ path_data.num_valid_vc_dt > 1 then
              cam_io_w_mb
                (u32 (((path_data.vc_dt.getD 1 default).vc <<< cmn_reg.vc1_shift_val) |||
                  ((path_data.vc_dt.getD 1 default).dt <<< cmn_reg.dt1_shift_val) |||
                  (1 <<< cmn_reg.multi_vc_dt_en_shift_val)))
                .csid_pxl_multi_vcdt_cfg0_addr hw1
            else hw1
          let hw3 := cam_io_w_mb
            (cam_io_r_mb .csid_pxl_cfg1_addr hw2 ||| K.TFE_CSID_TIMESTAMP_STB_POST_IRQ)
            .csid_pxl_cfg1_addr hw2
          let hw4 :=
            if path_data.crop_enable then
              let h1 := cam_io_w_mb
                (u32 (((path_data.end_pixel &&& 0xFFFF) <<< cmn_reg.crop_shift) |||
                  (path_data.start_pixel &&& 0xFFFF)))
                .csid_pxl_hcrop_addr hw3
              let h2 := cam_io_w_mb
                (u32 (((path_data.end_line &&& 0xFFFF) <<< cmn_reg.crop_shift) |||
                  (path_data.start_line &&& 0xFFFF)))
                .csid_pxl_vcrop_addr h1
              if h2.csid_debug &&& K.TFE_CSID_DEBUG_DISABLE_EARLY_EOF = 0 then
                cam_io_w_mb
                  (cam_io_r_mb .csid_pxl_cfg0_addr h2 |||
                    u32 (1 <<< pxl_reg.early_eof_en_shift_val))
                  .csid_pxl_cfg0_addr h2
              else h2
            else hw3
          let hw5 :=
            if measure then
              cam_io_w_mb
                (cam_io_r_mb .csid_pxl_format_measure_cfg0_addr hw4 |||
                  pxl_reg.measure_en_hbi_vbi_cnt_val)
                .csid_pxl_format_measure_cfg0_addr hw4
            else hw4
          let hw6 := cam_io_w_mb
            (cam_io_r_mb .csid_pxl_cfg0_addr hw5 ||| u32 (1 <<< cmn_reg.path_en_shift_val))
            .csid_pxl_cfg0_addr hw5
          let hw7 := cam_io_w_mb 0x9 .csid_pxl_err_recovery_cfg0_addr hw6
          let hw8 := cam_io_w_mb (rx_capture_ctrl_val K hw7 path_data 0)
            .csid_csi2_rx_capture_ctrl_addr hw7
          (rc, { hw8 with ipp_res := { hw8.ipp_res with res_state := .INIT_HW } })

/-- Translation of `cam_tfe_csid_init_config_rdi_path` for the node
`csid_hw->rdi_res[id]`. -/
def cam_tfe_csid_init_config_rdi_path (K : csid_defs) (csid_hw : cam_tfe_csid_hw)
    (id : Nat) : Int × cam_tfe_csid_hw :=
  let path_data := (get_res csid_hw id).res_priv
  let cmn_reg := csid_hw.csid_reg.cmn_reg
  match csid_hw.csid_reg.rdi_reg id with
  | none => (-EINVAL, csid_hw)
  | some rdi_reg =>
    match cam_tfe_csid_get_format_rdi path_data.in_format path_data.out_format with
    | (rc, path_format, plain_fmt) =>
      if rc ≠ 0 then (rc, csid_hw)
      else
        let val0 : Nat :=
          u32 (((path_data.vc_dt.getD 0 default).vc <<< cmn_reg.vc_shift_val) |||
            ((path_data.vc_dt.getD 0 default).dt <<< cmn_reg.dt_shift_val) |||
            (path_data.cid <<< cmn_reg.dt_id_shift_val) |||
            (path_format <<< cmn_reg.fmt_shift_val) |||
            (plain_fmt <<< cmn_reg.plain_fmt_shit_val) |||
            (1 <<< 2) ||| 1)
        let measure : Bool :=
          decide (cmn_reg.format_measure_support = true ∧
            csid_hw.csid_debug &&& K.TFE_CSID_DEBUG_ENABLE_HBI_VBI_INFO ≠ 0)
        let val1 : Nat :=
          if measure then val0 ||| u32 (1 <<< rdi_reg.format_measure_en_shift_val) else val0
        let hw1 := cam_io_w_mb val1 (.csid_rdi_cfg0_addr id) csid_hw
        let hw2 :=
          if rdi_reg.is_multi_vc_dt_supported = true ∧ path_data.num_valid_vc_dt > 1 then
            cam_io_w_mb
              (u32 (((path_data.vc_dt.getD 1 default).vc <<< cmn_reg.vc1_shift_val) |||
                ((path_data.vc_dt.getD 1 default).dt <<< cmn_reg.dt1_shift_val) |||
                (1 <<< cmn_reg.multi_vc_dt_en_shift_val)))
              (.csid_rdi_multi_vcdt_cfg0_addr id) hw1
          else hw1
        let hw3 := cam_io_w_mb K.TFE_CSID_TIMESTAMP_STB_POST_IRQ (.csid_rdi_cfg1_addr id) hw2
        let hw4 := cam_io_w_mb 0x9 (.csid_rdi_err_recovery_cfg0_addr id) hw3
        let hw5 := cam_io_w_mb 0 (.csid_rdi_ctrl_addr id) hw4
        let hw6 :=
          if measure then
            cam_io_w_mb
              (cam_io_r_mb (.csid_rdi_format_measure_cfg0_addr id) hw5 |||
                rdi_reg.measure_en_hbi_vbi_cnt_val)
              (.csid_rdi_format_measure_cfg0_addr id) hw5
          else hw5
        let val2 : Nat :=
          cam_io_r_mb (.csid_rdi_cfg0_addr id) hw6 ||| u32 (1 <<< cmn_reg.path_en_shift_val)
        let hw7 := cam_io_w_mb val2 (.csid_rdi_cfg0_addr id) hw6
        let hw8 := cam_io_w_mb (rx_capture_ctrl_val K hw7 path_data val2)
          .csid_csi2_rx_capture_ctrl_addr hw7
        (rc, set_res hw8 id { get_res hw8 id with res_state := .INIT_HW })

/-- Translation of `cam_tfe_csid_deinit_pxl_path` (the node is
`csid_hw->ipp_res`): a wrong state only sets `rc`; the function then runs on
to the label `end`, which stores `RESERVED`. -/
def cam_tfe_csid_deinit_pxl_path (csid_hw : cam_tfe_csid_hw) : Int × cam_tfe_csid_hw :=
  let rc : Int := if csid_hw.ipp_res.res_state ≠ .INIT_HW then -EINVAL else 0
  match csid_hw.csid_reg.ipp_reg with
  | none =>
    (-EINVAL, { csid_hw with ipp_res := { csid_hw.ipp_res with res_state := .RESERVED } })
  | some _ =>
    let hw1 := cam_io_w_mb 0 .csid_pxl_err_recovery_cfg0_addr csid_hw
    (rc, { hw1 with ipp_res := { hw1.ipp_res with res_state := .RESERVED } })

/-- Translation of `cam_tfe_csid_deinit_rdi_path` for the node `res_id`. -/
def cam_tfe_csid_deinit_rdi_path (csid_hw : cam_tfe_csid_hw) (res_id : Nat) :
    Int × cam_tfe_csid_hw :=
  let res := get_res csid_hw res_id
  if res_id > CAM_TFE_CSID_PATH_RES_RDI_2 ∨ res.res_state ≠ .INIT_HW ∨
      csid_hw.csid_reg.rdi_reg res_id = none then
    (-EINVAL, csid_hw)
  else
    let hw1 := cam_io_w_mb 0 (.csid_rdi_err_recovery_cfg0_addr res_id) csid_hw
    (0, set_res hw1 res_id { get_res hw1 res_id with res_state := .RESERVED })

/-- Translation of `cam_tfe_csid_enable_pxl_path` (the node is
`csid_hw->ipp_res`). -/
def cam_tfe_csid_enable_pxl_path (K : csid_defs) (csid_hw : cam_tfe_csid_hw) :
    Int × cam_tfe_csid_hw :=
  let path_data := csid_hw.ipp_res.res_priv
  if csid_hw.ipp_res.res_state ≠ .INIT_HW then (-EINVAL, csid_hw)
  else
    match csid_hw.csid_reg.ipp_reg with
    | none => (-EINVAL, csid_hw)
    | some pxl_reg =>
      let val0 : Nat :=
        if path_data.sync_mode = .CAM_ISP_HW_SYNC_MASTER then
          u32 ((K.TFE_CSID_HALT_MODE_MASTER <<< pxl_reg.halt_mode_shift) |||
            (pxl_reg.halt_master_sel_master_val <<< pxl_reg.halt_master_sel_shift))
        else if path_data.sync_mode = .CAM_ISP_HW_SYNC_SLAVE then
          u32 (K.TFE_CSID_HALT_MODE_SLAVE <<< pxl_reg.halt_mode_shift)
        else 0
      let val1 : Nat :=
        if path_data.sync_mode = .CAM_ISP_HW_SYNC_MASTER ∨
            path_data.sync_mode = .CAM_ISP_HW_SYNC_NONE then
          val0 ||| CAM_TFE_CSID_RESUME_AT_FRAME_BOUNDARY
        else val0
      let hw1 := cam_io_w_mb val1 .csid_pxl_ctrl_addr csid_hw
      let irq0 : Nat :=
        K.TFE_CSID_PATH_INFO_RST_DONE ||| K.TFE_CSID_PATH_ERROR_FIFO_OVERFLOW |||
        K.TFE_CSID_PATH_IPP_ERROR_CCIF_VIOLATION ||| K.TFE_CSID_PATH_IPP_OVERFLOW_IRQ
      let irq1 : Nat :=
        if csid_hw.csid_reg.cmn_reg.format_measure_support then
          irq0 ||| (K.TFE_CSID_PATH_ERROR_PIX_COUNT ||| K.TFE_CSID_PATH_ERROR_LINE_COUNT)
        else irq0
      let irq2 : Nat :=
        if csid_hw.csid_debug &&& K.TFE_CSID_DEBUG_ENABLE_SOF_IRQ ≠ 0 then
          irq1 ||| K.TFE_CSID_PATH_INFO_INPUT_SOF
        else irq1
      let irq3 : Nat :=
        if csid_hw.csid_debug &&& K.TFE_CSID_DEBUG_ENABLE_EOF_IRQ ≠ 0 then
          irq2 ||| K.TFE_CSID_PATH_INFO_INPUT_EOF
        else irq2
      let hw2 := cam_io_w_mb irq3 .csid_pxl_irq_mask_addr hw1
      (0, { hw2 with ipp_res := { hw2.ipp_res with res_state := .STREAMING } })

/-- The RDI loop of `cam_tfe_csid_check_path_active`, at path `i` with `n`
paths left; `path_status res_id` is the word the status register of path
`res_id` returns (`0` means active) and `last` the word read before. -/
def cam_tfe_csid_check_path_active_rdi (path_status : Nat → Nat) (i : Nat) :
    Nat → Nat → Nat
  | 0, last => last
  | n + 1, _ =>
    if path_status i = 0 then 0
    else cam_tfe_csid_check_path_active_rdi path_status (i + 1) n (path_status i)

/-- Translation of `cam_tfe_csid_check_path_active`. -/
def cam_tfe_csid_check_path_active (csid_hw : cam_tfe_csid_hw) (path_status : Nat → Nat) :
    Bool :=
  let cmn_reg := csid_hw.csid_reg.cmn_reg
  let status0 : Nat := 1
  if cmn_reg.num_pix ≠ 0 ∧ path_status CAM_TFE_CSID_PATH_RES_IPP = 0 then true
  else
    let status1 : Nat :=
      if cmn_reg.num_pix ≠ 0 then path_status CAM_TFE_CSID_PATH_RES_IPP else status0
    decide (cam_tfe_csid_check_path_active_rdi path_status 0 cmn_reg.num_rdis status1 = 0)

/-- Translation of `cam_tfe_csid_enable_rdi_path` for the node `res_id`. -/
def cam_tfe_csid_enable_rdi_path (K : csid_defs) (csid_hw : cam_tfe_csid_hw)
    (res_id : Nat) (path_status : Nat → Nat) : Int × cam_tfe_csid_hw :=
  let res := get_res csid_hw res_id
  if res.res_state ≠ .INIT_HW ∨ res_id > CAM_TFE_CSID_PATH_RES_RDI_2 ∨
      csid_hw.csid_reg.rdi_reg res_id = none then
    (-EINVAL, csid_hw)
  else
    let path_data : cam_tfe_csid_path_cfg :=
      if res.res_priv.usage_type = K.CAM_ISP_TFE_IN_RES_USAGE_DUAL then
        { res.res_priv with init_frame_drop := 1 }
      else res.res_priv
    let hw0 := set_res csid_hw res_id { res with res_priv := path_data }
    let path_active : Bool :=
      if path_data.init_frame_drop = 0 then false
      else cam_tfe_csid_check_path_active hw0 path_status
    let hw1 :=
      if path_data.init_frame_drop = 0 then
        cam_io_w_mb CAM_TFE_CSID_RESUME_AT_FRAME_BOUNDARY (.csid_rdi_ctrl_addr res_id) hw0
      else if path_active then
        cam_io_w_mb CAM_TFE_CSID_RESUME_AT_FRAME_BOUNDARY (.csid_rdi_ctrl_addr res_id) hw0
      else hw0
    let irq0 : Nat :=
      K.TFE_CSID_PATH_INFO_RST_DONE ||| K.TFE_CSID_PATH_ERROR_FIFO_OVERFLOW |||
      K.TFE_CSID_PATH_RDI_ERROR_CCIF_VIOLATION ||| K.TFE_CSID_PATH_RDI_OVERFLOW_IRQ
    let irq1 : Nat :=
      if csid_hw.csid_reg.cmn_reg.format_measure_support then
        irq0 ||| (K.TFE_CSID_PATH_ERROR_PIX_COUNT ||| K.TFE_CSID_PATH_ERROR_LINE_COUNT)
      else irq0
    let irq2 : Nat :=
      if csid_hw.csid_debug &&& K.TFE_CSID_DEBUG_ENABLE_SOF_IRQ ≠ 0 ∨
          (path_data.init_frame_drop ≠ 0 ∧ path_active = false) then
        irq1 ||| K.TFE_CSID_PATH_INFO_INPUT_SOF
      else irq1
    let irq3 : Nat :=
      if csid_hw.csid_debug &&& K.TFE_CSID_DEBUG_ENABLE_EOF_IRQ ≠ 0 then
        irq2 ||| K.TFE_CSID_PATH_INFO_INPUT_EOF
      else irq2
    let hw2 := cam_io_w_mb irq3 (.csid_rdi_irq_mask_addr res_id) hw1
    (0, set_res hw2 res_id { get_res hw2 res_id with res_state := .STREAMING })

/-- Translation of `cam_tfe_csid_disable_pxl_path` (the node is
`csid_hw->ipp_res`). -/
def cam_tfe_csid_disable_pxl_path (K : csid_defs) (csid_hw : cam_tfe_csid_hw)
    (stop_cmd : Nat) : Int × cam_tfe_csid_hw :=
  let res := csid_hw.ipp_res
  let path_data := res.res_priv
  if res.res_id ≥ CAM_TFE_CSID_PATH_RES_MAX then (-EINVAL, csid_hw)
  else if res.res_state = .INIT_HW ∨ res.res_state = .RESERVED then (0, csid_hw)
  else if res.res_state ≠ .STREAMING then (-EINVAL, csid_hw)
  else
    match csid_hw.csid_reg.ipp_reg with
    | none => (-EINVAL, csid_hw)
    | some _ =>
      if stop_cmd ≠ CAM_TFE_CSID_HALT_AT_FRAME_BOUNDARY ∧
          stop_cmd ≠ CAM_TFE_CSID_HALT_IMMEDIATELY then
        (-EINVAL, csid_hw)
      else
        let hw1 := cam_io_w_mb 0 .csid_pxl_irq_mask_addr csid_hw
        let hw2 :=
          if path_data.sync_mode = .CAM_ISP_HW_SYNC_MASTER ∨
              path_data.sync_mode = .CAM_ISP_HW_SYNC_NONE then
            cam_io_w_mb
              ((cam_io_r_mb .csid_pxl_ctrl_addr hw1 &&& u32_not 0x3) ||| stop_cmd)
              .csid_pxl_ctrl_addr hw1
          else hw1
        let hw3 :=
          if path_data.sync_mode = .CAM_ISP_HW_SYNC_SLAVE ∧
              stop_cmd = CAM_TFE_CSID_HALT_IMMEDIATELY then
            cam_io_w_mb
              ((cam_io_r_mb .csid_pxl_ctrl_addr hw2 &&& u32_not 0xF) ||| stop_cmd |||
                u32 (K.TFE_CSID_HALT_MODE_MASTER <<< 2))
              .csid_pxl_ctrl_addr hw2
          else hw2
        (0, hw3)

/-- Translation of `cam_tfe_csid_disable_rdi_path` for the node `res_id`. -/
def cam_tfe_csid_disable_rdi_path (csid_hw : cam_tfe_csid_hw) (res_id : Nat)
    (stop_cmd : Nat) : Int × cam_tfe_csid_hw :=
  let res := get_res csid_hw res_id
  if res_id > CAM_TFE_CSID_PATH_RES_RDI_2 ∨ csid_hw.csid_reg.rdi_reg res_id = none then
    (-EINVAL, csid_hw)
  else if res.res_state = .INIT_HW ∨ res.res_state = .RESERVED then (0, csid_hw)
  else if res.res_state ≠ .STREAMING then (-EINVAL, csid_hw)
  else if stop_cmd ≠ CAM_TFE_CSID_HALT_AT_FRAME_BOUNDARY ∧
      stop_cmd ≠ CAM_TFE_CSID_HALT_IMMEDIATELY then
    (-EINVAL, csid_hw)
  else
    let hw0 := set_res csid_hw res_id
      { res with res_priv := { res.res_priv with init_frame_drop := 0, res_sof_cnt := 0 } }
    let hw1 := cam_io_w_mb 0 (.csid_rdi_irq_mask_addr res_id) hw0
    let hw2 := cam_io_w_mb
      ((cam_io_r_mb (.csid_rdi_ctrl_addr res_id) hw1 &&& u32_not 0x3) ||| stop_cmd)
      (.csid_rdi_ctrl_addr res_id) hw1
    (0, hw2)

/-- The loop of `cam_tfe_csid_poll_stop_status` at path `res_id` with `n`
paths left; `poll_rc res_id` is the result of the status poll of that path. -/
def cam_tfe_csid_poll_stop_status_loop (csid_hw : cam_tfe_csid_hw) (poll_rc : Nat → Int)
    (res_id : Nat) (res_mask : Nat) (rc : Int) : Nat → Int
  | 0 => rc
  | n + 1 =>
    if res_mask &&& 0x1 = 0 then
      cam_tfe_csid_poll_stop_status_loop csid_hw poll_rc (res_id + 1) (res_mask >>> 1) rc n
    else if (get_res csid_hw res_id).res_state ≠ .STREAMING then
      cam_tfe_csid_poll_stop_status_loop csid_hw poll_rc (res_id + 1) (res_mask >>> 1) rc n
    else if poll_rc res_id < 0 then -ETIMEDOUT
    else
      cam_tfe_csid_poll_stop_status_loop csid_hw poll_rc (res_id + 1) (res_mask >>> 1)
        (poll_rc res_id) n

/-- Translation of `cam_tfe_csid_poll_stop_status`. -/
def cam_tfe_csid_poll_stop_status (csid_hw : cam_tfe_csid_hw) (res_mask : Nat)
    (poll_rc : Nat → Int) : Int :=
  cam_tfe_csid_poll_stop_status_loop csid_hw poll_rc 0 res_mask 0 CAM_TFE_CSID_PATH_RES_MAX

/-! ## Public operations on a path -/

/-- Translation of `cam_tfe_csid_init_hw` for a handle of resource type
`CAM_ISP_RESOURCE_PIX_PATH`.  The return code of the per-path programming is
overwritten by the one of `cam_tfe_csid_reset_retain_sw_reg`, and
`device_enabled` is set on every path that reaches the end. -/
def cam_tfe_csid_init_hw (K : csid_defs) (csid_hw : cam_tfe_csid_hw) (res_id : Nat)
    (env : init_hw_env) : Int × cam_tfe_csid_hw :=
  if res_id ≥ CAM_TFE_CSID_PATH_RES_MAX then (-EINVAL, csid_hw)
  else if (get_res csid_hw res_id).res_state ≠ .RESERVED then (-EINVAL, csid_hw)
  else
    match cam_tfe_csid_enable_hw K csid_hw env.enable with
    | (rc, hw1) =>
      if rc ≠ 0 then (rc, hw1)
      else
        let r2 : Int × cam_tfe_csid_hw :=
          if res_id = CAM_TFE_CSID_PATH_RES_IPP then cam_tfe_csid_init_config_pxl_path K hw1
          else cam_tfe_csid_init_config_rdi_path K hw1 res_id
        let rc : Int := r2.1
        match cam_tfe_csid_reset_retain_sw_reg r2.2 env.retain_poll_rc with
        | (rc, hw3) =>
          let hw4 : cam_tfe_csid_hw :=
            if rc ≠ 0 then (cam_tfe_csid_disable_hw hw3 env.disable).2 else hw3
          (rc, { hw4 with device_enabled := 1 })

/-- Translation of `cam_tfe_csid_deinit_hw` for a handle of resource type
`CAM_ISP_RESOURCE_PIX_PATH`. -/
def cam_tfe_csid_deinit_hw (csid_hw : cam_tfe_csid_hw) (res_id : Nat)
    (env : disable_hw_env) : Int × cam_tfe_csid_hw :=
  if (get_res csid_hw res_id).res_state = .RESERVED then (0, csid_hw)
  else
    let r1 : Int × cam_tfe_csid_hw :=
      if res_id = CAM_TFE_CSID_PATH_RES_IPP then cam_tfe_csid_deinit_pxl_path csid_hw
      else cam_tfe_csid_deinit_rdi_path csid_hw res_id
    (r1.1, (cam_tfe_csid_disable_hw r1.2 env).2)

/-- Translation of `cam_tfe_csid_start` for a handle of resource type
`CAM_ISP_RESOURCE_PIX_PATH`. -/
def cam_tfe_csid_start (K : csid_defs) (csid_hw : cam_tfe_csid_hw) (res_id : Nat)
    (path_status : Nat → Nat) : Int × cam_tfe_csid_hw :=
  if res_id ≥ CAM_TFE_CSID_PATH_RES_MAX then (-EINVAL, csid_hw)
  else
    let hw1 : cam_tfe_csid_hw := { csid_hw with sof_irq_triggered := false, irq_debug_cnt := 0 }
    if res_id = CAM_TFE_CSID_PATH_RES_IPP then cam_tfe_csid_enable_pxl_path K hw1
    else cam_tfe_csid_enable_rdi_path K hw1 res_id path_status

/-- Arguments of `cam_tfe_csid_stop`, `struct cam_tfe_csid_hw_stop_args`:
the handles `node_res[0 .. num_res-1]` and the halt command. -/
structure cam_tfe_csid_hw_stop_args where
  node_res : List Nat
  stop_cmd : Nat
deriving DecidableEq, Repr, Inhabited

/-- First loop of `cam_tfe_csid_stop` ("Stop the resource first"): every
handle adds its bit to `res_mask` and `rc` is overwritten by the result of
the disable function of that path. -/
def cam_tfe_csid_stop_disable (K : csid_defs) (stop_cmd : Nat) :
    List Nat → Int × cam_tfe_csid_hw × Nat → Int × cam_tfe_csid_hw × Nat
  | [], acc => acc
  | res_id :: rest, (_, csid_hw, res_mask) =>
    let r : Int × cam_tfe_csid_hw :=
      if res_id = CAM_TFE_CSID_PATH_RES_IPP then cam_tfe_csid_disable_pxl_path K csid_hw stop_cmd
      else cam_tfe_csid_disable_rdi_path csid_hw res_id stop_cmd
    cam_tfe_csid_stop_disable K stop_cmd rest (r.1, r.2, res_mask ||| u32 (1 <<< res_id))

/-- Last loop of `cam_tfe_csid_stop`: every handle is moved to `INIT_HW`. -/
def cam_tfe_csid_stop_set_state : List Nat → cam_tfe_csid_hw → cam_tfe_csid_hw
  | [], csid_hw => csid_hw
  | res_id :: rest, csid_hw =>
    cam_tfe_csid_stop_set_state rest
      (set_res csid_hw res_id { get_res csid_hw res_id with res_state := .INIT_HW })

/-- Translation of `cam_tfe_csid_stop` for handles of resource type
`CAM_ISP_RESOURCE_PIX_PATH`; `poll_rc res_id` is the result of the halt poll
of path `res_id`. -/
def cam_tfe_csid_stop (K : csid_defs) (csid_hw : cam_tfe_csid_hw)
    (csid_stop : cam_tfe_csid_hw_stop_args) (poll_rc : Nat → Int) :
    Int × cam_tfe_csid_hw :=
  if csid_stop.node_res.length = 0 then (-EINVAL, csid_hw)
  else
    match cam_tfe_csid_stop_disable K csid_stop.stop_cmd csid_stop.node_res (0, csid_hw, 0) with
    | (rc, hw1, res_mask) =>
      let rc : Int :=
        if res_mask ≠ 0 then cam_tfe_csid_poll_stop_status hw1 res_mask poll_rc else rc
      (rc, cam_tfe_csid_stop_set_state csid_stop.node_res hw1)

/-! ## Probe -/

/-- An all-zero `struct cam_tfe_csid_path_cfg` (the result of `kzalloc`). -/
def path_cfg_zero : cam_tfe_csid_path_cfg :=
  { vc_dt := List.replicate CAM_ISP_TFE_VC_DT_CFG { vc := 0, dt := 0 }
    num_valid_vc_dt := 0, cid := 0
    in_format := .OTHER 0, out_format := .OTHER 0
    crop_enable := false
    start_pixel := 0, end_pixel := 0, width := 0
    start_line := 0, end_line := 0, height := 0
    sync_mode := .CAM_ISP_HW_SYNC_NONE
    master_idx := 0, usage_type := 0, init_frame_drop := 0, res_sof_cnt := 0
    sensor_width := 0, sensor_height := 0, sensor_fps := 0
    sensor_hbi := 0, sensor_vbi := 0
    bayer_bin := 0, qcfa_bin := 0 }

/-- The device after a successful `cam_tfe_csid_hw_probe_init` on zeroed
memory: every supported path is `AVAILABLE`, the CID table is cleared, the
block is powered down and every event payload is on the free list.
`pix_fused_off` is the outcome of the fuse test that disables the pixel path,
`ppi_enable` and `ppi_hw_intf` describe the PPI bridges that were found,
`csid_idx` is the index of the block. -/
def cam_tfe_csid_hw_probe_init (csid_reg : cam_tfe_csid_reg_offset)
    (pix_fused_off : Bool) (ppi_enable : Bool) (ppi_hw_intf : Nat → Bool) (csid_idx : Nat) :
    cam_tfe_csid_hw :=
  { csid_reg := csid_reg
    hw_state := .CAM_HW_STATE_POWER_DOWN
    open_count := 0
    pxl_pipe_enable := !pix_fused_off
    ppi_enable := ppi_enable
    ppi_hw_intf := ppi_hw_intf
    cid_res := List.replicate CAM_TFE_CSID_CID_MAX
      { vc_dt := List.replicate CAM_ISP_TFE_VC_DT_CFG { vc := 0, dt := 0 }
        num_valid_vc_dt := 0, cnt := 0 }
    csi2_reserve_cnt := 0
    in_res_id := 0
    csi2_rx_cfg := { phy_sel := 0, lane_type := 0, lane_num := 0, lane_cfg := 0 }
    ipp_res :=
      { res_id := if pix_fused_off then 0 else CAM_TFE_CSID_PATH_RES_IPP
        res_state := if pix_fused_off then .UNAVAILABLE else .AVAILABLE
        res_priv := path_cfg_zero }
    rdi_res := fun i =>
      if i < csid_reg.cmn_reg.num_rdis then
        { res_id := i, res_state := .AVAILABLE, res_priv := path_cfg_zero }
      else
        { res_id := 0, res_state := .UNAVAILABLE, res_priv := path_cfg_zero }
    event_cb := none
    event_cb_priv := none
    device_enabled := 0
    fatal_err_detected := false
    error_irq_count := 0
    prev_boot_timestamp := 0
    prev_qtimer_ts := 0
    csid_debug := 0
    sof_irq_triggered := false
    irq_debug_cnt := 0
    tpg_mux_sel := []
    ppi_calls := []
    regs := []
    hw_idx := csid_idx
    free_payload_list := List.range CAM_CSID_EVT_PAYLOAD_MAX
    tasklet_queue := []
    event_cb_calls := []
    phy_notify := []
    completions := [] }

/-! ## A concrete platform for evaluating the model -/

/-- Sample values for the numeric macros: every interrupt source of a
register group has its own bit. -/
def sample_defs : csid_defs :=
  { CAM_ISP_TFE_IN_RES_TPG := 1
    CAM_ISP_TFE_IN_RES_CPHY_TPG_0 := 7
    CAM_ISP_TFE_IN_RES_CPHY_TPG_1 := 8
    CAM_ISP_TFE_IN_RES_CPHY_TPG_2 := 9
    CAM_ISP_TFE_IN_RES_MAX := 10
    CAM_ISP_LANE_TYPE_DPHY := 1
    CAM_ISP_LANE_TYPE_CPHY := 2
    CAM_ISP_LANE_TYPE_MAX := 3
    CAM_ISP_TFE_IN_RES_USAGE_DUAL := 1
    CAM_TFE_CSID_BIN_BAYER := 1
    CAM_TFE_CSID_BIN_QCFA := 2
    TFE_CSID_HALT_MODE_MASTER := 1
    TFE_CSID_HALT_MODE_SLAVE := 2
    TFE_CSID_TIMESTAMP_STB_POST_IRQ := 8
    TFE_CSID_PATH_INFO_RST_DONE := 0x2
    TFE_CSID_PATH_ERROR_FIFO_OVERFLOW := 0x4
    TFE_CSID_PATH_IPP_ERROR_CCIF_VIOLATION := 0x8000
    TFE_CSID_PATH_IPP_OVERFLOW_IRQ := 0x10000
    TFE_CSID_PATH_RDI_ERROR_CCIF_VIOLATION := 0x20000
    TFE_CSID_PATH_RDI_OVERFLOW_IRQ := 0x40000
    TFE_CSID_PATH_ERROR_PIX_COUNT := 0x2000
    TFE_CSID_PATH_ERROR_LINE_COUNT := 0x4000
    TFE_CSID_PATH_INFO_INPUT_SOF := 0x1000
    TFE_CSID_PATH_INFO_INPUT_EOF := 0x200
    TFE_CSID_CSI2_RX_INFO_RST_DONE := 0x8000000
    TFE_CSID_CSI2_RX_ERROR_LANE0_FIFO_OVERFLOW := 0x8000
    TFE_CSID_CSI2_RX_ERROR_LANE1_FIFO_OVERFLOW := 0x10000
    TFE_CSID_CSI2_RX_ERROR_LANE2_FIFO_OVERFLOW := 0x20000
    TFE_CSID_CSI2_RX_ERROR_LANE3_FIFO_OVERFLOW := 0x40000
    TFE_CSID_CSI2_RX_ERROR_CPHY_EOT_RECEPTION := 0x800
    TFE_CSID_CSI2_RX_ERROR_CPHY_SOT_RECEPTION := 0x1000
    TFE_CSID_CSI2_RX_ERROR_CRC := 0x80000
    TFE_CSID_CSI2_RX_ERROR_ECC := 0x100000
    TFE_CSID_CSI2_RX_ERROR_MMAPPED_VC_DT := 0x200000
    TFE_CSID_CSI2_RX_ERROR_STREAM_UNDERFLOW := 0x400000
    TFE_CSID_CSI2_RX_ERROR_UNBOUNDED_FRAME := 0x800000
    TFE_CSID_CSI2_RX_ERROR_CPHY_PH_CRC := 0x2000
    TFE_CSID_CSI2_RX_INFO_PHY_DL0_SOT_CAPTURED := 0x10
    TFE_CSID_CSI2_RX_INFO_PHY_DL1_SOT_CAPTURED := 0x20
    TFE_CSID_CSI2_RX_INFO_PHY_DL2_SOT_CAPTURED := 0x40
    TFE_CSID_CSI2_RX_INFO_PHY_DL3_SOT_CAPTURED := 0x80
    TFE_CSID_CSI2_RX_INFO_PHY_DL0_EOT_CAPTURED := 0x1
    TFE_CSID_CSI2_RX_INFO_PHY_DL1_EOT_CAPTURED := 0x2
    TFE_CSID_CSI2_RX_INFO_PHY_DL2_EOT_CAPTURED := 0x4
    TFE_CSID_CSI2_RX_INFO_PHY_DL3_EOT_CAPTURED := 0x8
    TFE_CSID_CSI2_RX_INFO_SHORT_PKT_CAPTURED := 0x200
    TFE_CSID_CSI2_RX_INFO_LONG_PKT_CAPTURED := 0x100
    TFE_CSID_CSI2_RX_INFO_CPHY_PKT_HDR_CAPTURED := 0x400
    TFE_CSID_DEBUG_ENABLE_SOF_IRQ := 0x1
    TFE_CSID_DEBUG_ENABLE_EOF_IRQ := 0x2
    TFE_CSID_DEBUG_ENABLE_SOT_IRQ := 0x4
    TFE_CSID_DEBUG_ENABLE_EOT_IRQ := 0x8
    TFE_CSID_DEBUG_ENABLE_SHORT_PKT_CAPTURE := 0x10
    TFE_CSID_DEBUG_ENABLE_LONG_PKT_CAPTURE := 0x20
    TFE_CSID_DEBUG_ENABLE_CPHY_PKT_CAPTURE := 0x40
    TFE_CSID_DEBUG_ENABLE_HBI_VBI_INFO := 0x80
    TFE_CSID_DEBUG_DISABLE_EARLY_EOF := 0x100 }

/-- A register description with one pixel path and three RDI paths. -/
def sample_reg : cam_tfe_csid_reg_offset :=
  { cmn_reg :=
      { num_rdis := 3, num_pix := 1
        csid_rst_stb := 0x1e, csid_reg_rst_stb := 1
        ipp_irq_mask_all := 0x3FFFF, rdi_irq_mask_all := 0x3FFFF
        ipp_path_rst_stb_all := 0x17, rdi_path_rst_stb_all := 0x17
        vc_shift_val := 22, dt_shift_val := 16, dt_id_shift_val := 27
        fmt_shift_val := 12, plain_fmt_shit_val := 10
        crop_h_en_shift_val := 6, crop_v_en_shift_val := 5, crop_shift := 16
        path_en_shift_val := 31
        vc1_shift_val := 2, dt1_shift_val := 7, multi_vc_dt_en_shift_val := 0
        path_rst_done_shift_val := 1
        format_measure_support := true }
    csi2_reg :=
      { csi2_irq_mask_all := 0xFFFFFFF
        csi2_rx_phy_num_mask := 0x7
        csi2_misr_enable_shift_val := 6
        csi2_capture_short_pkt_en_shift := 0
        csi2_capture_short_pkt_vc_shift := 15
        csi2_capture_long_pkt_en_shift := 0
        csi2_capture_long_pkt_dt_shift := 4
        csi2_capture_long_pkt_vc_shift := 2
        csi2_capture_cphy_pkt_en_shift := 2
        csi2_capture_cphy_pkt_dt_shift := 20
        csi2_capture_cphy_pkt_vc_shift := 26
        csi2_rst_done_shift_val := 27
        csi2_rx_long_pkt_hdr_rst_stb_shift := 1
        csi2_rx_short_pkt_hdr_rst_stb_shift := 2
        csi2_rx_cphy_pkt_hdr_rst_stb_shift := 3
        phy_tpg_base_id := 0
        phy_sel_base := 1
        need_to_sel_tpg_mux := false }
    ipp_reg := some
      { binning_supported := 0x3
        bin_en_shift_val := 2, bin_qcfa_en_shift_val := 30
        format_measure_en_shift_val := 0, pix_store_en_shift_val := 7
        is_multi_vc_dt_supported := true
        early_eof_en_shift_val := 29
        measure_en_hbi_vbi_cnt_val := 0xc
        halt_mode_shift := 2, halt_master_sel_master_val := 3
        halt_master_sel_shift := 4 }
    rdi_reg := fun i =>
      if i < 3 then
        some { is_multi_vc_dt_supported := true
               format_measure_en_shift_val := 1
               measure_en_hbi_vbi_cnt_val := 0xc }
      else none }

/-- The sample device right after probe (no PPI bridge). -/
def sample_hw : cam_tfe_csid_hw :=
  cam_tfe_csid_hw_probe_init sample_reg false false (fun _ => false) 0

/-- An input port with one (VC, DT) pair `(0, 0x2b)` (RAW10) on a four-lane
D-PHY sensor input. -/
def sample_in_port : cam_isp_tfe_in_port_generic_info :=
  { res_id := 2, lane_type := 1, lane_num := 4, lane_cfg := 0x3210
    vc := [0, 0, 0, 0], dt := [0x2b, 0, 0, 0], num_valid_vc_dt := 1
    format := .CAM_FORMAT_MIPI_RAW_10, usage_type := 0
    left_start := 0, left_end := 1919, left_width := 1920
    right_start := 0, right_end := 0, right_width := 0
    line_start := 0, line_end := 1079, height := 1080
    sensor_width := 1920, sensor_height := 1080, sensor_fps := 30
    sensor_hbi := 100, sensor_vbi := 200
    bayer_bin := 0, qcfa_bin := 0 }

/-- A reservation of path `res_id` with the input port `in_port`, output
format PLAIN16_10, no dual-sensor sync, callback `1` with context `7`. -/
def sample_reserve (res_id : Nat) (in_port : cam_isp_tfe_in_port_generic_info) :
    cam_tfe_csid_hw_reserve_resource_args :=
  { res_id := res_id, in_port := in_port
    out_port_format := .CAM_FORMAT_PLAIN16_10
    sync_mode := .CAM_ISP_HW_SYNC_NONE, master_idx := 0
    event_cb := some 1, event_cb_prv := some 7 }

/-- Hardware that answers every reset in time. -/
def reset_ok : reset_env := { poll_rc := 0, complete_rc := 1 }

/-- Services that all succeed during `cam_tfe_csid_init_hw`. -/
def init_ok : init_hw_env :=
  { enable := { soc_rc := 0, reset := reset_ok }
    retain_poll_rc := 0
    disable := { reset := reset_ok, soc_rc := 0 } }

/-! ## Scenarios used by the evaluation theorems -/

/-- An input port like `sample_in_port` that carries the two pairs
`(0, 0x2b)` and `(1, 0x2c)`. -/
def two_pair_port : cam_isp_tfe_in_port_generic_info :=
  { sample_in_port with vc := [0, 1, 0, 0], dt := [0x2b, 0x2c, 0, 0], num_valid_vc_dt := 2 }

/-- The sample device after RDI0 was reserved with `port`. -/
def hw_reserved_rdi0 (port : cam_isp_tfe_in_port_generic_info) : cam_tfe_csid_hw :=
  (cam_tfe_csid_reserve sample_defs sample_hw (sample_reserve CAM_TFE_CSID_PATH_RES_RDI_0 port)
    true).2.1

/-- The sample device after RDI0 and then RDI1 were reserved with `port`. -/
def hw_reserved_rdi01 (port : cam_isp_tfe_in_port_generic_info) : cam_tfe_csid_hw :=
  (cam_tfe_csid_reserve sample_defs (hw_reserved_rdi0 port)
    (sample_reserve CAM_TFE_CSID_PATH_RES_RDI_1 port) true).2.1

/-- Reference count of CID slot `i`. -/
def cid_cnt (csid_hw : cam_tfe_csid_hw) (i : Nat) : Nat :=
  (csid_hw.cid_res.getD i default).cnt

/-- The CID table after RDI0 was reserved with one pair and released again:
slot 0 is free (`cnt = 0`) but still holds what the reservation stored. -/
def cid_res_after_release : List cam_tfe_csid_cid_data :=
  (cam_tfe_csid_release (hw_reserved_rdi0 sample_in_port) CAM_TFE_CSID_PATH_RES_RDI_0).2.cid_res

/-! ### Sequences of public operations -/

/-- One call of a public operation together with the answers of the
external services during that call. -/
inductive csid_op where
  | reserve (args : cam_tfe_csid_hw_reserve_resource_args) (qcfa_supported : Bool)
  | release (res_id : Nat)
  | init (res_id : Nat) (env : init_hw_env)
  | deinit (res_id : Nat) (env : disable_hw_env)
  | start (res_id : Nat) (path_status : Nat → Nat)
  | stop (args : cam_tfe_csid_hw_stop_args) (poll_rc : Nat → Int)

/-- Return code and device after one public operation. -/
def csid_step (K : csid_defs) (csid_hw : cam_tfe_csid_hw) : csid_op → Int × cam_tfe_csid_hw
  | .reserve args qcfa_supported =>
    ((cam_tfe_csid_reserve K csid_hw args qcfa_supported).1,
     (cam_tfe_csid_reserve K csid_hw args qcfa_supported).2.1)
  | .release res_id => cam_tfe_csid_release csid_hw res_id
  | .init res_id env => cam_tfe_csid_init_hw K csid_hw res_id env
  | .deinit res_id env => cam_tfe_csid_deinit_hw csid_hw res_id env
  | .start res_id path_status => cam_tfe_csid_start K csid_hw res_id path_status
  | .stop args poll_rc => cam_tfe_csid_stop K csid_hw args poll_rc

/-- Running a sequence of operations: the operations with their return codes,
in execution order, and the final device. -/
def csid_run (K : csid_defs) :
    cam_tfe_csid_hw → List csid_op → List (csid_op × Int) × cam_tfe_csid_hw
  | csid_hw, [] => ([], csid_hw)
  | csid_hw, op :: rest =>
    ((op, (csid_step K csid_hw op).1) :: (csid_run K (csid_step K csid_hw op).2 rest).1,
     (csid_run K (csid_step K csid_hw op).2 rest).2)

/-- Checks a history: every successful `start` on a path comes after a
successful `init` on that same path; `inited` lists the paths that already
had a successful `init`. -/
def starts_follow_inits (inited : List Nat) : List (csid_op × Int) → Bool
  | [] => true
  | (.init res_id _, rc) :: rest =>
    starts_follow_inits (if rc = 0 then res_id :: inited else inited) rest
  | (.start res_id _, rc) :: rest =>
    (decide (rc ≠ 0) || inited.contains res_id) && starts_follow_inits inited rest
  | _ :: rest => starts_follow_inits inited rest

/-- The sequence reserve RDI0, stop RDI0 (halt at frame boundary), start
RDI0; it contains no `init`. -/
def trace_start_without_init : List csid_op :=
  [ .reserve (sample_reserve CAM_TFE_CSID_PATH_RES_RDI_0 sample_in_port) true,
    .stop { node_res := [CAM_TFE_CSID_PATH_RES_RDI_0]
            stop_cmd := CAM_TFE_CSID_HALT_AT_FRAME_BOUNDARY } (fun _ => 0),
    .start CAM_TFE_CSID_PATH_RES_RDI_0 (fun _ => 1) ]

/-- The sample device after RDI0 was reserved with input RAW10 and output
PLAIN8, a pair that `cam_tfe_csid_get_format_rdi` rejects. -/
def hw_rdi0_bad_format : cam_tfe_csid_hw :=
  (cam_tfe_csid_reserve sample_defs sample_hw
    { sample_reserve CAM_TFE_CSID_PATH_RES_RDI_0 sample_in_port with
      out_port_format := .CAM_FORMAT_PLAIN8 } true).2.1

/-- The sample device after IPP was reserved with both bayer and QCFA binning
requested (the platform supports QCFA). -/
def hw_ipp_both_bin : cam_tfe_csid_hw :=
  (cam_tfe_csid_reserve sample_defs sample_hw
    (sample_reserve CAM_TFE_CSID_PATH_RES_IPP { sample_in_port with bayer_bin := 1, qcfa_bin := 1 })
    true).2.1

/-- The sample device with RDI0 streaming: reserve, init, start. -/
def hw_streaming_rdi0 : cam_tfe_csid_hw :=
  (cam_tfe_csid_start sample_defs
    (cam_tfe_csid_init_hw sample_defs (hw_reserved_rdi0 sample_in_port)
      CAM_TFE_CSID_PATH_RES_RDI_0 init_ok).2
    CAM_TFE_CSID_PATH_RES_RDI_0 (fun _ => 1)).2

/-- Stop arguments naming RDI0 only. -/
def stop_rdi0 (stop_cmd : Nat) : cam_tfe_csid_hw_stop_args :=
  { node_res := [CAM_TFE_CSID_PATH_RES_RDI_0], stop_cmd := stop_cmd }

/-- Services that all succeed during `cam_tfe_csid_disable_hw`. -/
def disable_ok : disable_hw_env := { reset := reset_ok, soc_rc := 0 }

/-- The reservation of RDI0 with QCFA binning requested. -/
def qcfa_reserve : cam_tfe_csid_hw_reserve_resource_args :=
  sample_reserve CAM_TFE_CSID_PATH_RES_RDI_0 { sample_in_port with qcfa_bin := 1 }

/-- State of the node behind handle `p`. -/
def path_state (csid_hw : cam_tfe_csid_hw) (p : Nat) : cam_isp_resource_state :=
  (get_res csid_hw p).res_state

/-- The register description has registers for path `res_id`: `ipp_reg` for
the pixel path, `rdi_reg[res_id]` for an RDI path. -/
def path_regs_present (csid_reg : cam_tfe_csid_reg_offset) (res_id : Nat) : Bool :=
  if res_id = CAM_TFE_CSID_PATH_RES_IPP then csid_reg.ipp_reg.isSome
  else (csid_reg.rdi_reg res_id).isSome

/-- The sample device after IPP was reserved with `sample_in_port`. -/
def hw_reserved_ipp : cam_tfe_csid_hw :=
  (cam_tfe_csid_reserve sample_defs sample_hw
    (sample_reserve CAM_TFE_CSID_PATH_RES_IPP sample_in_port) true).2.1

/-- The sample device after RDI0 was reserved and initialised. -/
def hw_init_rdi0 : cam_tfe_csid_hw :=
  (cam_tfe_csid_init_hw sample_defs (hw_reserved_rdi0 sample_in_port)
    CAM_TFE_CSID_PATH_RES_RDI_0 init_ok).2

/-! ## Time stamps (`cam_tfe_csid_get_time_stamp`) -/

/-- The kernel helper `mul_u64_u32_div(a, mul, divisor)`: the quotient
`a * mul / divisor` of the full-width product, delivered as a `u64`. -/
def mul_u64_u32_div (a mul divisor : Nat) : Nat := u64 (a * mul / divisor)

/-- The argument block `struct cam_tfe_csid_get_time_stamp_args`; `node_res`
is the handle of the path. -/
structure cam_tfe_csid_get_time_stamp_args where
  node_res : Nat
  get_prev_timestamp : Bool
  time_stamp_val : Nat
  prev_time_stamp_val : Nat
  boot_timestamp : Nat
deriving DecidableEq, Repr, Inhabited

/-- What the hardware and the kernel deliver during one call of
`cam_tfe_csid_get_time_stamp`: the 64-bit tick values that
`__cam_tfe_csid_read_timestamp` stores for the current and for the previous
SOF of the path, and the boot clock
`(uint64_t)(ts.tv_sec * 1000000000 + ts.tv_nsec)`. -/
structure time_stamp_env where
  curr_sof : Nat
  prev_sof : Nat
  boottime : Nat
deriving DecidableEq, Repr, Inhabited

/-- Translation of `cam_tfe_csid_get_time_stamp` for a handle of resource
type `CAM_ISP_RESOURCE_PIX_PATH`; the result carries the argument block as the
function leaves it. -/
def cam_tfe_csid_get_time_stamp (csid_hw : cam_tfe_csid_hw)
    (time_stamp : cam_tfe_csid_get_time_stamp_args) (env : time_stamp_env) :
    Int × cam_tfe_csid_hw × cam_tfe_csid_get_time_stamp_args :=
  if time_stamp.node_res ≥ CAM_TFE_CSID_PATH_RES_MAX then (-EINVAL, csid_hw, time_stamp)
  else if csid_hw.hw_state ≠ .CAM_HW_STATE_POWER_UP then (-EINVAL, csid_hw, time_stamp)
  else
    let ts1 : cam_tfe_csid_get_time_stamp_args :=
      { time_stamp with time_stamp_val := u64 env.curr_sof }
    let ts2 : cam_tfe_csid_get_time_stamp_args :=
      if ts1.get_prev_timestamp then { ts1 with prev_time_stamp_val := u64 env.prev_sof }
      else ts1
    let ts3 : cam_tfe_csid_get_time_stamp_args :=
      { ts2 with
        time_stamp_val := mul_u64_u32_div ts2.time_stamp_val
          CAM_TFE_CSID_QTIMER_MUL_FACTOR CAM_TFE_CSID_QTIMER_DIV_FACTOR }
    let ts4 : cam_tfe_csid_get_time_stamp_args :=
      if ts3.get_prev_timestamp then
        { ts3 with
          prev_time_stamp_val := mul_u64_u32_div ts3.prev_time_stamp_val
            CAM_TFE_CSID_QTIMER_MUL_FACTOR CAM_TFE_CSID_QTIMER_DIV_FACTOR }
      else ts3
    if csid_hw.prev_boot_timestamp = 0 then
      let ts5 : cam_tfe_csid_get_time_stamp_args :=
        { ts4 with boot_timestamp := u64 env.boottime }
      let hw1 : cam_tfe_csid_hw := { csid_hw with prev_qtimer_ts := 0 }
      (0, { hw1 with
            prev_qtimer_ts := ts5.time_stamp_val
            prev_boot_timestamp := ts5.boot_timestamp }, ts5)
    else
      let time_delta : Nat := u64_sub ts4.time_stamp_val csid_hw.prev_qtimer_ts
      if csid_hw.prev_boot_timestamp > U64_MAX - time_delta then (-EINVAL, csid_hw, ts4)
      else
        let ts5 : cam_tfe_csid_get_time_stamp_args :=
          { ts4 with boot_timestamp := u64 (csid_hw.prev_boot_timestamp + time_delta) }
        (0, { csid_hw with
              prev_qtimer_ts := ts5.time_stamp_val
              prev_boot_timestamp := ts5.boot_timestamp }, ts5)

/-- The conversion of ticks that the specification calls `convert`:
`floor(x * 10000 / 192)`. -/
def spec_convert (x : Nat) : Nat := x * 10000 / 192

/-! ## Initial frame drop (`cam_tfe_csid_enable_path_for_init_frame_drop`) -/

/-- Translation of `cam_tfe_csid_enable_path_for_init_frame_drop`. -/
def cam_tfe_csid_enable_path_for_init_frame_drop (K : csid_defs)
    (csid_hw : cam_tfe_csid_hw) (res_id : Nat) : cam_tfe_csid_hw :=
  if res_id ≠ CAM_TFE_CSID_PATH_RES_IPP ∧
      ¬ (res_id ≥ CAM_TFE_CSID_PATH_RES_RDI_0 ∧ res_id ≤ CAM_TFE_CSID_PATH_RES_RDI_2) then
    csid_hw
  else
    let res := get_res csid_hw res_id
    let pxl_reg : Option cam_tfe_csid_pxl_reg_offset :=
      if res_id = CAM_TFE_CSID_PATH_RES_IPP then csid_hw.csid_reg.ipp_reg else none
    let rdi_reg : Option cam_tfe_csid_rdi_reg_offset :=
      if res_id = CAM_TFE_CSID_PATH_RES_IPP then none else csid_hw.csid_reg.rdi_reg res_id
    if res.res_priv.init_frame_drop = 0 then csid_hw
    else if res.res_state ≠ .STREAMING then csid_hw
    else
      let path_data : cam_tfe_csid_path_cfg :=
        { res.res_priv with res_sof_cnt := u32 (res.res_priv.res_sof_cnt + 1) }
      let hw1 := set_res csid_hw res_id { res with res_priv := path_data }
      if u32 (path_data.res_sof_cnt + 1) < path_data.res_sof_cnt then hw1
      else if path_data.res_sof_cnt = path_data.init_frame_drop ∧ pxl_reg ≠ none then
        let hw2 :=
          if path_data.sync_mode ≠ .CAM_ISP_HW_SYNC_SLAVE then
            cam_io_w_mb
              (cam_io_r_mb .csid_pxl_ctrl_addr hw1 ||| CAM_TFE_CSID_RESUME_AT_FRAME_BOUNDARY)
              .csid_pxl_ctrl_addr hw1
          else hw1
        if csid_hw.csid_debug &&& K.TFE_CSID_DEBUG_ENABLE_SOF_IRQ = 0 then
          cam_io_w_mb
            (cam_io_r_mb .csid_pxl_irq_mask_addr hw2 &&& u32_not K.TFE_CSID_PATH_INFO_INPUT_SOF)
            .csid_pxl_irq_mask_addr hw2
        else hw2
      else if path_data.res_sof_cnt = path_data.init_frame_drop ∧ rdi_reg ≠ none then
        let hw2 :=
          cam_io_w_mb CAM_TFE_CSID_RESUME_AT_FRAME_BOUNDARY (.csid_rdi_ctrl_addr res_id) hw1
        if csid_hw.csid_debug &&& K.TFE_CSID_DEBUG_ENABLE_SOF_IRQ = 0 then
          cam_io_w_mb
            (cam_io_r_mb (.csid_rdi_irq_mask_addr res_id) hw2 &&&
              u32_not K.TFE_CSID_PATH_INFO_INPUT_SOF)
            (.csid_rdi_irq_mask_addr res_id) hw2
        else hw2
      else hw1

/-- The device after `n` SOF interrupts of the path `res_id`, each of which
runs `cam_tfe_csid_enable_path_for_init_frame_drop` once. -/
def sof_session (K : csid_defs) (csid_hw : cam_tfe_csid_hw) (res_id : Nat) :
    Nat → cam_tfe_csid_hw
  | 0 => csid_hw
  | n + 1 => cam_tfe_csid_enable_path_for_init_frame_drop K (sof_session K csid_hw res_id n) res_id

/-- Number of resume-at-frame-boundary writes to the control register of the
RDI path `res_id` in the write log. -/
def rdi_resume_writes (csid_hw : cam_tfe_csid_hw) (res_id : Nat) : Nat :=
  csid_hw.regs.count (csid_reg_addr.csid_rdi_ctrl_addr res_id, CAM_TFE_CSID_RESUME_AT_FRAME_BOUNDARY)

/-- Whether the `n`-th SOF interrupt (`n ≥ 1`) of a session that starts in
`csid_hw` issues the resume write of the RDI path `res_id`. -/
def resume_issued_at (K : csid_defs) (csid_hw : cam_tfe_csid_hw) (res_id n : Nat) : Bool :=
  decide (rdi_resume_writes (sof_session K csid_hw res_id n) res_id >
    rdi_resume_writes (sof_session K csid_hw res_id (n - 1)) res_id)

/-! ## Event payloads and the bottom half -/

/-- Translation of `cam_tfe_csid_get_evt_payload`: the first entry of the free
list is taken off the list. -/
def cam_tfe_csid_get_evt_payload (csid_hw : cam_tfe_csid_hw) :
    Int × cam_tfe_csid_hw × Option Nat :=
  match csid_hw.free_payload_list with
  | [] => (-ENOMEM, csid_hw, none)
  | slot :: rest => (0, { csid_hw with free_payload_list := rest }, some slot)

/-- Translation of `cam_tfe_csid_put_evt_payload`: the payload is appended to
the free list. -/
def cam_tfe_csid_put_evt_payload (csid_hw : cam_tfe_csid_hw) (evt_payload : Option Nat) :
    Int × cam_tfe_csid_hw :=
  match evt_payload with
  | none => (-EINVAL, csid_hw)
  | some slot => (0, { csid_hw with free_payload_list := csid_hw.free_payload_list ++ [slot] })

/-- Answer of the deferred scheduler to `get_bh_payload_func`: the return code
and whether a task handle `bh_cmd` was delivered. -/
structure bh_payload_env where
  rc : Int
  bh_cmd : Bool
deriving DecidableEq, Repr, Inhabited

/-- Translation of `cam_tfe_csid_handle_hw_err_irq`.  A payload that
`bottom_half_enqueue_func` accepts is appended to `tasklet_queue` with the
contents stored at that moment. -/
def cam_tfe_csid_handle_hw_err_irq (csid_hw : cam_tfe_csid_hw)
    (evt_type : cam_isp_hw_err_type) (irq_status : csid_irq_status) (bh : bh_payload_env) :
    Int × cam_tfe_csid_hw :=
  match cam_tfe_csid_get_evt_payload csid_hw with
  | (rc, hw1, evt_payload) =>
    if rc ≠ 0 then (rc, hw1)
    else if bh.rc ≠ 0 ∨ bh.bh_cmd = false then (bh.rc, hw1)
    else
      (bh.rc,
        { hw1 with
          tasklet_queue := hw1.tasklet_queue ++
            [{ slot := evt_payload.getD 0, evt_type := evt_type, irq_status := irq_status
               hw_idx := hw1.hw_idx, priv := hw1.event_cb_priv }] })

/-- Translation of `cam_tfe_csid_evt_bottom_half_handler` for a device and a
payload that are not `NULL`; a call of the registered callback is appended to
`event_cb_calls`. -/
def cam_tfe_csid_evt_bottom_half_handler (csid_hw : cam_tfe_csid_hw)
    (evt_payload : cam_csid_evt_payload) : Int × cam_tfe_csid_hw :=
  let hw1 : cam_tfe_csid_hw :=
    if csid_hw.event_cb = none ∨ csid_hw.event_cb_priv = none then csid_hw
    else if csid_hw.event_cb_priv ≠ evt_payload.priv then csid_hw
    else
      match evt_payload.evt_type with
      | .CAM_ISP_HW_ERROR_CSID_FATAL =>
        if csid_hw.fatal_err_detected then csid_hw
        else
          { csid_hw with
            fatal_err_detected := true
            event_cb_calls := csid_hw.event_cb_calls ++
              [{ event_cb := csid_hw.event_cb.getD 0
                 err_type := evt_payload.evt_type
                 hw_idx := evt_payload.hw_idx }] }
      | _ => csid_hw
  (0, (cam_tfe_csid_put_evt_payload hw1 (some evt_payload.slot)).2)

/-- The deferred scheduler runs the oldest submitted event: it takes the
payload off its queue and calls `cam_tfe_csid_evt_bottom_half_handler`. -/
def tasklet_dispatch (csid_hw : cam_tfe_csid_hw) : cam_tfe_csid_hw :=
  match csid_hw.tasklet_queue with
  | [] => csid_hw
  | evt_payload :: rest =>
    (cam_tfe_csid_evt_bottom_half_handler { csid_hw with tasklet_queue := rest } evt_payload).2

/-! ## SOF interrupt debugging (`cam_tfe_csid_sof_irq_debug`) -/

/-- The update of one interrupt mask register in
`cam_tfe_csid_sof_irq_debug`: a mask that reads as non-zero gets the SOF bit
set or cleared. -/
def sof_irq_debug_mask (K : csid_defs) (sof_irq_enable : Bool) (addr : csid_reg_addr)
    (csid_hw : cam_tfe_csid_hw) : cam_tfe_csid_hw :=
  let val := cam_io_r_mb addr csid_hw
  if val ≠ 0 then
    cam_io_w_mb
      (if sof_irq_enable then val ||| K.TFE_CSID_PATH_INFO_INPUT_SOF
       else val &&& u32_not K.TFE_CSID_PATH_INFO_INPUT_SOF)
      addr csid_hw
  else csid_hw

/-- Translation of `cam_tfe_csid_sof_irq_debug`; `cmd_args` is the value the
argument points to. -/
def cam_tfe_csid_sof_irq_debug (K : csid_defs) (csid_hw : cam_tfe_csid_hw) (cmd_args : Nat) :
    Int × cam_tfe_csid_hw :=
  let sof_irq_enable : Bool := decide (cmd_args = 1)
  if csid_hw.hw_state = .CAM_HW_STATE_POWER_DOWN then (0, csid_hw)
  else
    let hw1 :=
      if csid_hw.csid_reg.ipp_reg ≠ none then
        sof_irq_debug_mask K sof_irq_enable .csid_pxl_irq_mask_addr csid_hw
      else csid_hw
    let hw2 :=
      for_rdis (fun i h => sof_irq_debug_mask K sof_irq_enable (.csid_rdi_irq_mask_addr i) h)
        0 csid_hw.csid_reg.cmn_reg.num_rdis hw1
    if sof_irq_enable then
      (0, { hw2 with
            csid_debug := hw2.csid_debug ||| K.TFE_CSID_DEBUG_ENABLE_SOF_IRQ
            sof_irq_triggered := true })
    else
      (0, { hw2 with
            csid_debug := hw2.csid_debug &&& u32_not K.TFE_CSID_DEBUG_ENABLE_SOF_IRQ
            sof_irq_triggered := false })

/-! ## Interrupt handler (`cam_tfe_csid_irq`) -/

/-- The local flags of `cam_tfe_csid_irq`. -/
structure irq_locals where
  fatal_err_detected : Bool
  is_error_irq : Bool
  log_en : Bool
deriving DecidableEq, Repr, Inhabited

/-- What the hardware and the deferred scheduler deliver during one
interrupt: the status words read at the start (the `IPP` word and the words
of absent RDI paths are whatever the stack holds when the handler does not
read them), and the answers to the `get_bh_payload_func` call for the fatal
event and for the generic event. -/
structure csid_irq_env where
  irq_status : csid_irq_status
  bh_fatal : bh_payload_env
  bh_none : bh_payload_env
deriving DecidableEq, Repr, Inhabited

/-- `complete(&c)`: the completion is logged. -/
def complete (c : csid_completion) (csid_hw : cam_tfe_csid_hw) : cam_tfe_csid_hw :=
  { csid_hw with completions := csid_hw.completions ++ [c] }

/-- The "clear" block of `cam_tfe_csid_irq` and the two completions that
follow it. -/
def cam_tfe_csid_irq_clear (csid_hw : cam_tfe_csid_hw) (irq_status : csid_irq_status) :
    cam_tfe_csid_hw :=
  let csid_reg := csid_hw.csid_reg
  let hw1 := cam_io_w_mb irq_status.top .csid_top_irq_clear_addr csid_hw
  let hw2 := cam_io_w_mb irq_status.rx .csid_csi2_rx_irq_clear_addr hw1
  let hw3 :=
    if hw2.pxl_pipe_enable then cam_io_w_mb irq_status.ipp .csid_pxl_irq_clear_addr hw2
    else hw2
  let hw4 :=
    for_rdis (fun i h => cam_io_w_mb (irq_status.rdi i) (.csid_rdi_irq_clear_addr i) h)
      0 csid_reg.cmn_reg.num_rdis hw3
  let hw5 := cam_io_w_mb 1 .csid_irq_cmd_addr hw4
  let hw6 := if irq_status.top ≠ 0 then complete .csid_top_complete hw5 else hw5
  if irq_status.rx &&& 2 ^ csid_reg.csi2_reg.csi2_rst_done_shift_val ≠ 0 then
    complete .csid_csi2_complete hw6
  else hw6

/-- One soft-error test of the receiver status: `csid_hw->error_irq_count++`
when `bit` is set in `rx`. -/
def count_soft_error (rx bit : Nat) (csid_hw : cam_tfe_csid_hw) : cam_tfe_csid_hw :=
  if rx &&& bit ≠ 0 then
    { csid_hw with error_irq_count := u32 (csid_hw.error_irq_count + 1) }
  else csid_hw

/-- The block of `cam_tfe_csid_irq` under the spin lock: the tests of the
receiver status up to the label `handle_fatal_error`. -/
def cam_tfe_csid_irq_rx_errors (K : csid_defs) (csid_hw : cam_tfe_csid_hw) (rx : Nat) :
    cam_tfe_csid_hw × irq_locals :=
  let l0 : irq_locals := { fatal_err_detected := false, is_error_irq := false, log_en := false }
  if csid_hw.device_enabled = 1 then
    if rx &&& K.TFE_CSID_CSI2_RX_ERROR_LANE0_FIFO_OVERFLOW ≠ 0 then
      (csid_hw, { l0 with fatal_err_detected := true })
    else if rx &&& K.TFE_CSID_CSI2_RX_ERROR_LANE1_FIFO_OVERFLOW ≠ 0 then
      (csid_hw, { l0 with fatal_err_detected := true })
    else if rx &&& K.TFE_CSID_CSI2_RX_ERROR_LANE2_FIFO_OVERFLOW ≠ 0 then
      (csid_hw, { l0 with fatal_err_detected := true })
    else if rx &&& K.TFE_CSID_CSI2_RX_ERROR_LANE3_FIFO_OVERFLOW ≠ 0 then
      (csid_hw, { l0 with fatal_err_detected := true })
    else
      let hw1 := count_soft_error rx K.TFE_CSID_CSI2_RX_ERROR_CPHY_EOT_RECEPTION csid_hw
      let hw2 := count_soft_error rx K.TFE_CSID_CSI2_RX_ERROR_CPHY_SOT_RECEPTION hw1
      let hw3 := count_soft_error rx K.TFE_CSID_CSI2_RX_ERROR_STREAM_UNDERFLOW hw2
      let hw4 := count_soft_error rx K.TFE_CSID_CSI2_RX_ERROR_UNBOUNDED_FRAME hw3
      (hw4,
        { l0 with
          is_error_irq :=
            decide (rx &&& K.TFE_CSID_CSI2_RX_ERROR_CRC ≠ 0 ∨
              rx &&& K.TFE_CSID_CSI2_RX_ERROR_ECC ≠ 0 ∨
              rx &&& K.TFE_CSID_CSI2_RX_ERROR_MMAPPED_VC_DT ≠ 0) })
  else (csid_hw, l0)

/-- The two tests of `cam_tfe_csid_irq` right after the label
`handle_fatal_error`: a pending error count or a fatal error marks the
interrupt as an error interrupt, and a count above
`CAM_TFE_CSID_MAX_IRQ_ERROR_COUNT` becomes a fatal error and is reset. -/
def cam_tfe_csid_irq_threshold (csid_hw : cam_tfe_csid_hw) (l : irq_locals) :
    cam_tfe_csid_hw × irq_locals :=
  let l1 : irq_locals :=
    if csid_hw.error_irq_count ≠ 0 ∨ l.fatal_err_detected then { l with is_error_irq := true }
    else l
  if csid_hw.error_irq_count > CAM_TFE_CSID_MAX_IRQ_ERROR_COUNT then
    ({ csid_hw with error_irq_count := 0 }, { l1 with fatal_err_detected := true })
  else (csid_hw, l1)

/-- The body of `if (fatal_err_detected)` in `cam_tfe_csid_irq`: the receiver
is stopped, the PHY is asked for a register dump and the fatal event is
submitted. -/
def cam_tfe_csid_irq_fatal_stop (csid_hw : cam_tfe_csid_hw) (irq_status : csid_irq_status)
    (bh : bh_payload_env) : cam_tfe_csid_hw :=
  let hw2 := cam_io_w_mb 0 .csid_csi2_rx_cfg0_addr csid_hw
  let hw3 := cam_io_w_mb 0 .csid_csi2_rx_cfg1_addr hw2
  let hw4 := cam_io_w_mb 0 .csid_csi2_rx_irq_mask_addr hw3
  let hw5 : cam_tfe_csid_hw :=
    if hw4.csi2_rx_cfg.phy_sel > 0 then
      { hw4 with phy_notify := hw4.phy_notify ++ [u32_sub hw4.csi2_rx_cfg.phy_sel 1] }
    else hw4
  (cam_tfe_csid_handle_hw_err_irq hw5 .CAM_ISP_HW_ERROR_CSID_FATAL irq_status bh).2

/-- The block of `cam_tfe_csid_irq` from the label `handle_fatal_error` to
the submission of the fatal event. -/
def cam_tfe_csid_irq_handle_fatal (csid_hw : cam_tfe_csid_hw) (l : irq_locals)
    (irq_status : csid_irq_status) (bh : bh_payload_env) : cam_tfe_csid_hw × irq_locals :=
  let s := cam_tfe_csid_irq_threshold csid_hw l
  if s.2.fatal_err_detected then (cam_tfe_csid_irq_fatal_stop s.1 irq_status bh, s.2)
  else s

/-- One packet-capture block of `cam_tfe_csid_irq`: with the debug flag and
the capture bit set, the strobe that re-arms the capture is written. -/
def irq_capture_rearm (debug_flag info_bit shift rx : Nat) (csid_hw : cam_tfe_csid_hw) :
    cam_tfe_csid_hw :=
  if csid_hw.csid_debug &&& debug_flag ≠ 0 ∧ rx &&& info_bit ≠ 0 then
    cam_io_w_mb (u32 (1 <<< shift)) .csid_csi2_rx_rst_strobes_addr csid_hw
  else csid_hw

/-- The three packet-capture blocks of `cam_tfe_csid_irq`. -/
def cam_tfe_csid_irq_capture (K : csid_defs) (csid_hw : cam_tfe_csid_hw) (rx : Nat) :
    cam_tfe_csid_hw :=
  let csi2_reg := csid_hw.csid_reg.csi2_reg
  let hw1 := irq_capture_rearm K.TFE_CSID_DEBUG_ENABLE_LONG_PKT_CAPTURE
    K.TFE_CSID_CSI2_RX_INFO_LONG_PKT_CAPTURED csi2_reg.csi2_rx_long_pkt_hdr_rst_stb_shift rx
    csid_hw
  let hw2 := irq_capture_rearm K.TFE_CSID_DEBUG_ENABLE_SHORT_PKT_CAPTURE
    K.TFE_CSID_CSI2_RX_INFO_SHORT_PKT_CAPTURED csi2_reg.csi2_rx_short_pkt_hdr_rst_stb_shift rx
    hw1
  irq_capture_rearm K.TFE_CSID_DEBUG_ENABLE_CPHY_PKT_CAPTURE
    K.TFE_CSID_CSI2_RX_INFO_CPHY_PKT_HDR_CAPTURED csi2_reg.csi2_rx_cphy_pkt_hdr_rst_stb_shift rx
    hw2

/-- The SOF debug block of a path in `cam_tfe_csid_irq`: with the SOF bit and
the SOF debug flag set, a triggered SOF freeze sets `log_en` and counts the
interrupt. -/
def irq_sof_debug (K : csid_defs) (status : Nat) (s : cam_tfe_csid_hw × irq_locals) :
    cam_tfe_csid_hw × irq_locals :=
  if status &&& K.TFE_CSID_PATH_INFO_INPUT_SOF ≠ 0 ∧
      s.1.csid_debug &&& K.TFE_CSID_DEBUG_ENABLE_SOF_IRQ ≠ 0 then
    if s.1.sof_irq_triggered then
      ({ s.1 with irq_debug_cnt := u32 (s.1.irq_debug_cnt + 1) }, { s.2 with log_en := true })
    else s
  else s

/-- The block "read the IPP errors" of `cam_tfe_csid_irq`. -/
def cam_tfe_csid_irq_ipp (K : csid_defs) (ipp : Nat) (s : cam_tfe_csid_hw × irq_locals) :
    cam_tfe_csid_hw × irq_locals :=
  if s.1.pxl_pipe_enable then
    let hw1 :=
      if ipp &&& 2 ^ s.1.csid_reg.cmn_reg.path_rst_done_shift_val ≠ 0 then
        complete .csid_ipp_complete s.1
      else s.1
    let s2 := irq_sof_debug K ipp (hw1, s.2)
    let s3 : cam_tfe_csid_hw × irq_locals :=
      if ipp &&& K.TFE_CSID_PATH_ERROR_FIFO_OVERFLOW ≠ 0 then
        (cam_io_w_mb CAM_TFE_CSID_HALT_IMMEDIATELY .csid_pxl_ctrl_addr s2.1,
          { s2.2 with is_error_irq := true })
      else s2
    if ipp &&& K.TFE_CSID_PATH_IPP_ERROR_CCIF_VIOLATION ≠ 0 then
      (s3.1, { s3.2 with is_error_irq := true })
    else s3
  else s

/-- The body of the loop over the RDI paths in `cam_tfe_csid_irq` for the
path `i`. -/
def cam_tfe_csid_irq_rdi (K : csid_defs) (irq_status : csid_irq_status) (i : Nat)
    (s : cam_tfe_csid_hw × irq_locals) : cam_tfe_csid_hw × irq_locals :=
  let status := irq_status.rdi i
  let hw1 :=
    if status &&& 2 ^ s.1.csid_reg.cmn_reg.path_rst_done_shift_val ≠ 0 then
      complete (.csid_rdin_complete i) s.1
    else s.1
  let hw2 :=
    if status &&& K.TFE_CSID_PATH_INFO_INPUT_SOF ≠ 0 then
      cam_tfe_csid_enable_path_for_init_frame_drop K hw1 i
    else hw1
  let s3 := irq_sof_debug K status (hw2, s.2)
  let s4 : cam_tfe_csid_hw × irq_locals :=
    if status &&& K.TFE_CSID_PATH_ERROR_FIFO_OVERFLOW ≠ 0 then
      (cam_io_w_mb CAM_TFE_CSID_HALT_IMMEDIATELY (.csid_rdi_ctrl_addr i) s3.1,
        { s3.2 with is_error_irq := true })
    else s3
  if status &&& K.TFE_CSID_PATH_RDI_OVERFLOW_IRQ ≠ 0 ∨
      status &&& K.TFE_CSID_PATH_RDI_ERROR_CCIF_VIOLATION ≠ 0 then
    (s4.1, { s4.2 with is_error_irq := true })
  else s4

/-- The loop `for (i = 0; i < num_rdis; i++)` over the RDI paths in
`cam_tfe_csid_irq`, at index `i` with `n` iterations left. -/
def cam_tfe_csid_irq_rdi_loop (K : csid_defs) (irq_status : csid_irq_status) (i : Nat) :
    Nat → cam_tfe_csid_hw × irq_locals → cam_tfe_csid_hw × irq_locals
  | 0, s => s
  | n + 1, s => cam_tfe_csid_irq_rdi_loop K irq_status (i + 1) n (cam_tfe_csid_irq_rdi K irq_status i s)

/-- The end of `cam_tfe_csid_irq`: the generic event is submitted when an
error or a SOF freeze was seen, and SOF debugging switches itself off after
`CAM_TFE_CSID_IRQ_SOF_DEBUG_CNT_MAX` interrupts. -/
def cam_tfe_csid_irq_finish (K : csid_defs) (irq_status : csid_irq_status)
    (bh : bh_payload_env) (s : cam_tfe_csid_hw × irq_locals) : cam_tfe_csid_hw :=
  let hw1 :=
    if s.2.is_error_irq ∨ s.2.log_en then
      (cam_tfe_csid_handle_hw_err_irq s.1 .CAM_ISP_HW_ERROR_NONE irq_status bh).2
    else s.1
  if hw1.irq_debug_cnt ≥ CAM_TFE_CSID_IRQ_SOF_DEBUG_CNT_MAX then
    { (cam_tfe_csid_sof_irq_debug K hw1 0).2 with irq_debug_cnt := 0 }
  else hw1

/-- Translation of `cam_tfe_csid_irq` for a device that is not `NULL`. -/
def cam_tfe_csid_irq (K : csid_defs) (csid_hw : cam_tfe_csid_hw) (env : csid_irq_env) :
    cam_tfe_csid_hw :=
  let irq_status := env.irq_status
  let hw1 := cam_tfe_csid_irq_clear csid_hw irq_status
  let s2 := cam_tfe_csid_irq_rx_errors K hw1 irq_status.rx
  let s3 := cam_tfe_csid_irq_handle_fatal s2.1 s2.2 irq_status env.bh_fatal
  let s4 : cam_tfe_csid_hw × irq_locals :=
    (cam_tfe_csid_irq_capture K s3.1 irq_status.rx, s3.2)
  let s5 := cam_tfe_csid_irq_ipp K irq_status.ipp s4
  let s6 := cam_tfe_csid_irq_rdi_loop K irq_status 0 csid_hw.csid_reg.cmn_reg.num_rdis s5
  cam_tfe_csid_irq_finish K irq_status env.bh_none s6

/-- A run of interrupts, oldest first. -/
def cam_tfe_csid_irq_run (K : csid_defs) :
    cam_tfe_csid_hw → List csid_irq_env → cam_tfe_csid_hw
  | csid_hw, [] => csid_hw
  | csid_hw, env :: rest => cam_tfe_csid_irq_run K (cam_tfe_csid_irq K csid_hw env) rest

/-! ## Scenarios for time stamps, resets and events -/

/-- A reset in which the poll of the top reset status times out while the
completion of the software-register reset is signalled in time. -/
def reset_poll_timeout : reset_env := { poll_rc := -ETIMEDOUT, complete_rc := 1 }

/-- A time-stamp request for RDI0 without the previous SOF time stamp. -/
def time_stamp_rdi0 : cam_tfe_csid_get_time_stamp_args :=
  { node_res := CAM_TFE_CSID_PATH_RES_RDI_0, get_prev_timestamp := false
    time_stamp_val := 0, prev_time_stamp_val := 0, boot_timestamp := 0 }

/-- The hardware delivers `ticks` for the current SOF while the boot clock
reads `boottime`. -/
def ticks_env (ticks boottime : Nat) : time_stamp_env :=
  { curr_sof := ticks, prev_sof := 0, boottime := boottime }

/-- The initialised sample device after a first time-stamp call that read
`11` ticks at boot time `1000`. -/
def hw_anchored : cam_tfe_csid_hw :=
  (cam_tfe_csid_get_time_stamp hw_init_rdi0 time_stamp_rdi0 (ticks_env 11 1000)).2.1

/-! ## Observations on the event state -/

/-- Whether a register is one of the three receiver registers that the fatal
handling of `cam_tfe_csid_irq` clears. -/
def is_rx_cfg_addr : csid_reg_addr → Bool
  | .csid_csi2_rx_cfg0_addr => true
  | .csid_csi2_rx_cfg1_addr => true
  | .csid_csi2_rx_irq_mask_addr => true
  | _ => false

/-- The writes to RX cfg0, RX cfg1 and the RX IRQ mask in the write log,
newest first. -/
def rx_writes (csid_hw : cam_tfe_csid_hw) : List (csid_reg_addr × Nat) :=
  csid_hw.regs.filter (fun p => is_rx_cfg_addr p.1)

/-- Number of `CAM_ISP_HW_ERROR_CSID_FATAL` events that wait in the deferred
scheduler. -/
def fatal_queued (csid_hw : cam_tfe_csid_hw) : Nat :=
  csid_hw.tasklet_queue.countP
    (fun p => decide (p.evt_type = cam_isp_hw_err_type.CAM_ISP_HW_ERROR_CSID_FATAL))

/-- The part of the device that the event handling reads and writes. -/
def evt_view (csid_hw : cam_tfe_csid_hw) :
    List cam_csid_evt_payload × List Nat × Nat × Nat × Bool × Option Nat × Option Nat × Nat ×
      List Nat × List csid_event_cb_call × cam_tfe_csid_csi2_rx_cfg ×
      List (csid_reg_addr × Nat) :=
  (csid_hw.tasklet_queue, csid_hw.free_payload_list, csid_hw.error_irq_count,
    csid_hw.device_enabled, csid_hw.fatal_err_detected, csid_hw.event_cb,
    csid_hw.event_cb_priv, csid_hw.hw_idx, csid_hw.phy_notify, csid_hw.event_cb_calls,
    csid_hw.csi2_rx_cfg, rx_writes csid_hw)

/-- The part of the event state that the submission of a generic event
leaves alone. -/
def fatal_view (csid_hw : cam_tfe_csid_hw) :
    Nat × Nat × Bool × List Nat × List (csid_reg_addr × Nat) × Nat :=
  (csid_hw.error_irq_count, csid_hw.device_enabled, csid_hw.fatal_err_detected,
    csid_hw.phy_notify, rx_writes csid_hw, fatal_queued csid_hw)

/-- Whether a receiver status word carries one of the four lane FIFO overflow
bits. -/
def lane_overflow (K : csid_defs) (rx : Nat) : Bool :=
  decide (rx &&& K.TFE_CSID_CSI2_RX_ERROR_LANE0_FIFO_OVERFLOW ≠ 0 ∨
    rx &&& K.TFE_CSID_CSI2_RX_ERROR_LANE1_FIFO_OVERFLOW ≠ 0 ∨
    rx &&& K.TFE_CSID_CSI2_RX_ERROR_LANE2_FIFO_OVERFLOW ≠ 0 ∨
    rx &&& K.TFE_CSID_CSI2_RX_ERROR_LANE3_FIFO_OVERFLOW ≠ 0)

/-- Number of qualifying soft-error bits (EOT reception, SOT reception,
stream underflow, unbounded frame) in a receiver status word. -/
def soft_error_bits (K : csid_defs) (rx : Nat) : Nat :=
  (if rx &&& K.TFE_CSID_CSI2_RX_ERROR_CPHY_EOT_RECEPTION ≠ 0 then 1 else 0) +
  (if rx &&& K.TFE_CSID_CSI2_RX_ERROR_CPHY_SOT_RECEPTION ≠ 0 then 1 else 0) +
  (if rx &&& K.TFE_CSID_CSI2_RX_ERROR_STREAM_UNDERFLOW ≠ 0 then 1 else 0) +
  (if rx &&& K.TFE_CSID_CSI2_RX_ERROR_UNBOUNDED_FRAME ≠ 0 then 1 else 0)

/-- The fatal part of the event state after the fatal handling of an
interrupt has run in `csid_hw` with the error count left at `count`: the three
receiver registers are written with `0`, the PHY is notified when `phy_sel`
is positive, and one fatal event is queued when a payload is free and the
scheduler delivers a task handle. -/
def fatal_view_after_stop (csid_hw : cam_tfe_csid_hw) (count : Nat) (bh : bh_payload_env) :
    Nat × Nat × Bool × List Nat × List (csid_reg_addr × Nat) × Nat :=
  (count, csid_hw.device_enabled, csid_hw.fatal_err_detected,
    csid_hw.phy_notify ++
      (if csid_hw.csi2_rx_cfg.phy_sel > 0 then [u32_sub csid_hw.csi2_rx_cfg.phy_sel 1] else []),
    (csid_reg_addr.csid_csi2_rx_irq_mask_addr, 0) :: (csid_reg_addr.csid_csi2_rx_cfg1_addr, 0) ::
      (csid_reg_addr.csid_csi2_rx_cfg0_addr, 0) :: rx_writes csid_hw,
    fatal_queued csid_hw +
      (if csid_hw.free_payload_list ≠ [] ∧ bh.rc = 0 ∧ bh.bh_cmd = true then 1 else 0))

/-- Sum of the qualifying soft-error bits of a run of interrupts. -/
def total_soft_error_bits (K : csid_defs) (l : List csid_irq_env) : Nat :=
  (l.map (fun e => soft_error_bits K e.irq_status.rx)).sum

/-- The deferred scheduler runs `n` submitted events. -/
def tasklet_dispatch_n : Nat → cam_tfe_csid_hw → cam_tfe_csid_hw
  | 0, csid_hw => csid_hw
  | n + 1, csid_hw => tasklet_dispatch_n n (tasklet_dispatch csid_hw)

/-- Whether every payload of the pool is on the free list or waits in the
queue of the deferred scheduler. -/
def payloads_accounted (csid_hw : cam_tfe_csid_hw) : Bool :=
  (List.range CAM_CSID_EVT_PAYLOAD_MAX).all
    (fun slot => csid_hw.free_payload_list.contains slot ||
      (csid_hw.tasklet_queue.map (fun p => p.slot)).contains slot)

/-- A scheduler that delivers a task handle. -/
def bh_ok : bh_payload_env := { rc := 0, bh_cmd := true }

/-- A scheduler that has no task handle left: `get_bh_payload_func` fails
with `-ENOMEM` and delivers no handle. -/
def bh_none_left : bh_payload_env := { rc := -ENOMEM, bh_cmd := false }

/-- An interrupt whose only status is the receiver status word `rx`, taken
while the scheduler delivers task handles. -/
def rx_irq (rx : Nat) : csid_irq_env :=
  { irq_status := { rdi0 := 0, rdi1 := 0, rdi2 := 0, top := 0, rx := rx, ipp := 0 }
    bh_fatal := bh_ok, bh_none := bh_ok }

/-- An interrupt that reports one EOT reception error. -/
def eot_irq : csid_irq_env := rx_irq sample_defs.TFE_CSID_CSI2_RX_ERROR_CPHY_EOT_RECEPTION

/-- An interrupt that reports a CRC error. -/
def crc_irq : csid_irq_env := rx_irq sample_defs.TFE_CSID_CSI2_RX_ERROR_CRC

/-- An interrupt that reports a FIFO overflow of lane 0. -/
def lane_irq : csid_irq_env := rx_irq sample_defs.TFE_CSID_CSI2_RX_ERROR_LANE0_FIFO_OVERFLOW

/-- The initialised sample device after eight interrupts with a CRC error
whose events the deferred scheduler has not run yet: no payload is free. -/
def hw_pool_exhausted : cam_tfe_csid_hw :=
  cam_tfe_csid_irq_run sample_defs hw_init_rdi0 (List.replicate 8 crc_irq)

/-- The initialised sample device after a lane FIFO overflow interrupt whose
fatal event the bottom half has delivered to the callback. -/
def hw_fatal_latched : cam_tfe_csid_hw :=
  tasklet_dispatch (cam_tfe_csid_irq sample_defs hw_init_rdi0 lane_irq)

/-- An input port like `sample_in_port` of a dual-sensor use case. -/
def dual_port : cam_isp_tfe_in_port_generic_info :=
  { sample_in_port with usage_type := sample_defs.CAM_ISP_TFE_IN_RES_USAGE_DUAL }

/-- The sample device with SOF interrupt logging switched on
(`TFE_CSID_DEBUG_ENABLE_SOF_IRQ` in `csid_debug`), after RDI0 was reserved for
a dual-sensor use case, initialised and started while the hardware reported
no active path: the path streams with one initial frame to drop, and the SOF
interrupt stays unmasked after the resume write. -/
def hw_streaming_rdi0_dual : cam_tfe_csid_hw :=
  (cam_tfe_csid_start sample_defs
    (cam_tfe_csid_init_hw sample_defs
      (cam_tfe_csid_reserve sample_defs
        { sample_hw with csid_debug := sample_defs.TFE_CSID_DEBUG_ENABLE_SOF_IRQ }
        (sample_reserve CAM_TFE_CSID_PATH_RES_RDI_0 dual_port) true).2.1
      CAM_TFE_CSID_PATH_RES_RDI_0 init_ok).2
    CAM_TFE_CSID_PATH_RES_RDI_0 (fun _ => 1)).2

/-- A run of interrupts that uses up the event payloads while the error
count climbs to the threshold: three CRC errors, then five EOT reception
errors. -/
def irqs_to_threshold : List csid_irq_env :=
  List.replicate 3 crc_irq ++ List.replicate 5 eot_irq

/-- The device `hw_fatal_latched` after its last path was powered down. -/
def hw_fatal_latched_off : cam_tfe_csid_hw :=
  (cam_tfe_csid_disable_hw hw_fatal_latched disable_ok).2

/-- A fatal event with the callback context `7` of `sample_reserve`. -/
def fatal_payload : cam_csid_evt_payload :=
  { slot := 0, evt_type := .CAM_ISP_HW_ERROR_CSID_FATAL, irq_status := lane_irq.irq_status
    hw_idx := 0, priv := some 7 }

/-! ## Reset of one path (`cam_tfe_csid_path_reset`, `cam_tfe_csid_reset`) -/

/-- Modelled from the spec: the kinds of reset a caller can ask for, `enum
cam_tfe_csid_reset_type` of `cam_tfe_csid_hw_intf.h` (`globalReset()` and
`pathReset(id)`); `OTHER` is any other value of the field. -/
inductive cam_tfe_csid_reset_type where
  | CAM_TFE_CSID_RESET_GLOBAL
  | CAM_TFE_CSID_RESET_PATH
  | OTHER (code : Nat)
deriving DecidableEq, Repr, Inhabited

/-- Modelled from the spec: the argument block `struct
cam_tfe_csid_reset_cfg_args` of `cam_tfe_csid_hw_intf.h`: the kind of reset
and, for the reset of one path, the handle of that path. -/
structure cam_tfe_csid_reset_cfg_args where
  reset_type : cam_tfe_csid_reset_type
  node_res : Nat
deriving DecidableEq, Repr, Inhabited

/-- The return code `cam_tfe_csid_path_reset` derives from the result of
`cam_common_wait_for_completion_timeout` on the completion of the path: `0`
(no signal within the bound) becomes `-ETIMEDOUT`, every other value is
returned as it is. -/
def cam_tfe_csid_path_reset_rc (complete_rc : Int) : Int :=
  if complete_rc ≤ 0 then
    (if complete_rc = 0 then -ETIMEDOUT else complete_rc)
  else complete_rc

/-- Translation of `cam_tfe_csid_path_reset`; `complete_rc` is the result of
`cam_common_wait_for_completion_timeout` on the completion of the path (the
time that was left when the signal arrived, `0` when it did not arrive). -/
def cam_tfe_csid_path_reset (K : csid_defs) (csid_hw : cam_tfe_csid_hw)
    (reset : cam_tfe_csid_reset_cfg_args) (complete_rc : Int) : Int × cam_tfe_csid_hw :=
  let csid_reg := csid_hw.csid_reg
  let res_id := reset.node_res
  if csid_hw.hw_state ≠ .CAM_HW_STATE_POWER_UP then (-EINVAL, csid_hw)
  else if res_id ≥ CAM_TFE_CSID_PATH_RES_MAX then (-EINVAL, csid_hw)
  else if res_id = CAM_TFE_CSID_PATH_RES_IPP then
    match csid_reg.ipp_reg with
    | none => (-EINVAL, csid_hw)
    | some _ =>
      let val := cam_io_r_mb .csid_pxl_irq_mask_addr csid_hw ||| K.TFE_CSID_PATH_INFO_RST_DONE
      let hw1 := cam_io_w_mb val .csid_pxl_irq_mask_addr csid_hw
      let hw2 := cam_io_w_mb csid_reg.cmn_reg.ipp_path_rst_stb_all .csid_pxl_rst_strobes_addr hw1
      (cam_tfe_csid_path_reset_rc complete_rc, hw2)
  else
    match csid_reg.rdi_reg res_id with
    | none => (-EINVAL, csid_hw)
    | some _ =>
      let val :=
        cam_io_r_mb (.csid_rdi_irq_mask_addr res_id) csid_hw ||| K.TFE_CSID_PATH_INFO_RST_DONE
      let hw1 := cam_io_w_mb val (.csid_rdi_irq_mask_addr res_id) csid_hw
      let hw2 := cam_io_w_mb csid_reg.cmn_reg.rdi_path_rst_stb_all
        (.csid_rdi_rst_strobes_addr res_id) hw1
      (cam_tfe_csid_path_reset_rc complete_rc, hw2)

/-- Translation of `cam_tfe_csid_reset` for arguments that are not `NULL`;
`env` carries what the hardware answers to the waits of the selected reset
(`complete_rc` is the result of the completion wait of either kind). -/
def cam_tfe_csid_reset (K : csid_defs) (csid_hw : cam_tfe_csid_hw)
    (reset : cam_tfe_csid_reset_cfg_args) (env : reset_env) : Int × cam_tfe_csid_hw :=
  match reset.reset_type with
  | .CAM_TFE_CSID_RESET_GLOBAL => cam_tfe_csid_global_reset csid_hw env
  | .CAM_TFE_CSID_RESET_PATH => cam_tfe_csid_path_reset K csid_hw reset env.complete_rc
  | _ => (-EINVAL, csid_hw)

/-- A request to reset the path `res_id`. -/
def path_reset_args (res_id : Nat) : cam_tfe_csid_reset_cfg_args :=
  { reset_type := .CAM_TFE_CSID_RESET_PATH, node_res := res_id }

/-- Number of writes of the reset strobe of path `res_id` in the write log. -/
def path_rst_strobes (csid_hw : cam_tfe_csid_hw) (res_id : Nat) : Nat :=
  (csid_hw.regs.filter (fun p =>
    decide (p.1 = (if res_id = CAM_TFE_CSID_PATH_RES_IPP then
      csid_reg_addr.csid_pxl_rst_strobes_addr
      else csid_reg_addr.csid_rdi_rst_strobes_addr res_id)))).length

/-- A completion wait that ends with `left` units of the bound unused. -/
def reset_done_with (left : Int) : reset_env := { poll_rc := 0, complete_rc := left }

/-- A completion wait that runs into its bound. -/
def reset_never_done : reset_env := { poll_rc := 0, complete_rc := 0 }

/-! ## Scenarios for path programming and path interrupts -/

/-- The sample device with IPP and RDI0 streaming: each path was reserved with
`sample_in_port`, initialised and started. -/
def hw_streaming_ipp_rdi0 : cam_tfe_csid_hw :=
  (cam_tfe_csid_start sample_defs
    (cam_tfe_csid_start sample_defs
      (cam_tfe_csid_init_hw sample_defs
        (cam_tfe_csid_init_hw sample_defs
          (cam_tfe_csid_reserve sample_defs hw_reserved_ipp
            (sample_reserve CAM_TFE_CSID_PATH_RES_RDI_0 sample_in_port) true).2.1
          CAM_TFE_CSID_PATH_RES_IPP init_ok).2
        CAM_TFE_CSID_PATH_RES_RDI_0 init_ok).2
      CAM_TFE_CSID_PATH_RES_IPP (fun _ => 1)).2
    CAM_TFE_CSID_PATH_RES_RDI_0 (fun _ => 1)).2

/-- An interrupt whose only status is the IPP status word `ipp`, taken while
the scheduler delivers task handles. -/
def ipp_irq (ipp : Nat) : csid_irq_env :=
  { irq_status := { rdi0 := 0, rdi1 := 0, rdi2 := 0, top := 0, rx := 0, ipp := ipp }
    bh_fatal := bh_ok, bh_none := bh_ok }

/-- An interrupt whose only status is the RDI0 status word `rdi0`, taken
while the scheduler delivers task handles. -/
def rdi0_irq (rdi0 : Nat) : csid_irq_env :=
  { irq_status := { rdi0 := rdi0, rdi1 := 0, rdi2 := 0, top := 0, rx := 0, ipp := 0 }
    bh_fatal := bh_ok, bh_none := bh_ok }

/-- Number of halt-immediately writes to the control register `addr` in the
write log. -/
def halt_writes (csid_hw : cam_tfe_csid_hw) (addr : csid_reg_addr) : Nat :=
  csid_hw.regs.count (addr, CAM_TFE_CSID_HALT_IMMEDIATELY)

/-- The kinds of the events that wait in the deferred scheduler, oldest
first. -/
def queued_events (csid_hw : cam_tfe_csid_hw) : List cam_isp_hw_err_type :=
  csid_hw.tasklet_queue.map (fun p => p.evt_type)

/-- The sample device after RDI0 was reserved for a dual-sensor use case and
initialised (no debug flag set). -/
def hw_init_rdi0_dual : cam_tfe_csid_hw :=
  (cam_tfe_csid_init_hw sample_defs (hw_reserved_rdi0 dual_port)
    CAM_TFE_CSID_PATH_RES_RDI_0 init_ok).2

/-- Path status words that report every path as active (`0`). -/
def all_paths_active : Nat → Nat := fun _ => 0

/-- Path status words that report no path as active. -/
def no_path_active : Nat → Nat := fun _ => 1

/-- The interrupt mask of the RDI path `res_id` as the driver wrote it last. -/
def rdi_irq_mask (csid_hw : cam_tfe_csid_hw) (res_id : Nat) : Nat :=
  cam_io_r_mb (.csid_rdi_irq_mask_addr res_id) csid_hw

/-- The interrupt mask that `cam_tfe_csid_enable_rdi_path` builds for a path
of the device: the four error and reset sources, the two format-measurement
errors when the hardware measures the format, the SOF source when `sof` holds
and the EOF source under the EOF debug flag. -/
def rdi_path_irq_mask (K : csid_defs) (csid_hw : cam_tfe_csid_hw) (sof : Bool) : Nat :=
  let irq0 : Nat :=
    K.TFE_CSID_PATH_INFO_RST_DONE ||| K.TFE_CSID_PATH_ERROR_FIFO_OVERFLOW |||
    K.TFE_CSID_PATH_RDI_ERROR_CCIF_VIOLATION ||| K.TFE_CSID_PATH_RDI_OVERFLOW_IRQ
  let irq1 : Nat :=
    if csid_hw.csid_reg.cmn_reg.format_measure_support then
      irq0 ||| (K.TFE_CSID_PATH_ERROR_PIX_COUNT ||| K.TFE_CSID_PATH_ERROR_LINE_COUNT)
    else irq0
  let irq2 : Nat := if sof then irq1 ||| K.TFE_CSID_PATH_INFO_INPUT_SOF else irq1
  if csid_hw.csid_debug &&& K.TFE_CSID_DEBUG_ENABLE_EOF_IRQ ≠ 0 then
    irq2 ||| K.TFE_CSID_PATH_INFO_INPUT_EOF
  else irq2

/-- An input port like `sample_in_port` whose right half differs from its
left half, as in a dual-sensor use case. -/
def split_port : cam_isp_tfe_in_port_generic_info :=
  { sample_in_port with
    left_start := 0, left_end := 959, left_width := 960
    right_start := 960, right_end := 1919, right_width := 960 }

/-- The path data of RDI0 after the sample device reserved it with the input
port `port` in the sync mode `sync_mode` (master index `2`). -/
def reserved_path_data (port : cam_isp_tfe_in_port_generic_info)
    (sync_mode : cam_isp_hw_sync_mode) : cam_tfe_csid_path_cfg :=
  ((cam_tfe_csid_reserve sample_defs sample_hw
    { sample_reserve CAM_TFE_CSID_PATH_RES_RDI_0 port with
      sync_mode := sync_mode, master_idx := 2 } true).2.1.rdi_res
    CAM_TFE_CSID_PATH_RES_RDI_0).res_priv

/-! ## Scenarios for the device-wide state -/

/-- Number of paths (RDI0, RDI1, RDI2, IPP) whose state is `INIT_HW` or
`STREAMING`. -/
def active_path_count (csid_hw : cam_tfe_csid_hw) : Nat :=
  ((List.range CAM_TFE_CSID_PATH_RES_MAX).filter (fun p =>
    decide (path_state csid_hw p = .INIT_HW ∨ path_state csid_hw p = .STREAMING))).length

/-- Services during `cam_tfe_csid_init_hw` where only the status poll of
`cam_tfe_csid_reset_retain_sw_reg` fails (it times out). -/
def init_retain_timeout : init_hw_env :=
  { init_ok with retain_poll_rc := -ETIMEDOUT }

/-- The sample device after RDI0 was reserved and `cam_tfe_csid_init_hw`
failed on it because the poll after the path programming timed out. -/
def hw_init_failed_rdi0 : cam_tfe_csid_hw :=
  (cam_tfe_csid_init_hw sample_defs (hw_reserved_rdi0 sample_in_port)
    CAM_TFE_CSID_PATH_RES_RDI_0 init_retain_timeout).2

/-- An input port like `sample_in_port` that names no lane at all. -/
def zero_lane_port : cam_isp_tfe_in_port_generic_info :=
  { sample_in_port with lane_num := 0 }

/-- The initialised sample device after one interrupt with an EOT reception
error whose generic event the bottom half has handled: one soft error is
counted and every payload is free again. -/
def hw_one_soft_error : cam_tfe_csid_hw :=
  tasklet_dispatch (cam_tfe_csid_irq sample_defs hw_init_rdi0 eot_irq)

/-- The part of the device that only reservation, release and the power
sequencing write: power state, open count, and the registered callback with
its context. -/
def ctl_view (csid_hw : cam_tfe_csid_hw) : cam_hw_state × Nat × Option Nat × Option Nat :=
  (csid_hw.hw_state, csid_hw.open_count, csid_hw.event_cb, csid_hw.event_cb_priv)

/-- The power part of the device: power state and open count. -/
def power_view (csid_hw : cam_tfe_csid_hw) : cam_hw_state × Nat :=
  (csid_hw.hw_state, csid_hw.open_count)

/-- The registered event callback and its context. -/
def cb_view (csid_hw : cam_tfe_csid_hw) : Option Nat × Option Nat :=
  (csid_hw.event_cb, csid_hw.event_cb_priv)

/-- The open count is a `uint32_t` and the block is powered up exactly when
the open count is positive. -/
def power_inv (csid_hw : cam_tfe_csid_hw) : Prop :=
  csid_hw.open_count ≤ UINT_MAX ∧
    (csid_hw.hw_state = .CAM_HW_STATE_POWER_UP ↔ csid_hw.open_count > 0)

/-- What the power sequencing does to the control state when it takes a
device `a` to a device `b`: the callback and its context stay, and the
invariant of the power state carries over. -/
def power_step (a b : cam_tfe_csid_hw) : Prop :=
  cb_view b = cb_view a ∧ (power_inv a → power_inv b)

/-- The SOF debug state that the interrupt handler reads: the debug mask and
the flag of a triggered SOF freeze. -/
def sof_dbg_view (csid_hw : cam_tfe_csid_hw) : Nat × Bool :=
  (csid_hw.csid_debug, csid_hw.sof_irq_triggered)

/-- Whether a receiver status word carries none of the bits that
`cam_tfe_csid_irq` tests under the device lock: the four lane overflows, the
four soft errors, and CRC, ECC and unmapped VC/DT. -/
def rx_error_free (K : csid_defs) (rx : Nat) : Bool :=
  !lane_overflow K rx && decide (soft_error_bits K rx = 0) &&
  decide (rx &&& K.TFE_CSID_CSI2_RX_ERROR_CRC = 0 ∧
    rx &&& K.TFE_CSID_CSI2_RX_ERROR_ECC = 0 ∧
    rx &&& K.TFE_CSID_CSI2_RX_ERROR_MMAPPED_VC_DT = 0)

/-- Whether an IPP status word carries neither the FIFO overflow bit nor the
protocol-violation bit. -/
def ipp_error_free (K : csid_defs) (ipp : Nat) : Bool :=
  decide (ipp &&& K.TFE_CSID_PATH_ERROR_FIFO_OVERFLOW = 0 ∧
    ipp &&& K.TFE_CSID_PATH_IPP_ERROR_CCIF_VIOLATION = 0)

/-- Whether an RDI status word carries none of FIFO overflow, overflow and
protocol violation. -/
def rdi_error_free (K : csid_defs) (status : Nat) : Bool :=
  decide (status &&& K.TFE_CSID_PATH_ERROR_FIFO_OVERFLOW = 0 ∧
    status &&& K.TFE_CSID_PATH_RDI_OVERFLOW_IRQ = 0 ∧
    status &&& K.TFE_CSID_PATH_RDI_ERROR_CCIF_VIOLATION = 0)

/-- Whether the six status words of an interrupt carry none of the bits that
`cam_tfe_csid_irq` treats as an error or as fatal. -/
def no_error_bits (K : csid_defs) (s : csid_irq_status) : Bool :=
  rx_error_free K s.rx && ipp_error_free K s.ipp &&
  rdi_error_free K s.rdi0 && rdi_error_free K s.rdi1 && rdi_error_free K s.rdi2

/-- Whether SOF debug logging is inactive: the SOF debug flag is clear or no
SOF freeze was triggered. -/
def sof_debug_inactive (K : csid_defs) (csid_hw : cam_tfe_csid_hw) : Bool :=
  decide (csid_hw.csid_debug &&& K.TFE_CSID_DEBUG_ENABLE_SOF_IRQ = 0 ∨
    csid_hw.sof_irq_triggered = false)

/-- Reading the node just stored through a handle returns that node. -/
theorem get_res_set_res_same (csid_hw : cam_tfe_csid_hw) (p : Nat) (n : cam_isp_resource_node) :
    get_res (set_res csid_hw p n) p = n := by
  unfold get_res set_res
  by_cases h : p = CAM_TFE_CSID_PATH_RES_IPP
  · simp [h]
  · simp [h]

/-- Two devices with the same node records have the same path states. -/
theorem path_state_eq_of (a b : cam_tfe_csid_hw) (h1 : a.ipp_res = b.ipp_res)
    (h2 : a.rdi_res = b.rdi_res) : path_state a = path_state b := by
  funext p
  unfold path_state get_res
  rw [h1, h2]

/-- A register write changes no path state. -/
theorem path_state_cam_io_w_mb (v : Nat) (a : csid_reg_addr) (csid_hw : cam_tfe_csid_hw) :
    path_state (cam_io_w_mb v a csid_hw) = path_state csid_hw := rfl

/-- Path states of a conditional whose branches agree on them. -/
theorem path_state_ite (c : Prop) [Decidable c] (a b : cam_tfe_csid_hw)
    (σ : Nat → cam_isp_resource_state) (ha : path_state a = σ) (hb : path_state b = σ) :
    path_state (if c then a else b) = σ := by
  split
  · exact ha
  · exact hb

/-- Clearing the SOF counter of an RDI node changes no path state. -/
theorem path_state_rdi_clear_sof_cnt (i : Nat) (csid_hw : cam_tfe_csid_hw) :
    path_state (rdi_clear_sof_cnt i csid_hw) = path_state csid_hw := by
  funext p
  unfold path_state get_res rdi_clear_sof_cnt
  by_cases h : p = CAM_TFE_CSID_PATH_RES_IPP
  · simp [h]
  · by_cases h2 : p = i
    · subst h2; simp [h]
    · simp [h, Function.update_noteq h2]

/-- Clearing the SOF counter of the IPP node changes no path state. -/
theorem path_state_ipp_clear_sof_cnt (csid_hw : cam_tfe_csid_hw) :
    path_state (ipp_clear_sof_cnt csid_hw) = path_state csid_hw := by
  funext p
  unfold path_state get_res ipp_clear_sof_cnt
  by_cases h : p = CAM_TFE_CSID_PATH_RES_IPP
  · simp [h]
  · simp [h]

/-- A property kept by every iteration is kept by the loop over the RDI
paths. -/
theorem for_rdis_preserves (P : cam_tfe_csid_hw → Prop)
    (f : Nat → cam_tfe_csid_hw → cam_tfe_csid_hw)
    (hf : ∀ i csid_hw, P csid_hw → P (f i csid_hw)) :
    ∀ (n i : Nat) (csid_hw : cam_tfe_csid_hw), P csid_hw → P (for_rdis f i n csid_hw) := by
  intro n
  induction n with
  | zero => intro i csid_hw h; exact h
  | succ n ih => intro i csid_hw h; exact ih (i + 1) (f i csid_hw) (hf i csid_hw h)

/-- A loop over the RDI paths whose body changes no path state changes none. -/
theorem path_state_for_rdis (f : Nat → cam_tfe_csid_hw → cam_tfe_csid_hw)
    (hf : ∀ i csid_hw, path_state (f i csid_hw) = path_state csid_hw)
    (n i : Nat) (csid_hw : cam_tfe_csid_hw) :
    path_state (for_rdis f i n csid_hw) = path_state csid_hw :=
  for_rdis_preserves (fun h => path_state h = path_state csid_hw) f
    (fun j h hh => (hf j h).trans hh) n i csid_hw rfl

/-- Masking all interrupts changes no path state. -/
theorem path_state_mask_all_interrupts (csid_hw : cam_tfe_csid_hw) :
    path_state (mask_all_interrupts csid_hw) = path_state csid_hw := by
  unfold mask_all_interrupts
  exact (path_state_for_rdis _ (fun i h => path_state_cam_io_w_mb _ _ h) _ _ _).trans
    (path_state_ite _ _ _ _ rfl rfl)

/-- Clearing all interrupts changes no path state. -/
theorem path_state_clear_all_interrupts (csid_hw : cam_tfe_csid_hw) :
    path_state (clear_all_interrupts csid_hw) = path_state csid_hw := by
  unfold clear_all_interrupts
  exact (path_state_cam_io_w_mb _ _ _).trans
    ((path_state_for_rdis _ (fun i h => path_state_cam_io_w_mb _ _ h) _ _ _).trans
      (path_state_ite _ _ _ _ rfl rfl))

/-- Zeroing the SOF counters changes no path state. -/
theorem path_state_reset_sof_counters (csid_hw : cam_tfe_csid_hw) :
    path_state (reset_sof_counters csid_hw) = path_state csid_hw := by
  unfold reset_sof_counters
  exact (path_state_for_rdis _ path_state_rdi_clear_sof_cnt _ _ _).trans
    (path_state_ite _ _ _ _ (path_state_ipp_clear_sof_cnt _) rfl)

/-- `cam_tfe_csid_global_reset` changes no path state. -/
theorem path_state_global_reset (csid_hw : cam_tfe_csid_hw) (env : reset_env) :
    path_state (cam_tfe_csid_global_reset csid_hw env).2 = path_state csid_hw := by
  unfold cam_tfe_csid_global_reset
  by_cases h : csid_hw.hw_state ≠ .CAM_HW_STATE_POWER_UP
  · rw [if_pos h]
  · rw [if_neg h]
    simp only [path_state_reset_sof_counters]
    refine (path_state_eq_of _
      (cam_io_w_mb csid_hw.csid_reg.cmn_reg.csid_reg_rst_stb .csid_rst_strobes_addr
        (cam_io_w_mb csid_hw.csid_reg.cmn_reg.csid_rst_stb .csid_rst_strobes_addr
          (cam_io_w_mb 0x80 .csid_csi2_rx_cfg1_addr
            (clear_all_interrupts (mask_all_interrupts csid_hw))))) rfl rfl).trans ?_
    simp only [path_state_cam_io_w_mb, path_state_clear_all_interrupts,
      path_state_mask_all_interrupts]

/-- `cam_tfe_csid_disable_csi2` changes no path state. -/
theorem path_state_disable_csi2 (csid_hw : cam_tfe_csid_hw) :
    path_state (cam_tfe_csid_disable_csi2 csid_hw).2 = path_state csid_hw := by
  unfold cam_tfe_csid_disable_csi2
  exact path_state_ite _ _ _ _ rfl rfl

/-- `cam_tfe_csid_disable_hw` changes no path state. -/
theorem path_state_disable_hw (csid_hw : cam_tfe_csid_hw) (env : disable_hw_env) :
    path_state (cam_tfe_csid_disable_hw csid_hw env).2 = path_state csid_hw := by
  unfold cam_tfe_csid_disable_hw
  by_cases h : csid_hw.open_count = 0
  · rw [if_pos h]
  · rw [if_neg h]
    by_cases h2 : csid_hw.open_count - 1 ≠ 0
    · simp only [if_pos h2]; rfl
    · simp only [if_neg h2]
      refine (path_state_eq_of _
        (cam_tfe_csid_global_reset
          (cam_tfe_csid_disable_csi2
            { csid_hw with open_count := csid_hw.open_count - 1 }).2 env.reset).2 rfl rfl).trans ?_
      rw [path_state_global_reset, path_state_disable_csi2]
      rfl

/-! ## State guards of start and init -/

/-- `cam_tfe_csid_start` on a path whose state is not `INIT_HW` fails with
`-EINVAL` and leaves every path state as it was. -/
theorem start_fails_unless_init_hw (K : csid_defs) (csid_hw : cam_tfe_csid_hw) (res_id : Nat)
    (path_status : Nat → Nat) (h : path_state csid_hw res_id ≠ .INIT_HW) :
    (cam_tfe_csid_start K csid_hw res_id path_status).1 = -EINVAL ∧
    path_state (cam_tfe_csid_start K csid_hw res_id path_status).2 = path_state csid_hw := by
  unfold cam_tfe_csid_start
  by_cases h1 : res_id ≥ CAM_TFE_CSID_PATH_RES_MAX
  · rw [if_pos h1]; exact ⟨rfl, rfl⟩
  · rw [if_neg h1]
    by_cases h2 : res_id = CAM_TFE_CSID_PATH_RES_IPP
    · subst h2
      have h3 : csid_hw.ipp_res.res_state ≠ .INIT_HW := h
      simp only [if_true]
      unfold cam_tfe_csid_enable_pxl_path
      simp only [if_pos h3]
      exact ⟨trivial, rfl⟩
    · have h3 : (get_res { csid_hw with sof_irq_triggered := false, irq_debug_cnt := 0 }
          res_id).res_state ≠ .INIT_HW := h
      simp only [if_neg h2]
      unfold cam_tfe_csid_enable_rdi_path
      simp only [if_pos (Or.inl h3 : _ ∨ res_id > CAM_TFE_CSID_PATH_RES_RDI_2 ∨
        csid_hw.csid_reg.rdi_reg res_id = none)]
      exact ⟨trivial, rfl⟩

/-- `cam_tfe_csid_init_hw` on a path whose state is not `RESERVED` fails with
`-EINVAL` and changes nothing. -/
theorem init_hw_fails_unless_reserved (K : csid_defs) (csid_hw : cam_tfe_csid_hw)
    (res_id : Nat) (env : init_hw_env) (h : path_state csid_hw res_id ≠ .RESERVED) :
    cam_tfe_csid_init_hw K csid_hw res_id env = (-EINVAL, csid_hw) := by
  unfold cam_tfe_csid_init_hw
  by_cases h1 : res_id ≥ CAM_TFE_CSID_PATH_RES_MAX
  · rw [if_pos h1]
  · rw [if_neg h1]
    have h3 : (get_res csid_hw res_id).res_state ≠ .RESERVED := h
    rw [if_pos h3]

/-! ## Time stamps: the two branches -/

/-- A difference of `uint64_t` values is a `uint64_t`. -/
theorem u64_sub_le (a b : Nat) : u64_sub a b ≤ U64_MAX := by
  unfold u64_sub U64_MAX
  omega

/-- A call of `cam_tfe_csid_get_time_stamp` with a boot-time anchor: the
return code, the device and the boot time in terms of the overflow test. -/
theorem get_time_stamp_delta_branch (csid_hw : cam_tfe_csid_hw)
    (time_stamp : cam_tfe_csid_get_time_stamp_args) (env : time_stamp_env)
    (hres : time_stamp.node_res < CAM_TFE_CSID_PATH_RES_MAX)
    (hup : csid_hw.hw_state = .CAM_HW_STATE_POWER_UP)
    (hprev : csid_hw.prev_boot_timestamp ≠ 0) :
    (cam_tfe_csid_get_time_stamp csid_hw time_stamp env).1 =
      (if csid_hw.prev_boot_timestamp > U64_MAX -
          u64_sub (mul_u64_u32_div (u64 env.curr_sof) CAM_TFE_CSID_QTIMER_MUL_FACTOR
            CAM_TFE_CSID_QTIMER_DIV_FACTOR) csid_hw.prev_qtimer_ts then -EINVAL else 0) ∧
    (cam_tfe_csid_get_time_stamp csid_hw time_stamp env).2.1 =
      (if csid_hw.prev_boot_timestamp > U64_MAX -
          u64_sub (mul_u64_u32_div (u64 env.curr_sof) CAM_TFE_CSID_QTIMER_MUL_FACTOR
            CAM_TFE_CSID_QTIMER_DIV_FACTOR) csid_hw.prev_qtimer_ts then csid_hw
       else
        { csid_hw with
          prev_qtimer_ts := mul_u64_u32_div (u64 env.curr_sof) CAM_TFE_CSID_QTIMER_MUL_FACTOR
            CAM_TFE_CSID_QTIMER_DIV_FACTOR
          prev_boot_timestamp := u64 (csid_hw.prev_boot_timestamp +
            u64_sub (mul_u64_u32_div (u64 env.curr_sof) CAM_TFE_CSID_QTIMER_MUL_FACTOR
              CAM_TFE_CSID_QTIMER_DIV_FACTOR) csid_hw.prev_qtimer_ts) }) ∧
    (cam_tfe_csid_get_time_stamp csid_hw time_stamp env).2.2.boot_timestamp =
      (if csid_hw.prev_boot_timestamp > U64_MAX -
          u64_sub (mul_u64_u32_div (u64 env.curr_sof) CAM_TFE_CSID_QTIMER_MUL_FACTOR
            CAM_TFE_CSID_QTIMER_DIV_FACTOR) csid_hw.prev_qtimer_ts then time_stamp.boot_timestamp
       else u64 (csid_hw.prev_boot_timestamp +
            u64_sub (mul_u64_u32_div (u64 env.curr_sof) CAM_TFE_CSID_QTIMER_MUL_FACTOR
              CAM_TFE_CSID_QTIMER_DIV_FACTOR) csid_hw.prev_qtimer_ts)) := by
  have hres' : ¬ time_stamp.node_res ≥ CAM_TFE_CSID_PATH_RES_MAX := by omega
  obtain ⟨n, g, a, b, c⟩ := time_stamp
  cases g <;>
  · simp only [cam_tfe_csid_get_time_stamp, if_neg hres', hup, ne_eq, not_true_eq_false,
      if_false, if_neg hprev, if_true, Bool.false_eq_true]
    split_ifs <;> refine ⟨?_, ?_, ?_⟩ <;> trivial

/-- A call of `cam_tfe_csid_get_time_stamp` without a boot-time anchor
succeeds and anchors to the boot clock. -/
theorem get_time_stamp_anchor_branch (csid_hw : cam_tfe_csid_hw)
    (time_stamp : cam_tfe_csid_get_time_stamp_args) (env : time_stamp_env)
    (hres : time_stamp.node_res < CAM_TFE_CSID_PATH_RES_MAX)
    (hup : csid_hw.hw_state = .CAM_HW_STATE_POWER_UP)
    (hprev : csid_hw.prev_boot_timestamp = 0) :
    (cam_tfe_csid_get_time_stamp csid_hw time_stamp env).1 = 0 ∧
    (cam_tfe_csid_get_time_stamp csid_hw time_stamp env).2.1 =
        { csid_hw with
          prev_qtimer_ts := mul_u64_u32_div (u64 env.curr_sof) CAM_TFE_CSID_QTIMER_MUL_FACTOR
            CAM_TFE_CSID_QTIMER_DIV_FACTOR
          prev_boot_timestamp := u64 env.boottime } ∧
    (cam_tfe_csid_get_time_stamp csid_hw time_stamp env).2.2.boot_timestamp =
      u64 env.boottime := by
  have hres' : ¬ time_stamp.node_res ≥ CAM_TFE_CSID_PATH_RES_MAX := by omega
  obtain ⟨n, g, a, b, c⟩ := time_stamp
  cases g <;>
  · simp only [cam_tfe_csid_get_time_stamp, if_neg hres', hup, ne_eq, not_true_eq_false,
      if_false, if_pos hprev, if_true, Bool.false_eq_true]
    refine ⟨?_, ?_, ?_⟩ <;> trivial

/-- A successful `cam_tfe_csid_get_time_stamp` passed the two guards: the
handle is a path and the block is powered up. -/
theorem get_time_stamp_ok_guards (csid_hw : cam_tfe_csid_hw)
    (time_stamp : cam_tfe_csid_get_time_stamp_args) (env : time_stamp_env)
    (h : (cam_tfe_csid_get_time_stamp csid_hw time_stamp env).1 = 0) :
    time_stamp.node_res < CAM_TFE_CSID_PATH_RES_MAX ∧
    csid_hw.hw_state = .CAM_HW_STATE_POWER_UP := by
  by_cases hres : time_stamp.node_res ≥ CAM_TFE_CSID_PATH_RES_MAX
  · simp only [cam_tfe_csid_get_time_stamp, if_pos hres] at h
    exact absurd h (by decide)
  · by_cases hup : csid_hw.hw_state ≠ .CAM_HW_STATE_POWER_UP
    · simp only [cam_tfe_csid_get_time_stamp, if_neg hres, if_pos hup] at h
      exact absurd h (by decide)
    · exact ⟨by omega, not_not.mp hup⟩

/-! ## Frame lemmas: the event state -/

/-- A register write outside the three receiver registers leaves the event
state alone. -/
theorem evt_view_cam_io_w_mb (v : Nat) (a : csid_reg_addr) (csid_hw : cam_tfe_csid_hw)
    (h : is_rx_cfg_addr a = false) :
    evt_view (cam_io_w_mb v a csid_hw) = evt_view csid_hw := by
  simp [evt_view, cam_io_w_mb, rx_writes, List.filter_cons, h]

/-- Signalling a completion leaves the event state alone. -/
theorem evt_view_complete (c : csid_completion) (csid_hw : cam_tfe_csid_hw) :
    evt_view (complete c csid_hw) = evt_view csid_hw := rfl

/-- A store to a path node leaves the event state alone. -/
theorem evt_view_set_res (csid_hw : cam_tfe_csid_hw) (p : Nat) (n : cam_isp_resource_node) :
    evt_view (set_res csid_hw p n) = evt_view csid_hw := by
  unfold set_res
  split <;> rfl

/-- A conditional between two states with the same event state. -/
theorem evt_view_ite (c : Prop) [Decidable c] (a b x : cam_tfe_csid_hw)
    (ha : evt_view a = evt_view x) (hb : evt_view b = evt_view x) :
    evt_view (if c then a else b) = evt_view x := by
  split
  · exact ha
  · exact hb

/-- A loop over the RDI paths whose body leaves the event state alone. -/
theorem evt_view_for_rdis (f : Nat → cam_tfe_csid_hw → cam_tfe_csid_hw)
    (hf : ∀ i csid_hw, evt_view (f i csid_hw) = evt_view csid_hw)
    (n i : Nat) (csid_hw : cam_tfe_csid_hw) :
    evt_view (for_rdis f i n csid_hw) = evt_view csid_hw :=
  for_rdis_preserves (fun h => evt_view h = evt_view csid_hw) f
    (fun j h hh => (hf j h).trans hh) n i csid_hw rfl

/-- The clear block of the interrupt handler leaves the event state alone. -/
theorem evt_view_irq_clear (csid_hw : cam_tfe_csid_hw) (irq_status : csid_irq_status) :
    evt_view (cam_tfe_csid_irq_clear csid_hw irq_status) = evt_view csid_hw := by
  have hloop : ∀ (n : Nat) (h : cam_tfe_csid_hw),
      evt_view (for_rdis (fun i h => cam_io_w_mb (irq_status.rdi i)
        (.csid_rdi_irq_clear_addr i) h) 0 n h) = evt_view h :=
    fun n h => evt_view_for_rdis _ (fun i h => evt_view_cam_io_w_mb _ (.csid_rdi_irq_clear_addr i) h rfl) n 0 h
  simp only [cam_tfe_csid_irq_clear, apply_ite evt_view, evt_view_complete,
    evt_view_cam_io_w_mb, is_rx_cfg_addr, hloop, ite_self]

/-- The packet-capture blocks leave the event state alone. -/
theorem evt_view_irq_capture (K : csid_defs) (csid_hw : cam_tfe_csid_hw) (rx : Nat) :
    evt_view (cam_tfe_csid_irq_capture K csid_hw rx) = evt_view csid_hw := by
  simp only [cam_tfe_csid_irq_capture, irq_capture_rearm, apply_ite evt_view,
    evt_view_cam_io_w_mb, is_rx_cfg_addr, ite_self]

/-- The frame-drop function leaves the event state alone. -/
theorem evt_view_enable_path_for_init_frame_drop (K : csid_defs) (csid_hw : cam_tfe_csid_hw)
    (res_id : Nat) :
    evt_view (cam_tfe_csid_enable_path_for_init_frame_drop K csid_hw res_id) =
      evt_view csid_hw := by
  simp only [cam_tfe_csid_enable_path_for_init_frame_drop, apply_ite evt_view,
    evt_view_cam_io_w_mb, is_rx_cfg_addr, evt_view_set_res, ite_self]

/-- The SOF debug block leaves the event state alone. -/
theorem evt_view_irq_sof_debug (K : csid_defs) (status : Nat)
    (s : cam_tfe_csid_hw × irq_locals) :
    evt_view (irq_sof_debug K status s).1 = evt_view s.1 := by
  unfold irq_sof_debug
  split
  · split
    · rfl
    · rfl
  · rfl

/-- The IPP block of the interrupt handler leaves the event state alone. -/
theorem evt_view_irq_ipp (K : csid_defs) (ipp : Nat) (s : cam_tfe_csid_hw × irq_locals) :
    evt_view (cam_tfe_csid_irq_ipp K ipp s).1 = evt_view s.1 := by
  simp only [cam_tfe_csid_irq_ipp, apply_ite Prod.fst, apply_ite evt_view,
    evt_view_cam_io_w_mb, is_rx_cfg_addr, evt_view_irq_sof_debug, evt_view_complete, ite_self]

/-- The body of the RDI loop of the interrupt handler leaves the event state
alone. -/
theorem evt_view_irq_rdi (K : csid_defs) (irq_status : csid_irq_status) (i : Nat)
    (s : cam_tfe_csid_hw × irq_locals) :
    evt_view (cam_tfe_csid_irq_rdi K irq_status i s).1 = evt_view s.1 := by
  simp only [cam_tfe_csid_irq_rdi, apply_ite Prod.fst, apply_ite evt_view,
    evt_view_cam_io_w_mb, is_rx_cfg_addr, evt_view_irq_sof_debug, evt_view_complete,
    evt_view_enable_path_for_init_frame_drop, ite_self]

/-- The RDI loop of the interrupt handler leaves the event state alone. -/
theorem evt_view_irq_rdi_loop (K : csid_defs) (irq_status : csid_irq_status) :
    ∀ (n i : Nat) (s : cam_tfe_csid_hw × irq_locals),
      evt_view (cam_tfe_csid_irq_rdi_loop K irq_status i n s).1 = evt_view s.1 := by
  intro n
  induction n with
  | zero => intro i s; rfl
  | succ n ih =>
    intro i s
    exact (ih (i + 1) (cam_tfe_csid_irq_rdi K irq_status i s)).trans
      (evt_view_irq_rdi K irq_status i s)

/-- Switching SOF debugging on or off leaves the event state alone. -/
theorem evt_view_sof_irq_debug (K : csid_defs) (csid_hw : cam_tfe_csid_hw) (cmd_args : Nat) :
    evt_view (cam_tfe_csid_sof_irq_debug K csid_hw cmd_args).2 = evt_view csid_hw := by
  have hmask : ∀ (b : Bool) (a : csid_reg_addr) (h : cam_tfe_csid_hw),
      is_rx_cfg_addr a = false → evt_view (sof_irq_debug_mask K b a h) = evt_view h := by
    intro b a h ha
    simp only [sof_irq_debug_mask, apply_ite evt_view, evt_view_cam_io_w_mb _ _ _ ha, ite_self]
  have hloop : ∀ (b : Bool) (n : Nat) (h : cam_tfe_csid_hw),
      evt_view (for_rdis (fun i h => sof_irq_debug_mask K b (.csid_rdi_irq_mask_addr i) h)
        0 n h) = evt_view h :=
    fun b n h => evt_view_for_rdis _ (fun i h => hmask b (.csid_rdi_irq_mask_addr i) h rfl) n 0 h
  have h1 : ∀ (b : Bool), evt_view (for_rdis
      (fun i h => sof_irq_debug_mask K b (.csid_rdi_irq_mask_addr i) h) 0
      csid_hw.csid_reg.cmn_reg.num_rdis
      (if csid_hw.csid_reg.ipp_reg ≠ none then
        sof_irq_debug_mask K b .csid_pxl_irq_mask_addr csid_hw else csid_hw)) =
      evt_view csid_hw := by
    intro b
    rw [hloop]
    split
    · exact hmask b _ _ rfl
    · rfl
  unfold cam_tfe_csid_sof_irq_debug
  simp only []
  split
  · rfl
  · split
    · exact (h1 _)
    · exact (h1 _)

/-! ## Submission of events -/

/-- The submission of an event changes only the free list and the queue of
the deferred scheduler. -/
theorem handle_hw_err_irq_frame (csid_hw : cam_tfe_csid_hw) (evt_type : cam_isp_hw_err_type)
    (irq_status : csid_irq_status) (bh : bh_payload_env) :
    (cam_tfe_csid_handle_hw_err_irq csid_hw evt_type irq_status bh).2 =
      { csid_hw with
        free_payload_list :=
          (cam_tfe_csid_handle_hw_err_irq csid_hw evt_type irq_status bh).2.free_payload_list
        tasklet_queue :=
          (cam_tfe_csid_handle_hw_err_irq csid_hw evt_type irq_status bh).2.tasklet_queue } := by
  unfold cam_tfe_csid_handle_hw_err_irq cam_tfe_csid_get_evt_payload
  cases csid_hw.free_payload_list with
  | nil => rfl
  | cons slot rest =>
    simp only []
    split
    · rfl
    · split <;> rfl

/-- What the submission of an event does to the free list and to the queue
of the deferred scheduler: the first free payload is taken, and it is queued
when the scheduler delivers a task handle. -/
theorem handle_hw_err_irq_queue (csid_hw : cam_tfe_csid_hw) (evt_type : cam_isp_hw_err_type)
    (irq_status : csid_irq_status) (bh : bh_payload_env) :
    (cam_tfe_csid_handle_hw_err_irq csid_hw evt_type irq_status bh).2.free_payload_list =
      csid_hw.free_payload_list.tail ∧
    (cam_tfe_csid_handle_hw_err_irq csid_hw evt_type irq_status bh).2.tasklet_queue =
      csid_hw.tasklet_queue ++
        (if csid_hw.free_payload_list ≠ [] ∧ bh.rc = 0 ∧ bh.bh_cmd = true then
          [{ slot := csid_hw.free_payload_list.headD 0, evt_type := evt_type
             irq_status := irq_status, hw_idx := csid_hw.hw_idx
             priv := csid_hw.event_cb_priv }]
         else []) := by
  unfold cam_tfe_csid_handle_hw_err_irq cam_tfe_csid_get_evt_payload
  cases hfl : csid_hw.free_payload_list with
  | nil => simp [ENOMEM, hfl]
  | cons slot rest =>
    by_cases hbh : bh.rc ≠ 0 ∨ bh.bh_cmd = false
    · have hno : ¬ (bh.rc = 0 ∧ bh.bh_cmd = true) := by
        rintro ⟨h1, h2⟩
        rcases hbh with h | h
        · exact h h1
        · rw [h2] at h
          exact absurd h (by decide)
      simp [hbh, hno]
    · have hyes : bh.rc = 0 ∧ bh.bh_cmd = true := by
        constructor
        · by_contra h
          exact hbh (Or.inl h)
        · cases hb : bh.bh_cmd with
          | true => rfl
          | false => exact absurd (Or.inr hb) hbh
      simp [hbh, hyes]

/-- The submission of an event adds one queued fatal event when the event is
fatal, a payload is free and the scheduler delivers a task handle, and none
otherwise. -/
theorem fatal_queued_handle_hw_err_irq (csid_hw : cam_tfe_csid_hw)
    (evt_type : cam_isp_hw_err_type) (irq_status : csid_irq_status) (bh : bh_payload_env) :
    fatal_queued (cam_tfe_csid_handle_hw_err_irq csid_hw evt_type irq_status bh).2 =
      fatal_queued csid_hw +
        (if evt_type = .CAM_ISP_HW_ERROR_CSID_FATAL ∧ csid_hw.free_payload_list ≠ [] ∧
            bh.rc = 0 ∧ bh.bh_cmd = true then 1 else 0) := by
  unfold fatal_queued
  rw [(handle_hw_err_irq_queue csid_hw evt_type irq_status bh).2, List.countP_append]
  by_cases hsub : csid_hw.free_payload_list ≠ [] ∧ bh.rc = 0 ∧ bh.bh_cmd = true
  · by_cases ht : evt_type = .CAM_ISP_HW_ERROR_CSID_FATAL
    · simp [hsub, ht]
    · simp [hsub, ht]
  · have h2 : ¬ (evt_type = .CAM_ISP_HW_ERROR_CSID_FATAL ∧ csid_hw.free_payload_list ≠ [] ∧
        bh.rc = 0 ∧ bh.bh_cmd = true) := fun h => hsub h.2
    rw [if_neg hsub, if_neg h2]
    rfl

/-- States with the same event state agree on the fatal part of it. -/
theorem fatal_view_of_evt_view (a b : cam_tfe_csid_hw) (h : evt_view a = evt_view b) :
    fatal_view a = fatal_view b := by
  simp only [evt_view, Prod.mk.injEq] at h
  obtain ⟨h1, h2, h3, h4, h5, h6, h7, h8, h9, h10, h11, h12⟩ := h
  simp only [fatal_view, fatal_queued, h1, h3, h4, h5, h9, h12]

/-- The submission of the generic event leaves the fatal part of the event
state alone. -/
theorem fatal_view_handle_hw_err_irq_none (csid_hw : cam_tfe_csid_hw)
    (irq_status : csid_irq_status) (bh : bh_payload_env) :
    fatal_view (cam_tfe_csid_handle_hw_err_irq csid_hw .CAM_ISP_HW_ERROR_NONE
      irq_status bh).2 = fatal_view csid_hw := by
  have hq := fatal_queued_handle_hw_err_irq csid_hw .CAM_ISP_HW_ERROR_NONE irq_status bh
  have hne : ¬ (cam_isp_hw_err_type.CAM_ISP_HW_ERROR_NONE = .CAM_ISP_HW_ERROR_CSID_FATAL ∧
      csid_hw.free_payload_list ≠ [] ∧ bh.rc = 0 ∧ bh.bh_cmd = true) :=
    fun h => absurd h.1 (by decide)
  rw [if_neg hne] at hq
  rw [handle_hw_err_irq_frame] at hq ⊢
  simp only [fatal_view, rx_writes, Prod.mk.injEq, true_and]
  exact hq

/-- The end of the interrupt handler leaves the fatal part of the event state
alone. -/
theorem fatal_view_irq_finish (K : csid_defs) (irq_status : csid_irq_status)
    (bh : bh_payload_env) (s : cam_tfe_csid_hw × irq_locals) :
    fatal_view (cam_tfe_csid_irq_finish K irq_status bh s) = fatal_view s.1 := by
  have h1 : fatal_view (if s.2.is_error_irq ∨ s.2.log_en then
      (cam_tfe_csid_handle_hw_err_irq s.1 .CAM_ISP_HW_ERROR_NONE irq_status bh).2
      else s.1) = fatal_view s.1 := by
    split
    · exact fatal_view_handle_hw_err_irq_none _ _ _
    · rfl
  have key : ∀ x : cam_tfe_csid_hw,
      fatal_view (if x.irq_debug_cnt ≥ CAM_TFE_CSID_IRQ_SOF_DEBUG_CNT_MAX then
        { (cam_tfe_csid_sof_irq_debug K x 0).2 with irq_debug_cnt := 0 } else x) =
      fatal_view x := by
    intro x
    split
    · exact fatal_view_of_evt_view _ _ (evt_view_sof_irq_debug K x 0)
    · rfl
  exact (key _).trans h1

/-- The fatal part of the event state after an interrupt is the one that the
tests of the receiver status and the fatal handling produce from the state
after the clear block. -/
theorem fatal_view_irq (K : csid_defs) (csid_hw : cam_tfe_csid_hw) (env : csid_irq_env) :
    fatal_view (cam_tfe_csid_irq K csid_hw env) =
      fatal_view (cam_tfe_csid_irq_handle_fatal
        (cam_tfe_csid_irq_rx_errors K (cam_tfe_csid_irq_clear csid_hw env.irq_status)
          env.irq_status.rx).1
        (cam_tfe_csid_irq_rx_errors K (cam_tfe_csid_irq_clear csid_hw env.irq_status)
          env.irq_status.rx).2
        env.irq_status env.bh_fatal).1 := by
  unfold cam_tfe_csid_irq
  simp only []
  rw [fatal_view_irq_finish]
  apply fatal_view_of_evt_view
  rw [evt_view_irq_rdi_loop, evt_view_irq_ipp]
  exact evt_view_irq_capture K _ _

/-- The submission of a fatal event: the fatal part of the event state
changes by the queued event only. -/
theorem fatal_view_handle_hw_err_irq_fatal (csid_hw : cam_tfe_csid_hw)
    (irq_status : csid_irq_status) (bh : bh_payload_env) :
    fatal_view (cam_tfe_csid_handle_hw_err_irq csid_hw .CAM_ISP_HW_ERROR_CSID_FATAL
      irq_status bh).2 =
      (csid_hw.error_irq_count, csid_hw.device_enabled, csid_hw.fatal_err_detected,
        csid_hw.phy_notify, rx_writes csid_hw,
        fatal_queued csid_hw +
          (if csid_hw.free_payload_list ≠ [] ∧ bh.rc = 0 ∧ bh.bh_cmd = true then 1 else 0)) := by
  have hf := handle_hw_err_irq_frame csid_hw .CAM_ISP_HW_ERROR_CSID_FATAL irq_status bh
  have hq := fatal_queued_handle_hw_err_irq csid_hw .CAM_ISP_HW_ERROR_CSID_FATAL irq_status bh
  simp only [true_and] at hq
  unfold fatal_view
  rw [hq]
  refine Prod.ext ?_ (Prod.ext ?_ (Prod.ext ?_ (Prod.ext ?_ (Prod.ext ?_ rfl))))
  · have h := congrArg cam_tfe_csid_hw.error_irq_count hf
    exact h
  · have h := congrArg cam_tfe_csid_hw.device_enabled hf
    exact h
  · have h := congrArg cam_tfe_csid_hw.fatal_err_detected hf
    exact h
  · have h := congrArg cam_tfe_csid_hw.phy_notify hf
    exact h
  · have h := congrArg rx_writes hf
    exact h

/-- The fatal handling produces `fatal_view_after_stop`. -/
theorem fatal_view_irq_fatal_stop (csid_hw : cam_tfe_csid_hw) (irq_status : csid_irq_status)
    (bh : bh_payload_env) :
    fatal_view (cam_tfe_csid_irq_fatal_stop csid_hw irq_status bh) =
      fatal_view_after_stop csid_hw csid_hw.error_irq_count bh := by
  unfold cam_tfe_csid_irq_fatal_stop
  simp only []
  rw [fatal_view_handle_hw_err_irq_fatal]
  by_cases hp : csid_hw.csi2_rx_cfg.phy_sel > 0
  · have hp' : (cam_io_w_mb 0 .csid_csi2_rx_irq_mask_addr
        (cam_io_w_mb 0 .csid_csi2_rx_cfg1_addr
          (cam_io_w_mb 0 .csid_csi2_rx_cfg0_addr csid_hw))).csi2_rx_cfg.phy_sel > 0 := hp
    rw [if_pos hp']
    unfold fatal_view_after_stop
    rw [if_pos hp]
    rfl
  · have hp' : ¬ (cam_io_w_mb 0 .csid_csi2_rx_irq_mask_addr
        (cam_io_w_mb 0 .csid_csi2_rx_cfg1_addr
          (cam_io_w_mb 0 .csid_csi2_rx_cfg0_addr csid_hw))).csi2_rx_cfg.phy_sel > 0 := hp
    rw [if_neg hp']
    unfold fatal_view_after_stop
    rw [if_neg hp, List.append_nil]
    rfl

/-! ## Triage of the receiver status -/

/-- With a lane FIFO overflow bit set on an enabled device the tests of the
receiver status go straight to the fatal handling. -/
theorem irq_rx_errors_lane (K : csid_defs) (csid_hw : cam_tfe_csid_hw) (rx : Nat)
    (hen : csid_hw.device_enabled = 1) (hlane : lane_overflow K rx = true) :
    cam_tfe_csid_irq_rx_errors K csid_hw rx =
      (csid_hw, { fatal_err_detected := true, is_error_irq := false, log_en := false }) := by
  unfold lane_overflow at hlane
  have hl := of_decide_eq_true hlane
  unfold cam_tfe_csid_irq_rx_errors
  simp only [if_pos hen]
  by_cases h0 : rx &&& K.TFE_CSID_CSI2_RX_ERROR_LANE0_FIFO_OVERFLOW ≠ 0
  · rw [if_pos h0]
  · rw [if_neg h0]
    by_cases h1 : rx &&& K.TFE_CSID_CSI2_RX_ERROR_LANE1_FIFO_OVERFLOW ≠ 0
    · rw [if_pos h1]
    · rw [if_neg h1]
      by_cases h2 : rx &&& K.TFE_CSID_CSI2_RX_ERROR_LANE2_FIFO_OVERFLOW ≠ 0
      · rw [if_pos h2]
      · rw [if_neg h2]
        by_cases h3 : rx &&& K.TFE_CSID_CSI2_RX_ERROR_LANE3_FIFO_OVERFLOW ≠ 0
        · rw [if_pos h3]
        · rcases hl with h | h | h | h
          · exact absurd h h0
          · exact absurd h h1
          · exact absurd h h2
          · exact absurd h h3

/-- One soft-error test adds the bit to a count that cannot wrap. -/
theorem count_soft_error_eq (rx bit : Nat) (csid_hw : cam_tfe_csid_hw)
    (hc : csid_hw.error_irq_count < 4294967295) :
    count_soft_error rx bit csid_hw =
      { csid_hw with
        error_irq_count := csid_hw.error_irq_count + (if rx &&& bit ≠ 0 then 1 else 0) } := by
  unfold count_soft_error
  by_cases hb : rx &&& bit ≠ 0
  · rw [if_pos hb, if_pos hb]
    have hu : u32 (csid_hw.error_irq_count + 1) = csid_hw.error_irq_count + 1 :=
      Nat.mod_eq_of_lt (by omega)
    rw [hu]
  · rw [if_neg hb, if_neg hb]
    rfl

/-- Without a lane FIFO overflow bit the tests of the receiver status add the
qualifying soft-error bits to the error count of an enabled device. -/
theorem irq_rx_errors_soft (K : csid_defs) (csid_hw : cam_tfe_csid_hw) (rx : Nat)
    (hen : csid_hw.device_enabled = 1) (hlane : lane_overflow K rx = false)
    (hc : csid_hw.error_irq_count ≤ CAM_TFE_CSID_MAX_IRQ_ERROR_COUNT) :
    (cam_tfe_csid_irq_rx_errors K csid_hw rx).1 =
      { csid_hw with error_irq_count := csid_hw.error_irq_count + soft_error_bits K rx } ∧
    (cam_tfe_csid_irq_rx_errors K csid_hw rx).2.fatal_err_detected = false := by
  unfold lane_overflow at hlane
  have hl := of_decide_eq_false hlane
  have h0 : ¬ rx &&& K.TFE_CSID_CSI2_RX_ERROR_LANE0_FIFO_OVERFLOW ≠ 0 :=
    fun h => hl (Or.inl h)
  have h1 : ¬ rx &&& K.TFE_CSID_CSI2_RX_ERROR_LANE1_FIFO_OVERFLOW ≠ 0 :=
    fun h => hl (Or.inr (Or.inl h))
  have h2 : ¬ rx &&& K.TFE_CSID_CSI2_RX_ERROR_LANE2_FIFO_OVERFLOW ≠ 0 :=
    fun h => hl (Or.inr (Or.inr (Or.inl h)))
  have h3 : ¬ rx &&& K.TFE_CSID_CSI2_RX_ERROR_LANE3_FIFO_OVERFLOW ≠ 0 :=
    fun h => hl (Or.inr (Or.inr (Or.inr h)))
  unfold CAM_TFE_CSID_MAX_IRQ_ERROR_COUNT at hc
  have b1 : (if rx &&& K.TFE_CSID_CSI2_RX_ERROR_CPHY_EOT_RECEPTION ≠ 0 then 1 else 0) ≤ 1 := by
    split <;> omega
  have b2 : (if rx &&& K.TFE_CSID_CSI2_RX_ERROR_CPHY_SOT_RECEPTION ≠ 0 then 1 else 0) ≤ 1 := by
    split <;> omega
  have b3 : (if rx &&& K.TFE_CSID_CSI2_RX_ERROR_STREAM_UNDERFLOW ≠ 0 then 1 else 0) ≤ 1 := by
    split <;> omega
  unfold cam_tfe_csid_irq_rx_errors
  simp only [if_pos hen, if_neg h0, if_neg h1, if_neg h2, if_neg h3]
  have e1 := count_soft_error_eq rx K.TFE_CSID_CSI2_RX_ERROR_CPHY_EOT_RECEPTION csid_hw
    (by omega)
  rw [e1]
  have e2 := count_soft_error_eq rx K.TFE_CSID_CSI2_RX_ERROR_CPHY_SOT_RECEPTION
    { csid_hw with
      error_irq_count := csid_hw.error_irq_count +
        (if rx &&& K.TFE_CSID_CSI2_RX_ERROR_CPHY_EOT_RECEPTION ≠ 0 then 1 else 0) }
    (by
      show csid_hw.error_irq_count + _ < 4294967295
      omega)
  rw [e2]
  have e3 := count_soft_error_eq rx K.TFE_CSID_CSI2_RX_ERROR_STREAM_UNDERFLOW
    { csid_hw with
      error_irq_count := csid_hw.error_irq_count +
        (if rx &&& K.TFE_CSID_CSI2_RX_ERROR_CPHY_EOT_RECEPTION ≠ 0 then 1 else 0) +
        (if rx &&& K.TFE_CSID_CSI2_RX_ERROR_CPHY_SOT_RECEPTION ≠ 0 then 1 else 0) }
    (by
      show csid_hw.error_irq_count + _ + _ < 4294967295
      omega)
  rw [e3]
  have e4 := count_soft_error_eq rx K.TFE_CSID_CSI2_RX_ERROR_UNBOUNDED_FRAME
    { csid_hw with
      error_irq_count := csid_hw.error_irq_count +
        (if rx &&& K.TFE_CSID_CSI2_RX_ERROR_CPHY_EOT_RECEPTION ≠ 0 then 1 else 0) +
        (if rx &&& K.TFE_CSID_CSI2_RX_ERROR_CPHY_SOT_RECEPTION ≠ 0 then 1 else 0) +
        (if rx &&& K.TFE_CSID_CSI2_RX_ERROR_STREAM_UNDERFLOW ≠ 0 then 1 else 0) }
    (by
      show csid_hw.error_irq_count + _ + _ + _ < 4294967295
      omega)
  rw [e4]
  refine ⟨?_, trivial⟩
  unfold soft_error_bits
  simp only [Nat.add_assoc]

/-- The tests of the receiver status change the error count only. -/
theorem irq_rx_errors_frame (K : csid_defs) (csid_hw : cam_tfe_csid_hw) (rx : Nat) :
    (cam_tfe_csid_irq_rx_errors K csid_hw rx).1 =
      { csid_hw with
        error_irq_count := (cam_tfe_csid_irq_rx_errors K csid_hw rx).1.error_irq_count } := by
  have hc : ∀ (bit : Nat) (h : cam_tfe_csid_hw),
      count_soft_error rx bit h =
        { h with error_irq_count := (count_soft_error rx bit h).error_irq_count } := by
    intro bit h
    unfold count_soft_error
    split <;> rfl
  unfold cam_tfe_csid_irq_rx_errors
  simp only []
  split
  · split
    · rfl
    · split
      · rfl
      · split
        · rfl
        · split
          · rfl
          · simp only []
            rw [hc, hc _ (count_soft_error _ _ _), hc _ (count_soft_error _ _ csid_hw),
              hc _ csid_hw]
  · rfl

/-- The fatal part of the event state after the threshold test and the fatal
handling. -/
theorem fatal_view_irq_handle_fatal (csid_hw : cam_tfe_csid_hw) (l : irq_locals)
    (irq_status : csid_irq_status) (bh : bh_payload_env) :
    fatal_view (cam_tfe_csid_irq_handle_fatal csid_hw l irq_status bh).1 =
      (if csid_hw.error_irq_count > CAM_TFE_CSID_MAX_IRQ_ERROR_COUNT then
        fatal_view_after_stop csid_hw 0 bh
       else if l.fatal_err_detected then
        fatal_view_after_stop csid_hw csid_hw.error_irq_count bh
       else fatal_view csid_hw) := by
  unfold cam_tfe_csid_irq_handle_fatal cam_tfe_csid_irq_threshold
  by_cases hc : csid_hw.error_irq_count > CAM_TFE_CSID_MAX_IRQ_ERROR_COUNT
  · simp only [if_pos hc, if_true]
    rw [fatal_view_irq_fatal_stop]
    rfl
  · simp only [if_neg hc]
    by_cases hf : l.fatal_err_detected = true
    · have hf2 : (if csid_hw.error_irq_count ≠ 0 ∨ l.fatal_err_detected = true then
          { l with is_error_irq := true } else l).fatal_err_detected = true := by
        split
        · exact hf
        · exact hf
      rw [if_pos hf2, if_pos hf]
      exact fatal_view_irq_fatal_stop _ _ _
    · have hf2 : ¬ (if csid_hw.error_irq_count ≠ 0 ∨ l.fatal_err_detected = true then
          { l with is_error_irq := true } else l).fatal_err_detected = true := by
        split
        · exact hf
        · exact hf
      rw [if_neg hf2, if_neg hf]

/-- The outcome of the fatal handling depends on the event state only. -/
theorem fatal_view_after_stop_congr (a b : cam_tfe_csid_hw) (h : evt_view a = evt_view b)
    (count : Nat) (bh : bh_payload_env) :
    fatal_view_after_stop a count bh = fatal_view_after_stop b count bh := by
  simp only [evt_view, Prod.mk.injEq] at h
  obtain ⟨h1, h2, h3, h4, h5, h6, h7, h8, h9, h10, h11, h12⟩ := h
  simp only [fatal_view_after_stop, fatal_queued, h1, h2, h4, h5, h9, h11, h12]

/-- An interrupt with a lane FIFO overflow bit on an enabled device: the
error count is not incremented and the fatal handling runs. -/
theorem fatal_view_irq_lane (K : csid_defs) (csid_hw : cam_tfe_csid_hw) (env : csid_irq_env)
    (hen : csid_hw.device_enabled = 1)
    (hlane : lane_overflow K env.irq_status.rx = true) :
    fatal_view (cam_tfe_csid_irq K csid_hw env) =
      fatal_view_after_stop csid_hw
        (if csid_hw.error_irq_count > CAM_TFE_CSID_MAX_IRQ_ERROR_COUNT then 0
         else csid_hw.error_irq_count) env.bh_fatal := by
  have hv := evt_view_irq_clear csid_hw env.irq_status
  have hcong := fatal_view_after_stop_congr _ _ hv
  simp only [evt_view, Prod.mk.injEq] at hv
  obtain ⟨h1, h2, h3, h4, h5, h6, h7, h8, h9, h10, h11, h12⟩ := hv
  rw [fatal_view_irq, irq_rx_errors_lane K _ _ (h4.trans hen) hlane,
    fatal_view_irq_handle_fatal, h3]
  simp only [if_true]
  split
  · exact hcong _ _
  · exact hcong _ _

/-- An interrupt without a lane FIFO overflow bit on an enabled device whose
error count is at most the threshold: the qualifying soft-error bits are
added to the count, and a count above the threshold runs the fatal handling
and starts again at zero. -/
theorem fatal_view_irq_soft (K : csid_defs) (csid_hw : cam_tfe_csid_hw) (env : csid_irq_env)
    (hen : csid_hw.device_enabled = 1)
    (hlane : lane_overflow K env.irq_status.rx = false)
    (hc : csid_hw.error_irq_count ≤ CAM_TFE_CSID_MAX_IRQ_ERROR_COUNT) :
    fatal_view (cam_tfe_csid_irq K csid_hw env) =
      (if csid_hw.error_irq_count + soft_error_bits K env.irq_status.rx >
          CAM_TFE_CSID_MAX_IRQ_ERROR_COUNT then
        fatal_view_after_stop csid_hw 0 env.bh_fatal
       else
        (csid_hw.error_irq_count + soft_error_bits K env.irq_status.rx,
          csid_hw.device_enabled, csid_hw.fatal_err_detected, csid_hw.phy_notify,
          rx_writes csid_hw, fatal_queued csid_hw)) := by
  have hv := evt_view_irq_clear csid_hw env.irq_status
  have hcong := fatal_view_after_stop_congr _ _ hv
  have hfv := fatal_view_of_evt_view _ _ hv
  simp only [evt_view, Prod.mk.injEq] at hv
  obtain ⟨h1, h2, h3, h4, h5, h6, h7, h8, h9, h10, h11, h12⟩ := hv
  obtain ⟨e1, e2⟩ := irq_rx_errors_soft K (cam_tfe_csid_irq_clear csid_hw env.irq_status)
    env.irq_status.rx (h4.trans hen) hlane (h3 ▸ hc)
  rw [fatal_view_irq, fatal_view_irq_handle_fatal, e2, e1, h3]
  simp only [Bool.false_eq_true, if_false]
  split
  · exact hcong _ _
  · simp only [fatal_view, Prod.mk.injEq] at hfv
    obtain ⟨f1, f2, f3, f4, f5, f6⟩ := hfv
    simp only [fatal_view, fatal_queued, rx_writes, Prod.mk.injEq, true_and]
    exact ⟨f2, f3, f4, f5, f6⟩

/-- A run of interrupts followed by one more interrupt. -/
theorem irq_run_append (K : csid_defs) :
    ∀ (l : List csid_irq_env) (csid_hw : cam_tfe_csid_hw) (env : csid_irq_env),
      cam_tfe_csid_irq_run K csid_hw (l ++ [env]) =
        cam_tfe_csid_irq K (cam_tfe_csid_irq_run K csid_hw l) env := by
  intro l
  induction l with
  | nil => intro csid_hw env; rfl
  | cons e l ih =>
    intro csid_hw env
    exact ih (cam_tfe_csid_irq K csid_hw e) env

/-- While the sum of the error count and of the qualifying soft-error bits of
a run of interrupts without lane FIFO overflow stays at or below the
threshold, the device stays enabled, the count is that sum, and no fatal
event is queued. -/
theorem irq_run_below_threshold (K : csid_defs) :
    ∀ (l : List csid_irq_env) (csid_hw : cam_tfe_csid_hw),
      csid_hw.device_enabled = 1 →
      (∀ e ∈ l, lane_overflow K e.irq_status.rx = false) →
      csid_hw.error_irq_count + total_soft_error_bits K l ≤ CAM_TFE_CSID_MAX_IRQ_ERROR_COUNT →
      (cam_tfe_csid_irq_run K csid_hw l).device_enabled = 1 ∧
      (cam_tfe_csid_irq_run K csid_hw l).error_irq_count =
        csid_hw.error_irq_count + total_soft_error_bits K l ∧
      fatal_queued (cam_tfe_csid_irq_run K csid_hw l) = fatal_queued csid_hw := by
  intro l
  induction l with
  | nil =>
    intro csid_hw hen _ _
    exact ⟨hen, rfl, rfl⟩
  | cons e l ih =>
    intro csid_hw hen hno hsum
    have htot : total_soft_error_bits K (e :: l) =
        soft_error_bits K e.irq_status.rx + total_soft_error_bits K l := by
      simp [total_soft_error_bits]
    rw [htot] at hsum
    have hc : csid_hw.error_irq_count ≤ CAM_TFE_CSID_MAX_IRQ_ERROR_COUNT := by omega
    have hstep := fatal_view_irq_soft K csid_hw e hen (hno e (List.mem_cons_self e l)) hc
    have hle : ¬ csid_hw.error_irq_count + soft_error_bits K e.irq_status.rx >
        CAM_TFE_CSID_MAX_IRQ_ERROR_COUNT := by omega
    rw [if_neg hle] at hstep
    simp only [fatal_view, Prod.mk.injEq] at hstep
    obtain ⟨s1, s2, _, _, _, s6⟩ := hstep
    obtain ⟨r1, r2, r3⟩ := ih (cam_tfe_csid_irq K csid_hw e) (s2.trans hen)
      (fun x hx => hno x (List.mem_cons_of_mem e hx)) (by rw [s1]; omega)
    refine ⟨r1, ?_, ?_⟩
    · show (cam_tfe_csid_irq_run K (cam_tfe_csid_irq K csid_hw e) l).error_irq_count = _
      rw [r2, s1, htot]
      omega
    · show fatal_queued (cam_tfe_csid_irq_run K (cam_tfe_csid_irq K csid_hw e) l) = _
      rw [r3, s6]

/-- An interrupt leaves the fatal latch of the device alone. -/
theorem irq_keeps_fatal_latch (K : csid_defs) (csid_hw : cam_tfe_csid_hw) (env : csid_irq_env) :
    (cam_tfe_csid_irq K csid_hw env).fatal_err_detected = csid_hw.fatal_err_detected := by
  have hv := evt_view_irq_clear csid_hw env.irq_status
  simp only [evt_view, Prod.mk.injEq] at hv
  obtain ⟨h1, h2, h3, h4, h5, h6, h7, h8, h9, h10, h11, h12⟩ := hv
  have hr := congrArg cam_tfe_csid_hw.fatal_err_detected
    (irq_rx_errors_frame K (cam_tfe_csid_irq_clear csid_hw env.irq_status) env.irq_status.rx)
  have hr' : (cam_tfe_csid_irq_rx_errors K (cam_tfe_csid_irq_clear csid_hw env.irq_status)
      env.irq_status.rx).1.fatal_err_detected = csid_hw.fatal_err_detected := hr.trans h5
  have h := fatal_view_irq K csid_hw env
  rw [fatal_view_irq_handle_fatal] at h
  have key : (fatal_view (cam_tfe_csid_irq K csid_hw env)).2.2.1 =
      csid_hw.fatal_err_detected := by
    rw [h]
    split
    · exact hr'
    · split
      · exact hr'
      · exact hr'
  exact key

/-! ## The fatal latch -/

/-- A register write leaves the fatal latch alone. -/
theorem fatal_latch_cam_io_w_mb (v : Nat) (a : csid_reg_addr) (csid_hw : cam_tfe_csid_hw) :
    (cam_io_w_mb v a csid_hw).fatal_err_detected = csid_hw.fatal_err_detected := rfl

/-- A conditional between two states with the same fatal latch. -/
theorem fatal_latch_ite (c : Prop) [Decidable c] (a b x : cam_tfe_csid_hw)
    (ha : a.fatal_err_detected = x.fatal_err_detected)
    (hb : b.fatal_err_detected = x.fatal_err_detected) :
    (if c then a else b).fatal_err_detected = x.fatal_err_detected := by
  split
  · exact ha
  · exact hb

/-- A loop over the RDI paths whose body leaves the fatal latch alone. -/
theorem fatal_latch_for_rdis (f : Nat → cam_tfe_csid_hw → cam_tfe_csid_hw)
    (hf : ∀ i csid_hw, (f i csid_hw).fatal_err_detected = csid_hw.fatal_err_detected)
    (n i : Nat) (csid_hw : cam_tfe_csid_hw) :
    (for_rdis f i n csid_hw).fatal_err_detected = csid_hw.fatal_err_detected :=
  for_rdis_preserves (fun h => h.fatal_err_detected = csid_hw.fatal_err_detected) f
    (fun j h hh => (hf j h).trans hh) n i csid_hw rfl

/-- Zeroing the SOF counters leaves the fatal latch alone. -/
theorem fatal_latch_reset_sof_counters (csid_hw : cam_tfe_csid_hw) :
    (reset_sof_counters csid_hw).fatal_err_detected = csid_hw.fatal_err_detected := by
  have hr : ∀ (i : Nat) (h : cam_tfe_csid_hw),
      (rdi_clear_sof_cnt i h).fatal_err_detected = h.fatal_err_detected := fun _ _ => rfl
  unfold reset_sof_counters
  exact (fatal_latch_for_rdis _ hr _ _ _).trans (fatal_latch_ite _ _ _ _ rfl rfl)

/-- Masking all interrupts leaves the fatal latch alone. -/
theorem fatal_latch_mask_all_interrupts (csid_hw : cam_tfe_csid_hw) :
    (mask_all_interrupts csid_hw).fatal_err_detected = csid_hw.fatal_err_detected := by
  unfold mask_all_interrupts
  exact (fatal_latch_for_rdis _ (fun i h => fatal_latch_cam_io_w_mb _ _ h) _ _ _).trans
    (fatal_latch_ite _ _ _ _ rfl rfl)

/-- Clearing all interrupts leaves the fatal latch alone. -/
theorem fatal_latch_clear_all_interrupts (csid_hw : cam_tfe_csid_hw) :
    (clear_all_interrupts csid_hw).fatal_err_detected = csid_hw.fatal_err_detected := by
  unfold clear_all_interrupts
  exact (fatal_latch_cam_io_w_mb _ _ _).trans
    ((fatal_latch_for_rdis _ (fun i h => fatal_latch_cam_io_w_mb _ _ h) _ _ _).trans
      (fatal_latch_ite _ _ _ _ rfl rfl))

/-- A global reset leaves the fatal latch alone. -/
theorem fatal_latch_global_reset (csid_hw : cam_tfe_csid_hw) (env : reset_env) :
    (cam_tfe_csid_global_reset csid_hw env).2.fatal_err_detected =
      csid_hw.fatal_err_detected := by
  unfold cam_tfe_csid_global_reset
  by_cases h : csid_hw.hw_state ≠ .CAM_HW_STATE_POWER_UP
  · rw [if_pos h]
  · rw [if_neg h]
    simp only [fatal_latch_reset_sof_counters, fatal_latch_cam_io_w_mb,
      fatal_latch_clear_all_interrupts, fatal_latch_mask_all_interrupts]

/-- A successful power-up clears the fatal latch. -/
theorem enable_hw_clears_fatal_latch (K : csid_defs) (csid_hw : cam_tfe_csid_hw)
    (env : enable_hw_env) (h0 : csid_hw.open_count = 0)
    (hrc : (cam_tfe_csid_enable_hw K csid_hw env).1 = 0) :
    (cam_tfe_csid_enable_hw K csid_hw env).2.fatal_err_detected = false := by
  have hu : ¬ csid_hw.open_count = UINT_MAX := by
    rw [h0]
    decide
  have h1 : ¬ u32 (csid_hw.open_count + 1) > 1 := by
    rw [h0]
    decide
  unfold cam_tfe_csid_enable_hw at hrc ⊢
  simp only [if_neg hu, if_neg h1] at hrc ⊢
  by_cases hsoc : env.soc_rc ≠ 0
  · rw [if_pos hsoc] at hrc
    exact absurd hrc hsoc
  · rw [if_neg hsoc] at hrc ⊢
    split at hrc
    · rename_i hg
      exact absurd hrc hg
    · rename_i hg
      rw [if_neg hg]
      split at hrc
      · rename_i hc
        exact absurd hrc hc
      · rename_i hc
        rw [if_neg hc]
        exact fatal_latch_reset_sof_counters _

/-- With the fatal latch set the bottom half invokes no callback and keeps
the latch. -/
theorem bottom_half_latched (csid_hw : cam_tfe_csid_hw) (evt_payload : cam_csid_evt_payload)
    (hl : csid_hw.fatal_err_detected = true) :
    (cam_tfe_csid_evt_bottom_half_handler csid_hw evt_payload).2.fatal_err_detected = true ∧
    (cam_tfe_csid_evt_bottom_half_handler csid_hw evt_payload).2.event_cb_calls =
      csid_hw.event_cb_calls := by
  unfold cam_tfe_csid_evt_bottom_half_handler cam_tfe_csid_put_evt_payload
  simp only [hl, if_true]
  split
  · exact ⟨hl, rfl⟩
  · split
    · exact ⟨hl, rfl⟩
    · cases evt_payload.evt_type <;> exact ⟨hl, rfl⟩

/-- With the fatal latch clear, a fatal event whose context is the registered
one makes the bottom half invoke the registered callback. -/
theorem bottom_half_fires (csid_hw : cam_tfe_csid_hw) (evt_payload : cam_csid_evt_payload)
    (hl : csid_hw.fatal_err_detected = false)
    (ht : evt_payload.evt_type = .CAM_ISP_HW_ERROR_CSID_FATAL)
    (hcb : csid_hw.event_cb ≠ none) (hpriv : csid_hw.event_cb_priv ≠ none)
    (heq : csid_hw.event_cb_priv = evt_payload.priv) :
    (cam_tfe_csid_evt_bottom_half_handler csid_hw evt_payload).2.event_cb_calls =
      csid_hw.event_cb_calls ++
        [{ event_cb := csid_hw.event_cb.getD 0
           err_type := .CAM_ISP_HW_ERROR_CSID_FATAL
           hw_idx := evt_payload.hw_idx }] := by
  have h1 : ¬ (csid_hw.event_cb = none ∨ csid_hw.event_cb_priv = none) := by
    rintro (h | h)
    · exact hcb h
    · exact hpriv h
  have h2 : ¬ (csid_hw.event_cb_priv ≠ evt_payload.priv) := fun h => h heq
  simp only [cam_tfe_csid_evt_bottom_half_handler, if_neg h1, if_neg h2, ht, hl,
    cam_tfe_csid_put_evt_payload, Bool.false_eq_true, if_false]

/-! ## The SOF counter of the initial frame drop -/

/-- What `cam_tfe_csid_enable_path_for_init_frame_drop` does on a streaming
RDI path with a pending frame drop. -/
theorem enable_path_for_init_frame_drop_rdi (K : csid_defs) (csid_hw : cam_tfe_csid_hw)
    (res_id : Nat) (hid : res_id ≤ CAM_TFE_CSID_PATH_RES_RDI_2)
    (hs : (csid_hw.rdi_res res_id).res_state = .STREAMING)
    (hN : (csid_hw.rdi_res res_id).res_priv.init_frame_drop ≠ 0)
    (hreg : csid_hw.csid_reg.rdi_reg res_id ≠ none) :
    cam_tfe_csid_enable_path_for_init_frame_drop K csid_hw res_id =
      (if u32 (u32 ((csid_hw.rdi_res res_id).res_priv.res_sof_cnt + 1) + 1) <
          u32 ((csid_hw.rdi_res res_id).res_priv.res_sof_cnt + 1) then
        set_res csid_hw res_id
          { csid_hw.rdi_res res_id with
            res_priv := { (csid_hw.rdi_res res_id).res_priv with
              res_sof_cnt := u32 ((csid_hw.rdi_res res_id).res_priv.res_sof_cnt + 1) } }
       else if u32 ((csid_hw.rdi_res res_id).res_priv.res_sof_cnt + 1) =
          (csid_hw.rdi_res res_id).res_priv.init_frame_drop then
        (if csid_hw.csid_debug &&& K.TFE_CSID_DEBUG_ENABLE_SOF_IRQ = 0 then
          cam_io_w_mb
            (cam_io_r_mb (.csid_rdi_irq_mask_addr res_id)
              (cam_io_w_mb CAM_TFE_CSID_RESUME_AT_FRAME_BOUNDARY (.csid_rdi_ctrl_addr res_id)
                (set_res csid_hw res_id
                  { csid_hw.rdi_res res_id with
                    res_priv := { (csid_hw.rdi_res res_id).res_priv with
                      res_sof_cnt :=
                        u32 ((csid_hw.rdi_res res_id).res_priv.res_sof_cnt + 1) } })) &&&
              u32_not K.TFE_CSID_PATH_INFO_INPUT_SOF)
            (.csid_rdi_irq_mask_addr res_id)
            (cam_io_w_mb CAM_TFE_CSID_RESUME_AT_FRAME_BOUNDARY (.csid_rdi_ctrl_addr res_id)
              (set_res csid_hw res_id
                { csid_hw.rdi_res res_id with
                  res_priv := { (csid_hw.rdi_res res_id).res_priv with
                    res_sof_cnt :=
                      u32 ((csid_hw.rdi_res res_id).res_priv.res_sof_cnt + 1) } }))
         else
          cam_io_w_mb CAM_TFE_CSID_RESUME_AT_FRAME_BOUNDARY (.csid_rdi_ctrl_addr res_id)
            (set_res csid_hw res_id
              { csid_hw.rdi_res res_id with
                res_priv := { (csid_hw.rdi_res res_id).res_priv with
                  res_sof_cnt := u32 ((csid_hw.rdi_res res_id).res_priv.res_sof_cnt + 1) } }))
       else
        set_res csid_hw res_id
          { csid_hw.rdi_res res_id with
            res_priv := { (csid_hw.rdi_res res_id).res_priv with
              res_sof_cnt := u32 ((csid_hw.rdi_res res_id).res_priv.res_sof_cnt + 1) } }) := by
  have hne : res_id ≠ CAM_TFE_CSID_PATH_RES_IPP := by
    unfold CAM_TFE_CSID_PATH_RES_RDI_2 at hid
    unfold CAM_TFE_CSID_PATH_RES_IPP
    omega
  have hg : ¬ (res_id ≠ CAM_TFE_CSID_PATH_RES_IPP ∧
      ¬ (res_id ≥ CAM_TFE_CSID_PATH_RES_RDI_0 ∧ res_id ≤ CAM_TFE_CSID_PATH_RES_RDI_2)) := by
    rintro ⟨_, h2⟩
    exact h2 ⟨Nat.zero_le _, hid⟩
  have hres : get_res csid_hw res_id = csid_hw.rdi_res res_id := by
    unfold get_res
    rw [if_neg hne]
  have hs' : ¬ (csid_hw.rdi_res res_id).res_state ≠ .STREAMING := fun h => h hs
  unfold cam_tfe_csid_enable_path_for_init_frame_drop
  simp only [if_neg hg, hres, if_neg hN, if_neg hs', if_neg hne, ne_eq, not_true_eq_false,
    and_false, if_false, hreg, not_false_eq_true, and_true]

/-- A store to an RDI node: the node reads back, the register description,
the write log and the debug flags stay. -/
theorem set_res_rdi (csid_hw : cam_tfe_csid_hw) (res_id : Nat) (n : cam_isp_resource_node)
    (hne : res_id ≠ CAM_TFE_CSID_PATH_RES_IPP) :
    (set_res csid_hw res_id n).rdi_res res_id = n ∧
    (set_res csid_hw res_id n).csid_reg = csid_hw.csid_reg ∧
    (set_res csid_hw res_id n).regs = csid_hw.regs := by
  unfold set_res
  rw [if_neg hne]
  exact ⟨Function.update_same _ _ _, rfl, rfl⟩

/-- One SOF interrupt on a streaming RDI path with a pending frame drop: the
SOF counter advances modulo `2^32`, and the resume write is issued exactly
when the new count equals the target and is not `UINT_MAX`. -/
theorem enable_path_for_init_frame_drop_step (K : csid_defs) (csid_hw : cam_tfe_csid_hw)
    (res_id : Nat) (hid : res_id ≤ CAM_TFE_CSID_PATH_RES_RDI_2)
    (hs : (csid_hw.rdi_res res_id).res_state = .STREAMING)
    (hN : (csid_hw.rdi_res res_id).res_priv.init_frame_drop ≠ 0)
    (hreg : csid_hw.csid_reg.rdi_reg res_id ≠ none) :
    ((cam_tfe_csid_enable_path_for_init_frame_drop K csid_hw res_id).rdi_res res_id).res_state =
      .STREAMING ∧
    ((cam_tfe_csid_enable_path_for_init_frame_drop K csid_hw res_id).rdi_res
      res_id).res_priv.init_frame_drop = (csid_hw.rdi_res res_id).res_priv.init_frame_drop ∧
    ((cam_tfe_csid_enable_path_for_init_frame_drop K csid_hw res_id).rdi_res
      res_id).res_priv.res_sof_cnt = u32 ((csid_hw.rdi_res res_id).res_priv.res_sof_cnt + 1) ∧
    (cam_tfe_csid_enable_path_for_init_frame_drop K csid_hw res_id).csid_reg =
      csid_hw.csid_reg ∧
    rdi_resume_writes (cam_tfe_csid_enable_path_for_init_frame_drop K csid_hw res_id) res_id =
      rdi_resume_writes csid_hw res_id +
        (if u32 ((csid_hw.rdi_res res_id).res_priv.res_sof_cnt + 1) =
              (csid_hw.rdi_res res_id).res_priv.init_frame_drop ∧
            u32 ((csid_hw.rdi_res res_id).res_priv.res_sof_cnt + 1) ≠ UINT_MAX then 1
         else 0) := by
  have hne : res_id ≠ CAM_TFE_CSID_PATH_RES_IPP := by
    unfold CAM_TFE_CSID_PATH_RES_RDI_2 at hid
    unfold CAM_TFE_CSID_PATH_RES_IPP
    omega
  obtain ⟨s1, s2, s3⟩ := set_res_rdi csid_hw res_id
    { csid_hw.rdi_res res_id with
      res_priv := { (csid_hw.rdi_res res_id).res_priv with
        res_sof_cnt := u32 ((csid_hw.rdi_res res_id).res_priv.res_sof_cnt + 1) } } hne
  have hov : (u32 (u32 ((csid_hw.rdi_res res_id).res_priv.res_sof_cnt + 1) + 1) <
      u32 ((csid_hw.rdi_res res_id).res_priv.res_sof_cnt + 1)) ↔
      u32 ((csid_hw.rdi_res res_id).res_priv.res_sof_cnt + 1) = UINT_MAX := by
    unfold u32 UINT_MAX
    omega
  have heq := enable_path_for_init_frame_drop_rdi K csid_hw res_id hid hs hN hreg
  have s1a : ((set_res csid_hw res_id
      { csid_hw.rdi_res res_id with
        res_priv := { (csid_hw.rdi_res res_id).res_priv with
          res_sof_cnt := u32 ((csid_hw.rdi_res res_id).res_priv.res_sof_cnt + 1) } }).rdi_res
      res_id).res_state = .STREAMING := by
    rw [s1]
    exact hs
  have s1b : ((set_res csid_hw res_id
      { csid_hw.rdi_res res_id with
        res_priv := { (csid_hw.rdi_res res_id).res_priv with
          res_sof_cnt := u32 ((csid_hw.rdi_res res_id).res_priv.res_sof_cnt + 1) } }).rdi_res
      res_id).res_priv.init_frame_drop = (csid_hw.rdi_res res_id).res_priv.init_frame_drop := by
    rw [s1]
  have s1c : ((set_res csid_hw res_id
      { csid_hw.rdi_res res_id with
        res_priv := { (csid_hw.rdi_res res_id).res_priv with
          res_sof_cnt := u32 ((csid_hw.rdi_res res_id).res_priv.res_sof_cnt + 1) } }).rdi_res
      res_id).res_priv.res_sof_cnt =
        u32 ((csid_hw.rdi_res res_id).res_priv.res_sof_cnt + 1) := by
    rw [s1]
  clear s1
  generalize set_res csid_hw res_id
      { csid_hw.rdi_res res_id with
        res_priv := { (csid_hw.rdi_res res_id).res_priv with
          res_sof_cnt := u32 ((csid_hw.rdi_res res_id).res_priv.res_sof_cnt + 1) } } = X
    at heq s1a s1b s1c s2 s3
  generalize u32 ((csid_hw.rdi_res res_id).res_priv.res_sof_cnt + 1) = c at heq s1c hov ⊢
  rw [heq]
  by_cases h1 : u32 (c + 1) < c
  · rw [if_pos h1]
    have hno : ¬ (c = (csid_hw.rdi_res res_id).res_priv.init_frame_drop ∧ c ≠ UINT_MAX) :=
      fun h => h.2 (hov.mp h1)
    rw [if_neg hno]
    refine ⟨s1a, s1b, s1c, s2, ?_⟩
    unfold rdi_resume_writes
    rw [s3]
    rfl
  · rw [if_neg h1]
    have hnmax : c ≠ UINT_MAX := fun h => h1 (hov.mpr h)
    by_cases h2 : c = (csid_hw.rdi_res res_id).res_priv.init_frame_drop
    · have h2' : c = (csid_hw.rdi_res res_id).res_priv.init_frame_drop ∧ c ≠ UINT_MAX :=
        ⟨h2, hnmax⟩
      rw [if_pos h2, if_pos h2']
      have hcount : ∀ (l : List (csid_reg_addr × Nat)) (v : Nat),
          List.count (csid_reg_addr.csid_rdi_ctrl_addr res_id,
              CAM_TFE_CSID_RESUME_AT_FRAME_BOUNDARY)
            ((csid_reg_addr.csid_rdi_irq_mask_addr res_id, v) :: l) =
          List.count (csid_reg_addr.csid_rdi_ctrl_addr res_id,
              CAM_TFE_CSID_RESUME_AT_FRAME_BOUNDARY) l := by
        intro l v
        rw [List.count_cons]
        simp
      by_cases h3 : csid_hw.csid_debug &&& K.TFE_CSID_DEBUG_ENABLE_SOF_IRQ = 0
      · rw [if_pos h3]
        refine ⟨s1a, s1b, s1c, s2, ?_⟩
        unfold rdi_resume_writes
        show List.count _ ((csid_reg_addr.csid_rdi_irq_mask_addr res_id, _) ::
          (csid_reg_addr.csid_rdi_ctrl_addr res_id, CAM_TFE_CSID_RESUME_AT_FRAME_BOUNDARY) ::
            X.regs) = _
        rw [hcount, List.count_cons_self, s3]
      · rw [if_neg h3]
        refine ⟨s1a, s1b, s1c, s2, ?_⟩
        unfold rdi_resume_writes
        show List.count _
          ((csid_reg_addr.csid_rdi_ctrl_addr res_id, CAM_TFE_CSID_RESUME_AT_FRAME_BOUNDARY) ::
            X.regs) = _
        rw [List.count_cons_self, s3]
    · have hno : ¬ (c = (csid_hw.rdi_res res_id).res_priv.init_frame_drop ∧ c ≠ UINT_MAX) :=
        fun h => h2 h.1
      rw [if_neg h2, if_neg hno]
      refine ⟨s1a, s1b, s1c, s2, ?_⟩
      unfold rdi_resume_writes
      rw [s3]
      rfl

/-- A session of SOF interrupts on a streaming RDI path with a pending frame
drop: after `n` interrupts the counter is `n` modulo `2^32`. -/
theorem sof_session_counter (K : csid_defs) (csid_hw : cam_tfe_csid_hw)
    (res_id : Nat) (hid : res_id ≤ CAM_TFE_CSID_PATH_RES_RDI_2)
    (hs : (csid_hw.rdi_res res_id).res_state = .STREAMING)
    (hN : (csid_hw.rdi_res res_id).res_priv.init_frame_drop ≠ 0)
    (hreg : csid_hw.csid_reg.rdi_reg res_id ≠ none)
    (hc : (csid_hw.rdi_res res_id).res_priv.res_sof_cnt = 0) :
    ∀ n : Nat,
      ((sof_session K csid_hw res_id n).rdi_res res_id).res_state = .STREAMING ∧
      ((sof_session K csid_hw res_id n).rdi_res res_id).res_priv.init_frame_drop =
        (csid_hw.rdi_res res_id).res_priv.init_frame_drop ∧
      ((sof_session K csid_hw res_id n).rdi_res res_id).res_priv.res_sof_cnt =
        n % 4294967296 ∧
      (sof_session K csid_hw res_id n).csid_reg = csid_hw.csid_reg := by
  intro n
  induction n with
  | zero => exact ⟨hs, rfl, hc, rfl⟩
  | succ n ih =>
    obtain ⟨i1, i2, i3, i4⟩ := ih
    obtain ⟨t1, t2, t3, t4, _⟩ := enable_path_for_init_frame_drop_step K
      (sof_session K csid_hw res_id n) res_id hid i1 (by rw [i2]; exact hN)
      (by rw [i4]; exact hreg)
    refine ⟨t1, t2.trans i2, ?_, t4.trans i4⟩
    show ((cam_tfe_csid_enable_path_for_init_frame_drop K (sof_session K csid_hw res_id n)
      res_id).rdi_res res_id).res_priv.res_sof_cnt = _
    rw [t3, i3]
    unfold u32
    omega

/-- In a session of SOF interrupts on a streaming RDI path with the pending
frame-drop target `N`, the resume write is issued on every SOF whose number is
`N` modulo `2^32`, unless that value is `UINT_MAX`. -/
theorem resume_issued_at_succ (K : csid_defs) (csid_hw : cam_tfe_csid_hw)
    (res_id : Nat) (hid : res_id ≤ CAM_TFE_CSID_PATH_RES_RDI_2)
    (hs : (csid_hw.rdi_res res_id).res_state = .STREAMING)
    (hN : (csid_hw.rdi_res res_id).res_priv.init_frame_drop ≠ 0)
    (hreg : csid_hw.csid_reg.rdi_reg res_id ≠ none)
    (hc : (csid_hw.rdi_res res_id).res_priv.res_sof_cnt = 0) (n : Nat) :
    resume_issued_at K csid_hw res_id (n + 1) =
      decide ((n + 1) % 4294967296 = (csid_hw.rdi_res res_id).res_priv.init_frame_drop ∧
        (n + 1) % 4294967296 ≠ UINT_MAX) := by
  obtain ⟨i1, i2, i3, i4⟩ := sof_session_counter K csid_hw res_id hid hs hN hreg hc n
  obtain ⟨_, _, _, _, t5⟩ := enable_path_for_init_frame_drop_step K
    (sof_session K csid_hw res_id n) res_id hid i1 (by rw [i2]; exact hN)
    (by rw [i4]; exact hreg)
  have hu : u32 (n % 4294967296 + 1) = (n + 1) % 4294967296 := by
    unfold u32
    omega
  rw [i3, i2, hu] at t5
  unfold resume_issued_at
  rw [Nat.add_sub_cancel]
  show decide (rdi_resume_writes (cam_tfe_csid_enable_path_for_init_frame_drop K
    (sof_session K csid_hw res_id n) res_id) res_id > _) = _
  rw [t5]
  by_cases hcond : (n + 1) % 4294967296 = (csid_hw.rdi_res res_id).res_priv.init_frame_drop ∧
      (n + 1) % 4294967296 ≠ UINT_MAX
  · rw [if_pos hcond, decide_eq_true hcond]
    exact decide_eq_true (by omega)
  · rw [if_neg hcond, decide_eq_false hcond]
    exact decide_eq_false (by omega)

/-! ## Reservation of a receiver that is in use -/

/-- A reservation against a receiver that is in use with another input or
another lane setup is rejected by `cam_tfe_csid_cid_reserve` before anything
is written. -/
theorem cid_reserve_mismatch (K : csid_defs) (csid_hw : cam_tfe_csid_hw)
    (cid_reserv : cam_tfe_csid_hw_reserve_resource_args)
    (hcnt : csid_hw.csi2_reserve_cnt ≠ 0)
    (hmis : csid_hw.in_res_id ≠ cid_reserv.in_port.res_id ∨
      csid_hw.csi2_rx_cfg.lane_cfg ≠ cid_reserv.in_port.lane_cfg ∨
      csid_hw.csi2_rx_cfg.lane_type ≠ cid_reserv.in_port.lane_type ∨
      csid_hw.csi2_rx_cfg.lane_num ≠ cid_reserv.in_port.lane_num) :
    cam_tfe_csid_cid_reserve K csid_hw cid_reserv = (-EINVAL, csid_hw, none) := by
  unfold cam_tfe_csid_cid_reserve
  simp only []
  by_cases h1 : cid_reserv.in_port.res_id ≥ K.CAM_ISP_TFE_IN_RES_MAX
  · rw [if_pos h1]
  rw [if_neg h1]
  by_cases h2 : cid_reserv.in_port.lane_type ≥ K.CAM_ISP_LANE_TYPE_MAX
  · rw [if_pos h2]
  rw [if_neg h2]
  by_cases h3 : cid_reserv.in_port.lane_type = K.CAM_ISP_LANE_TYPE_DPHY ∧
      cid_reserv.in_port.lane_num > 4
  · rw [if_pos h3]
  rw [if_neg h3]
  by_cases h4 : cid_reserv.in_port.lane_type = K.CAM_ISP_LANE_TYPE_CPHY ∧
      cid_reserv.in_port.lane_num > 3
  · rw [if_pos h4]
  rw [if_neg h4]
  by_cases h5 : cid_reserve_vc_dt_invalid cid_reserv.in_port.vc cid_reserv.in_port.dt 0
      cid_reserv.in_port.num_valid_vc_dt = true
  · rw [if_pos h5]
  rw [if_neg h5]
  by_cases h6 : csid_hw.csi2_reserve_cnt = UINT_MAX
  · rw [if_pos h6]
  rw [if_neg h6]
  by_cases h7 : csid_hw.csi2_reserve_cnt ≠ 0 ∧ csid_hw.in_res_id ≠ cid_reserv.in_port.res_id
  · rw [if_pos h7]
  rw [if_neg h7]
  have h8 : csid_hw.csi2_reserve_cnt ≠ 0 ∧
      (csid_hw.csi2_rx_cfg.lane_cfg ≠ cid_reserv.in_port.lane_cfg ∨
       csid_hw.csi2_rx_cfg.lane_type ≠ cid_reserv.in_port.lane_type ∨
       csid_hw.csi2_rx_cfg.lane_num ≠ cid_reserv.in_port.lane_num) := by
    refine ⟨hcnt, ?_⟩
    rcases hmis with h | h
    · exact absurd ⟨hcnt, h⟩ h7
    · exact h
  rw [if_pos h8]

/-- A successful `cam_tfe_csid_cid_reserve` on a receiver that is in use
counts the reservation and keeps the receiver configuration. -/
theorem cid_reserve_success (K : csid_defs) (csid_hw : cam_tfe_csid_hw)
    (cid_reserv : cam_tfe_csid_hw_reserve_resource_args)
    (hcnt : csid_hw.csi2_reserve_cnt ≠ 0) (hu32 : csid_hw.csi2_reserve_cnt ≤ UINT_MAX)
    (hrc : (cam_tfe_csid_cid_reserve K csid_hw cid_reserv).1 = 0) :
    (cam_tfe_csid_cid_reserve K csid_hw cid_reserv).2.1.csi2_reserve_cnt =
      csid_hw.csi2_reserve_cnt + 1 ∧
    (cam_tfe_csid_cid_reserve K csid_hw cid_reserv).2.1.in_res_id = csid_hw.in_res_id ∧
    (cam_tfe_csid_cid_reserve K csid_hw cid_reserv).2.1.csi2_rx_cfg = csid_hw.csi2_rx_cfg := by
  have hne : (-EINVAL : Int) ≠ 0 := by decide
  unfold cam_tfe_csid_cid_reserve at hrc ⊢
  simp only [] at hrc ⊢
  by_cases h1 : cid_reserv.in_port.res_id ≥ K.CAM_ISP_TFE_IN_RES_MAX
  · rw [if_pos h1] at hrc
    exact absurd hrc hne
  rw [if_neg h1] at hrc ⊢
  by_cases h2 : cid_reserv.in_port.lane_type ≥ K.CAM_ISP_LANE_TYPE_MAX
  · rw [if_pos h2] at hrc
    exact absurd hrc hne
  rw [if_neg h2] at hrc ⊢
  by_cases h3 : cid_reserv.in_port.lane_type = K.CAM_ISP_LANE_TYPE_DPHY ∧
      cid_reserv.in_port.lane_num > 4
  · rw [if_pos h3] at hrc
    exact absurd hrc hne
  rw [if_neg h3] at hrc ⊢
  by_cases h4 : cid_reserv.in_port.lane_type = K.CAM_ISP_LANE_TYPE_CPHY ∧
      cid_reserv.in_port.lane_num > 3
  · rw [if_pos h4] at hrc
    exact absurd hrc hne
  rw [if_neg h4] at hrc ⊢
  by_cases h5 : cid_reserve_vc_dt_invalid cid_reserv.in_port.vc cid_reserv.in_port.dt 0
      cid_reserv.in_port.num_valid_vc_dt = true
  · rw [if_pos h5] at hrc
    exact absurd hrc hne
  rw [if_neg h5] at hrc ⊢
  by_cases h6 : csid_hw.csi2_reserve_cnt = UINT_MAX
  · rw [if_pos h6] at hrc
    exact absurd hrc hne
  rw [if_neg h6] at hrc ⊢
  by_cases h7 : csid_hw.csi2_reserve_cnt ≠ 0 ∧ csid_hw.in_res_id ≠ cid_reserv.in_port.res_id
  · rw [if_pos h7] at hrc
    exact absurd hrc hne
  rw [if_neg h7] at hrc ⊢
  by_cases h8 : csid_hw.csi2_reserve_cnt ≠ 0 ∧
      (csid_hw.csi2_rx_cfg.lane_cfg ≠ cid_reserv.in_port.lane_cfg ∨
       csid_hw.csi2_rx_cfg.lane_type ≠ cid_reserv.in_port.lane_type ∨
       csid_hw.csi2_rx_cfg.lane_num ≠ cid_reserv.in_port.lane_num)
  · rw [if_pos h8] at hrc
    exact absurd hrc hne
  rw [if_neg h8] at hrc ⊢
  by_cases h9 : (cam_tfe_csid_cid_get csid_hw.cid_res cid_reserv.in_port.vc
      cid_reserv.in_port.dt cid_reserv.in_port.num_valid_vc_dt).1 ≠ 0
  · rw [if_pos h9] at hrc
    exact absurd hrc h9
  rw [if_neg h9]
  have hu : u32 (csid_hw.csi2_reserve_cnt + 1) = csid_hw.csi2_reserve_cnt + 1 := by
    unfold UINT_MAX at h6 hu32
    unfold u32
    omega
  simp only [if_neg hcnt, hu]
  exact ⟨trivial, trivial, trivial⟩

/-- A store to a path node leaves the receiver reservation alone. -/
theorem set_res_rx_reservation (csid_hw : cam_tfe_csid_hw) (p : Nat)
    (n : cam_isp_resource_node) :
    (set_res csid_hw p n).csi2_reserve_cnt = csid_hw.csi2_reserve_cnt ∧
    (set_res csid_hw p n).in_res_id = csid_hw.in_res_id ∧
    (set_res csid_hw p n).csi2_rx_cfg = csid_hw.csi2_rx_cfg := by
  unfold set_res
  split <;> exact ⟨rfl, rfl, rfl⟩

/-- The assignment part of `cam_tfe_csid_path_reserve` leaves the receiver
reservation alone. -/
theorem path_reserve_assign_rx_reservation (csid_hw : cam_tfe_csid_hw)
    (reserve : cam_tfe_csid_hw_reserve_resource_args) (cid_value : Nat)
    (qcfa_supported : Bool) :
    (cam_tfe_csid_path_reserve_assign csid_hw reserve cid_value
      qcfa_supported).2.1.csi2_reserve_cnt = csid_hw.csi2_reserve_cnt ∧
    (cam_tfe_csid_path_reserve_assign csid_hw reserve cid_value
      qcfa_supported).2.1.in_res_id = csid_hw.in_res_id ∧
    (cam_tfe_csid_path_reserve_assign csid_hw reserve cid_value
      qcfa_supported).2.1.csi2_rx_cfg = csid_hw.csi2_rx_cfg := by
  unfold cam_tfe_csid_path_reserve_assign
  simp only []
  split
  · exact set_res_rx_reservation csid_hw _ _
  · obtain ⟨a1, a2, a3⟩ := set_res_rx_reservation csid_hw reserve.res_id
      { get_res csid_hw reserve.res_id with
        res_state := .RESERVED
        res_priv :=
          { (get_res csid_hw reserve.res_id).res_priv with
            sensor_width := reserve.in_port.sensor_width
            sensor_height := reserve.in_port.sensor_height
            sensor_fps := reserve.in_port.sensor_fps
            sensor_hbi := reserve.in_port.sensor_vbi
            sensor_vbi := reserve.in_port.sensor_hbi
            cid := cid_value
            in_format := reserve.in_port.format
            out_format := reserve.out_port_format
            sync_mode := reserve.sync_mode
            height := reserve.in_port.height
            start_line := reserve.in_port.line_start
            end_line := reserve.in_port.line_end
            usage_type := reserve.in_port.usage_type
            bayer_bin := reserve.in_port.bayer_bin
            qcfa_bin := reserve.in_port.qcfa_bin } }
    refine ⟨Eq.trans (set_res_rx_reservation _ _ _).1 a1,
      Eq.trans (set_res_rx_reservation _ _ _).2.1 a2,
      Eq.trans (set_res_rx_reservation _ _ _).2.2 a3⟩

/-- The part of `cam_tfe_csid_path_reserve` from the call of
`cam_tfe_csid_cid_reserve` on. -/
theorem path_reserve_tail_mismatch (K : csid_defs) (csid_hw : cam_tfe_csid_hw)
    (reserve : cam_tfe_csid_hw_reserve_resource_args) (qcfa_supported : Bool)
    (hcnt : csid_hw.csi2_reserve_cnt ≠ 0)
    (hmis : csid_hw.in_res_id ≠ reserve.in_port.res_id ∨
      csid_hw.csi2_rx_cfg.lane_cfg ≠ reserve.in_port.lane_cfg ∨
      csid_hw.csi2_rx_cfg.lane_type ≠ reserve.in_port.lane_type ∨
      csid_hw.csi2_rx_cfg.lane_num ≠ reserve.in_port.lane_num) :
    cam_tfe_csid_path_reserve K csid_hw reserve qcfa_supported = (-EINVAL, csid_hw, none) := by
  have hc := cid_reserve_mismatch K csid_hw reserve hcnt hmis
  have hne : (-EINVAL : Int) ≠ 0 := by decide
  unfold cam_tfe_csid_path_reserve
  simp only [hc, if_pos hne]
  split
  · rfl
  · split
    · rfl
    · split
      · split
        · rfl
        · split <;> rfl
      · split
        · split <;> rfl
        · rfl

/-- The common end of both arms of `cam_tfe_csid_path_reserve`: the call of
`cam_tfe_csid_cid_reserve` followed by the assignment. -/
theorem path_reserve_arm_success (K : csid_defs) (csid_hw : cam_tfe_csid_hw)
    (reserve : cam_tfe_csid_hw_reserve_resource_args) (qcfa_supported : Bool)
    (hcnt : csid_hw.csi2_reserve_cnt ≠ 0) (hu32 : csid_hw.csi2_reserve_cnt ≤ UINT_MAX)
    (hrc : (if (cam_tfe_csid_cid_reserve K csid_hw reserve).1 ≠ 0 then
        ((cam_tfe_csid_cid_reserve K csid_hw reserve).1,
          (cam_tfe_csid_cid_reserve K csid_hw reserve).2.1, (none : Option Nat))
      else cam_tfe_csid_path_reserve_assign (cam_tfe_csid_cid_reserve K csid_hw reserve).2.1
        reserve ((cam_tfe_csid_cid_reserve K csid_hw reserve).2.2.getD 0) qcfa_supported).1 = 0) :
    (if (cam_tfe_csid_cid_reserve K csid_hw reserve).1 ≠ 0 then
        ((cam_tfe_csid_cid_reserve K csid_hw reserve).1,
          (cam_tfe_csid_cid_reserve K csid_hw reserve).2.1, (none : Option Nat))
      else cam_tfe_csid_path_reserve_assign (cam_tfe_csid_cid_reserve K csid_hw reserve).2.1
        reserve ((cam_tfe_csid_cid_reserve K csid_hw reserve).2.2.getD 0)
          qcfa_supported).2.1.csi2_reserve_cnt = csid_hw.csi2_reserve_cnt + 1 ∧
    (if (cam_tfe_csid_cid_reserve K csid_hw reserve).1 ≠ 0 then
        ((cam_tfe_csid_cid_reserve K csid_hw reserve).1,
          (cam_tfe_csid_cid_reserve K csid_hw reserve).2.1, (none : Option Nat))
      else cam_tfe_csid_path_reserve_assign (cam_tfe_csid_cid_reserve K csid_hw reserve).2.1
        reserve ((cam_tfe_csid_cid_reserve K csid_hw reserve).2.2.getD 0)
          qcfa_supported).2.1.in_res_id = csid_hw.in_res_id ∧
    (if (cam_tfe_csid_cid_reserve K csid_hw reserve).1 ≠ 0 then
        ((cam_tfe_csid_cid_reserve K csid_hw reserve).1,
          (cam_tfe_csid_cid_reserve K csid_hw reserve).2.1, (none : Option Nat))
      else cam_tfe_csid_path_reserve_assign (cam_tfe_csid_cid_reserve K csid_hw reserve).2.1
        reserve ((cam_tfe_csid_cid_reserve K csid_hw reserve).2.2.getD 0)
          qcfa_supported).2.1.csi2_rx_cfg = csid_hw.csi2_rx_cfg := by
  by_cases hcr : (cam_tfe_csid_cid_reserve K csid_hw reserve).1 ≠ 0
  · rw [if_pos hcr] at hrc
    exact absurd hrc hcr
  · rw [if_neg hcr]
    obtain ⟨c1, c2, c3⟩ := cid_reserve_success K csid_hw reserve hcnt hu32 (not_not.mp hcr)
    obtain ⟨a1, a2, a3⟩ := path_reserve_assign_rx_reservation
      (cam_tfe_csid_cid_reserve K csid_hw reserve).2.1 reserve
      ((cam_tfe_csid_cid_reserve K csid_hw reserve).2.2.getD 0) qcfa_supported
    exact ⟨a1.trans c1, a2.trans c2, a3.trans c3⟩

/-! ## The interrupt mask written by the start of an RDI path -/

/-- A register read returns the value of the write just made to it. -/
theorem cam_io_r_mb_cam_io_w_mb (v : Nat) (a : csid_reg_addr) (csid_hw : cam_tfe_csid_hw) :
    cam_io_r_mb a (cam_io_w_mb v a csid_hw) = v := by
  simp [cam_io_r_mb, cam_io_w_mb, List.find?]

/-- A store to a path node leaves the write log and the register description
alone. -/
theorem set_res_regs (csid_hw : cam_tfe_csid_hw) (p : Nat) (n : cam_isp_resource_node) :
    (set_res csid_hw p n).regs = csid_hw.regs ∧
    (set_res csid_hw p n).csid_reg = csid_hw.csid_reg ∧
    (set_res csid_hw p n).csid_debug = csid_hw.csid_debug := by
  unfold set_res
  split <;> exact ⟨rfl, rfl, rfl⟩

/-- The path-active check looks at the register description only. -/
theorem check_path_active_congr (a b : cam_tfe_csid_hw) (path_status : Nat → Nat)
    (h : a.csid_reg = b.csid_reg) :
    cam_tfe_csid_check_path_active a path_status =
      cam_tfe_csid_check_path_active b path_status := by
  unfold cam_tfe_csid_check_path_active
  rw [h]

/-- The value with the SOF source added has every bit of the SOF source. -/
theorem or_and_self_right (x s : Nat) : (x ||| s) &&& s = s := by
  apply Nat.eq_of_testBit_eq
  intro i
  simp only [Nat.testBit_and, Nat.testBit_or]
  cases x.testBit i <;> cases s.testBit i <;> rfl

/-- Adding a further source keeps the bits of the SOF source. -/
theorem or_or_and_right (x s e : Nat) : (x ||| s ||| e) &&& s = s := by
  apply Nat.eq_of_testBit_eq
  intro i
  simp only [Nat.testBit_and, Nat.testBit_or]
  cases x.testBit i <;> cases s.testBit i <;> cases e.testBit i <;> rfl

/-- A mask built with the SOF source carries every bit of that source. -/
theorem rdi_path_irq_mask_sof (K : csid_defs) (csid_hw : cam_tfe_csid_hw) :
    rdi_path_irq_mask K csid_hw true &&& K.TFE_CSID_PATH_INFO_INPUT_SOF =
      K.TFE_CSID_PATH_INFO_INPUT_SOF := by
  unfold rdi_path_irq_mask
  simp only [if_true]
  split
  · exact or_or_and_right _ _ _
  · exact or_and_self_right _ _

/-- A successful `cam_tfe_csid_enable_rdi_path`: the mask it writes and the
write log it leaves, in terms of the frame-drop count and the path-active
check. -/
theorem enable_rdi_path_mask (K : csid_defs) (csid_hw : cam_tfe_csid_hw) (res_id : Nat)
    (path_status : Nat → Nat)
    (hrc : (cam_tfe_csid_enable_rdi_path K csid_hw res_id path_status).1 = 0) :
    let drop : Bool :=
      decide ((get_res csid_hw res_id).res_priv.usage_type = K.CAM_ISP_TFE_IN_RES_USAGE_DUAL ∨
        (get_res csid_hw res_id).res_priv.init_frame_drop ≠ 0)
    let active : Bool := cam_tfe_csid_check_path_active csid_hw path_status
    let sof : Bool :=
      decide (csid_hw.csid_debug &&& K.TFE_CSID_DEBUG_ENABLE_SOF_IRQ ≠ 0 ∨
        (drop = true ∧ active = false))
    (cam_tfe_csid_enable_rdi_path K csid_hw res_id path_status).2.regs =
      (csid_reg_addr.csid_rdi_irq_mask_addr res_id, rdi_path_irq_mask K csid_hw sof) ::
        ((if drop = true ∧ active = false then []
          else [(csid_reg_addr.csid_rdi_ctrl_addr res_id,
            CAM_TFE_CSID_RESUME_AT_FRAME_BOUNDARY)]) ++ csid_hw.regs) := by
  intro drop active sof
  unfold cam_tfe_csid_enable_rdi_path at hrc ⊢
  by_cases hg : (get_res csid_hw res_id).res_state ≠ .INIT_HW ∨
      res_id > CAM_TFE_CSID_PATH_RES_RDI_2 ∨ csid_hw.csid_reg.rdi_reg res_id = none
  · rw [if_pos hg] at hrc
    exact absurd hrc (by simp [EINVAL])
  · rw [if_neg hg]
    simp only [(set_res_regs _ _ _).1]
    by_cases hu : (get_res csid_hw res_id).res_priv.usage_type = K.CAM_ISP_TFE_IN_RES_USAGE_DUAL
    · have hdrop : drop = true := by simp [drop, hu]
      simp only [if_pos hu]
      have hact : cam_tfe_csid_check_path_active
          (set_res csid_hw res_id
            { get_res csid_hw res_id with
              res_priv := { (get_res csid_hw res_id).res_priv with init_frame_drop := 1 } })
          path_status = active :=
        check_path_active_congr _ _ _ (set_res_regs _ _ _).2.1
      rw [hact]
      cases ha : active with
      | true =>
        have hs : sof = decide (csid_hw.csid_debug &&& K.TFE_CSID_DEBUG_ENABLE_SOF_IRQ ≠ 0) := by
          simp [sof, ha]
        simp [cam_io_w_mb, (set_res_regs _ _ _).1, rdi_path_irq_mask, hdrop, hs]
      | false =>
        have hs : sof = true := by simp [sof, ha, hdrop]
        simp [cam_io_w_mb, (set_res_regs _ _ _).1, rdi_path_irq_mask, hdrop, hs]
    · simp only [if_neg hu]
      by_cases hd : (get_res csid_hw res_id).res_priv.init_frame_drop = 0
      · have hdrop : drop = false := by simp [drop, hu, hd]
        have hs : sof = decide (csid_hw.csid_debug &&& K.TFE_CSID_DEBUG_ENABLE_SOF_IRQ ≠ 0) := by
          simp [sof, hdrop]
        simp [cam_io_w_mb, (set_res_regs _ _ _).1, rdi_path_irq_mask, hdrop, hs, hd]
      · have hdrop : drop = true := by simp [drop, hd]
        have hact : cam_tfe_csid_check_path_active
            (set_res csid_hw res_id
              { get_res csid_hw res_id with res_priv := (get_res csid_hw res_id).res_priv })
            path_status = active :=
          check_path_active_congr _ _ _ (set_res_regs _ _ _).2.1
        rw [hact]
        cases ha : active with
        | true =>
          have hs : sof = decide (csid_hw.csid_debug &&& K.TFE_CSID_DEBUG_ENABLE_SOF_IRQ ≠ 0) := by
            simp [sof, ha]
          simp [cam_io_w_mb, (set_res_regs _ _ _).1, rdi_path_irq_mask, hdrop, hs, hd]
        | false =>
          have hs : sof = true := by simp [sof, ha, hdrop]
          simp [cam_io_w_mb, (set_res_regs _ _ _).1, rdi_path_irq_mask, hdrop, hs, hd]

/-- A register reads as the value of the newest entry of the write log when
that entry is a write to it. -/
theorem cam_io_r_mb_of_regs (a : csid_reg_addr) (v : Nat) (csid_hw : cam_tfe_csid_hw)
    (rest : List (csid_reg_addr × Nat)) (h : csid_hw.regs = (a, v) :: rest) :
    cam_io_r_mb a csid_hw = v := by
  simp [cam_io_r_mb, h, List.find?]

/-! ## Interrupts without an error bit -/

/-- A conditional between two states with the same SOF debug state. -/
theorem sof_dbg_view_ite (c : Prop) [Decidable c] (a b x : cam_tfe_csid_hw)
    (ha : sof_dbg_view a = sof_dbg_view x) (hb : sof_dbg_view b = sof_dbg_view x) :
    sof_dbg_view (if c then a else b) = sof_dbg_view x := by
  split
  · exact ha
  · exact hb

/-- A register write leaves the SOF debug state alone. -/
theorem sof_dbg_view_cam_io_w_mb (v : Nat) (a : csid_reg_addr) (csid_hw : cam_tfe_csid_hw) :
    sof_dbg_view (cam_io_w_mb v a csid_hw) = sof_dbg_view csid_hw := rfl

/-- Signalling a completion leaves the SOF debug state alone. -/
theorem sof_dbg_view_complete (c : csid_completion) (csid_hw : cam_tfe_csid_hw) :
    sof_dbg_view (complete c csid_hw) = sof_dbg_view csid_hw := rfl

/-- A store to a path node leaves the SOF debug state alone. -/
theorem sof_dbg_view_set_res (csid_hw : cam_tfe_csid_hw) (p : Nat)
    (n : cam_isp_resource_node) :
    sof_dbg_view (set_res csid_hw p n) = sof_dbg_view csid_hw := by
  unfold set_res
  split <;> rfl

/-- A loop over the RDI paths whose body leaves the SOF debug state alone. -/
theorem sof_dbg_view_for_rdis (f : Nat → cam_tfe_csid_hw → cam_tfe_csid_hw)
    (hf : ∀ i csid_hw, sof_dbg_view (f i csid_hw) = sof_dbg_view csid_hw)
    (n i : Nat) (csid_hw : cam_tfe_csid_hw) :
    sof_dbg_view (for_rdis f i n csid_hw) = sof_dbg_view csid_hw :=
  for_rdis_preserves (fun h => sof_dbg_view h = sof_dbg_view csid_hw) f
    (fun j h hh => (hf j h).trans hh) n i csid_hw rfl

/-- The clear block of the interrupt handler leaves the SOF debug state
alone. -/
theorem sof_dbg_view_irq_clear (csid_hw : cam_tfe_csid_hw) (irq_status : csid_irq_status) :
    sof_dbg_view (cam_tfe_csid_irq_clear csid_hw irq_status) = sof_dbg_view csid_hw := by
  have hloop : ∀ (n : Nat) (h : cam_tfe_csid_hw),
      sof_dbg_view (for_rdis (fun i h => cam_io_w_mb (irq_status.rdi i)
        (.csid_rdi_irq_clear_addr i) h) 0 n h) = sof_dbg_view h :=
    fun n h => sof_dbg_view_for_rdis _ (fun i h => sof_dbg_view_cam_io_w_mb _ _ h) n 0 h
  simp only [cam_tfe_csid_irq_clear, apply_ite sof_dbg_view, sof_dbg_view_complete,
    sof_dbg_view_cam_io_w_mb, hloop, ite_self]

/-- The packet-capture blocks leave the SOF debug state alone. -/
theorem sof_dbg_view_irq_capture (K : csid_defs) (csid_hw : cam_tfe_csid_hw) (rx : Nat) :
    sof_dbg_view (cam_tfe_csid_irq_capture K csid_hw rx) = sof_dbg_view csid_hw := by
  simp only [cam_tfe_csid_irq_capture, irq_capture_rearm, apply_ite sof_dbg_view,
    sof_dbg_view_cam_io_w_mb, ite_self]

/-- The frame-drop function leaves the SOF debug state alone. -/
theorem sof_dbg_view_enable_path_for_init_frame_drop (K : csid_defs)
    (csid_hw : cam_tfe_csid_hw) (res_id : Nat) :
    sof_dbg_view (cam_tfe_csid_enable_path_for_init_frame_drop K csid_hw res_id) =
      sof_dbg_view csid_hw := by
  simp only [cam_tfe_csid_enable_path_for_init_frame_drop, apply_ite sof_dbg_view,
    sof_dbg_view_cam_io_w_mb, sof_dbg_view_set_res, ite_self]

/-- Whether SOF debug logging is inactive depends on the SOF debug state
only. -/
theorem sof_debug_inactive_congr (K : csid_defs) (a b : cam_tfe_csid_hw)
    (h : sof_dbg_view a = sof_dbg_view b) :
    sof_debug_inactive K a = sof_debug_inactive K b := by
  simp only [sof_dbg_view, Prod.mk.injEq] at h
  unfold sof_debug_inactive
  rw [h.1, h.2]

/-- While SOF debug logging is inactive the SOF debug block does nothing. -/
theorem irq_sof_debug_inactive (K : csid_defs) (status : Nat)
    (s : cam_tfe_csid_hw × irq_locals) (h : sof_debug_inactive K s.1 = true) :
    irq_sof_debug K status s = s := by
  unfold sof_debug_inactive at h
  have h' := of_decide_eq_true h
  unfold irq_sof_debug
  by_cases hc : status &&& K.TFE_CSID_PATH_INFO_INPUT_SOF ≠ 0 ∧
      s.1.csid_debug &&& K.TFE_CSID_DEBUG_ENABLE_SOF_IRQ ≠ 0
  · rw [if_pos hc]
    rcases h' with h1 | h1
    · exact absurd h1 hc.2
    · simp only [h1]
      rfl
  · rw [if_neg hc]

/-- A status word without error bits leaves the local flags of the IPP block
as they are while SOF debug logging is inactive, and the block leaves the SOF
debug state alone. -/
theorem irq_ipp_quiet (K : csid_defs) (ipp : Nat) (s : cam_tfe_csid_hw × irq_locals)
    (hfree : ipp_error_free K ipp = true) (h : sof_debug_inactive K s.1 = true) :
    (cam_tfe_csid_irq_ipp K ipp s).2 = s.2 ∧
    sof_dbg_view (cam_tfe_csid_irq_ipp K ipp s).1 = sof_dbg_view s.1 := by
  unfold ipp_error_free at hfree
  obtain ⟨hf1, hf2⟩ := of_decide_eq_true hfree
  have n1 : ¬ ipp &&& K.TFE_CSID_PATH_ERROR_FIFO_OVERFLOW ≠ 0 := fun hh => hh hf1
  have n2 : ¬ ipp &&& K.TFE_CSID_PATH_IPP_ERROR_CCIF_VIOLATION ≠ 0 := fun hh => hh hf2
  unfold cam_tfe_csid_irq_ipp
  by_cases hp : s.1.pxl_pipe_enable = true
  · simp only [if_pos hp, if_neg n1, if_neg n2]
    have hin : sof_debug_inactive K
        (if ipp &&& 2 ^ s.1.csid_reg.cmn_reg.path_rst_done_shift_val ≠ 0 then
          complete .csid_ipp_complete s.1 else s.1) = true :=
      (sof_debug_inactive_congr K _ s.1
        (sof_dbg_view_ite _ (complete .csid_ipp_complete s.1) s.1 s.1 rfl rfl)).trans h
    rw [irq_sof_debug_inactive K ipp _ hin]
    exact ⟨rfl, sof_dbg_view_ite _ (complete .csid_ipp_complete s.1) s.1 s.1 rfl rfl⟩
  · simp only [if_neg hp]
    exact ⟨trivial, trivial⟩

/-- A status word without error bits leaves the local flags of the RDI block
as they are while SOF debug logging is inactive, and the block leaves the SOF
debug state alone. -/
theorem irq_rdi_quiet (K : csid_defs) (irq_status : csid_irq_status) (i : Nat)
    (s : cam_tfe_csid_hw × irq_locals)
    (hfree : rdi_error_free K (irq_status.rdi i) = true)
    (h : sof_debug_inactive K s.1 = true) :
    (cam_tfe_csid_irq_rdi K irq_status i s).2 = s.2 ∧
    sof_dbg_view (cam_tfe_csid_irq_rdi K irq_status i s).1 = sof_dbg_view s.1 := by
  unfold rdi_error_free at hfree
  obtain ⟨hf1, hf2, hf3⟩ := of_decide_eq_true hfree
  have n1 : ¬ irq_status.rdi i &&& K.TFE_CSID_PATH_ERROR_FIFO_OVERFLOW ≠ 0 := fun hh => hh hf1
  have n2 : ¬ (irq_status.rdi i &&& K.TFE_CSID_PATH_RDI_OVERFLOW_IRQ ≠ 0 ∨
      irq_status.rdi i &&& K.TFE_CSID_PATH_RDI_ERROR_CCIF_VIOLATION ≠ 0) := by
    rintro (hh | hh)
    · exact hh hf2
    · exact hh hf3
  have hv : sof_dbg_view
      (if irq_status.rdi i &&& K.TFE_CSID_PATH_INFO_INPUT_SOF ≠ 0 then
        cam_tfe_csid_enable_path_for_init_frame_drop K
          (if irq_status.rdi i &&& 2 ^ s.1.csid_reg.cmn_reg.path_rst_done_shift_val ≠ 0 then
            complete (.csid_rdin_complete i) s.1 else s.1) i
       else
        (if irq_status.rdi i &&& 2 ^ s.1.csid_reg.cmn_reg.path_rst_done_shift_val ≠ 0 then
          complete (.csid_rdin_complete i) s.1 else s.1)) = sof_dbg_view s.1 := by
    apply sof_dbg_view_ite
    · rw [sof_dbg_view_enable_path_for_init_frame_drop]
      exact sof_dbg_view_ite _ _ _ _ rfl rfl
    · exact sof_dbg_view_ite _ _ _ _ rfl rfl
  unfold cam_tfe_csid_irq_rdi
  simp only [if_neg n1, if_neg n2]
  have hin := (sof_debug_inactive_congr K _ s.1 hv).trans h
  rw [irq_sof_debug_inactive K _ _ hin]
  exact ⟨rfl, hv⟩

/-- The status word of every RDI path is free of error bits when the three
words of the interrupt are. -/
theorem rdi_error_free_of_no_error_bits (K : csid_defs) (irq_status : csid_irq_status)
    (h : no_error_bits K irq_status = true) (i : Nat) :
    rdi_error_free K (irq_status.rdi i) = true := by
  unfold no_error_bits at h
  simp only [Bool.and_eq_true] at h
  obtain ⟨⟨⟨⟨_, _⟩, h0⟩, h1⟩, h2⟩ := h
  unfold csid_irq_status.rdi
  by_cases e0 : i = 0
  · rw [if_pos e0]; exact h0
  · rw [if_neg e0]
    by_cases e1 : i = 1
    · rw [if_pos e1]; exact h1
    · rw [if_neg e1]
      by_cases e2 : i = 2
      · rw [if_pos e2]; exact h2
      · rw [if_neg e2]
        simp [rdi_error_free]

/-- Without error bits and with SOF debug logging inactive, the RDI loop
leaves the local flags and the SOF debug state as they are. -/
theorem irq_rdi_loop_quiet (K : csid_defs) (irq_status : csid_irq_status)
    (hfree : no_error_bits K irq_status = true) :
    ∀ (n i : Nat) (s : cam_tfe_csid_hw × irq_locals),
      sof_debug_inactive K s.1 = true →
      (cam_tfe_csid_irq_rdi_loop K irq_status i n s).2 = s.2 ∧
      sof_dbg_view (cam_tfe_csid_irq_rdi_loop K irq_status i n s).1 = sof_dbg_view s.1 := by
  intro n
  induction n with
  | zero => intro i s _; exact ⟨rfl, rfl⟩
  | succ n ih =>
    intro i s h
    have h1 := irq_rdi_quiet K irq_status i s
      (rdi_error_free_of_no_error_bits K irq_status hfree i) h
    have hin := (sof_debug_inactive_congr K _ s.1 h1.2).trans h
    have h2 := ih (i + 1) (cam_tfe_csid_irq_rdi K irq_status i s) hin
    exact ⟨h2.1.trans h1.1, h2.2.trans h1.2⟩

/-- A receiver status word without error bits: the tests under the device
lock change nothing and set no local flag. -/
theorem irq_rx_errors_quiet (K : csid_defs) (csid_hw : cam_tfe_csid_hw) (rx : Nat)
    (hfree : rx_error_free K rx = true) :
    cam_tfe_csid_irq_rx_errors K csid_hw rx =
      (csid_hw, { fatal_err_detected := false, is_error_irq := false, log_en := false }) := by
  unfold rx_error_free at hfree
  simp only [Bool.and_eq_true, Bool.not_eq_true', decide_eq_true_eq] at hfree
  obtain ⟨⟨hlane, hsoft⟩, hc1, hc2, hc3⟩ := hfree
  unfold lane_overflow at hlane
  have hl := of_decide_eq_false hlane
  have h0 : ¬ rx &&& K.TFE_CSID_CSI2_RX_ERROR_LANE0_FIFO_OVERFLOW ≠ 0 :=
    fun h => hl (Or.inl h)
  have h1 : ¬ rx &&& K.TFE_CSID_CSI2_RX_ERROR_LANE1_FIFO_OVERFLOW ≠ 0 :=
    fun h => hl (Or.inr (Or.inl h))
  have h2 : ¬ rx &&& K.TFE_CSID_CSI2_RX_ERROR_LANE2_FIFO_OVERFLOW ≠ 0 :=
    fun h => hl (Or.inr (Or.inr (Or.inl h)))
  have h3 : ¬ rx &&& K.TFE_CSID_CSI2_RX_ERROR_LANE3_FIFO_OVERFLOW ≠ 0 :=
    fun h => hl (Or.inr (Or.inr (Or.inr h)))
  unfold soft_error_bits at hsoft
  have s1 : ¬ rx &&& K.TFE_CSID_CSI2_RX_ERROR_CPHY_EOT_RECEPTION ≠ 0 := by
    intro h; rw [if_pos h] at hsoft; omega
  have s2 : ¬ rx &&& K.TFE_CSID_CSI2_RX_ERROR_CPHY_SOT_RECEPTION ≠ 0 := by
    intro h; rw [if_pos h] at hsoft; omega
  have s3 : ¬ rx &&& K.TFE_CSID_CSI2_RX_ERROR_STREAM_UNDERFLOW ≠ 0 := by
    intro h; rw [if_pos h] at hsoft; omega
  have s4 : ¬ rx &&& K.TFE_CSID_CSI2_RX_ERROR_UNBOUNDED_FRAME ≠ 0 := by
    intro h; rw [if_pos h] at hsoft; omega
  have hd : decide (rx &&& K.TFE_CSID_CSI2_RX_ERROR_CRC ≠ 0 ∨
      rx &&& K.TFE_CSID_CSI2_RX_ERROR_ECC ≠ 0 ∨
      rx &&& K.TFE_CSID_CSI2_RX_ERROR_MMAPPED_VC_DT ≠ 0) = false := by
    apply decide_eq_false
    rintro (h | h | h)
    · exact h hc1
    · exact h hc2
    · exact h hc3
  unfold cam_tfe_csid_irq_rx_errors count_soft_error
  by_cases hen : csid_hw.device_enabled = 1
  · simp only [if_pos hen, if_neg h0, if_neg h1, if_neg h2, if_neg h3, if_neg s1, if_neg s2,
      if_neg s3, if_neg s4, hd]
  · simp only [if_neg hen]

/-- With no error counted and no local flag set, the fatal handling of the
interrupt handler does nothing. -/
theorem irq_handle_fatal_quiet (csid_hw : cam_tfe_csid_hw) (irq_status : csid_irq_status)
    (bh : bh_payload_env) (hc : csid_hw.error_irq_count = 0) :
    cam_tfe_csid_irq_handle_fatal csid_hw
      { fatal_err_detected := false, is_error_irq := false, log_en := false } irq_status bh =
      (csid_hw, { fatal_err_detected := false, is_error_irq := false, log_en := false }) := by
  unfold cam_tfe_csid_irq_handle_fatal cam_tfe_csid_irq_threshold
  simp [hc, CAM_TFE_CSID_MAX_IRQ_ERROR_COUNT]

/-! ## Frame lemmas: power state, open count and the registered callback -/

/-- A register write leaves the control state alone. -/
theorem ctl_view_cam_io_w_mb (v : Nat) (a : csid_reg_addr) (csid_hw : cam_tfe_csid_hw) :
    ctl_view (cam_io_w_mb v a csid_hw) = ctl_view csid_hw := rfl

/-- A store to a path node leaves the control state alone. -/
theorem ctl_view_set_res (csid_hw : cam_tfe_csid_hw) (p : Nat) (n : cam_isp_resource_node) :
    ctl_view (set_res csid_hw p n) = ctl_view csid_hw := by
  unfold set_res
  split <;> rfl

/-- Two devices that agree on power state, open count, callback and context
have the same control state. -/
theorem ctl_view_eq_of (a b : cam_tfe_csid_hw) (h1 : a.hw_state = b.hw_state)
    (h2 : a.open_count = b.open_count) (h3 : a.event_cb = b.event_cb)
    (h4 : a.event_cb_priv = b.event_cb_priv) : ctl_view a = ctl_view b := by
  unfold ctl_view
  rw [h1, h2, h3, h4]

/-- A conditional between two states with the same control state. -/
theorem ctl_view_ite (c : Prop) [Decidable c] (a b x : cam_tfe_csid_hw)
    (ha : ctl_view a = ctl_view x) (hb : ctl_view b = ctl_view x) :
    ctl_view (if c then a else b) = ctl_view x := by
  split
  · exact ha
  · exact hb

/-- A loop over the RDI paths whose body leaves the control state alone. -/
theorem ctl_view_for_rdis (f : Nat → cam_tfe_csid_hw → cam_tfe_csid_hw)
    (hf : ∀ i csid_hw, ctl_view (f i csid_hw) = ctl_view csid_hw)
    (n i : Nat) (csid_hw : cam_tfe_csid_hw) :
    ctl_view (for_rdis f i n csid_hw) = ctl_view csid_hw :=
  for_rdis_preserves (fun h => ctl_view h = ctl_view csid_hw) f
    (fun j h hh => (hf j h).trans hh) n i csid_hw rfl

/-- Masking all interrupts leaves the control state alone. -/
theorem ctl_view_mask_all_interrupts (csid_hw : cam_tfe_csid_hw) :
    ctl_view (mask_all_interrupts csid_hw) = ctl_view csid_hw := by
  have hloop : ∀ (n : Nat) (h : cam_tfe_csid_hw),
      ctl_view (for_rdis (fun i h => cam_io_w_mb 0 (.csid_rdi_irq_mask_addr i) h) 0 n h) =
        ctl_view h :=
    fun n h => ctl_view_for_rdis _ (fun i h => ctl_view_cam_io_w_mb _ _ h) n 0 h
  simp only [mask_all_interrupts, hloop, apply_ite ctl_view, ctl_view_cam_io_w_mb, ite_self]

/-- Clearing all interrupts leaves the control state alone. -/
theorem ctl_view_clear_all_interrupts (csid_hw : cam_tfe_csid_hw) :
    ctl_view (clear_all_interrupts csid_hw) = ctl_view csid_hw := by
  have hloop : ∀ (v n : Nat) (h : cam_tfe_csid_hw),
      ctl_view (for_rdis (fun i h => cam_io_w_mb v (.csid_rdi_irq_clear_addr i) h) 0 n h) =
        ctl_view h :=
    fun v n h => ctl_view_for_rdis _ (fun i h => ctl_view_cam_io_w_mb _ _ h) n 0 h
  simp only [clear_all_interrupts, hloop, apply_ite ctl_view, ctl_view_cam_io_w_mb, ite_self]

/-- Zeroing the SOF counters leaves the control state alone. -/
theorem ctl_view_reset_sof_counters (csid_hw : cam_tfe_csid_hw) :
    ctl_view (reset_sof_counters csid_hw) = ctl_view csid_hw := by
  have hr : ∀ (i : Nat) (h : cam_tfe_csid_hw), ctl_view (rdi_clear_sof_cnt i h) = ctl_view h :=
    fun i h => rfl
  unfold reset_sof_counters
  rw [ctl_view_for_rdis _ hr]
  split <;> rfl

/-- `cam_tfe_csid_global_reset` leaves the control state alone. -/
theorem ctl_view_global_reset (csid_hw : cam_tfe_csid_hw) (env : reset_env) :
    ctl_view (cam_tfe_csid_global_reset csid_hw env).2 = ctl_view csid_hw := by
  unfold cam_tfe_csid_global_reset
  lift_lets
  extract_lets csid_reg hw1 hw2 hw3 hw4 hw5 hw6
  have h1 : ctl_view hw1 = ctl_view csid_hw := ctl_view_mask_all_interrupts csid_hw
  have h2 : ctl_view hw2 = ctl_view hw1 := ctl_view_clear_all_interrupts hw1
  clear_value hw2 hw1
  have h3 : ctl_view hw3 = ctl_view hw2 := ctl_view_cam_io_w_mb _ _ hw2
  have h4 : ctl_view hw4 = ctl_view hw3 := ctl_view_cam_io_w_mb _ _ hw3
  have h5 : ctl_view hw5 = ctl_view hw4 := ctl_view_cam_io_w_mb _ _ hw4
  clear_value hw5 hw4 hw3
  have h6 : ctl_view hw6 = ctl_view hw5 := ctl_view_eq_of hw6 hw5 rfl rfl rfl rfl
  clear_value hw6
  split
  · rfl
  · exact (ctl_view_reset_sof_counters hw6).trans
      (h6.trans (h5.trans (h4.trans (h3.trans (h2.trans h1)))))

/-- `cam_tfe_csid_enable_csi2` leaves the control state alone. -/
theorem ctl_view_enable_csi2 (K : csid_defs) (csid_hw : cam_tfe_csid_hw) :
    ctl_view (cam_tfe_csid_enable_csi2 K csid_hw).2 = ctl_view csid_hw := by
  unfold cam_tfe_csid_enable_csi2
  lift_lets
  extract_lets csid_reg cfg val0 val1 hw1 hw2 hw3 irq0 irq1 irq2 irq3 irq4 irq5 hw4 ppi_index hw5
  have h1 : ctl_view hw1 = ctl_view csid_hw := ctl_view_cam_io_w_mb _ _ csid_hw
  clear_value hw1
  have h2 : ctl_view hw2 = ctl_view hw1 := by
    show ctl_view (if _ then _ else _) = _
    split <;> rfl
  clear_value hw2
  have h3 : ctl_view hw3 = ctl_view hw2 := ctl_view_cam_io_w_mb _ _ hw2
  clear_value hw3
  have h4 : ctl_view hw4 = ctl_view hw3 := ctl_view_cam_io_w_mb _ _ hw3
  clear_value hw4
  have h5 : ctl_view hw5 = ctl_view hw4 := by
    show ctl_view (if _ then _ else _) = _
    split <;> rfl
  exact h5.trans (h4.trans (h3.trans (h2.trans h1)))

/-- `cam_tfe_csid_disable_csi2` leaves the control state alone. -/
theorem ctl_view_disable_csi2 (csid_hw : cam_tfe_csid_hw) :
    ctl_view (cam_tfe_csid_disable_csi2 csid_hw).2 = ctl_view csid_hw := by
  unfold cam_tfe_csid_disable_csi2
  lift_lets
  extract_lets csid_reg hw1 hw2 hw3 ppi_index hw4
  have h1 : ctl_view hw1 = ctl_view csid_hw := ctl_view_cam_io_w_mb _ _ csid_hw
  have h2 : ctl_view hw2 = ctl_view hw1 := ctl_view_cam_io_w_mb _ _ hw1
  have h3 : ctl_view hw3 = ctl_view hw2 := ctl_view_cam_io_w_mb _ _ hw2
  clear_value hw3 hw2 hw1
  have h4 : ctl_view hw4 = ctl_view hw3 := by
    show ctl_view (if _ then _ else _) = _
    split <;> rfl
  exact h4.trans (h3.trans (h2.trans h1))

/-- `cam_tfe_csid_reset_retain_sw_reg` leaves the control state alone. -/
theorem ctl_view_reset_retain_sw_reg (csid_hw : cam_tfe_csid_hw) (poll_rc : Int) :
    ctl_view (cam_tfe_csid_reset_retain_sw_reg csid_hw poll_rc).2 = ctl_view csid_hw := by
  unfold cam_tfe_csid_reset_retain_sw_reg
  lift_lets
  extract_lets csid_reg hw1 hw2 hw3 hw4 rc hw5 hw6
  have h1 : ctl_view hw1 = ctl_view csid_hw := ctl_view_cam_io_w_mb _ _ csid_hw
  have h2 : ctl_view hw2 = ctl_view hw1 := ctl_view_cam_io_w_mb _ _ hw1
  have h3 : ctl_view hw3 = ctl_view hw2 := ctl_view_cam_io_w_mb _ _ hw2
  have h4 : ctl_view hw4 = ctl_view hw3 := ctl_view_cam_io_w_mb _ _ hw3
  have h5 : ctl_view hw5 = ctl_view hw4 := ctl_view_cam_io_w_mb _ _ hw4
  have h6 : ctl_view hw6 = ctl_view hw5 := ctl_view_cam_io_w_mb _ _ hw5
  exact h6.trans (h5.trans (h4.trans (h3.trans (h2.trans h1))))

/-- `cam_tfe_csid_init_config_pxl_path` leaves the control state alone. -/
theorem ctl_view_init_config_pxl_path (K : csid_defs) (csid_hw : cam_tfe_csid_hw) :
    ctl_view (cam_tfe_csid_init_config_pxl_path K csid_hw).2 = ctl_view csid_hw := by
  unfold cam_tfe_csid_init_config_pxl_path
  lift_lets
  extract_lets path_data cmn_reg crop measure
  generalize cam_tfe_csid_get_format_ipp path_data.in_format = fmt
  obtain ⟨rc, d, p⟩ := fmt
  split
  · rfl
  · conv_lhs => simp_match
    lift_lets
    extract_lets binning val0 val1 val2 val3 val4 hw1 hw2 hw3 h1 h2 hw4 hw5 hw6 hw7 hw8 src
    clear_value val4
    have e1 : ctl_view hw1 = ctl_view csid_hw := ctl_view_cam_io_w_mb _ _ csid_hw
    clear_value hw1
    have e2 : ctl_view hw2 = ctl_view hw1 :=
      ctl_view_ite _ _ _ hw1 (ctl_view_cam_io_w_mb _ _ hw1) rfl
    clear_value hw2
    have e3 : ctl_view hw3 = ctl_view hw2 := ctl_view_cam_io_w_mb _ _ hw2
    clear_value hw3
    have f1 : ctl_view h1 = ctl_view hw3 := ctl_view_cam_io_w_mb _ _ hw3
    clear_value h1
    have f2 : ctl_view h2 = ctl_view hw3 := (ctl_view_cam_io_w_mb _ _ h1).trans f1
    clear_value h2
    have e4 : ctl_view hw4 = ctl_view hw3 :=
      ctl_view_ite _ _ _ hw3
        (ctl_view_ite _ _ _ hw3 ((ctl_view_cam_io_w_mb _ _ h2).trans f2) f2) rfl
    clear_value hw4
    have e5 : ctl_view hw5 = ctl_view hw4 :=
      ctl_view_ite _ _ _ hw4 (ctl_view_cam_io_w_mb _ _ hw4) rfl
    clear_value hw5
    have e6 : ctl_view hw6 = ctl_view hw5 := ctl_view_cam_io_w_mb _ _ hw5
    clear_value hw6
    have e7 : ctl_view hw7 = ctl_view hw6 := ctl_view_cam_io_w_mb _ _ hw6
    clear_value hw7
    have e8 : ctl_view hw8 = ctl_view hw7 := ctl_view_cam_io_w_mb _ _ hw7
    clear_value hw8
    have e9 : ctl_view hw8 = ctl_view csid_hw :=
      e8.trans (e7.trans (e6.trans (e5.trans (e4.trans (e3.trans (e2.trans e1))))))
    split
    · rfl
    · split
      · rfl
      · split
        · rfl
        · split
          · rfl
          · exact (ctl_view_eq_of _ hw8 rfl rfl rfl rfl).trans e9

/-- `cam_tfe_csid_init_config_rdi_path` leaves the control state alone. -/
theorem ctl_view_init_config_rdi_path (K : csid_defs) (csid_hw : cam_tfe_csid_hw) (id : Nat) :
    ctl_view (cam_tfe_csid_init_config_rdi_path K csid_hw id).2 = ctl_view csid_hw := by
  unfold cam_tfe_csid_init_config_rdi_path
  lift_lets
  extract_lets path_data cmn_reg measure
  generalize cam_tfe_csid_get_format_rdi path_data.in_format path_data.out_format = fmt
  obtain ⟨rc, d, p⟩ := fmt
  split
  · rfl
  · conv_lhs => simp_match
    lift_lets
    extract_lets val0 val1 hw1 hw2 hw3 hw4 hw5 hw6 val2 hw7 hw8 src
    clear_value val1
    have e1 : ctl_view hw1 = ctl_view csid_hw := ctl_view_cam_io_w_mb _ _ csid_hw
    clear_value hw1
    have e2 : ctl_view hw2 = ctl_view hw1 :=
      ctl_view_ite _ _ _ hw1 (ctl_view_cam_io_w_mb _ _ hw1) rfl
    clear_value hw2
    have e3 : ctl_view hw3 = ctl_view hw2 := ctl_view_cam_io_w_mb _ _ hw2
    clear_value hw3
    have e4 : ctl_view hw4 = ctl_view hw3 := ctl_view_cam_io_w_mb _ _ hw3
    clear_value hw4
    have e5 : ctl_view hw5 = ctl_view hw4 := ctl_view_cam_io_w_mb _ _ hw4
    clear_value hw5
    have e6 : ctl_view hw6 = ctl_view hw5 :=
      ctl_view_ite _ _ _ hw5 (ctl_view_cam_io_w_mb _ _ hw5) rfl
    clear_value hw6 val2
    have e7 : ctl_view hw7 = ctl_view hw6 := ctl_view_cam_io_w_mb _ _ hw6
    clear_value hw7
    have e8 : ctl_view hw8 = ctl_view hw7 := ctl_view_cam_io_w_mb _ _ hw7
    clear_value hw8
    have e9 : ctl_view hw8 = ctl_view csid_hw :=
      e8.trans (e7.trans (e6.trans (e5.trans (e4.trans (e3.trans (e2.trans e1))))))
    split
    · rfl
    · exact (ctl_view_set_res _ _ _).trans e9

/-- `cam_tfe_csid_deinit_pxl_path` leaves the control state alone. -/
theorem ctl_view_deinit_pxl_path (csid_hw : cam_tfe_csid_hw) :
    ctl_view (cam_tfe_csid_deinit_pxl_path csid_hw).2 = ctl_view csid_hw := by
  unfold cam_tfe_csid_deinit_pxl_path
  lift_lets
  extract_lets rc src hw1 src1
  have e1 : ctl_view hw1 = ctl_view csid_hw := ctl_view_cam_io_w_mb _ _ csid_hw
  clear_value hw1
  split
  · exact ctl_view_eq_of _ csid_hw rfl rfl rfl rfl
  · exact (ctl_view_eq_of _ hw1 rfl rfl rfl rfl).trans e1

/-- `cam_tfe_csid_deinit_rdi_path` leaves the control state alone. -/
theorem ctl_view_deinit_rdi_path (csid_hw : cam_tfe_csid_hw) (res_id : Nat) :
    ctl_view (cam_tfe_csid_deinit_rdi_path csid_hw res_id).2 = ctl_view csid_hw := by
  unfold cam_tfe_csid_deinit_rdi_path
  lift_lets
  extract_lets res hw1 src
  have e1 : ctl_view hw1 = ctl_view csid_hw := ctl_view_cam_io_w_mb _ _ csid_hw
  clear_value hw1
  split
  · rfl
  · exact (ctl_view_set_res _ _ _).trans e1

/-- `cam_tfe_csid_enable_pxl_path` leaves the control state alone. -/
theorem ctl_view_enable_pxl_path (K : csid_defs) (csid_hw : cam_tfe_csid_hw) :
    ctl_view (cam_tfe_csid_enable_pxl_path K csid_hw).2 = ctl_view csid_hw := by
  unfold cam_tfe_csid_enable_pxl_path
  lift_lets
  extract_lets path_data irq0 irq1 irq2 irq3
  clear_value irq3
  split
  · rfl
  · split
    · rfl
    · lift_lets
      extract_lets val0 val1 hw1 hw2 src
      clear_value val1
      have e1 : ctl_view hw1 = ctl_view csid_hw := ctl_view_cam_io_w_mb _ _ csid_hw
      clear_value hw1
      have e2 : ctl_view hw2 = ctl_view hw1 := ctl_view_cam_io_w_mb _ _ hw1
      clear_value hw2
      exact (ctl_view_eq_of _ hw2 rfl rfl rfl rfl).trans (e2.trans e1)

/-- `cam_tfe_csid_enable_rdi_path` leaves the control state alone. -/
theorem ctl_view_enable_rdi_path (K : csid_defs) (csid_hw : cam_tfe_csid_hw) (res_id : Nat)
    (path_status : Nat → Nat) :
    ctl_view (cam_tfe_csid_enable_rdi_path K csid_hw res_id path_status).2 =
      ctl_view csid_hw := by
  unfold cam_tfe_csid_enable_rdi_path
  lift_lets
  extract_lets res src path_data hw0 path_active hw1 irq0 irq1 irq2 irq3 hw2 src2
  clear_value irq3 path_active
  have e0 : ctl_view hw0 = ctl_view csid_hw := ctl_view_set_res _ _ _
  clear_value hw0
  have e1 : ctl_view hw1 = ctl_view hw0 :=
    ctl_view_ite _ _ _ hw0 (ctl_view_cam_io_w_mb _ _ hw0)
      (ctl_view_ite _ _ _ hw0 (ctl_view_cam_io_w_mb _ _ hw0) rfl)
  clear_value hw1
  have e2 : ctl_view hw2 = ctl_view hw1 := ctl_view_cam_io_w_mb _ _ hw1
  clear_value hw2
  split
  · rfl
  · exact (ctl_view_set_res _ _ _).trans (e2.trans (e1.trans e0))

/-- `cam_tfe_csid_disable_pxl_path` leaves the control state alone. -/
theorem ctl_view_disable_pxl_path (K : csid_defs) (csid_hw : cam_tfe_csid_hw)
    (stop_cmd : Nat) :
    ctl_view (cam_tfe_csid_disable_pxl_path K csid_hw stop_cmd).2 = ctl_view csid_hw := by
  unfold cam_tfe_csid_disable_pxl_path
  lift_lets
  extract_lets res path_data hw1 hw2 hw3
  have e1 : ctl_view hw1 = ctl_view csid_hw := ctl_view_cam_io_w_mb _ _ csid_hw
  clear_value hw1
  have e2 : ctl_view hw2 = ctl_view hw1 :=
    ctl_view_ite _ _ _ hw1 (ctl_view_cam_io_w_mb _ _ hw1) rfl
  clear_value hw2
  have e3 : ctl_view hw3 = ctl_view hw2 :=
    ctl_view_ite _ _ _ hw2 (ctl_view_cam_io_w_mb _ _ hw2) rfl
  clear_value hw3
  split
  · rfl
  · split
    · rfl
    · split
      · rfl
      · split
        · rfl
        · split
          · rfl
          · exact e3.trans (e2.trans e1)

/-- `cam_tfe_csid_disable_rdi_path` leaves the control state alone. -/
theorem ctl_view_disable_rdi_path (csid_hw : cam_tfe_csid_hw) (res_id stop_cmd : Nat) :
    ctl_view (cam_tfe_csid_disable_rdi_path csid_hw res_id stop_cmd).2 = ctl_view csid_hw := by
  unfold cam_tfe_csid_disable_rdi_path
  lift_lets
  extract_lets res src hw0 hw1 hw2
  have e0 : ctl_view hw0 = ctl_view csid_hw := ctl_view_set_res _ _ _
  clear_value hw0
  have e1 : ctl_view hw1 = ctl_view hw0 := ctl_view_cam_io_w_mb _ _ hw0
  clear_value hw1
  have e2 : ctl_view hw2 = ctl_view hw1 := ctl_view_cam_io_w_mb _ _ hw1
  clear_value hw2
  split
  · rfl
  · split
    · rfl
    · split
      · rfl
      · split
        · rfl
        · exact e2.trans (e1.trans e0)

/-- The first loop of `cam_tfe_csid_stop` leaves the control state alone. -/
theorem ctl_view_stop_disable (K : csid_defs) (stop_cmd : Nat) (l : List Nat) :
    ∀ acc : Int × cam_tfe_csid_hw × Nat,
      ctl_view (cam_tfe_csid_stop_disable K stop_cmd l acc).2.1 = ctl_view acc.2.1 := by
  induction l with
  | nil => intro acc; rfl
  | cons res_id rest ih =>
    rintro ⟨rc, csid_hw, res_mask⟩
    unfold cam_tfe_csid_stop_disable
    refine (ih _).trans ?_
    show ctl_view (ite _ _ _ : Int × cam_tfe_csid_hw).2 = _
    split
    · exact ctl_view_disable_pxl_path K csid_hw stop_cmd
    · exact ctl_view_disable_rdi_path csid_hw res_id stop_cmd

/-- The last loop of `cam_tfe_csid_stop` leaves the control state alone. -/
theorem ctl_view_stop_set_state (l : List Nat) :
    ∀ csid_hw : cam_tfe_csid_hw,
      ctl_view (cam_tfe_csid_stop_set_state l csid_hw) = ctl_view csid_hw := by
  induction l with
  | nil => intro csid_hw; rfl
  | cons res_id rest ih =>
    intro csid_hw
    unfold cam_tfe_csid_stop_set_state
    exact (ih _).trans (ctl_view_set_res _ _ _)

/-- `cam_tfe_csid_start` leaves the control state alone. -/
theorem ctl_view_start (K : csid_defs) (csid_hw : cam_tfe_csid_hw) (res_id : Nat)
    (path_status : Nat → Nat) :
    ctl_view (cam_tfe_csid_start K csid_hw res_id path_status).2 = ctl_view csid_hw := by
  unfold cam_tfe_csid_start
  lift_lets
  extract_lets hw1
  have e1 : ctl_view hw1 = ctl_view csid_hw := ctl_view_eq_of hw1 csid_hw rfl rfl rfl rfl
  clear_value hw1
  split
  · rfl
  · split
    · exact (ctl_view_enable_pxl_path K hw1).trans e1
    · exact (ctl_view_enable_rdi_path K hw1 res_id path_status).trans e1

/-- `cam_tfe_csid_stop` leaves the control state alone. -/
theorem ctl_view_stop (K : csid_defs) (csid_hw : cam_tfe_csid_hw)
    (csid_stop : cam_tfe_csid_hw_stop_args) (poll_rc : Nat → Int) :
    ctl_view (cam_tfe_csid_stop K csid_hw csid_stop poll_rc).2 = ctl_view csid_hw := by
  unfold cam_tfe_csid_stop
  split
  · rfl
  · have h := ctl_view_stop_disable K csid_stop.stop_cmd csid_stop.node_res (0, csid_hw, 0)
    generalize cam_tfe_csid_stop_disable K csid_stop.stop_cmd csid_stop.node_res
      (0, csid_hw, 0) = r at h
    obtain ⟨rc, hw1, res_mask⟩ := r
    exact (ctl_view_stop_set_state _ hw1).trans h

/-- The callback part of equal control states is equal. -/
theorem cb_view_of_ctl_view (a b : cam_tfe_csid_hw) (h : ctl_view a = ctl_view b) :
    cb_view a = cb_view b :=
  congrArg (fun v : cam_hw_state × Nat × Option Nat × Option Nat => (v.2.2.1, v.2.2.2)) h

/-- The power part of equal control states is equal. -/
theorem power_view_of_ctl_view (a b : cam_tfe_csid_hw) (h : ctl_view a = ctl_view b) :
    power_view a = power_view b :=
  congrArg (fun v : cam_hw_state × Nat × Option Nat × Option Nat => (v.1, v.2.1)) h

/-- The invariant of the power state only depends on the power part. -/
theorem power_inv_congr (a b : cam_tfe_csid_hw) (h : power_view a = power_view b)
    (hb : power_inv b) : power_inv a := by
  unfold power_view at h
  unfold power_inv at hb ⊢
  have h1 : a.hw_state = b.hw_state := congrArg Prod.fst h
  have h2 : a.open_count = b.open_count := congrArg Prod.snd h
  rw [h1, h2]
  exact hb

/-- The invariant of the power state from the power part. -/
theorem power_inv_of (a : cam_tfe_csid_hw) (s : cam_hw_state) (n : Nat)
    (h : power_view a = (s, n)) (hn : n ≤ UINT_MAX)
    (hiff : s = .CAM_HW_STATE_POWER_UP ↔ n > 0) : power_inv a := by
  unfold power_view at h
  unfold power_inv
  have h1 : a.hw_state = s := congrArg Prod.fst h
  have h2 : a.open_count = n := congrArg Prod.snd h
  rw [h1, h2]
  exact ⟨hn, hiff⟩

/-- The power part from its two components. -/
theorem power_view_mk (a : cam_tfe_csid_hw) (s : cam_hw_state) (n : Nat)
    (h1 : a.hw_state = s) (h2 : a.open_count = n) : power_view a = (s, n) := by
  unfold power_view
  rw [h1, h2]

/-- Two devices with the same callback and context have the same callback
part. -/
theorem cb_view_eq_of (a b : cam_tfe_csid_hw) (h1 : a.event_cb = b.event_cb)
    (h2 : a.event_cb_priv = b.event_cb_priv) : cb_view a = cb_view b := by
  unfold cb_view
  rw [h1, h2]

/-- A store to the power state and the open count leaves the callback and
its context alone. -/
theorem cb_view_set_power (hw : cam_tfe_csid_hw) (s : cam_hw_state) (n : Nat) :
    cb_view { hw with hw_state := s, open_count := n } = cb_view hw := rfl

/-- A store to the open count leaves the callback and its context alone. -/
theorem cb_view_set_open_count (hw : cam_tfe_csid_hw) (n : Nat) :
    cb_view { hw with open_count := n } = cb_view hw := rfl

/-- The open count read off the power part. -/
theorem open_count_of_power_view (a : cam_tfe_csid_hw) (s : cam_hw_state) (n : Nat)
    (h : power_view a = (s, n)) : a.open_count = n :=
  congrArg Prod.snd h

/-- A step that keeps the control state is a power step. -/
theorem power_step_of_ctl_view (a b : cam_tfe_csid_hw) (h : ctl_view b = ctl_view a) :
    power_step a b :=
  ⟨cb_view_of_ctl_view b a h, power_inv_congr b a (power_view_of_ctl_view b a h)⟩

/-- Power steps compose. -/
theorem power_step_trans (a b c : cam_tfe_csid_hw) (h1 : power_step a b)
    (h2 : power_step b c) : power_step a c :=
  ⟨h2.1.trans h1.1, fun h => h2.2 (h1.2 h)⟩

/-- An open count below `UINT_MAX` does not wrap when it is incremented. -/
theorem u32_succ_of_lt (n : Nat) (h : n ≤ UINT_MAX) (hne : n ≠ UINT_MAX) :
    u32 (n + 1) = n + 1 := by
  unfold u32
  unfold UINT_MAX at h hne
  omega

/-- `cam_tfe_csid_enable_hw` is a power step. -/
theorem power_step_enable_hw (K : csid_defs) (csid_hw : cam_tfe_csid_hw)
    (env : enable_hw_env) :
    power_step csid_hw (cam_tfe_csid_enable_hw K csid_hw env).2 := by
  unfold cam_tfe_csid_enable_hw
  lift_lets
  extract_lets hw1 hw2 hw3
  have c1 : cb_view hw1 = cb_view csid_hw := cb_view_eq_of hw1 csid_hw rfl rfl
  have p1 : power_view hw1 = (csid_hw.hw_state, u32 (csid_hw.open_count + 1)) :=
    power_view_mk hw1 _ _ rfl rfl
  have o1 : hw1.open_count = u32 (csid_hw.open_count + 1) := rfl
  have s1 : hw1.hw_state = csid_hw.hw_state := rfl
  have c3 : cb_view hw3 = cb_view csid_hw := cb_view_eq_of hw3 csid_hw rfl rfl
  have p3 : power_view hw3 = (.CAM_HW_STATE_POWER_UP, u32 (csid_hw.open_count + 1)) :=
    power_view_mk hw3 _ _ rfl rfl
  clear_value hw3 hw2 hw1
  split
  · exact ⟨rfl, id⟩
  · rename_i hmax
    split
    · rename_i hgt
      rw [o1] at hgt
      refine ⟨c1, fun hinv => ?_⟩
      have hs := u32_succ_of_lt _ hinv.1 hmax
      rw [hs] at hgt
      refine power_inv_of hw1 _ _ p1 ?_ ?_
      · rw [hs]
        have := hinv.1
        unfold UINT_MAX at this hmax ⊢
        omega
      · rw [hs]
        constructor
        · intro _; omega
        · intro _; exact hinv.2.2 (by omega)
    · rename_i hgt
      rw [o1] at hgt
      split
      · refine And.intro ?_ (fun hinv => ?_)
        · exact (cb_view_set_open_count hw1 _).trans c1
        have hs := u32_succ_of_lt _ hinv.1 hmax
        rw [hs] at hgt
        have h0 : csid_hw.open_count = 0 := by omega
        refine power_inv_of _ csid_hw.hw_state 0 (power_view_mk _ _ _ s1 ?_) (Nat.zero_le _) ?_
        · show u32_sub hw1.open_count 1 = 0
          rw [o1, h0]
          rfl
        · constructor
          · intro hup
            have := hinv.2.1 hup
            omega
          · intro h; omega
      · have hg := ctl_view_global_reset hw3 env.reset
        generalize cam_tfe_csid_global_reset hw3 env.reset = r at hg ⊢
        obtain ⟨rc, hw4⟩ := r
        have c4 : cb_view hw4 = cb_view csid_hw := (cb_view_of_ctl_view _ _ hg).trans c3
        have p4 : power_view hw4 =
            (.CAM_HW_STATE_POWER_UP, u32 (csid_hw.open_count + 1)) :=
          (power_view_of_ctl_view _ _ hg).trans p3
        clear hg
        conv => arg 2; arg 1; simp_match
        lift_lets
        extract_lets hw5
        have h5 : ctl_view hw5 = ctl_view hw4 := ctl_view_clear_all_interrupts hw4
        have hc := ctl_view_enable_csi2 K hw5
        generalize cam_tfe_csid_enable_csi2 K hw5 = r2 at hc ⊢
        obtain ⟨rc2, hw6⟩ := r2
        have h6 : ctl_view hw6 = ctl_view hw4 := hc.trans h5
        clear hc h5
        clear_value hw5
        have c6 : cb_view hw6 = cb_view csid_hw := (cb_view_of_ctl_view _ _ h6).trans c4
        have p6 : power_view hw6 =
            (.CAM_HW_STATE_POWER_UP, u32 (csid_hw.open_count + 1)) :=
          (power_view_of_ctl_view _ _ h6).trans p4
        have down : ∀ hw : cam_tfe_csid_hw,
            power_view hw = (.CAM_HW_STATE_POWER_UP, u32 (csid_hw.open_count + 1)) →
            power_inv csid_hw →
            power_inv { hw with
              hw_state := .CAM_HW_STATE_POWER_DOWN
              open_count := u32_sub hw.open_count 1 } := by
          intro hw hp hinv
          have hs := u32_succ_of_lt _ hinv.1 hmax
          rw [hs] at hgt
          have h0 : csid_hw.open_count = 0 := by omega
          have ho := open_count_of_power_view hw _ _ hp
          refine power_inv_of _ .CAM_HW_STATE_POWER_DOWN 0 (power_view_mk _ _ _ rfl ?_)
            (Nat.zero_le _) ?_
          · show u32_sub hw.open_count 1 = 0
            rw [ho, h0]
            rfl
          · constructor
            · intro h; cases h
            · intro h; omega
        split
        · refine And.intro ?_ (down hw4 p4)
          exact (cb_view_set_power hw4 _ _).trans c4
        · conv => arg 2; arg 1; simp_match
          lift_lets
          extract_lets hw7
          have h7 : ctl_view hw7 = ctl_view hw6 := ctl_view_eq_of hw7 hw6 rfl rfl rfl rfl
          clear_value hw7
          split
          · refine And.intro ?_ (down hw6 p6)
            exact (cb_view_set_power hw6 _ _).trans c6
          · have h8 := (ctl_view_reset_sof_counters hw7).trans h7
            refine And.intro ((cb_view_of_ctl_view _ _ h8).trans c6) (fun hinv => ?_)
            have hs := u32_succ_of_lt _ hinv.1 hmax
            refine power_inv_of _ _ _ ((power_view_of_ctl_view _ _ h8).trans p6) ?_ ?_
            · rw [hs]
              have := hinv.1
              unfold UINT_MAX at this hmax ⊢
              omega
            · rw [hs]
              constructor
              · intro _; omega
              · intro _; rfl

/-- `cam_tfe_csid_disable_hw` is a power step. -/
theorem power_step_disable_hw (csid_hw : cam_tfe_csid_hw) (env : disable_hw_env) :
    power_step csid_hw (cam_tfe_csid_disable_hw csid_hw env).2 := by
  unfold cam_tfe_csid_disable_hw
  lift_lets
  extract_lets hw1 hw2 hw3 hw4
  have c1 : cb_view hw1 = cb_view csid_hw := cb_view_set_open_count csid_hw _
  have p1 : power_view hw1 = (csid_hw.hw_state, csid_hw.open_count - 1) :=
    power_view_mk hw1 _ _ rfl rfl
  have o1 : hw1.open_count = csid_hw.open_count - 1 := rfl
  clear_value hw1
  have h2 : ctl_view hw2 = ctl_view hw1 := ctl_view_disable_csi2 hw1
  clear_value hw2
  have h3 : ctl_view hw3 = ctl_view hw2 := ctl_view_global_reset hw2 env.reset
  clear_value hw3
  have h4 : ctl_view hw4 = ctl_view hw3 := ctl_view_cam_io_w_mb _ _ hw3
  clear_value hw4
  have h41 : ctl_view hw4 = ctl_view hw1 := h4.trans (h3.trans h2)
  split
  · exact ⟨rfl, id⟩
  · rename_i h0
    split
    · rename_i hne
      rw [o1] at hne
      refine And.intro c1 (fun hinv => ?_)
      refine power_inv_of hw1 _ _ p1 ?_ ?_
      · have := hinv.1
        omega
      · constructor
        · intro _; omega
        · intro _; exact hinv.2.2 (by omega)
    · rename_i hne
      rw [o1] at hne
      refine And.intro ?_ (fun hinv => ?_)
      · exact (cb_view_eq_of _ hw4 rfl rfl).trans ((cb_view_of_ctl_view _ _ h41).trans c1)
      · have ho : hw4.open_count = csid_hw.open_count - 1 :=
          open_count_of_power_view hw4 _ _ ((power_view_of_ctl_view _ _ h41).trans p1)
        refine power_inv_of _ .CAM_HW_STATE_POWER_DOWN 0 (power_view_mk _ _ _ rfl ?_)
          (Nat.zero_le _) ?_
        · show hw4.open_count = 0
          rw [ho]
          omega
        · constructor
          · intro h; cases h
          · intro h; omega

/-- A store to `device_enabled` leaves the control state alone. -/
theorem ctl_view_set_device_enabled (hw : cam_tfe_csid_hw) (n : Nat) :
    ctl_view { hw with device_enabled := n } = ctl_view hw := rfl

/-- `cam_tfe_csid_init_hw` is a power step. -/
theorem power_step_init_hw (K : csid_defs) (csid_hw : cam_tfe_csid_hw) (res_id : Nat)
    (env : init_hw_env) :
    power_step csid_hw (cam_tfe_csid_init_hw K csid_hw res_id env).2 := by
  unfold cam_tfe_csid_init_hw
  split
  · exact ⟨rfl, id⟩
  · split
    · exact ⟨rfl, id⟩
    · have he := power_step_enable_hw K csid_hw env.enable
      generalize cam_tfe_csid_enable_hw K csid_hw env.enable = r at he ⊢
      obtain ⟨rc, hw1⟩ := r
      conv => arg 2; arg 1; simp_match
      split
      · exact he
      · lift_lets
        extract_lets r2
        have h2 : ctl_view r2.2 = ctl_view hw1 := by
          show ctl_view (ite _ _ _ : Int × cam_tfe_csid_hw).2 = _
          split
          · exact ctl_view_init_config_pxl_path K hw1
          · exact ctl_view_init_config_rdi_path K hw1 res_id
        clear_value r2
        have h3 := ctl_view_reset_retain_sw_reg r2.2 env.retain_poll_rc
        generalize cam_tfe_csid_reset_retain_sw_reg r2.2 env.retain_poll_rc = r3 at h3 ⊢
        obtain ⟨rc3, hw3⟩ := r3
        conv => arg 2; arg 1; simp_match
        lift_lets
        extract_lets hw4
        have s31 : power_step hw1 hw3 := power_step_of_ctl_view _ _ (h3.trans h2)
        have s4 : power_step hw3 hw4 := by
          show power_step hw3 (ite _ _ _)
          split
          · exact power_step_disable_hw hw3 env.disable
          · exact ⟨rfl, id⟩
        clear_value hw4
        have s5 : power_step hw4 { hw4 with device_enabled := 1 } :=
          power_step_of_ctl_view _ _ (ctl_view_set_device_enabled hw4 1)
        exact power_step_trans _ _ _ he
          (power_step_trans _ _ _ s31 (power_step_trans _ _ _ s4 s5))

/-- `cam_tfe_csid_deinit_hw` is a power step. -/
theorem power_step_deinit_hw (csid_hw : cam_tfe_csid_hw) (res_id : Nat)
    (env : disable_hw_env) :
    power_step csid_hw (cam_tfe_csid_deinit_hw csid_hw res_id env).2 := by
  unfold cam_tfe_csid_deinit_hw
  split
  · exact ⟨rfl, id⟩
  · lift_lets
    extract_lets r1
    have h1 : ctl_view r1.2 = ctl_view csid_hw := by
      show ctl_view (ite _ _ _ : Int × cam_tfe_csid_hw).2 = _
      split
      · exact ctl_view_deinit_pxl_path csid_hw
      · exact ctl_view_deinit_rdi_path csid_hw res_id
    clear_value r1
    exact power_step_trans _ _ _ (power_step_of_ctl_view _ _ h1)
      (power_step_disable_hw r1.2 env)

/-- Two devices with the same power state and open count have the same power
part. -/
theorem power_view_eq_of (a b : cam_tfe_csid_hw) (h1 : a.hw_state = b.hw_state)
    (h2 : a.open_count = b.open_count) : power_view a = power_view b := by
  unfold power_view
  rw [h1, h2]

/-- A store to a path node leaves the power part alone. -/
theorem power_view_set_res (csid_hw : cam_tfe_csid_hw) (p : Nat) (n : cam_isp_resource_node) :
    power_view (set_res csid_hw p n) = power_view csid_hw :=
  power_view_of_ctl_view _ _ (ctl_view_set_res csid_hw p n)

/-- A store to a path node leaves the callback and its context alone. -/
theorem cb_view_set_res (csid_hw : cam_tfe_csid_hw) (p : Nat) (n : cam_isp_resource_node) :
    cb_view (set_res csid_hw p n) = cb_view csid_hw :=
  cb_view_of_ctl_view _ _ (ctl_view_set_res csid_hw p n)

/-- A conditional between two results of a reservation whose devices have
the same control state. -/
theorem ctl_view_ite_reserve (c : Prop) [Decidable c]
    (a b : Int × cam_tfe_csid_hw × Option Nat) (x : cam_tfe_csid_hw)
    (ha : ctl_view a.2.1 = ctl_view x) (hb : ctl_view b.2.1 = ctl_view x) :
    ctl_view (if c then a else b).2.1 = ctl_view x := by
  split
  · exact ha
  · exact hb

/-- `cam_tfe_csid_cid_reserve` leaves the control state alone. -/
theorem ctl_view_cid_reserve (K : csid_defs) (csid_hw : cam_tfe_csid_hw)
    (cid_reserv : cam_tfe_csid_hw_reserve_resource_args) :
    ctl_view (cam_tfe_csid_cid_reserve K csid_hw cid_reserv).2.1 = ctl_view csid_hw := by
  unfold cam_tfe_csid_cid_reserve
  refine ctl_view_ite_reserve _ _ _ _ rfl ?_
  refine ctl_view_ite_reserve _ _ _ _ rfl ?_
  refine ctl_view_ite_reserve _ _ _ _ rfl ?_
  refine ctl_view_ite_reserve _ _ _ _ rfl ?_
  refine ctl_view_ite_reserve _ _ _ _ rfl ?_
  refine ctl_view_ite_reserve _ _ _ _ rfl ?_
  refine ctl_view_ite_reserve _ _ _ _ rfl ?_
  refine ctl_view_ite_reserve _ _ _ _ rfl ?_
  generalize cam_tfe_csid_cid_get csid_hw.cid_res cid_reserv.in_port.vc cid_reserv.in_port.dt
    cid_reserv.in_port.num_valid_vc_dt = r
  obtain ⟨rc, cid_res1, cid_value⟩ := r
  refine ctl_view_ite_reserve _ _ _ _ ?_ ?_
  · exact ctl_view_eq_of _ csid_hw rfl rfl rfl rfl
  · lift_lets
    extract_lets hw1 hw2
    have h1 : ctl_view hw1 = ctl_view csid_hw := ctl_view_eq_of hw1 csid_hw rfl rfl rfl rfl
    clear_value hw1
    have h2 : ctl_view hw2 = ctl_view hw1 :=
      ctl_view_ite _ _ _ hw1 (ctl_view_eq_of _ hw1 rfl rfl rfl rfl) rfl
    clear_value hw2
    exact (ctl_view_eq_of _ hw2 rfl rfl rfl rfl).trans (h2.trans h1)

/-- `cam_tfe_csid_path_reserve_assign` leaves the power part alone and
stores the callback and the context of the request, also when it fails. -/
theorem path_reserve_assign_ctl (csid_hw : cam_tfe_csid_hw)
    (reserve : cam_tfe_csid_hw_reserve_resource_args) (cid_value : Nat)
    (qcfa_supported : Bool) :
    power_view (cam_tfe_csid_path_reserve_assign csid_hw reserve cid_value
      qcfa_supported).2.1 = power_view csid_hw ∧
    cb_view (cam_tfe_csid_path_reserve_assign csid_hw reserve cid_value
      qcfa_supported).2.1 = (reserve.event_cb, reserve.event_cb_prv) := by
  unfold cam_tfe_csid_path_reserve_assign
  lift_lets
  extract_lets in_port res src1 path_data1 src hw1 path_data2 path_data3 path_data4
  clear_value path_data4 path_data1
  have p0 : power_view src = power_view csid_hw := power_view_set_res _ _ _
  clear_value src
  have p1 : power_view hw1 = power_view csid_hw := (power_view_eq_of hw1 src rfl rfl).trans p0
  have c1 : cb_view hw1 = (reserve.event_cb, reserve.event_cb_prv) := rfl
  clear_value hw1
  split
  · exact ⟨p1, c1⟩
  · exact ⟨(power_view_set_res _ _ _).trans p1, (cb_view_set_res _ _ _).trans c1⟩

/-- `cam_tfe_csid_reserve` leaves the power part alone, and a reservation
that succeeds stores the callback and the context of the request. -/
theorem reserve_ctl (K : csid_defs) (csid_hw : cam_tfe_csid_hw)
    (reserv : cam_tfe_csid_hw_reserve_resource_args) (qcfa_supported : Bool) :
    power_view (cam_tfe_csid_reserve K csid_hw reserv qcfa_supported).2.1 =
      power_view csid_hw ∧
    ((cam_tfe_csid_reserve K csid_hw reserv qcfa_supported).1 = 0 →
      cb_view (cam_tfe_csid_reserve K csid_hw reserv qcfa_supported).2.1 =
        (reserv.event_cb, reserv.event_cb_prv)) := by
  have hne : (-EINVAL : Int) ≠ 0 := by decide
  have tail : ∀ r : Int × cam_tfe_csid_hw × Option Nat,
      power_view r.2.1 = power_view csid_hw →
      (power_view (if r.1 ≠ 0 then (r.1, r.2.1, (none : Option Nat))
          else cam_tfe_csid_path_reserve_assign r.2.1 reserv (r.2.2.getD 0)
            qcfa_supported).2.1 = power_view csid_hw ∧
        ((if r.1 ≠ 0 then (r.1, r.2.1, (none : Option Nat))
          else cam_tfe_csid_path_reserve_assign r.2.1 reserv (r.2.2.getD 0)
            qcfa_supported).1 = 0 →
         cb_view (if r.1 ≠ 0 then (r.1, r.2.1, (none : Option Nat))
          else cam_tfe_csid_path_reserve_assign r.2.1 reserv (r.2.2.getD 0)
            qcfa_supported).2.1 = (reserv.event_cb, reserv.event_cb_prv))) := by
    intro r hr
    split
    · rename_i h
      exact ⟨hr, fun h0 => absurd h0 h⟩
    · exact ⟨(path_reserve_assign_ctl _ _ _ _).1.trans hr,
        fun _ => (path_reserve_assign_ctl _ _ _ _).2⟩
  have hcid := power_view_of_ctl_view _ _ (ctl_view_cid_reserve K csid_hw reserv)
  unfold cam_tfe_csid_reserve cam_tfe_csid_path_reserve
  lift_lets
  extract_lets in_port
  split
  · exact ⟨rfl, fun h => absurd h hne⟩
  split
  · exact ⟨rfl, fun h => absurd h hne⟩
  split
  · split
    · exact ⟨rfl, fun h => absurd h hne⟩
    split
    · exact ⟨rfl, fun h => absurd h hne⟩
    exact tail _ hcid
  split
  · split
    · exact ⟨rfl, fun h => absurd h hne⟩
    exact tail _ hcid
  exact ⟨rfl, fun h => absurd h hne⟩

/-- `cam_tfe_csid_release` leaves the power part alone. -/
theorem power_view_release (csid_hw : cam_tfe_csid_hw) (res_id : Nat) :
    power_view (cam_tfe_csid_release csid_hw res_id).2 = power_view csid_hw := by
  unfold cam_tfe_csid_release
  lift_lets
  extract_lets hw1 res cid src hw2 hw3 hw4
  have p1 : power_view hw1 = power_view csid_hw := power_view_eq_of hw1 csid_hw rfl rfl
  clear_value hw1
  have p2 : power_view hw2 = power_view hw1 := by
    show power_view (ite _ _ _) = _
    split
    · exact power_view_eq_of _ hw1 rfl rfl
    · rfl
  clear_value hw2
  have p3 : power_view hw3 = power_view hw2 := by
    show power_view (ite _ _ _) = _
    split
    · exact power_view_eq_of _ hw2 rfl rfl
    · rfl
  clear_value hw3
  have p4 : power_view hw4 = power_view hw3 := by
    show power_view (ite _ _ _) = _
    split
    · exact power_view_eq_of _ hw3 rfl rfl
    · rfl
  clear_value hw4
  split
  · rfl
  · split
    · exact p1
    · exact (power_view_set_res _ _ _).trans (p4.trans (p3.trans (p2.trans p1)))

/-- Every public operation keeps the invariant of the power state. -/
theorem power_inv_step (K : csid_defs) (csid_hw : cam_tfe_csid_hw) (op : csid_op)
    (h : power_inv csid_hw) : power_inv (csid_step K csid_hw op).2 := by
  cases op with
  | reserve args qcfa_supported =>
    exact power_inv_congr _ _ (reserve_ctl K csid_hw args qcfa_supported).1 h
  | release res_id => exact power_inv_congr _ _ (power_view_release csid_hw res_id) h
  | init res_id env => exact (power_step_init_hw K csid_hw res_id env).2 h
  | deinit res_id env => exact (power_step_deinit_hw csid_hw res_id env).2 h
  | start res_id path_status =>
    exact power_inv_congr _ _
      (power_view_of_ctl_view _ _ (ctl_view_start K csid_hw res_id path_status)) h
  | stop args poll_rc =>
    exact power_inv_congr _ _
      (power_view_of_ctl_view _ _ (ctl_view_stop K csid_hw args poll_rc)) h

/-- Every sequence of public operations keeps the invariant of the power
state. -/
theorem power_inv_run (K : csid_defs) (ops : List csid_op) :
    ∀ csid_hw : cam_tfe_csid_hw, power_inv csid_hw → power_inv (csid_run K csid_hw ops).2 := by
  induction ops with
  | nil => intro csid_hw h; exact h
  | cons op rest ih =>
    intro csid_hw h
    exact ih _ (power_inv_step K csid_hw op h)

/-- The freshly probed device is powered down with open count `0`. -/
theorem power_inv_probe_init (csid_reg : cam_tfe_csid_reg_offset)
    (pix_fused_off ppi_enable : Bool) (ppi_hw_intf : Nat → Bool) (csid_idx : Nat) :
    power_inv (cam_tfe_csid_hw_probe_init csid_reg pix_fused_off ppi_enable ppi_hw_intf
      csid_idx) :=
  power_inv_of _ .CAM_HW_STATE_POWER_DOWN 0 rfl (Nat.zero_le _)
    ⟨fun h => (by cases h), fun h => absurd h (Nat.lt_irrefl 0)⟩

/-- C1, evaluated at the failing input.  On the freshly probed device one
reservation of RDI0 that carries the two pairs (0,0x2b), (1,0x2c) succeeds,
gets CID slot 0 and leaves that slot with reference count 2 although there
was one reservation and no release; RDI1 with the same list gets slot 0 again
(count 3), releasing RDI0 leaves 2, and after both paths are released the
count is still 1.  With a one-pair list the counts are the expected 1, 2 and,
after the release of RDI0, 1. -/
theorem cid_refcount_two_pair_reservation :
    (cam_tfe_csid_reserve sample_defs sample_hw
        (sample_reserve CAM_TFE_CSID_PATH_RES_RDI_0 two_pair_port) true).1 = 0 ∧
    ((hw_reserved_rdi0 two_pair_port).rdi_res 0).res_priv.cid = 0 ∧
    cid_cnt (hw_reserved_rdi0 two_pair_port) 0 = 2 ∧
    (cam_tfe_csid_reserve sample_defs (hw_reserved_rdi0 two_pair_port)
        (sample_reserve CAM_TFE_CSID_PATH_RES_RDI_1 two_pair_port) true).1 = 0 ∧
    ((hw_reserved_rdi01 two_pair_port).rdi_res 1).res_priv.cid = 0 ∧
    cid_cnt (hw_reserved_rdi01 two_pair_port) 0 = 3 ∧
    cid_cnt (cam_tfe_csid_release (hw_reserved_rdi01 two_pair_port)
        CAM_TFE_CSID_PATH_RES_RDI_0).2 0 = 2 ∧
    cid_cnt (cam_tfe_csid_release
        (cam_tfe_csid_release (hw_reserved_rdi01 two_pair_port) CAM_TFE_CSID_PATH_RES_RDI_0).2
        CAM_TFE_CSID_PATH_RES_RDI_1).2 0 = 1 ∧
    cid_cnt (hw_reserved_rdi0 sample_in_port) 0 = 1 ∧
    cid_cnt (hw_reserved_rdi01 sample_in_port) 0 = 2 ∧
    cid_cnt (cam_tfe_csid_release (hw_reserved_rdi01 sample_in_port)
        CAM_TFE_CSID_PATH_RES_RDI_0).2 0 = 1 := by
  decide

/-- C2, evaluated at the failing inputs.  A request with two pairs on the
cleared table selects slot 0 and stores the pairs in order, but leaves the
slot with reference count 2 instead of 1.  A request with one pair on a table
whose slot 0 was used and released before (count 0, one valid pair recorded)
selects slot 0 and leaves it with a valid-pair count of 2 instead of 1. -/
theorem cid_get_alloc_counts_every_pair :
    (cam_tfe_csid_cid_get sample_hw.cid_res [0, 1, 0, 0] [0x2b, 0x2c, 0, 0] 2).1 = 0 ∧
    (cam_tfe_csid_cid_get sample_hw.cid_res [0, 1, 0, 0] [0x2b, 0x2c, 0, 0] 2).2.2 = some 0 ∧
    (cam_tfe_csid_cid_get sample_hw.cid_res [0, 1, 0, 0] [0x2b, 0x2c, 0, 0] 2).2.1.getD 0 default =
      { vc_dt := [⟨0, 0x2b⟩, ⟨1, 0x2c⟩, ⟨0, 0⟩, ⟨0, 0⟩], num_valid_vc_dt := 2, cnt := 2 } ∧
    cid_res_after_release.getD 0 default =
      { vc_dt := [⟨0, 0x2b⟩, ⟨0, 0⟩, ⟨0, 0⟩, ⟨0, 0⟩], num_valid_vc_dt := 1, cnt := 0 } ∧
    (cam_tfe_csid_cid_get cid_res_after_release [1, 0, 0, 0] [0x2c, 0, 0, 0] 1).1 = 0 ∧
    (cam_tfe_csid_cid_get cid_res_after_release [1, 0, 0, 0] [0x2c, 0, 0, 0] 1).2.2 = some 0 ∧
    (cam_tfe_csid_cid_get cid_res_after_release [1, 0, 0, 0] [0x2c, 0, 0, 0] 1).2.1.getD 0 default =
      { vc_dt := [⟨1, 0x2c⟩, ⟨0, 0⟩, ⟨0, 0⟩, ⟨0, 0⟩], num_valid_vc_dt := 2, cnt := 1 } := by
  decide

/-- C3, evaluated at the failing inputs.  Slot 0 is in use with the two pairs
(0,0x2b), (1,0x2c); a request with the single pair (0,0x2b), a proper prefix
of that list, matches it and is given slot 0, whose count goes from 2 to 3.
Slot 0 in use with the single pair (0,0x2b) is also given to the longer
request (0,0x2b), (0,0): its second pair is compared with the unused second
entry of the slot. -/
theorem cid_get_reuses_slot_on_partial_match :
    (hw_reserved_rdi0 two_pair_port).cid_res.getD 0 default =
      { vc_dt := [⟨0, 0x2b⟩, ⟨1, 0x2c⟩, ⟨0, 0⟩, ⟨0, 0⟩], num_valid_vc_dt := 2, cnt := 2 } ∧
    cam_tfe_match_vc_dt_pair [0, 0, 0, 0] [0x2b, 0, 0, 0] 1
      ((hw_reserved_rdi0 two_pair_port).cid_res.getD 0 default) = 0 ∧
    (cam_tfe_csid_cid_get (hw_reserved_rdi0 two_pair_port).cid_res
      [0, 0, 0, 0] [0x2b, 0, 0, 0] 1).1 = 0 ∧
    (cam_tfe_csid_cid_get (hw_reserved_rdi0 two_pair_port).cid_res
      [0, 0, 0, 0] [0x2b, 0, 0, 0] 1).2.2 = some 0 ∧
    ((cam_tfe_csid_cid_get (hw_reserved_rdi0 two_pair_port).cid_res
      [0, 0, 0, 0] [0x2b, 0, 0, 0] 1).2.1.getD 0 default).cnt = 3 ∧
    (hw_reserved_rdi0 sample_in_port).cid_res.getD 0 default =
      { vc_dt := [⟨0, 0x2b⟩, ⟨0, 0⟩, ⟨0, 0⟩, ⟨0, 0⟩], num_valid_vc_dt := 1, cnt := 1 } ∧
    (cam_tfe_csid_cid_get (hw_reserved_rdi0 sample_in_port).cid_res
      [0, 0, 0, 0] [0x2b, 0, 0, 0] 2).1 = 0 ∧
    (cam_tfe_csid_cid_get (hw_reserved_rdi0 sample_in_port).cid_res
      [0, 0, 0, 0] [0x2b, 0, 0, 0] 2).2.2 = some 0 ∧
    ((cam_tfe_csid_cid_get (hw_reserved_rdi0 sample_in_port).cid_res
      [0, 0, 0, 0] [0x2b, 0, 0, 0] 2).2.1.getD 0 default).cnt = 2 := by
  decide

/-- C4, evaluated at the failing sequence.  On the freshly probed device the
sequence reserve RDI0, stop RDI0, start RDI0 returns success three times: the
stop moves the reserved path to `INIT_HW`, so the start succeeds and the path
streams although no `init` was ever called (the block is still powered down
with open count 0). -/
theorem start_succeeds_without_init :
    (csid_run sample_defs sample_hw trace_start_without_init).1.map Prod.snd = [0, 0, 0] ∧
    starts_follow_inits [] (csid_run sample_defs sample_hw trace_start_without_init).1 = false ∧
    path_state (csid_run sample_defs sample_hw (trace_start_without_init.take 1)).2
      CAM_TFE_CSID_PATH_RES_RDI_0 = .RESERVED ∧
    path_state (csid_run sample_defs sample_hw (trace_start_without_init.take 2)).2
      CAM_TFE_CSID_PATH_RES_RDI_0 = .INIT_HW ∧
    path_state (csid_run sample_defs sample_hw trace_start_without_init).2
      CAM_TFE_CSID_PATH_RES_RDI_0 = .STREAMING ∧
    (csid_run sample_defs sample_hw trace_start_without_init).2.open_count = 0 ∧
    (csid_run sample_defs sample_hw trace_start_without_init).2.hw_state =
      .CAM_HW_STATE_POWER_DOWN := by
  decide

/-- C5, evaluated at the failing inputs.  RDI0 is reserved with the format
pair RAW10 to PLAIN8: the per-path programming fails with `-EINVAL`, yet
`cam_tfe_csid_init_hw` returns 0 and the path is still `RESERVED`.  IPP is
reserved with both bayer and QCFA binning: the programming fails with
`-EINVAL`, yet `cam_tfe_csid_init_hw` returns 0 and the path is still
`RESERVED`. -/
theorem init_hw_hides_path_config_failure :
    path_state hw_rdi0_bad_format CAM_TFE_CSID_PATH_RES_RDI_0 = .RESERVED ∧
    (cam_tfe_csid_init_config_rdi_path sample_defs
      (cam_tfe_csid_enable_hw sample_defs hw_rdi0_bad_format init_ok.enable).2
      CAM_TFE_CSID_PATH_RES_RDI_0).1 = -EINVAL ∧
    (cam_tfe_csid_init_hw sample_defs hw_rdi0_bad_format
      CAM_TFE_CSID_PATH_RES_RDI_0 init_ok).1 = 0 ∧
    path_state (cam_tfe_csid_init_hw sample_defs hw_rdi0_bad_format
      CAM_TFE_CSID_PATH_RES_RDI_0 init_ok).2 CAM_TFE_CSID_PATH_RES_RDI_0 = .RESERVED ∧
    path_state hw_ipp_both_bin CAM_TFE_CSID_PATH_RES_IPP = .RESERVED ∧
    (cam_tfe_csid_init_config_pxl_path sample_defs
      (cam_tfe_csid_enable_hw sample_defs hw_ipp_both_bin init_ok.enable).2).1 = -EINVAL ∧
    (cam_tfe_csid_init_hw sample_defs hw_ipp_both_bin
      CAM_TFE_CSID_PATH_RES_IPP init_ok).1 = 0 ∧
    path_state (cam_tfe_csid_init_hw sample_defs hw_ipp_both_bin
      CAM_TFE_CSID_PATH_RES_IPP init_ok).2 CAM_TFE_CSID_PATH_RES_IPP = .RESERVED := by
  decide

/-- C6, evaluated at the failing inputs.  `cam_tfe_csid_stop` on RDI0 in
state `RESERVED` returns 0 and leaves the path in `INIT_HW`, not in
`RESERVED`; the same happens to a reserved IPP.  The block stays powered down
with open count 0. -/
theorem stop_moves_reserved_path_to_init_hw :
    path_state (hw_reserved_rdi0 sample_in_port) CAM_TFE_CSID_PATH_RES_RDI_0 = .RESERVED ∧
    (cam_tfe_csid_stop sample_defs (hw_reserved_rdi0 sample_in_port)
      (stop_rdi0 CAM_TFE_CSID_HALT_AT_FRAME_BOUNDARY) (fun _ => 0)).1 = 0 ∧
    path_state (cam_tfe_csid_stop sample_defs (hw_reserved_rdi0 sample_in_port)
      (stop_rdi0 CAM_TFE_CSID_HALT_AT_FRAME_BOUNDARY) (fun _ => 0)).2
      CAM_TFE_CSID_PATH_RES_RDI_0 = .INIT_HW ∧
    (cam_tfe_csid_stop sample_defs (hw_reserved_rdi0 sample_in_port)
      (stop_rdi0 CAM_TFE_CSID_HALT_AT_FRAME_BOUNDARY) (fun _ => 0)).2.open_count = 0 ∧
    path_state hw_reserved_ipp CAM_TFE_CSID_PATH_RES_IPP = .RESERVED ∧
    (cam_tfe_csid_stop sample_defs hw_reserved_ipp
      { node_res := [CAM_TFE_CSID_PATH_RES_IPP], stop_cmd := CAM_TFE_CSID_HALT_IMMEDIATELY }
      (fun _ => 0)).1 = 0 ∧
    path_state (cam_tfe_csid_stop sample_defs hw_reserved_ipp
      { node_res := [CAM_TFE_CSID_PATH_RES_IPP], stop_cmd := CAM_TFE_CSID_HALT_IMMEDIATELY }
      (fun _ => 0)).2 CAM_TFE_CSID_PATH_RES_IPP = .INIT_HW := by
  decide

/-- C7, evaluated at the failing input.  RDI0 is streaming and
`cam_tfe_csid_stop` is called with the command `RESUME_AT_FRAME_BOUNDARY`,
which is neither halt mode: `cam_tfe_csid_disable_rdi_path` rejects it with
`-EINVAL`, but when the status poll succeeds the stop returns 0, and whatever
the poll answers the path ends in `INIT_HW`. -/
theorem stop_accepts_unsupported_halt_mode :
    path_state hw_streaming_rdi0 CAM_TFE_CSID_PATH_RES_RDI_0 = .STREAMING ∧
    (cam_tfe_csid_disable_rdi_path hw_streaming_rdi0 CAM_TFE_CSID_PATH_RES_RDI_0
      CAM_TFE_CSID_RESUME_AT_FRAME_BOUNDARY).1 = -EINVAL ∧
    (cam_tfe_csid_stop sample_defs hw_streaming_rdi0
      (stop_rdi0 CAM_TFE_CSID_RESUME_AT_FRAME_BOUNDARY) (fun _ => 0)).1 = 0 ∧
    path_state (cam_tfe_csid_stop sample_defs hw_streaming_rdi0
      (stop_rdi0 CAM_TFE_CSID_RESUME_AT_FRAME_BOUNDARY) (fun _ => 0)).2
      CAM_TFE_CSID_PATH_RES_RDI_0 = .INIT_HW ∧
    (cam_tfe_csid_stop sample_defs hw_streaming_rdi0
      (stop_rdi0 CAM_TFE_CSID_RESUME_AT_FRAME_BOUNDARY) (fun _ => -ETIMEDOUT)).1 = -ETIMEDOUT ∧
    path_state (cam_tfe_csid_stop sample_defs hw_streaming_rdi0
      (stop_rdi0 CAM_TFE_CSID_RESUME_AT_FRAME_BOUNDARY) (fun _ => -ETIMEDOUT)).2
      CAM_TFE_CSID_PATH_RES_RDI_0 = .INIT_HW := by
  decide

/-- C8.  `cam_tfe_csid_release` on a path (`res_id` below
`CAM_TFE_CSID_PATH_RES_MAX`) whose state is `AVAILABLE` or `STREAMING`
returns 0 and leaves the state of that path, both node records, the whole CID
table, the receiver reserve count, the input-resource id and the receiver
configuration as they were. -/
theorem release_available_or_streaming_is_noop (csid_hw : cam_tfe_csid_hw) (res_id : Nat)
    (hid : res_id < CAM_TFE_CSID_PATH_RES_MAX)
    (hst : path_state csid_hw res_id = .AVAILABLE ∨ path_state csid_hw res_id = .STREAMING) :
    (cam_tfe_csid_release csid_hw res_id).1 = 0 ∧
    path_state (cam_tfe_csid_release csid_hw res_id).2 res_id = path_state csid_hw res_id ∧
    (cam_tfe_csid_release csid_hw res_id).2.ipp_res = csid_hw.ipp_res ∧
    (cam_tfe_csid_release csid_hw res_id).2.rdi_res = csid_hw.rdi_res ∧
    (cam_tfe_csid_release csid_hw res_id).2.cid_res = csid_hw.cid_res ∧
    (cam_tfe_csid_release csid_hw res_id).2.csi2_reserve_cnt = csid_hw.csi2_reserve_cnt ∧
    (cam_tfe_csid_release csid_hw res_id).2.in_res_id = csid_hw.in_res_id ∧
    (cam_tfe_csid_release csid_hw res_id).2.csi2_rx_cfg = csid_hw.csi2_rx_cfg := by
  have h1 : ¬ res_id ≥ CAM_TFE_CSID_PATH_RES_MAX := Nat.not_le.mpr hid
  have h2 : get_res { csid_hw with event_cb := none, event_cb_priv := none } res_id =
      get_res csid_hw res_id := by
    unfold get_res; split <;> rfl
  have h3 : (get_res csid_hw res_id).res_state.toNat ≤ cam_isp_resource_state.AVAILABLE.toNat ∨
      (get_res csid_hw res_id).res_state.toNat ≥ cam_isp_resource_state.STREAMING.toNat := by
    rcases hst with h | h
    · left
      have h' : (get_res csid_hw res_id).res_state = .AVAILABLE := h
      rw [h']
    · right
      have h' : (get_res csid_hw res_id).res_state = .STREAMING := h
      rw [h']
  unfold cam_tfe_csid_release
  rw [if_neg h1]
  simp only [h2]
  rw [if_pos h3]
  exact ⟨rfl, rfl, rfl, rfl, rfl, rfl, rfl, rfl⟩

/-- Witness for C8: RDI0 of the sample device is streaming (slot 0 has
count 1, reserve count 1) and its release changes nothing of the above. -/
theorem release_available_or_streaming_is_noop_witness :
    CAM_TFE_CSID_PATH_RES_RDI_0 < CAM_TFE_CSID_PATH_RES_MAX ∧
    path_state hw_streaming_rdi0 CAM_TFE_CSID_PATH_RES_RDI_0 = .STREAMING ∧
    cid_cnt hw_streaming_rdi0 0 = 1 ∧
    ((cam_tfe_csid_release hw_streaming_rdi0 CAM_TFE_CSID_PATH_RES_RDI_0).1 = 0 ∧
     path_state (cam_tfe_csid_release hw_streaming_rdi0 CAM_TFE_CSID_PATH_RES_RDI_0).2
       CAM_TFE_CSID_PATH_RES_RDI_0 = path_state hw_streaming_rdi0 CAM_TFE_CSID_PATH_RES_RDI_0 ∧
     (cam_tfe_csid_release hw_streaming_rdi0 CAM_TFE_CSID_PATH_RES_RDI_0).2.ipp_res =
       hw_streaming_rdi0.ipp_res ∧
     (cam_tfe_csid_release hw_streaming_rdi0 CAM_TFE_CSID_PATH_RES_RDI_0).2.rdi_res =
       hw_streaming_rdi0.rdi_res ∧
     (cam_tfe_csid_release hw_streaming_rdi0 CAM_TFE_CSID_PATH_RES_RDI_0).2.cid_res =
       hw_streaming_rdi0.cid_res ∧
     (cam_tfe_csid_release hw_streaming_rdi0 CAM_TFE_CSID_PATH_RES_RDI_0).2.csi2_reserve_cnt =
       hw_streaming_rdi0.csi2_reserve_cnt ∧
     (cam_tfe_csid_release hw_streaming_rdi0 CAM_TFE_CSID_PATH_RES_RDI_0).2.in_res_id =
       hw_streaming_rdi0.in_res_id ∧
     (cam_tfe_csid_release hw_streaming_rdi0 CAM_TFE_CSID_PATH_RES_RDI_0).2.csi2_rx_cfg =
       hw_streaming_rdi0.csi2_rx_cfg) :=
  ⟨by decide, by decide, by decide,
   release_available_or_streaming_is_noop hw_streaming_rdi0 CAM_TFE_CSID_PATH_RES_RDI_0
     (by decide) (Or.inr (by decide))⟩

/-- C9, counterexample.  The claim that `cam_tfe_csid_deinit_hw` fails on
every path that is not in `INIT_HW` and then leaves path state and open count
alone is false: on RDI0 in `RESERVED` it returns 0; on RDI0 in `STREAMING` it
returns `-EINVAL` but the open count drops from 1 to 0; on IPP in `AVAILABLE`
it returns `-EINVAL` but the path is moved to `RESERVED`. -/
theorem deinit_hw_outside_init_hw :
    path_state (hw_reserved_rdi0 sample_in_port) CAM_TFE_CSID_PATH_RES_RDI_0 = .RESERVED ∧
    (cam_tfe_csid_deinit_hw (hw_reserved_rdi0 sample_in_port)
      CAM_TFE_CSID_PATH_RES_RDI_0 disable_ok).1 = 0 ∧
    path_state hw_streaming_rdi0 CAM_TFE_CSID_PATH_RES_RDI_0 = .STREAMING ∧
    hw_streaming_rdi0.open_count = 1 ∧
    (cam_tfe_csid_deinit_hw hw_streaming_rdi0 CAM_TFE_CSID_PATH_RES_RDI_0 disable_ok).1 =
      -EINVAL ∧
    (cam_tfe_csid_deinit_hw hw_streaming_rdi0
      CAM_TFE_CSID_PATH_RES_RDI_0 disable_ok).2.open_count = 0 ∧
    path_state sample_hw CAM_TFE_CSID_PATH_RES_IPP = .AVAILABLE ∧
    (cam_tfe_csid_deinit_hw sample_hw CAM_TFE_CSID_PATH_RES_IPP disable_ok).1 = -EINVAL ∧
    path_state (cam_tfe_csid_deinit_hw sample_hw CAM_TFE_CSID_PATH_RES_IPP disable_ok).2
      CAM_TFE_CSID_PATH_RES_IPP = .RESERVED := by
  decide

/-- C9 (amended).  For a path `res_id` below `CAM_TFE_CSID_PATH_RES_MAX`:
`cam_tfe_csid_deinit_hw` on a path that is already `RESERVED` returns 0 and
changes nothing; on a path in `INIT_HW` whose registers exist it returns 0
and moves the path to `RESERVED`; on an RDI path in any other state it
returns an error and leaves the state of that path as it was. -/
theorem deinit_hw_by_state (csid_hw : cam_tfe_csid_hw) (res_id : Nat) (env : disable_hw_env)
    (hid : res_id < CAM_TFE_CSID_PATH_RES_MAX) :
    (path_state csid_hw res_id = .RESERVED →
      cam_tfe_csid_deinit_hw csid_hw res_id env = (0, csid_hw)) ∧
    (path_state csid_hw res_id = .INIT_HW →
      path_regs_present csid_hw.csid_reg res_id = true →
      (cam_tfe_csid_deinit_hw csid_hw res_id env).1 = 0 ∧
      path_state (cam_tfe_csid_deinit_hw csid_hw res_id env).2 res_id = .RESERVED) ∧
    (res_id ≠ CAM_TFE_CSID_PATH_RES_IPP →
      path_state csid_hw res_id ≠ .INIT_HW →
      path_state csid_hw res_id ≠ .RESERVED →
      (cam_tfe_csid_deinit_hw csid_hw res_id env).1 ≠ 0 ∧
      path_state (cam_tfe_csid_deinit_hw csid_hw res_id env).2 res_id =
        path_state csid_hw res_id) := by
  refine ⟨?_, ?_, ?_⟩
  · intro h
    have h0 : (get_res csid_hw res_id).res_state = .RESERVED := h
    unfold cam_tfe_csid_deinit_hw
    rw [if_pos h0]
  · intro h hregs
    have hne : ¬ (get_res csid_hw res_id).res_state = .RESERVED := by
      have : (get_res csid_hw res_id).res_state = .INIT_HW := h
      rw [this]; decide
    unfold cam_tfe_csid_deinit_hw
    rw [if_neg hne]
    by_cases hipp : res_id = CAM_TFE_CSID_PATH_RES_IPP
    · subst hipp
      have hst : csid_hw.ipp_res.res_state = .INIT_HW := h
      have hreg : csid_hw.csid_reg.ipp_reg.isSome = true := by
        simpa [path_regs_present] using hregs
      obtain ⟨pxl, hpxl⟩ := Option.isSome_iff_exists.mp hreg
      simp only [if_true, path_state_disable_hw]
      unfold cam_tfe_csid_deinit_pxl_path
      rw [hpxl]
      simp only [hst]
      exact ⟨by decide, rfl⟩
    · have hle : ¬ res_id > CAM_TFE_CSID_PATH_RES_RDI_2 := by
        unfold CAM_TFE_CSID_PATH_RES_MAX at hid
        unfold CAM_TFE_CSID_PATH_RES_IPP at hipp
        unfold CAM_TFE_CSID_PATH_RES_RDI_2
        omega
      have hreg : ¬ csid_hw.csid_reg.rdi_reg res_id = none := by
        intro hn
        simp [path_regs_present, hipp, hn] at hregs
      have hst : ¬ (get_res csid_hw res_id).res_state ≠ .INIT_HW := by
        intro hn; exact hn h
      have hc : ¬ (res_id > CAM_TFE_CSID_PATH_RES_RDI_2 ∨
          (get_res csid_hw res_id).res_state ≠ .INIT_HW ∨
          csid_hw.csid_reg.rdi_reg res_id = none) := by
        rintro (h1 | h1 | h1)
        · exact hle h1
        · exact hst h1
        · exact hreg h1
      simp only [if_neg hipp, path_state_disable_hw]
      unfold cam_tfe_csid_deinit_rdi_path
      simp only [if_neg hc]
      refine ⟨trivial, ?_⟩
      unfold path_state
      rw [get_res_set_res_same]
  · intro hipp h1 h2
    have hne : ¬ (get_res csid_hw res_id).res_state = .RESERVED := h2
    have hc : (res_id > CAM_TFE_CSID_PATH_RES_RDI_2 ∨
        (get_res csid_hw res_id).res_state ≠ .INIT_HW ∨
        csid_hw.csid_reg.rdi_reg res_id = none) := Or.inr (Or.inl h1)
    unfold cam_tfe_csid_deinit_hw
    rw [if_neg hne]
    simp only [if_neg hipp, path_state_disable_hw]
    unfold cam_tfe_csid_deinit_rdi_path
    simp only [if_pos hc]
    exact ⟨by decide, trivial⟩

/-- Witness for C9 (amended): the three cases at RDI0 of the sample device,
reserved, initialised and streaming. -/
theorem deinit_hw_by_state_witness :
    CAM_TFE_CSID_PATH_RES_RDI_0 < CAM_TFE_CSID_PATH_RES_MAX ∧
    cam_tfe_csid_deinit_hw (hw_reserved_rdi0 sample_in_port)
      CAM_TFE_CSID_PATH_RES_RDI_0 disable_ok = (0, hw_reserved_rdi0 sample_in_port) ∧
    ((cam_tfe_csid_deinit_hw hw_init_rdi0 CAM_TFE_CSID_PATH_RES_RDI_0 disable_ok).1 = 0 ∧
      path_state (cam_tfe_csid_deinit_hw hw_init_rdi0 CAM_TFE_CSID_PATH_RES_RDI_0 disable_ok).2
        CAM_TFE_CSID_PATH_RES_RDI_0 = .RESERVED) ∧
    ((cam_tfe_csid_deinit_hw hw_streaming_rdi0 CAM_TFE_CSID_PATH_RES_RDI_0 disable_ok).1 ≠ 0 ∧
      path_state (cam_tfe_csid_deinit_hw hw_streaming_rdi0
        CAM_TFE_CSID_PATH_RES_RDI_0 disable_ok).2 CAM_TFE_CSID_PATH_RES_RDI_0 =
        path_state hw_streaming_rdi0 CAM_TFE_CSID_PATH_RES_RDI_0) :=
  ⟨by decide,
   (deinit_hw_by_state (hw_reserved_rdi0 sample_in_port) CAM_TFE_CSID_PATH_RES_RDI_0
      disable_ok (by decide)).1 (by decide),
   (deinit_hw_by_state hw_init_rdi0 CAM_TFE_CSID_PATH_RES_RDI_0
      disable_ok (by decide)).2.1 (by decide) (by decide),
   (deinit_hw_by_state hw_streaming_rdi0 CAM_TFE_CSID_PATH_RES_RDI_0
      disable_ok (by decide)).2.2 (by decide) (by decide) (by decide)⟩

/-- C10, evaluated at the failing input.  On the freshly probed device a
reservation of RDI0 that requests QCFA binning while the platform lacks the
capability returns `-EINVAL`, but RDI0 is left `RESERVED`, CID slot 0 has
count 1, the receiver reserve count is 1 and the receiver configuration has
been adopted.  No register was written. -/
theorem reserve_qcfa_failure_keeps_reservation :
    (cam_tfe_csid_reserve sample_defs sample_hw qcfa_reserve false).1 = -EINVAL ∧
    path_state sample_hw CAM_TFE_CSID_PATH_RES_RDI_0 = .AVAILABLE ∧
    path_state (cam_tfe_csid_reserve sample_defs sample_hw qcfa_reserve false).2.1
      CAM_TFE_CSID_PATH_RES_RDI_0 = .RESERVED ∧
    cid_cnt sample_hw 0 = 0 ∧
    cid_cnt (cam_tfe_csid_reserve sample_defs sample_hw qcfa_reserve false).2.1 0 = 1 ∧
    sample_hw.csi2_reserve_cnt = 0 ∧
    (cam_tfe_csid_reserve sample_defs sample_hw qcfa_reserve false).2.1.csi2_reserve_cnt = 1 ∧
    sample_hw.csi2_rx_cfg = { phy_sel := 0, lane_type := 0, lane_num := 0, lane_cfg := 0 } ∧
    (cam_tfe_csid_reserve sample_defs sample_hw qcfa_reserve false).2.1.csi2_rx_cfg =
      { phy_sel := 1, lane_type := 1, lane_num := 4, lane_cfg := 0x3210 } ∧
    (cam_tfe_csid_reserve sample_defs sample_hw qcfa_reserve false).2.1.regs = [] := by
  decide

/-- C11.  While the receiver reserve count is greater than 0 (and is a
`uint32_t`), a reservation whose input-resource id, lane configuration, lane
type or lane count differs from the stored values fails and leaves the
reserve count, `in_res_id`, the receiver configuration and the CID table as
they were; a reservation that returns 0 leaves the reserve count one higher
and `in_res_id` and the receiver configuration as they were. -/
theorem reserve_against_receiver_in_use (K : csid_defs) (csid_hw : cam_tfe_csid_hw)
    (reserv : cam_tfe_csid_hw_reserve_resource_args) (qcfa_supported : Bool)
    (hcnt : csid_hw.csi2_reserve_cnt > 0) (hu32 : csid_hw.csi2_reserve_cnt ≤ UINT_MAX) :
    ((csid_hw.in_res_id ≠ reserv.in_port.res_id ∨
        csid_hw.csi2_rx_cfg.lane_cfg ≠ reserv.in_port.lane_cfg ∨
        csid_hw.csi2_rx_cfg.lane_type ≠ reserv.in_port.lane_type ∨
        csid_hw.csi2_rx_cfg.lane_num ≠ reserv.in_port.lane_num) →
      (cam_tfe_csid_reserve K csid_hw reserv qcfa_supported).1 ≠ 0 ∧
      (cam_tfe_csid_reserve K csid_hw reserv qcfa_supported).2.1.csi2_reserve_cnt =
        csid_hw.csi2_reserve_cnt ∧
      (cam_tfe_csid_reserve K csid_hw reserv qcfa_supported).2.1.in_res_id =
        csid_hw.in_res_id ∧
      (cam_tfe_csid_reserve K csid_hw reserv qcfa_supported).2.1.csi2_rx_cfg =
        csid_hw.csi2_rx_cfg ∧
      (cam_tfe_csid_reserve K csid_hw reserv qcfa_supported).2.1.cid_res = csid_hw.cid_res) ∧
    ((cam_tfe_csid_reserve K csid_hw reserv qcfa_supported).1 = 0 →
      (cam_tfe_csid_reserve K csid_hw reserv qcfa_supported).2.1.csi2_reserve_cnt =
        csid_hw.csi2_reserve_cnt + 1 ∧
      (cam_tfe_csid_reserve K csid_hw reserv qcfa_supported).2.1.in_res_id =
        csid_hw.in_res_id ∧
      (cam_tfe_csid_reserve K csid_hw reserv qcfa_supported).2.1.csi2_rx_cfg =
        csid_hw.csi2_rx_cfg) := by
  have hcnt' : csid_hw.csi2_reserve_cnt ≠ 0 := by omega
  have hne : (-EINVAL : Int) ≠ 0 := by decide
  constructor
  · intro hmis
    unfold cam_tfe_csid_reserve
    rw [path_reserve_tail_mismatch K csid_hw reserv qcfa_supported hcnt' hmis]
    exact ⟨hne, rfl, rfl, rfl, rfl⟩
  · intro hrc
    unfold cam_tfe_csid_reserve cam_tfe_csid_path_reserve at hrc ⊢
    simp only [] at hrc ⊢
    by_cases h1 : reserv.in_port.num_valid_vc_dt = 0 ∨
        reserv.in_port.num_valid_vc_dt > CAM_ISP_TFE_VC_DT_CFG
    · rw [if_pos h1] at hrc
      exact absurd hrc hne
    rw [if_neg h1] at hrc ⊢
    by_cases h2 : path_reserve_vc_dt_invalid reserv.in_port.vc reserv.in_port.dt
        reserv.sync_mode 0 reserv.in_port.num_valid_vc_dt = true
    · rw [if_pos h2] at hrc
      exact absurd hrc hne
    rw [if_neg h2] at hrc ⊢
    by_cases h3 : reserv.res_id = CAM_TFE_CSID_PATH_RES_IPP
    · rw [if_pos h3] at hrc ⊢
      by_cases h4 : csid_hw.ipp_res.res_state ≠ .AVAILABLE
      · rw [if_pos h4] at hrc
        exact absurd hrc hne
      rw [if_neg h4] at hrc ⊢
      by_cases h5 : cam_tfe_csid_is_ipp_format_supported reserv.in_port.format ≠ 0
      · rw [if_pos h5] at hrc
        exact absurd hrc hne
      rw [if_neg h5] at hrc ⊢
      exact path_reserve_arm_success K csid_hw reserv qcfa_supported hcnt' hu32 hrc
    rw [if_neg h3] at hrc ⊢
    by_cases h4 : reserv.res_id = CAM_TFE_CSID_PATH_RES_RDI_0 ∨
        reserv.res_id = CAM_TFE_CSID_PATH_RES_RDI_1 ∨
        reserv.res_id = CAM_TFE_CSID_PATH_RES_RDI_2
    · rw [if_pos h4] at hrc ⊢
      by_cases h5 : (csid_hw.rdi_res reserv.res_id).res_state ≠ .AVAILABLE
      · rw [if_pos h5] at hrc
        exact absurd hrc hne
      rw [if_neg h5] at hrc ⊢
      exact path_reserve_arm_success K csid_hw reserv qcfa_supported hcnt' hu32 hrc
    rw [if_neg h4] at hrc
    exact absurd hrc hne

/-- Witness for C11: the sample device with RDI0 reserved has reserve count 1;
a reservation of RDI1 with the same input port succeeds and raises the count
to 2, one with two lanes instead of four fails. -/
theorem reserve_against_receiver_in_use_witness :
    (hw_reserved_rdi0 sample_in_port).csi2_reserve_cnt > 0 ∧
    (hw_reserved_rdi0 sample_in_port).csi2_reserve_cnt ≤ UINT_MAX ∧
    (cam_tfe_csid_reserve sample_defs (hw_reserved_rdi0 sample_in_port)
      (sample_reserve CAM_TFE_CSID_PATH_RES_RDI_1 sample_in_port) true).1 = 0 ∧
    (cam_tfe_csid_reserve sample_defs (hw_reserved_rdi0 sample_in_port)
      (sample_reserve CAM_TFE_CSID_PATH_RES_RDI_1 sample_in_port) true).2.1.csi2_reserve_cnt =
      (hw_reserved_rdi0 sample_in_port).csi2_reserve_cnt + 1 ∧
    (cam_tfe_csid_reserve sample_defs (hw_reserved_rdi0 sample_in_port)
      (sample_reserve CAM_TFE_CSID_PATH_RES_RDI_1 { sample_in_port with lane_num := 2 })
      true).1 ≠ 0 :=
  ⟨by decide, by decide, by decide,
    ((reserve_against_receiver_in_use sample_defs (hw_reserved_rdi0 sample_in_port)
      (sample_reserve CAM_TFE_CSID_PATH_RES_RDI_1 sample_in_port) true (by decide)
      (by decide)).2 (by decide)).1,
    ((reserve_against_receiver_in_use sample_defs (hw_reserved_rdi0 sample_in_port)
      (sample_reserve CAM_TFE_CSID_PATH_RES_RDI_1 { sample_in_port with lane_num := 2 }) true
      (by decide) (by decide)).1 (by decide)).1⟩

/-- C12, evaluated at the failing input.  RDI0 of the sample device streams
with SOF interrupt logging on, the frame-drop target 1 and the SOF counter 0.
In one session of SOF interrupts `cam_tfe_csid_enable_path_for_init_frame_drop`
issues the resume-at-frame-boundary write on the first SOF and issues it
again on SOF number 4294967297, after the 32-bit counter has wrapped. -/
theorem frame_drop_resume_repeats_after_counter_wrap :
    (hw_streaming_rdi0_dual.rdi_res CAM_TFE_CSID_PATH_RES_RDI_0).res_state = .STREAMING ∧
    (hw_streaming_rdi0_dual.rdi_res CAM_TFE_CSID_PATH_RES_RDI_0).res_priv.init_frame_drop = 1 ∧
    (hw_streaming_rdi0_dual.rdi_res CAM_TFE_CSID_PATH_RES_RDI_0).res_priv.res_sof_cnt = 0 ∧
    resume_issued_at sample_defs hw_streaming_rdi0_dual CAM_TFE_CSID_PATH_RES_RDI_0 1 = true ∧
    resume_issued_at sample_defs hw_streaming_rdi0_dual CAM_TFE_CSID_PATH_RES_RDI_0
      4294967297 = true := by
  have h := resume_issued_at_succ sample_defs hw_streaming_rdi0_dual
    CAM_TFE_CSID_PATH_RES_RDI_0 (by decide) (by decide) (by decide) (by decide) (by decide)
  refine ⟨by decide, by decide, by decide, ?_, ?_⟩
  · rw [h 0]
    decide
  · rw [h 4294967296]
    decide

/-- C13, counterexample.  On the initialised sample device two consecutive
successful calls of `cam_tfe_csid_get_time_stamp` that read 11 and then 12
ticks return boot times that differ by 53, while `convert(12 - 11)` is 52. -/
theorem time_stamp_delta_differs_from_converted_delta :
    (cam_tfe_csid_get_time_stamp hw_init_rdi0 time_stamp_rdi0 (ticks_env 11 1000)).1 = 0 ∧
    (cam_tfe_csid_get_time_stamp hw_anchored time_stamp_rdi0 (ticks_env 12 5000)).1 = 0 ∧
    (cam_tfe_csid_get_time_stamp hw_anchored time_stamp_rdi0
        (ticks_env 12 5000)).2.2.boot_timestamp -
      (cam_tfe_csid_get_time_stamp hw_init_rdi0 time_stamp_rdi0
        (ticks_env 11 1000)).2.2.boot_timestamp = 53 ∧
    spec_convert (12 - 11) = 52 := by
  decide

/-- C13, amended.  For tick values `T1 < T2` whose conversion fits 64 bits,
two consecutive successful calls of `cam_tfe_csid_get_time_stamp` that read
`T1` and then `T2`, the first of which returned a non-zero boot time, return
boot times with `bootTime2 - bootTime1 = convert(T2) - convert(T1)`; this
difference is `convert(T2 - T1)` or one more. -/
theorem time_stamp_delta_is_difference_of_conversions (csid_hw : cam_tfe_csid_hw)
    (ts1 ts2 : cam_tfe_csid_get_time_stamp_args) (env1 env2 : time_stamp_env)
    (hlt : env1.curr_sof < env2.curr_sof)
    (hfit : spec_convert env2.curr_sof ≤ U64_MAX)
    (h1 : (cam_tfe_csid_get_time_stamp csid_hw ts1 env1).1 = 0)
    (hb : (cam_tfe_csid_get_time_stamp csid_hw ts1 env1).2.2.boot_timestamp ≠ 0)
    (h2 : (cam_tfe_csid_get_time_stamp
      (cam_tfe_csid_get_time_stamp csid_hw ts1 env1).2.1 ts2 env2).1 = 0) :
    (cam_tfe_csid_get_time_stamp
        (cam_tfe_csid_get_time_stamp csid_hw ts1 env1).2.1 ts2 env2).2.2.boot_timestamp -
      (cam_tfe_csid_get_time_stamp csid_hw ts1 env1).2.2.boot_timestamp =
        spec_convert env2.curr_sof - spec_convert env1.curr_sof ∧
    spec_convert (env2.curr_sof - env1.curr_sof) ≤
      spec_convert env2.curr_sof - spec_convert env1.curr_sof ∧
    spec_convert env2.curr_sof - spec_convert env1.curr_sof ≤
      spec_convert (env2.curr_sof - env1.curr_sof) + 1 := by
  obtain ⟨hres1, hup1⟩ := get_time_stamp_ok_guards csid_hw ts1 env1 h1
  obtain ⟨hres2, hup2⟩ := get_time_stamp_ok_guards _ ts2 env2 h2
  -- the conversions do not wrap
  have hT2 : env2.curr_sof ≤ 18446744073709551615 := by
    unfold spec_convert U64_MAX at hfit
    omega
  have hc1 : mul_u64_u32_div (u64 env1.curr_sof) CAM_TFE_CSID_QTIMER_MUL_FACTOR
      CAM_TFE_CSID_QTIMER_DIV_FACTOR = spec_convert env1.curr_sof := by
    have hm : env1.curr_sof % 18446744073709551616 = env1.curr_sof :=
      Nat.mod_eq_of_lt (by omega)
    have hle : env1.curr_sof * 10000 / 192 ≤ env2.curr_sof * 10000 / 192 :=
      Nat.div_le_div_right (by omega)
    unfold spec_convert U64_MAX at hfit
    unfold mul_u64_u32_div u64 CAM_TFE_CSID_QTIMER_MUL_FACTOR CAM_TFE_CSID_QTIMER_DIV_FACTOR
      spec_convert
    rw [hm]
    exact Nat.mod_eq_of_lt (by omega)
  have hc2 : mul_u64_u32_div (u64 env2.curr_sof) CAM_TFE_CSID_QTIMER_MUL_FACTOR
      CAM_TFE_CSID_QTIMER_DIV_FACTOR = spec_convert env2.curr_sof := by
    have hm : env2.curr_sof % 18446744073709551616 = env2.curr_sof :=
      Nat.mod_eq_of_lt (by omega)
    unfold spec_convert U64_MAX at hfit
    unfold mul_u64_u32_div u64 CAM_TFE_CSID_QTIMER_MUL_FACTOR CAM_TFE_CSID_QTIMER_DIV_FACTOR
      spec_convert
    rw [hm]
    exact Nat.mod_eq_of_lt (by omega)
  have hmono : spec_convert env1.curr_sof ≤ spec_convert env2.curr_sof := by
    unfold spec_convert
    omega
  -- the state after the first call
  have hq : (cam_tfe_csid_get_time_stamp csid_hw ts1 env1).2.1.prev_qtimer_ts =
        spec_convert env1.curr_sof ∧
      (cam_tfe_csid_get_time_stamp csid_hw ts1 env1).2.1.prev_boot_timestamp =
        (cam_tfe_csid_get_time_stamp csid_hw ts1 env1).2.2.boot_timestamp ∧
      (cam_tfe_csid_get_time_stamp csid_hw ts1 env1).2.2.boot_timestamp ≤ U64_MAX := by
    by_cases hp : csid_hw.prev_boot_timestamp = 0
    · obtain ⟨_, a2, a3⟩ := get_time_stamp_anchor_branch csid_hw ts1 env1 hres1 hup1 hp
      rw [a2, a3, ← hc1]
      refine ⟨rfl, rfl, ?_⟩
      unfold u64 U64_MAX
      omega
    · obtain ⟨a1, a2, a3⟩ := get_time_stamp_delta_branch csid_hw ts1 env1 hres1 hup1 hp
      rw [a1] at h1
      by_cases hov : csid_hw.prev_boot_timestamp > U64_MAX -
          u64_sub (mul_u64_u32_div (u64 env1.curr_sof) CAM_TFE_CSID_QTIMER_MUL_FACTOR
            CAM_TFE_CSID_QTIMER_DIV_FACTOR) csid_hw.prev_qtimer_ts
      · rw [if_pos hov] at h1
        exact absurd h1 (by decide)
      · rw [a2, a3, if_neg hov, if_neg hov, ← hc1]
        refine ⟨rfl, rfl, ?_⟩
        unfold u64 U64_MAX
        omega
  obtain ⟨q1, q2, q3⟩ := hq
  have hp2 : (cam_tfe_csid_get_time_stamp csid_hw ts1 env1).2.1.prev_boot_timestamp ≠ 0 := by
    rw [q2]
    exact hb
  obtain ⟨b1, _, b3⟩ := get_time_stamp_delta_branch _ ts2 env2 hres2 hup2 hp2
  rw [b1] at h2
  rw [b3]
  rw [q1, q2, hc2] at h2 ⊢
  have hdelta : u64_sub (spec_convert env2.curr_sof) (spec_convert env1.curr_sof) =
      spec_convert env2.curr_sof - spec_convert env1.curr_sof := by
    unfold U64_MAX at hfit
    unfold u64_sub u64
    omega
  rw [hdelta] at h2 ⊢
  by_cases hov : (cam_tfe_csid_get_time_stamp csid_hw ts1 env1).2.2.boot_timestamp >
      U64_MAX - (spec_convert env2.curr_sof - spec_convert env1.curr_sof)
  · rw [if_pos hov] at h2
    exact absurd h2 (by decide)
  · rw [if_neg hov]
    unfold U64_MAX at hov hfit q3
    refine ⟨?_, ?_, ?_⟩
    · unfold u64
      omega
    · unfold spec_convert
      omega
    · unfold spec_convert
      omega

/-- Witness for C13 (amended): the two calls of the counterexample, 11 and
then 12 ticks on the initialised sample device. -/
theorem time_stamp_delta_is_difference_of_conversions_witness :
    (ticks_env 11 1000).curr_sof < (ticks_env 12 5000).curr_sof ∧
    spec_convert (ticks_env 12 5000).curr_sof ≤ U64_MAX ∧
    (cam_tfe_csid_get_time_stamp
        (cam_tfe_csid_get_time_stamp hw_init_rdi0 time_stamp_rdi0 (ticks_env 11 1000)).2.1
        time_stamp_rdi0 (ticks_env 12 5000)).2.2.boot_timestamp -
      (cam_tfe_csid_get_time_stamp hw_init_rdi0 time_stamp_rdi0
        (ticks_env 11 1000)).2.2.boot_timestamp =
        spec_convert (ticks_env 12 5000).curr_sof - spec_convert (ticks_env 11 1000).curr_sof :=
  ⟨by decide, by decide,
    (time_stamp_delta_is_difference_of_conversions hw_init_rdi0 time_stamp_rdi0
      time_stamp_rdi0 (ticks_env 11 1000) (ticks_env 12 5000) (by decide) (by decide)
      (by decide) (by decide) (by decide)).1⟩

/-- C14.  With a boot-time anchor (`prev_boot_timestamp != 0`, a `uint64_t`)
a call of `cam_tfe_csid_get_time_stamp` for a path of a powered-up block
fails exactly when `prev_boot_timestamp + delta` exceeds `2^64 - 1`, where
`delta` is the converted current tick value minus `prev_qtimer_ts` as a
`uint64_t`; a failing call leaves `prev_qtimer_ts` and `prev_boot_timestamp`
as they were; a successful call returns `prev_boot_timestamp + delta`, which
is not smaller than the previous boot time, and stores it as the new
anchor. -/
theorem get_time_stamp_overflow_check (csid_hw : cam_tfe_csid_hw)
    (time_stamp : cam_tfe_csid_get_time_stamp_args) (env : time_stamp_env)
    (hres : time_stamp.node_res < CAM_TFE_CSID_PATH_RES_MAX)
    (hup : csid_hw.hw_state = .CAM_HW_STATE_POWER_UP)
    (hprev : csid_hw.prev_boot_timestamp ≠ 0)
    (h64 : csid_hw.prev_boot_timestamp ≤ U64_MAX) :
    ((cam_tfe_csid_get_time_stamp csid_hw time_stamp env).1 ≠ 0 ↔
      csid_hw.prev_boot_timestamp +
        u64_sub (mul_u64_u32_div (u64 env.curr_sof) CAM_TFE_CSID_QTIMER_MUL_FACTOR
          CAM_TFE_CSID_QTIMER_DIV_FACTOR) csid_hw.prev_qtimer_ts > U64_MAX) ∧
    ((cam_tfe_csid_get_time_stamp csid_hw time_stamp env).1 ≠ 0 →
      (cam_tfe_csid_get_time_stamp csid_hw time_stamp env).2.1.prev_qtimer_ts =
        csid_hw.prev_qtimer_ts ∧
      (cam_tfe_csid_get_time_stamp csid_hw time_stamp env).2.1.prev_boot_timestamp =
        csid_hw.prev_boot_timestamp) ∧
    ((cam_tfe_csid_get_time_stamp csid_hw time_stamp env).1 = 0 →
      (cam_tfe_csid_get_time_stamp csid_hw time_stamp env).2.2.boot_timestamp =
        csid_hw.prev_boot_timestamp +
          u64_sub (mul_u64_u32_div (u64 env.curr_sof) CAM_TFE_CSID_QTIMER_MUL_FACTOR
            CAM_TFE_CSID_QTIMER_DIV_FACTOR) csid_hw.prev_qtimer_ts ∧
      (cam_tfe_csid_get_time_stamp csid_hw time_stamp env).2.2.boot_timestamp ≥
        csid_hw.prev_boot_timestamp ∧
      (cam_tfe_csid_get_time_stamp csid_hw time_stamp env).2.1.prev_boot_timestamp =
        (cam_tfe_csid_get_time_stamp csid_hw time_stamp env).2.2.boot_timestamp) := by
  have hd := u64_sub_le (mul_u64_u32_div (u64 env.curr_sof) CAM_TFE_CSID_QTIMER_MUL_FACTOR
          CAM_TFE_CSID_QTIMER_DIV_FACTOR) csid_hw.prev_qtimer_ts
  obtain ⟨h1, h2, h3⟩ := get_time_stamp_delta_branch csid_hw time_stamp env hres hup hprev
  rw [h1, h2, h3]
  generalize u64_sub (mul_u64_u32_div (u64 env.curr_sof) CAM_TFE_CSID_QTIMER_MUL_FACTOR
          CAM_TFE_CSID_QTIMER_DIV_FACTOR) csid_hw.prev_qtimer_ts = D at hd ⊢
  unfold U64_MAX at hd h64 ⊢
  by_cases hov : csid_hw.prev_boot_timestamp > 18446744073709551615 - D
  · simp only [if_pos hov]
    exact ⟨⟨fun _ => by omega, fun _ => by decide⟩, fun _ => ⟨trivial, trivial⟩,
      fun h => absurd h (by decide)⟩
  · simp only [if_neg hov]
    have hu : u64 (csid_hw.prev_boot_timestamp + D) = csid_hw.prev_boot_timestamp + D := by
      unfold u64
      omega
    rw [hu]
    refine ⟨⟨fun h => absurd rfl h, fun h => by omega⟩, fun h => absurd rfl h, fun _ => ?_⟩
    refine ⟨?_, ?_, ?_⟩
    · trivial
    · omega
    · trivial

/-- Witness for C14: the sample device anchored at boot time 1000 by a call
that read 11 ticks, asked again with 12 ticks. -/
theorem get_time_stamp_overflow_check_witness :
    time_stamp_rdi0.node_res < CAM_TFE_CSID_PATH_RES_MAX ∧
    hw_anchored.hw_state = .CAM_HW_STATE_POWER_UP ∧
    hw_anchored.prev_boot_timestamp ≠ 0 ∧
    hw_anchored.prev_boot_timestamp ≤ U64_MAX ∧
    ((cam_tfe_csid_get_time_stamp hw_anchored time_stamp_rdi0 (ticks_env 12 5000)).1 = 0 →
      (cam_tfe_csid_get_time_stamp hw_anchored time_stamp_rdi0
        (ticks_env 12 5000)).2.2.boot_timestamp ≥ hw_anchored.prev_boot_timestamp) :=
  ⟨by decide, by decide, by decide, by decide,
    fun h => ((get_time_stamp_overflow_check hw_anchored time_stamp_rdi0 (ticks_env 12 5000)
      (by decide) (by decide) (by decide) (by decide)).2.2 h).2.1⟩

/-- C15, counterexample.  On the initialised sample device (enabled, error
count 0) five interrupts with one EOT reception error each bring the
cumulative number of qualifying soft-error bits and the error count to 5
while payloads are free and task handles are delivered, and no fatal event is
queued; the sixth such interrupt queues one.  After three CRC errors and five
EOT reception errors whose events wait in the scheduler no payload is free:
the next EOT reception error lifts the count over the threshold, the count is
reset, and still no fatal event is queued. -/
theorem soft_error_count_five_queues_no_fatal_event :
    hw_init_rdi0.device_enabled = 1 ∧ hw_init_rdi0.error_irq_count = 0 ∧
    total_soft_error_bits sample_defs (List.replicate 5 eot_irq) = 5 ∧
    (cam_tfe_csid_irq_run sample_defs hw_init_rdi0 (List.replicate 5 eot_irq)).error_irq_count
      = 5 ∧
    (cam_tfe_csid_irq_run sample_defs hw_init_rdi0
      (List.replicate 4 eot_irq)).free_payload_list ≠ [] ∧
    eot_irq.bh_fatal = bh_ok ∧
    fatal_queued (cam_tfe_csid_irq_run sample_defs hw_init_rdi0 (List.replicate 5 eot_irq)) = 0 ∧
    fatal_queued (cam_tfe_csid_irq_run sample_defs hw_init_rdi0 (List.replicate 6 eot_irq)) = 1 ∧
    total_soft_error_bits sample_defs irqs_to_threshold = 5 ∧
    (cam_tfe_csid_irq_run sample_defs hw_init_rdi0 irqs_to_threshold).free_payload_list = [] ∧
    total_soft_error_bits sample_defs (irqs_to_threshold ++ [eot_irq]) = 6 ∧
    (cam_tfe_csid_irq_run sample_defs hw_init_rdi0
      (irqs_to_threshold ++ [eot_irq])).error_irq_count = 0 ∧
    fatal_queued (cam_tfe_csid_irq_run sample_defs hw_init_rdi0
      (irqs_to_threshold ++ [eot_irq])) = 0 := by
  decide

/-- C15, amended.  For every run of interrupts on an enabled device that
starts with error count 0 and carries no lane FIFO overflow bit: as long as
the cumulative number of qualifying soft-error bits is at most 5 no fatal
event is queued; the interrupt in which that number exceeds 5 queues exactly
one `CAM_ISP_HW_ERROR_CSID_FATAL` event when a payload is free and the
scheduler delivers a task handle (none otherwise) and resets the count, also
when it carries several qualifying bits. -/
theorem soft_errors_escalate_above_threshold (K : csid_defs) (csid_hw : cam_tfe_csid_hw)
    (pre : List csid_irq_env) (last : csid_irq_env)
    (hen : csid_hw.device_enabled = 1) (h0 : csid_hw.error_irq_count = 0)
    (hno : ∀ e ∈ pre ++ [last], lane_overflow K e.irq_status.rx = false)
    (hpre : total_soft_error_bits K pre ≤ CAM_TFE_CSID_MAX_IRQ_ERROR_COUNT) :
    (total_soft_error_bits K (pre ++ [last]) ≤ CAM_TFE_CSID_MAX_IRQ_ERROR_COUNT →
      fatal_queued (cam_tfe_csid_irq_run K csid_hw (pre ++ [last])) = fatal_queued csid_hw) ∧
    (total_soft_error_bits K (pre ++ [last]) > CAM_TFE_CSID_MAX_IRQ_ERROR_COUNT →
      fatal_queued (cam_tfe_csid_irq_run K csid_hw (pre ++ [last])) =
        fatal_queued (cam_tfe_csid_irq_run K csid_hw pre) +
          (if (cam_tfe_csid_irq_run K csid_hw pre).free_payload_list ≠ [] ∧
              last.bh_fatal.rc = 0 ∧ last.bh_fatal.bh_cmd = true then 1 else 0) ∧
      (cam_tfe_csid_irq_run K csid_hw (pre ++ [last])).error_irq_count = 0) := by
  constructor
  · intro hle
    exact (irq_run_below_threshold K (pre ++ [last]) csid_hw hen hno (by rw [h0]; omega)).2.2
  · intro hgt
    obtain ⟨r1, r2, _⟩ := irq_run_below_threshold K pre csid_hw hen
      (fun x hx => hno x (List.mem_append_left _ hx)) (by rw [h0]; omega)
    have htot : total_soft_error_bits K (pre ++ [last]) =
        total_soft_error_bits K pre + soft_error_bits K last.irq_status.rx := by
      simp [total_soft_error_bits]
    rw [h0, Nat.zero_add] at r2
    have hstep := fatal_view_irq_soft K (cam_tfe_csid_irq_run K csid_hw pre) last r1
      (hno last (List.mem_append_right _ (List.mem_singleton_self last)))
      (by rw [r2]; exact hpre)
    have hover : (cam_tfe_csid_irq_run K csid_hw pre).error_irq_count +
        soft_error_bits K last.irq_status.rx > CAM_TFE_CSID_MAX_IRQ_ERROR_COUNT := by
      rw [r2]
      omega
    rw [if_pos hover] at hstep
    simp only [fatal_view, fatal_view_after_stop, Prod.mk.injEq] at hstep
    obtain ⟨s1, _, _, _, _, s6⟩ := hstep
    rw [irq_run_append]
    exact ⟨s6, s1⟩

/-- Witness for C15 (amended): five interrupts with one EOT reception error
on the initialised sample device, followed by a sixth. -/
theorem soft_errors_escalate_above_threshold_witness :
    hw_init_rdi0.device_enabled = 1 ∧ hw_init_rdi0.error_irq_count = 0 ∧
    (∀ e ∈ List.replicate 5 eot_irq ++ [eot_irq],
      lane_overflow sample_defs e.irq_status.rx = false) ∧
    total_soft_error_bits sample_defs (List.replicate 5 eot_irq) ≤
      CAM_TFE_CSID_MAX_IRQ_ERROR_COUNT ∧
    total_soft_error_bits sample_defs (List.replicate 5 eot_irq ++ [eot_irq]) >
      CAM_TFE_CSID_MAX_IRQ_ERROR_COUNT ∧
    (cam_tfe_csid_irq_run sample_defs hw_init_rdi0
      (List.replicate 5 eot_irq ++ [eot_irq])).error_irq_count = 0 :=
  ⟨by decide, by decide, by decide, by decide, by decide,
    ((soft_errors_escalate_above_threshold sample_defs hw_init_rdi0 (List.replicate 5 eot_irq)
      eot_irq (by decide) (by decide) (by decide) (by decide)).2 (by decide)).2⟩

/-- C16, counterexample.  On the sample device whose fatal latch was set by
the bottom half (one callback invocation), `cam_tfe_csid_global_reset`
succeeds and leaves the latch set; the fatal event of a further lane FIFO
overflow interrupt is queued, and after the bottom half has run the callback
has still been invoked once only. -/
theorem global_reset_keeps_fatal_latch :
    hw_fatal_latched.fatal_err_detected = true ∧
    hw_fatal_latched.event_cb_calls.length = 1 ∧
    (cam_tfe_csid_global_reset hw_fatal_latched reset_ok).1 = 0 ∧
    (cam_tfe_csid_global_reset hw_fatal_latched reset_ok).2.fatal_err_detected = true ∧
    fatal_queued (cam_tfe_csid_irq sample_defs
      (cam_tfe_csid_global_reset hw_fatal_latched reset_ok).2 lane_irq) = 1 ∧
    (tasklet_dispatch_n 3 (cam_tfe_csid_irq sample_defs
      (cam_tfe_csid_global_reset hw_fatal_latched reset_ok).2 lane_irq)).tasklet_queue = [] ∧
    (tasklet_dispatch_n 3 (cam_tfe_csid_irq sample_defs
      (cam_tfe_csid_global_reset hw_fatal_latched reset_ok).2 lane_irq)).event_cb_calls.length
      = 1 := by
  decide

/-- C16, amended.  Once `fatal_err_detected` is set it stays set across an
interrupt, a run of the bottom half (which then invokes no callback) and a
call of `cam_tfe_csid_global_reset`; a successful `cam_tfe_csid_enable_hw`
that powers the block up (open count 0) clears it, and the bottom half then
invokes the registered callback for a fatal event that carries the
registered context. -/
theorem fatal_latch_sticky_until_power_up (K : csid_defs) (csid_hw : cam_tfe_csid_hw)
    (irq_env : csid_irq_env) (evt_payload : cam_csid_evt_payload) (reset : reset_env)
    (enable : enable_hw_env) (hl : csid_hw.fatal_err_detected = true) :
    (cam_tfe_csid_irq K csid_hw irq_env).fatal_err_detected = true ∧
    (cam_tfe_csid_evt_bottom_half_handler csid_hw evt_payload).2.fatal_err_detected = true ∧
    (cam_tfe_csid_evt_bottom_half_handler csid_hw evt_payload).2.event_cb_calls =
      csid_hw.event_cb_calls ∧
    (cam_tfe_csid_global_reset csid_hw reset).2.fatal_err_detected = true ∧
    (csid_hw.open_count = 0 → (cam_tfe_csid_enable_hw K csid_hw enable).1 = 0 →
      (cam_tfe_csid_enable_hw K csid_hw enable).2.fatal_err_detected = false ∧
      (evt_payload.evt_type = .CAM_ISP_HW_ERROR_CSID_FATAL →
        (cam_tfe_csid_enable_hw K csid_hw enable).2.event_cb ≠ none →
        (cam_tfe_csid_enable_hw K csid_hw enable).2.event_cb_priv ≠ none →
        (cam_tfe_csid_enable_hw K csid_hw enable).2.event_cb_priv = evt_payload.priv →
        (cam_tfe_csid_evt_bottom_half_handler (cam_tfe_csid_enable_hw K csid_hw enable).2
          evt_payload).2.event_cb_calls =
          (cam_tfe_csid_enable_hw K csid_hw enable).2.event_cb_calls ++
            [{ event_cb := (cam_tfe_csid_enable_hw K csid_hw enable).2.event_cb.getD 0
               err_type := .CAM_ISP_HW_ERROR_CSID_FATAL
               hw_idx := evt_payload.hw_idx }])) := by
  refine ⟨?_, (bottom_half_latched csid_hw evt_payload hl).1,
    (bottom_half_latched csid_hw evt_payload hl).2, ?_, ?_⟩
  · rw [irq_keeps_fatal_latch]
    exact hl
  · rw [fatal_latch_global_reset]
    exact hl
  · intro h0 hrc
    have hclr := enable_hw_clears_fatal_latch K csid_hw enable h0 hrc
    exact ⟨hclr, fun ht hcb hpriv heq => bottom_half_fires _ evt_payload hclr ht hcb hpriv heq⟩

/-- Witness for C16 (amended): the latched sample device after its last path
was powered down has the latch set and open count 0; powering it up again
succeeds and clears the latch. -/
theorem fatal_latch_sticky_until_power_up_witness :
    hw_fatal_latched_off.fatal_err_detected = true ∧
    hw_fatal_latched_off.open_count = 0 ∧
    (cam_tfe_csid_enable_hw sample_defs hw_fatal_latched_off init_ok.enable).1 = 0 ∧
    (cam_tfe_csid_enable_hw sample_defs hw_fatal_latched_off
      init_ok.enable).2.fatal_err_detected = false :=
  ⟨by decide, by decide, by decide,
    ((fatal_latch_sticky_until_power_up sample_defs hw_fatal_latched_off lane_irq fatal_payload
      reset_ok init_ok.enable (by decide)).2.2.2.2 (by decide) (by decide)).1⟩

/-- C17, counterexample.  The sample device is enabled and all eight event
payloads wait in the scheduler.  An interrupt with the FIFO overflow bit of
lane 0 runs the fatal handling (RX cfg0, RX cfg1 and the RX IRQ mask are
written with 0) but no fatal event is queued. -/
theorem lane_overflow_with_exhausted_pool_queues_no_event :
    hw_pool_exhausted.device_enabled = 1 ∧
    lane_overflow sample_defs lane_irq.irq_status.rx = true ∧
    hw_pool_exhausted.free_payload_list = [] ∧
    lane_irq.bh_fatal = bh_ok ∧
    rx_writes (cam_tfe_csid_irq sample_defs hw_pool_exhausted lane_irq) =
      (csid_reg_addr.csid_csi2_rx_irq_mask_addr, 0) ::
        (csid_reg_addr.csid_csi2_rx_cfg1_addr, 0) ::
        (csid_reg_addr.csid_csi2_rx_cfg0_addr, 0) :: rx_writes hw_pool_exhausted ∧
    fatal_queued hw_pool_exhausted = 0 ∧
    fatal_queued (cam_tfe_csid_irq sample_defs hw_pool_exhausted lane_irq) = 0 := by
  decide

/-- C17, amended.  For every interrupt taken while the device is enabled in
which the receiver status has one of the four lane FIFO overflow bits set:
the error count is not incremented, RX cfg0, RX cfg1 and the RX IRQ mask are
written with 0 (and these are the only writes to the three registers), the
PHY is notified exactly when `phy_sel > 0`, and exactly one
`CAM_ISP_HW_ERROR_CSID_FATAL` event is queued when a payload is free and the
scheduler delivers a task handle, none otherwise. -/
theorem irq_lane_overflow_fatal_handling (K : csid_defs) (csid_hw : cam_tfe_csid_hw)
    (env : csid_irq_env) (hen : csid_hw.device_enabled = 1)
    (hlane : lane_overflow K env.irq_status.rx = true) :
    (cam_tfe_csid_irq K csid_hw env).error_irq_count ≤ csid_hw.error_irq_count ∧
    rx_writes (cam_tfe_csid_irq K csid_hw env) =
      (csid_reg_addr.csid_csi2_rx_irq_mask_addr, 0) ::
        (csid_reg_addr.csid_csi2_rx_cfg1_addr, 0) ::
        (csid_reg_addr.csid_csi2_rx_cfg0_addr, 0) :: rx_writes csid_hw ∧
    (cam_tfe_csid_irq K csid_hw env).phy_notify =
      csid_hw.phy_notify ++
        (if csid_hw.csi2_rx_cfg.phy_sel > 0 then [u32_sub csid_hw.csi2_rx_cfg.phy_sel 1]
         else []) ∧
    fatal_queued (cam_tfe_csid_irq K csid_hw env) =
      fatal_queued csid_hw +
        (if csid_hw.free_payload_list ≠ [] ∧ env.bh_fatal.rc = 0 ∧ env.bh_fatal.bh_cmd = true
         then 1 else 0) := by
  have h := fatal_view_irq_lane K csid_hw env hen hlane
  simp only [fatal_view, fatal_view_after_stop, Prod.mk.injEq] at h
  obtain ⟨h1, _, _, h4, h5, h6⟩ := h
  refine ⟨?_, h5, h4, h6⟩
  rw [h1]
  split
  · exact Nat.zero_le _
  · exact Nat.le_refl _

/-- Witness for C17 (amended): a FIFO overflow of lane 0 on the initialised
sample device, whose payloads are all free. -/
theorem irq_lane_overflow_fatal_handling_witness :
    hw_init_rdi0.device_enabled = 1 ∧
    lane_overflow sample_defs lane_irq.irq_status.rx = true ∧
    fatal_queued (cam_tfe_csid_irq sample_defs hw_init_rdi0 lane_irq) =
      fatal_queued hw_init_rdi0 +
        (if hw_init_rdi0.free_payload_list ≠ [] ∧ lane_irq.bh_fatal.rc = 0 ∧
            lane_irq.bh_fatal.bh_cmd = true then 1 else 0) :=
  ⟨by decide, by decide,
    (irq_lane_overflow_fatal_handling sample_defs hw_init_rdi0 lane_irq (by decide)
      (by decide)).2.2.2⟩

/-- C18.  `cam_tfe_csid_evt_bottom_half_handler` invokes the registered
callback if and only if the event of the payload is
`CAM_ISP_HW_ERROR_CSID_FATAL`, a callback and a context are registered, the
registered context is the one stored in the payload and `fatal_err_detected`
was false on entry; in that case it sets `fatal_err_detected` and the call
names the registered callback, in every other case `fatal_err_detected` and
the list of calls stay as they were. -/
theorem bottom_half_invokes_callback_iff (csid_hw : cam_tfe_csid_hw)
    (evt_payload : cam_csid_evt_payload) :
    ((cam_tfe_csid_evt_bottom_half_handler csid_hw evt_payload).2.event_cb_calls ≠
        csid_hw.event_cb_calls ↔
      (evt_payload.evt_type = .CAM_ISP_HW_ERROR_CSID_FATAL ∧ csid_hw.event_cb ≠ none ∧
        csid_hw.event_cb_priv ≠ none ∧ csid_hw.event_cb_priv = evt_payload.priv ∧
        csid_hw.fatal_err_detected = false)) ∧
    ((evt_payload.evt_type = .CAM_ISP_HW_ERROR_CSID_FATAL ∧ csid_hw.event_cb ≠ none ∧
        csid_hw.event_cb_priv ≠ none ∧ csid_hw.event_cb_priv = evt_payload.priv ∧
        csid_hw.fatal_err_detected = false) →
      (cam_tfe_csid_evt_bottom_half_handler csid_hw evt_payload).2.fatal_err_detected = true ∧
      (cam_tfe_csid_evt_bottom_half_handler csid_hw evt_payload).2.event_cb_calls =
        csid_hw.event_cb_calls ++
          [{ event_cb := csid_hw.event_cb.getD 0
             err_type := .CAM_ISP_HW_ERROR_CSID_FATAL
             hw_idx := evt_payload.hw_idx }]) ∧
    (¬ (evt_payload.evt_type = .CAM_ISP_HW_ERROR_CSID_FATAL ∧ csid_hw.event_cb ≠ none ∧
        csid_hw.event_cb_priv ≠ none ∧ csid_hw.event_cb_priv = evt_payload.priv ∧
        csid_hw.fatal_err_detected = false) →
      (cam_tfe_csid_evt_bottom_half_handler csid_hw evt_payload).2.fatal_err_detected =
        csid_hw.fatal_err_detected ∧
      (cam_tfe_csid_evt_bottom_half_handler csid_hw evt_payload).2.event_cb_calls =
        csid_hw.event_cb_calls) := by
  by_cases hcond : evt_payload.evt_type = .CAM_ISP_HW_ERROR_CSID_FATAL ∧
      csid_hw.event_cb ≠ none ∧ csid_hw.event_cb_priv ≠ none ∧
      csid_hw.event_cb_priv = evt_payload.priv ∧ csid_hw.fatal_err_detected = false
  · obtain ⟨ht, hcb, hpriv, heq, hf⟩ := hcond
    have hres : (cam_tfe_csid_evt_bottom_half_handler csid_hw evt_payload).2.fatal_err_detected =
          true ∧
        (cam_tfe_csid_evt_bottom_half_handler csid_hw evt_payload).2.event_cb_calls =
          csid_hw.event_cb_calls ++
            [{ event_cb := csid_hw.event_cb.getD 0
               err_type := .CAM_ISP_HW_ERROR_CSID_FATAL
               hw_idx := evt_payload.hw_idx }] := by
      have h1 : ¬ (csid_hw.event_cb = none ∨ csid_hw.event_cb_priv = none) := by
        rintro (h | h)
        · exact hcb h
        · exact hpriv h
      have h2 : ¬ (csid_hw.event_cb_priv ≠ evt_payload.priv) := fun h => h heq
      simp only [cam_tfe_csid_evt_bottom_half_handler, if_neg h1, if_neg h2, ht, hf,
        cam_tfe_csid_put_evt_payload, Bool.false_eq_true, if_false]
      exact ⟨trivial, trivial⟩
    refine ⟨⟨fun _ => ⟨ht, hcb, hpriv, heq, hf⟩, fun _ => ?_⟩, fun _ => hres, fun h => ?_⟩
    · rw [hres.2]
      simp
    · exact absurd ⟨ht, hcb, hpriv, heq, hf⟩ h
  · have hres : (cam_tfe_csid_evt_bottom_half_handler csid_hw evt_payload).2.fatal_err_detected =
          csid_hw.fatal_err_detected ∧
        (cam_tfe_csid_evt_bottom_half_handler csid_hw evt_payload).2.event_cb_calls =
          csid_hw.event_cb_calls := by
      by_cases h1 : csid_hw.event_cb = none ∨ csid_hw.event_cb_priv = none
      · simp only [cam_tfe_csid_evt_bottom_half_handler, if_pos h1, cam_tfe_csid_put_evt_payload]
        exact ⟨trivial, trivial⟩
      · by_cases h2 : csid_hw.event_cb_priv ≠ evt_payload.priv
        · simp only [cam_tfe_csid_evt_bottom_half_handler, if_neg h1, if_pos h2,
            cam_tfe_csid_put_evt_payload]
          exact ⟨trivial, trivial⟩
        · by_cases hf : csid_hw.fatal_err_detected = true
          · simp only [cam_tfe_csid_evt_bottom_half_handler, if_neg h1, if_neg h2, hf,
              cam_tfe_csid_put_evt_payload, if_true]
            cases evt_payload.evt_type <;> exact ⟨hf, rfl⟩
          · have ht : evt_payload.evt_type ≠ .CAM_ISP_HW_ERROR_CSID_FATAL := by
              intro ht
              apply hcond
              refine ⟨ht, ?_, ?_, not_not.mp h2, by simpa using hf⟩
              · exact fun h => h1 (Or.inl h)
              · exact fun h => h1 (Or.inr h)
            simp only [cam_tfe_csid_evt_bottom_half_handler, if_neg h1, if_neg h2,
              cam_tfe_csid_put_evt_payload]
            revert ht
            cases evt_payload.evt_type <;> intro ht
            · exact ⟨trivial, trivial⟩
            · exact absurd rfl ht
            · exact ⟨trivial, trivial⟩
    exact ⟨⟨fun h => absurd hres.2 h, fun h => absurd h hcond⟩, fun h => absurd h hcond,
      fun _ => hres⟩

/-- Witness for C18: the fatal event of `fatal_payload` on the initialised
sample device, whose callback `1` is registered with context `7`. -/
theorem bottom_half_invokes_callback_iff_witness :
    (cam_tfe_csid_evt_bottom_half_handler hw_init_rdi0 fatal_payload).2.fatal_err_detected =
      true ∧
    (cam_tfe_csid_evt_bottom_half_handler hw_init_rdi0 fatal_payload).2.event_cb_calls =
      hw_init_rdi0.event_cb_calls ++
        [{ event_cb := hw_init_rdi0.event_cb.getD 0
           err_type := .CAM_ISP_HW_ERROR_CSID_FATAL
           hw_idx := fatal_payload.hw_idx }] :=
  (bottom_half_invokes_callback_iff hw_init_rdi0 fatal_payload).2.1
    ⟨by decide, by decide, by decide, by decide, by decide⟩

/-- C19, evaluated at the failing input.  On the initialised sample device
all eight payloads are on the free list.  A call of
`cam_tfe_csid_handle_hw_err_irq` during which the scheduler has no task handle
takes payload 0 off the free list and queues nothing: afterwards payload 0 is
neither free nor handed to the scheduler.  The bottom half, by contrast, puts
its payload back: after a lane FIFO overflow interrupt with task handles
available two events are queued, and after the bottom half has run for both
all eight payloads are free again. -/
theorem handle_hw_err_irq_leaks_payload :
    payloads_accounted hw_init_rdi0 = true ∧
    hw_init_rdi0.free_payload_list = [0, 1, 2, 3, 4, 5, 6, 7] ∧
    (cam_tfe_csid_handle_hw_err_irq hw_init_rdi0 .CAM_ISP_HW_ERROR_CSID_FATAL
      lane_irq.irq_status bh_none_left).2.free_payload_list = [1, 2, 3, 4, 5, 6, 7] ∧
    (cam_tfe_csid_handle_hw_err_irq hw_init_rdi0 .CAM_ISP_HW_ERROR_CSID_FATAL
      lane_irq.irq_status bh_none_left).2.tasklet_queue = [] ∧
    payloads_accounted (cam_tfe_csid_handle_hw_err_irq hw_init_rdi0
      .CAM_ISP_HW_ERROR_CSID_FATAL lane_irq.irq_status bh_none_left).2 = false ∧
    (cam_tfe_csid_irq sample_defs hw_init_rdi0 lane_irq).tasklet_queue.length = 2 ∧
    (tasklet_dispatch_n 2
      (cam_tfe_csid_irq sample_defs hw_init_rdi0 lane_irq)).free_payload_list =
      [2, 3, 4, 5, 6, 7, 0, 1] ∧
    payloads_accounted (tasklet_dispatch_n 2
      (cam_tfe_csid_irq sample_defs hw_init_rdi0 lane_irq)) = true := by
  decide

/-- C20, evaluated at the failing input.  On the powered-up sample device a
global reset during which the poll of the top reset status times out
(`-ETIMEDOUT`) while the completion of the software-register reset is
signalled in time returns 0. -/
theorem global_reset_hides_poll_timeout :
    hw_init_rdi0.hw_state = .CAM_HW_STATE_POWER_UP ∧
    reset_poll_timeout.poll_rc = -ETIMEDOUT ∧
    reset_poll_timeout.complete_rc = 1 ∧
    (cam_tfe_csid_global_reset hw_init_rdi0 reset_poll_timeout).1 = 0 := by
  decide

/-- C21 (the code deviates from the claim).  A reset of one path through
`cam_tfe_csid_reset` on the powered-up sample device, for the supported path
RDI0: when the completion of the path is signalled within the bound, the
reset strobe is written once but the call does not return `0`; it returns the
unused part of the bound that `cam_common_wait_for_completion_timeout`
delivered (`1`, or `250`), where `cam_tfe_csid_global_reset` turns the same
answer into `0`.  When the signal does not arrive the call returns
`-ETIMEDOUT`, and on a powered-down device it returns `-EINVAL` and writes no
register. -/
theorem path_reset_returns_time_left :
    hw_init_rdi0.hw_state = .CAM_HW_STATE_POWER_UP ∧
    path_regs_present hw_init_rdi0.csid_reg CAM_TFE_CSID_PATH_RES_RDI_0 = true ∧
    (cam_tfe_csid_reset sample_defs hw_init_rdi0 (path_reset_args CAM_TFE_CSID_PATH_RES_RDI_0)
      (reset_done_with 1)).1 = 1 ∧
    (cam_tfe_csid_reset sample_defs hw_init_rdi0 (path_reset_args CAM_TFE_CSID_PATH_RES_RDI_0)
      (reset_done_with 250)).1 = 250 ∧
    path_rst_strobes (cam_tfe_csid_reset sample_defs hw_init_rdi0
      (path_reset_args CAM_TFE_CSID_PATH_RES_RDI_0) (reset_done_with 250)).2
      CAM_TFE_CSID_PATH_RES_RDI_0 = path_rst_strobes hw_init_rdi0 CAM_TFE_CSID_PATH_RES_RDI_0 + 1 ∧
    (cam_tfe_csid_global_reset hw_init_rdi0 (reset_done_with 250)).1 = 0 ∧
    (cam_tfe_csid_reset sample_defs hw_init_rdi0 (path_reset_args CAM_TFE_CSID_PATH_RES_RDI_0)
      reset_never_done).1 = -ETIMEDOUT ∧
    (hw_reserved_rdi0 sample_in_port).hw_state = .CAM_HW_STATE_POWER_DOWN ∧
    (cam_tfe_csid_reset sample_defs (hw_reserved_rdi0 sample_in_port)
      (path_reset_args CAM_TFE_CSID_PATH_RES_RDI_0) (reset_done_with 250)).1 = -EINVAL ∧
    (cam_tfe_csid_reset sample_defs (hw_reserved_rdi0 sample_in_port)
      (path_reset_args CAM_TFE_CSID_PATH_RES_RDI_0) (reset_done_with 250)).2.regs =
        (hw_reserved_rdi0 sample_in_port).regs := by
  decide

/-- C23 (the code deviates from the claim).  On the sample device with IPP and
RDI0 streaming (device enabled, no error counted, all payloads free, the
generic overflow interrupt of IPP unmasked by `cam_tfe_csid_enable_pxl_path`),
an interrupt whose IPP status carries only the generic overflow bit
`TFE_CSID_PATH_IPP_OVERFLOW_IRQ` submits no event and takes no payload: the
IPP block of `cam_tfe_csid_irq` never tests that bit.  The same interrupt on
RDI0 (`TFE_CSID_PATH_RDI_OVERFLOW_IRQ`) and the protocol-violation bit of
either path submit one `CAM_ISP_HW_ERROR_NONE` event without a halt write, and
the FIFO-overflow bit of either path submits the event and writes
halt-immediately to the control register of that path. -/
theorem ipp_generic_overflow_submits_no_event :
    hw_streaming_ipp_rdi0.device_enabled = 1 ∧
    hw_streaming_ipp_rdi0.pxl_pipe_enable = true ∧
    hw_streaming_ipp_rdi0.error_irq_count = 0 ∧
    hw_streaming_ipp_rdi0.free_payload_list = [0, 1, 2, 3, 4, 5, 6, 7] ∧
    cam_io_r_mb .csid_pxl_irq_mask_addr hw_streaming_ipp_rdi0 &&&
      sample_defs.TFE_CSID_PATH_IPP_OVERFLOW_IRQ ≠ 0 ∧
    queued_events (cam_tfe_csid_irq sample_defs hw_streaming_ipp_rdi0
      (ipp_irq sample_defs.TFE_CSID_PATH_IPP_OVERFLOW_IRQ)) = [] ∧
    (cam_tfe_csid_irq sample_defs hw_streaming_ipp_rdi0
      (ipp_irq sample_defs.TFE_CSID_PATH_IPP_OVERFLOW_IRQ)).free_payload_list =
        [0, 1, 2, 3, 4, 5, 6, 7] ∧
    queued_events (cam_tfe_csid_irq sample_defs hw_streaming_ipp_rdi0
      (rdi0_irq sample_defs.TFE_CSID_PATH_RDI_OVERFLOW_IRQ)) = [.CAM_ISP_HW_ERROR_NONE] ∧
    halt_writes (cam_tfe_csid_irq sample_defs hw_streaming_ipp_rdi0
      (rdi0_irq sample_defs.TFE_CSID_PATH_RDI_OVERFLOW_IRQ))
      (.csid_rdi_ctrl_addr CAM_TFE_CSID_PATH_RES_RDI_0) = 0 ∧
    queued_events (cam_tfe_csid_irq sample_defs hw_streaming_ipp_rdi0
      (rdi0_irq sample_defs.TFE_CSID_PATH_RDI_ERROR_CCIF_VIOLATION)) = [.CAM_ISP_HW_ERROR_NONE] ∧
    halt_writes (cam_tfe_csid_irq sample_defs hw_streaming_ipp_rdi0
      (rdi0_irq sample_defs.TFE_CSID_PATH_RDI_ERROR_CCIF_VIOLATION))
      (.csid_rdi_ctrl_addr CAM_TFE_CSID_PATH_RES_RDI_0) = 0 ∧
    queued_events (cam_tfe_csid_irq sample_defs hw_streaming_ipp_rdi0
      (ipp_irq sample_defs.TFE_CSID_PATH_IPP_ERROR_CCIF_VIOLATION)) = [.CAM_ISP_HW_ERROR_NONE] ∧
    halt_writes (cam_tfe_csid_irq sample_defs hw_streaming_ipp_rdi0
      (ipp_irq sample_defs.TFE_CSID_PATH_IPP_ERROR_CCIF_VIOLATION)) .csid_pxl_ctrl_addr = 0 ∧
    queued_events (cam_tfe_csid_irq sample_defs hw_streaming_ipp_rdi0
      (ipp_irq sample_defs.TFE_CSID_PATH_ERROR_FIFO_OVERFLOW)) = [.CAM_ISP_HW_ERROR_NONE] ∧
    halt_writes (cam_tfe_csid_irq sample_defs hw_streaming_ipp_rdi0
      (ipp_irq sample_defs.TFE_CSID_PATH_ERROR_FIFO_OVERFLOW)) .csid_pxl_ctrl_addr = 1 ∧
    queued_events (cam_tfe_csid_irq sample_defs hw_streaming_ipp_rdi0
      (rdi0_irq sample_defs.TFE_CSID_PATH_ERROR_FIFO_OVERFLOW)) = [.CAM_ISP_HW_ERROR_NONE] ∧
    halt_writes (cam_tfe_csid_irq sample_defs hw_streaming_ipp_rdi0
      (rdi0_irq sample_defs.TFE_CSID_PATH_ERROR_FIFO_OVERFLOW))
      (.csid_rdi_ctrl_addr CAM_TFE_CSID_PATH_RES_RDI_0) = 1 := by
  decide

/-- C24 (counterexample to the claim as stated).  On the sample device RDI0
is reserved for a dual-sensor use case and initialised, no debug flag is set.
When the path-active check finds an active path, `cam_tfe_csid_start`
succeeds, the frame-drop count is `1`, the path streams, and the interrupt mask
written for RDI0 has the SOF bit clear; with no active path the SOF bit is
set. -/
theorem start_with_active_path_keeps_sof_masked :
    (hw_init_rdi0_dual.rdi_res CAM_TFE_CSID_PATH_RES_RDI_0).res_state = .INIT_HW ∧
    (hw_init_rdi0_dual.rdi_res CAM_TFE_CSID_PATH_RES_RDI_0).res_priv.usage_type =
      sample_defs.CAM_ISP_TFE_IN_RES_USAGE_DUAL ∧
    hw_init_rdi0_dual.csid_debug &&& sample_defs.TFE_CSID_DEBUG_ENABLE_SOF_IRQ = 0 ∧
    cam_tfe_csid_check_path_active hw_init_rdi0_dual all_paths_active = true ∧
    (cam_tfe_csid_start sample_defs hw_init_rdi0_dual CAM_TFE_CSID_PATH_RES_RDI_0
      all_paths_active).1 = 0 ∧
    path_state (cam_tfe_csid_start sample_defs hw_init_rdi0_dual CAM_TFE_CSID_PATH_RES_RDI_0
      all_paths_active).2 CAM_TFE_CSID_PATH_RES_RDI_0 = .STREAMING ∧
    ((cam_tfe_csid_start sample_defs hw_init_rdi0_dual CAM_TFE_CSID_PATH_RES_RDI_0
      all_paths_active).2.rdi_res CAM_TFE_CSID_PATH_RES_RDI_0).res_priv.init_frame_drop = 1 ∧
    rdi_irq_mask (cam_tfe_csid_start sample_defs hw_init_rdi0_dual CAM_TFE_CSID_PATH_RES_RDI_0
      all_paths_active).2 CAM_TFE_CSID_PATH_RES_RDI_0 &&&
        sample_defs.TFE_CSID_PATH_INFO_INPUT_SOF = 0 ∧
    rdi_irq_mask (cam_tfe_csid_start sample_defs hw_init_rdi0_dual CAM_TFE_CSID_PATH_RES_RDI_0
      no_path_active).2 CAM_TFE_CSID_PATH_RES_RDI_0 &&&
        sample_defs.TFE_CSID_PATH_INFO_INPUT_SOF = sample_defs.TFE_CSID_PATH_INFO_INPUT_SOF := by
  decide

/-- C24 (amended).  When `cam_tfe_csid_start` succeeds on an RDI path with a
frame drop pending (dual-sensor usage or a non-zero `init_frame_drop`): if the
path-active check finds no active path, the resume write is deferred and the
interrupt mask written for the path has the SOF bit set, whatever the SOF debug
flag is; if the check finds an active path, the resume write is issued at once
and the mask has the SOF source only under the SOF debug flag. -/
theorem start_rdi_frame_drop_sof_mask (K : csid_defs) (csid_hw : cam_tfe_csid_hw)
    (res_id : Nat) (path_status : Nat → Nat)
    (hrdi : res_id ≠ CAM_TFE_CSID_PATH_RES_IPP)
    (hdrop : (get_res csid_hw res_id).res_priv.usage_type = K.CAM_ISP_TFE_IN_RES_USAGE_DUAL ∨
      (get_res csid_hw res_id).res_priv.init_frame_drop ≠ 0)
    (hrc : (cam_tfe_csid_start K csid_hw res_id path_status).1 = 0) :
    (cam_tfe_csid_check_path_active csid_hw path_status = false →
      rdi_irq_mask (cam_tfe_csid_start K csid_hw res_id path_status).2 res_id &&&
        K.TFE_CSID_PATH_INFO_INPUT_SOF = K.TFE_CSID_PATH_INFO_INPUT_SOF ∧
      rdi_resume_writes (cam_tfe_csid_start K csid_hw res_id path_status).2 res_id =
        rdi_resume_writes csid_hw res_id) ∧
    (cam_tfe_csid_check_path_active csid_hw path_status = true →
      rdi_irq_mask (cam_tfe_csid_start K csid_hw res_id path_status).2 res_id =
        rdi_path_irq_mask K csid_hw
          (decide (csid_hw.csid_debug &&& K.TFE_CSID_DEBUG_ENABLE_SOF_IRQ ≠ 0)) ∧
      rdi_resume_writes (cam_tfe_csid_start K csid_hw res_id path_status).2 res_id =
        rdi_resume_writes csid_hw res_id + 1) := by
  unfold cam_tfe_csid_start at hrc ⊢
  by_cases h1 : res_id ≥ CAM_TFE_CSID_PATH_RES_MAX
  · rw [if_pos h1] at hrc
    exact absurd hrc (by simp [EINVAL])
  · rw [if_neg h1] at hrc ⊢
    simp only [if_neg hrdi] at hrc ⊢
    have hm := enable_rdi_path_mask K
      { csid_hw with sof_irq_triggered := false, irq_debug_cnt := 0 } res_id path_status hrc
    have hd : decide ((get_res { csid_hw with sof_irq_triggered := false, irq_debug_cnt := 0 }
        res_id).res_priv.usage_type = K.CAM_ISP_TFE_IN_RES_USAGE_DUAL ∨
        (get_res { csid_hw with sof_irq_triggered := false, irq_debug_cnt := 0 }
          res_id).res_priv.init_frame_drop ≠ 0) = true := decide_eq_true hdrop
    have hca : cam_tfe_csid_check_path_active
        { csid_hw with sof_irq_triggered := false, irq_debug_cnt := 0 } path_status =
        cam_tfe_csid_check_path_active csid_hw path_status :=
      check_path_active_congr _ _ _ rfl
    simp only [hd, hca, true_and] at hm
    constructor
    · intro ha
      rw [ha] at hm
      simp only [decide_True, or_true, if_true, List.nil_append] at hm
      constructor
      · unfold rdi_irq_mask
        rw [cam_io_r_mb_of_regs _ _ _ _ hm]
        exact rdi_path_irq_mask_sof K _
      · unfold rdi_resume_writes
        rw [hm]
        simp [List.count_cons]
    · intro ha
      rw [ha] at hm
      simp only [Bool.true_eq_false, decide_False, or_false, if_false, List.singleton_append]
        at hm
      constructor
      · unfold rdi_irq_mask
        rw [cam_io_r_mb_of_regs _ _ _ _ hm]
        rfl
      · unfold rdi_resume_writes
        rw [hm]
        simp [List.count_cons]

/-- C24 (amended), instance: RDI0 of the sample device, reserved for a
dual-sensor use case and initialised, is started while no path is active. -/
theorem start_rdi_frame_drop_sof_mask_witness :
    CAM_TFE_CSID_PATH_RES_RDI_0 ≠ CAM_TFE_CSID_PATH_RES_IPP ∧
    (get_res hw_init_rdi0_dual CAM_TFE_CSID_PATH_RES_RDI_0).res_priv.usage_type =
      sample_defs.CAM_ISP_TFE_IN_RES_USAGE_DUAL ∧
    (cam_tfe_csid_start sample_defs hw_init_rdi0_dual CAM_TFE_CSID_PATH_RES_RDI_0
      no_path_active).1 = 0 ∧
    cam_tfe_csid_check_path_active hw_init_rdi0_dual no_path_active = false ∧
    rdi_irq_mask (cam_tfe_csid_start sample_defs hw_init_rdi0_dual CAM_TFE_CSID_PATH_RES_RDI_0
      no_path_active).2 CAM_TFE_CSID_PATH_RES_RDI_0 &&&
        sample_defs.TFE_CSID_PATH_INFO_INPUT_SOF = sample_defs.TFE_CSID_PATH_INFO_INPUT_SOF ∧
    rdi_resume_writes (cam_tfe_csid_start sample_defs hw_init_rdi0_dual
      CAM_TFE_CSID_PATH_RES_RDI_0 no_path_active).2 CAM_TFE_CSID_PATH_RES_RDI_0 =
        rdi_resume_writes hw_init_rdi0_dual CAM_TFE_CSID_PATH_RES_RDI_0 :=
  ⟨by decide, by decide, by decide, by decide,
    (start_rdi_frame_drop_sof_mask sample_defs hw_init_rdi0_dual CAM_TFE_CSID_PATH_RES_RDI_0
      no_path_active (by decide) (Or.inl (by decide)) (by decide)).1 (by decide)⟩

/-- C25 (the code deviates from the claim).  The sample device reserves RDI0
with an input port whose horizontal blanking is `100` and whose vertical
blanking is `200`.  The reservation succeeds, width, height and frame rate of
the sensor are captured as given, but the path ends with `sensor_hbi = 200`
and `sensor_vbi = 100`: `cam_tfe_csid_path_reserve` stores the vertical
blanking of the port in `sensor_hbi` and the horizontal one in `sensor_vbi`.
The pixel window is the left one for sync modes `NONE` and `MASTER` and the
right one, with the master index, for `SLAVE`. -/
theorem reserve_swaps_sensor_blanking :
    split_port.sensor_hbi = 100 ∧ split_port.sensor_vbi = 200 ∧
    (cam_tfe_csid_reserve sample_defs sample_hw
      (sample_reserve CAM_TFE_CSID_PATH_RES_RDI_0 split_port) true).1 = 0 ∧
    (reserved_path_data split_port .CAM_ISP_HW_SYNC_NONE).sensor_width =
      split_port.sensor_width ∧
    (reserved_path_data split_port .CAM_ISP_HW_SYNC_NONE).sensor_height =
      split_port.sensor_height ∧
    (reserved_path_data split_port .CAM_ISP_HW_SYNC_NONE).sensor_fps = split_port.sensor_fps ∧
    (reserved_path_data split_port .CAM_ISP_HW_SYNC_NONE).sensor_hbi = 200 ∧
    (reserved_path_data split_port .CAM_ISP_HW_SYNC_NONE).sensor_vbi = 100 ∧
    (reserved_path_data split_port .CAM_ISP_HW_SYNC_NONE).sensor_hbi ≠ split_port.sensor_hbi ∧
    (reserved_path_data split_port .CAM_ISP_HW_SYNC_NONE).sensor_vbi ≠ split_port.sensor_vbi ∧
    ((reserved_path_data split_port .CAM_ISP_HW_SYNC_NONE).start_pixel,
      (reserved_path_data split_port .CAM_ISP_HW_SYNC_NONE).end_pixel,
      (reserved_path_data split_port .CAM_ISP_HW_SYNC_NONE).width) = (0, 959, 960) ∧
    ((reserved_path_data split_port .CAM_ISP_HW_SYNC_MASTER).start_pixel,
      (reserved_path_data split_port .CAM_ISP_HW_SYNC_MASTER).end_pixel,
      (reserved_path_data split_port .CAM_ISP_HW_SYNC_MASTER).width) = (0, 959, 960) ∧
    ((reserved_path_data split_port .CAM_ISP_HW_SYNC_SLAVE).start_pixel,
      (reserved_path_data split_port .CAM_ISP_HW_SYNC_SLAVE).end_pixel,
      (reserved_path_data split_port .CAM_ISP_HW_SYNC_SLAVE).width,
      (reserved_path_data split_port .CAM_ISP_HW_SYNC_SLAVE).master_idx) = (960, 1919, 960, 2) := by
  decide

/-- C27 (counterexample to the claim as stated).  On the sample device RDI0
is reserved and initialised: one path is in `INIT_HW` and the open count is
`1`.  The release of that path succeeds and makes it `AVAILABLE`, and the open
count is still `1` with the block powered up while no path is in `INIT_HW` or
`STREAMING`. -/
theorem release_of_init_hw_path_keeps_open_count :
    path_state hw_init_rdi0 CAM_TFE_CSID_PATH_RES_RDI_0 = .INIT_HW ∧
    hw_init_rdi0.open_count = 1 ∧ active_path_count hw_init_rdi0 = 1 ∧
    (cam_tfe_csid_release hw_init_rdi0 CAM_TFE_CSID_PATH_RES_RDI_0).1 = 0 ∧
    path_state (cam_tfe_csid_release hw_init_rdi0 CAM_TFE_CSID_PATH_RES_RDI_0).2
      CAM_TFE_CSID_PATH_RES_RDI_0 = .AVAILABLE ∧
    (cam_tfe_csid_release hw_init_rdi0 CAM_TFE_CSID_PATH_RES_RDI_0).2.open_count = 1 ∧
    active_path_count (cam_tfe_csid_release hw_init_rdi0 CAM_TFE_CSID_PATH_RES_RDI_0).2 = 0 ∧
    (cam_tfe_csid_release hw_init_rdi0 CAM_TFE_CSID_PATH_RES_RDI_0).2.hw_state =
      .CAM_HW_STATE_POWER_UP := by
  decide

/-- C27 (amended).  In every state reached from a freshly probed device by a
sequence of public operations, whatever the external services answer, the
hardware state is `POWER_UP` exactly when the open count is greater than `0`.
Only `init` and `deinit` write the open count and the hardware state:
`cam_tfe_csid_reserve`, `cam_tfe_csid_release`, `cam_tfe_csid_start` and
`cam_tfe_csid_stop` leave both as they were on every device, so the release
of a path in `INIT_HW` keeps the open count. -/
theorem power_state_tracks_open_count (K : csid_defs) (csid_reg : cam_tfe_csid_reg_offset)
    (pix_fused_off ppi_enable : Bool) (ppi_hw_intf : Nat → Bool) (csid_idx : Nat)
    (ops : List csid_op) :
    ((csid_run K (cam_tfe_csid_hw_probe_init csid_reg pix_fused_off ppi_enable ppi_hw_intf
        csid_idx) ops).2.hw_state = .CAM_HW_STATE_POWER_UP ↔
      (csid_run K (cam_tfe_csid_hw_probe_init csid_reg pix_fused_off ppi_enable ppi_hw_intf
        csid_idx) ops).2.open_count > 0) ∧
    (∀ (csid_hw : cam_tfe_csid_hw) (args : cam_tfe_csid_hw_reserve_resource_args)
        (qcfa_supported : Bool),
      power_view (cam_tfe_csid_reserve K csid_hw args qcfa_supported).2.1 =
        power_view csid_hw) ∧
    (∀ (csid_hw : cam_tfe_csid_hw) (res_id : Nat),
      power_view (cam_tfe_csid_release csid_hw res_id).2 = power_view csid_hw) ∧
    (∀ (csid_hw : cam_tfe_csid_hw) (res_id : Nat) (path_status : Nat → Nat),
      power_view (cam_tfe_csid_start K csid_hw res_id path_status).2 = power_view csid_hw) ∧
    (∀ (csid_hw : cam_tfe_csid_hw) (args : cam_tfe_csid_hw_stop_args) (poll_rc : Nat → Int),
      power_view (cam_tfe_csid_stop K csid_hw args poll_rc).2 = power_view csid_hw) :=
  ⟨(power_inv_run K ops _
      (power_inv_probe_init csid_reg pix_fused_off ppi_enable ppi_hw_intf csid_idx)).2,
    fun csid_hw args qcfa_supported => (reserve_ctl K csid_hw args qcfa_supported).1,
    power_view_release,
    fun csid_hw res_id path_status =>
      power_view_of_ctl_view _ _ (ctl_view_start K csid_hw res_id path_status),
    fun csid_hw args poll_rc =>
      power_view_of_ctl_view _ _ (ctl_view_stop K csid_hw args poll_rc)⟩

/-- C28 (the code deviates from the claim).  On the sample device RDI0 is
reserved and `cam_tfe_csid_init_hw` fails because the poll of
`cam_tfe_csid_reset_retain_sw_reg` times out: the call returns `-ETIMEDOUT`,
`cam_tfe_csid_disable_hw` has powered the block down (open count `0`), and
`device_enabled` is `1`.  A lane overflow interrupt taken in that state is
handled as on an enabled device: the three receiver registers are written and
a fatal event is submitted. -/
theorem failed_init_leaves_device_enabled :
    (cam_tfe_csid_init_hw sample_defs (hw_reserved_rdi0 sample_in_port)
      CAM_TFE_CSID_PATH_RES_RDI_0 init_retain_timeout).1 = -ETIMEDOUT ∧
    hw_init_failed_rdi0.hw_state = .CAM_HW_STATE_POWER_DOWN ∧
    hw_init_failed_rdi0.open_count = 0 ∧
    hw_init_failed_rdi0.device_enabled = 1 ∧
    (cam_tfe_csid_disable_hw
      (cam_tfe_csid_enable_hw sample_defs (hw_reserved_rdi0 sample_in_port)
        init_ok.enable).2 disable_ok).2.device_enabled = 0 ∧
    (rx_writes (cam_tfe_csid_irq sample_defs hw_init_failed_rdi0 lane_irq)).length =
      (rx_writes hw_init_failed_rdi0).length + 3 ∧
    queued_events (cam_tfe_csid_irq sample_defs hw_init_failed_rdi0 lane_irq) =
      [.CAM_ISP_HW_ERROR_CSID_FATAL, .CAM_ISP_HW_ERROR_NONE] := by
  decide

/-- C29 (the code deviates from the claim).  The sample device reserves RDI0
with a D-PHY input port whose lane count is `0`.  The reservation succeeds and
the canonical receiver configuration has `lane_num = 0`; the following
`cam_tfe_csid_init_hw` succeeds and `cam_tfe_csid_enable_csi2` computes
`lane_num - 1 = 0xFFFFFFFF`, so RX cfg0 is written with all 32 bits set.  With
the four lanes of `sample_in_port` the low bits of RX cfg0 hold `3`. -/
theorem reserve_accepts_zero_lanes :
    zero_lane_port.lane_type = sample_defs.CAM_ISP_LANE_TYPE_DPHY ∧
    zero_lane_port.lane_num = 0 ∧
    (cam_tfe_csid_reserve sample_defs sample_hw
      (sample_reserve CAM_TFE_CSID_PATH_RES_RDI_0 zero_lane_port) true).1 = 0 ∧
    (hw_reserved_rdi0 zero_lane_port).csi2_reserve_cnt = 1 ∧
    (hw_reserved_rdi0 zero_lane_port).csi2_rx_cfg.lane_num = 0 ∧
    u32_sub (hw_reserved_rdi0 zero_lane_port).csi2_rx_cfg.lane_num 1 = 0xFFFFFFFF ∧
    (cam_tfe_csid_init_hw sample_defs (hw_reserved_rdi0 zero_lane_port)
      CAM_TFE_CSID_PATH_RES_RDI_0 init_ok).1 = 0 ∧
    cam_io_r_mb .csid_csi2_rx_cfg0_addr
      (cam_tfe_csid_enable_csi2 sample_defs (hw_reserved_rdi0 zero_lane_port)).2 = 0xFFFFFFFF ∧
    (cam_tfe_csid_init_hw sample_defs (hw_reserved_rdi0 zero_lane_port)
      CAM_TFE_CSID_PATH_RES_RDI_0 init_ok).2.regs.count
        (csid_reg_addr.csid_csi2_rx_cfg0_addr, 0xFFFFFFFF) = 1 ∧
    cam_io_r_mb .csid_csi2_rx_cfg0_addr
      (cam_tfe_csid_enable_csi2 sample_defs (hw_reserved_rdi0 sample_in_port)).2 &&& 0x3 = 3 := by
  decide

/-- C30 (counterexample to the claim as stated).  On the initialised sample
device one interrupt with an EOT reception error was taken and its event
handled: the error count is `1` (below the threshold `5`), every payload is
free, no debug flag is set.  The next interrupt carries only the SOF bit of
RDI0, no error or fatal bit; the handler takes a payload off the free list
and submits a generic event.  With an error count of `0` the same interrupt
submits nothing. -/
theorem pending_error_count_submits_generic_event :
    hw_one_soft_error.device_enabled = 1 ∧
    hw_one_soft_error.error_irq_count = 1 ∧
    hw_one_soft_error.csid_debug = 0 ∧
    hw_one_soft_error.sof_irq_triggered = false ∧
    hw_one_soft_error.tasklet_queue = [] ∧
    hw_one_soft_error.free_payload_list = [1, 2, 3, 4, 5, 6, 7, 0] ∧
    queued_events (cam_tfe_csid_irq sample_defs hw_one_soft_error
      (rdi0_irq sample_defs.TFE_CSID_PATH_INFO_INPUT_SOF)) = [.CAM_ISP_HW_ERROR_NONE] ∧
    (cam_tfe_csid_irq sample_defs hw_one_soft_error
      (rdi0_irq sample_defs.TFE_CSID_PATH_INFO_INPUT_SOF)).free_payload_list =
        [2, 3, 4, 5, 6, 7, 0] ∧
    hw_init_rdi0.error_irq_count = 0 ∧
    queued_events (cam_tfe_csid_irq sample_defs hw_init_rdi0
      (rdi0_irq sample_defs.TFE_CSID_PATH_INFO_INPUT_SOF)) = [] := by
  decide

/-- C30 (amended).  For every interrupt whose six status words carry no error
or fatal bit, taken while SOF debug logging is inactive and with an error
count of `0` on entry, `cam_tfe_csid_irq` takes no payload from the free list,
submits no event to the deferred scheduler and leaves the error count at
`0`. -/
theorem irq_without_error_submits_nothing (K : csid_defs) (csid_hw : cam_tfe_csid_hw)
    (env : csid_irq_env)
    (hbits : no_error_bits K env.irq_status = true)
    (hdbg : sof_debug_inactive K csid_hw = true)
    (hcnt : csid_hw.error_irq_count = 0) :
    (cam_tfe_csid_irq K csid_hw env).free_payload_list = csid_hw.free_payload_list ∧
    (cam_tfe_csid_irq K csid_hw env).tasklet_queue = csid_hw.tasklet_queue ∧
    (cam_tfe_csid_irq K csid_hw env).error_irq_count = 0 := by
  have hb := hbits
  unfold no_error_bits at hb
  simp only [Bool.and_eq_true] at hb
  have hrx : rx_error_free K env.irq_status.rx = true := hb.1.1.1.1
  have hipp : ipp_error_free K env.irq_status.ipp = true := hb.1.1.1.2
  have hv1 := evt_view_irq_clear csid_hw env.irq_status
  have hd1 := sof_dbg_view_irq_clear csid_hw env.irq_status
  have hc1 : (cam_tfe_csid_irq_clear csid_hw env.irq_status).error_irq_count = 0 := by
    have h := congrArg (fun v => v.2.2.1) hv1
    exact h.trans hcnt
  have e2 := irq_rx_errors_quiet K (cam_tfe_csid_irq_clear csid_hw env.irq_status)
    env.irq_status.rx hrx
  have e3 := irq_handle_fatal_quiet (cam_tfe_csid_irq_clear csid_hw env.irq_status)
    env.irq_status env.bh_fatal hc1
  have hv4 := evt_view_irq_capture K (cam_tfe_csid_irq_clear csid_hw env.irq_status)
    env.irq_status.rx
  have hd4 := sof_dbg_view_irq_capture K (cam_tfe_csid_irq_clear csid_hw env.irq_status)
    env.irq_status.rx
  have hin4 : sof_debug_inactive K
      (cam_tfe_csid_irq_capture K (cam_tfe_csid_irq_clear csid_hw env.irq_status)
        env.irq_status.rx) = true :=
    (sof_debug_inactive_congr K _ csid_hw (hd4.trans hd1)).trans hdbg
  have q5 := irq_ipp_quiet K env.irq_status.ipp
    (cam_tfe_csid_irq_capture K (cam_tfe_csid_irq_clear csid_hw env.irq_status)
      env.irq_status.rx,
      { fatal_err_detected := false, is_error_irq := false, log_en := false }) hipp hin4
  have hv5 := evt_view_irq_ipp K env.irq_status.ipp
    (cam_tfe_csid_irq_capture K (cam_tfe_csid_irq_clear csid_hw env.irq_status)
      env.irq_status.rx,
      { fatal_err_detected := false, is_error_irq := false, log_en := false })
  have hin5 := (sof_debug_inactive_congr K _ _ q5.2).trans hin4
  have q6 := irq_rdi_loop_quiet K env.irq_status hbits csid_hw.csid_reg.cmn_reg.num_rdis 0
    _ hin5
  have hv6 := evt_view_irq_rdi_loop K env.irq_status csid_hw.csid_reg.cmn_reg.num_rdis 0
    (cam_tfe_csid_irq_ipp K env.irq_status.ipp
      (cam_tfe_csid_irq_capture K (cam_tfe_csid_irq_clear csid_hw env.irq_status)
        env.irq_status.rx,
        { fatal_err_detected := false, is_error_irq := false, log_en := false }))
  have hfin : ∀ (s : cam_tfe_csid_hw × irq_locals),
      s.2 = { fatal_err_detected := false, is_error_irq := false, log_en := false } →
      evt_view (cam_tfe_csid_irq_finish K env.irq_status env.bh_none s) = evt_view s.1 := by
    intro s hs
    have key : ∀ x : cam_tfe_csid_hw,
        evt_view (if x.irq_debug_cnt ≥ CAM_TFE_CSID_IRQ_SOF_DEBUG_CNT_MAX then
          { (cam_tfe_csid_sof_irq_debug K x 0).2 with irq_debug_cnt := 0 } else x) =
        evt_view x := by
      intro x
      split
      · exact evt_view_sof_irq_debug K x 0
      · rfl
    have hno : ¬ (s.2.is_error_irq = true ∨ s.2.log_en = true) := by
      rw [hs]
      simp
    unfold cam_tfe_csid_irq_finish
    simp only [if_neg hno]
    exact key s.1
  have hall : evt_view (cam_tfe_csid_irq K csid_hw env) = evt_view csid_hw := by
    unfold cam_tfe_csid_irq
    simp only [e2, e3]
    rw [hfin _ (q6.1.trans q5.1), hv6, hv5]
    exact hv4.trans hv1
  simp only [evt_view, Prod.mk.injEq] at hall
  exact ⟨hall.2.1, hall.1, hall.2.2.1.trans hcnt⟩

/-- C30 (amended), instance: an interrupt that carries only the SOF bit of
RDI0, on the initialised sample device with no error counted and no debug
flag set. -/
theorem irq_without_error_submits_nothing_witness :
    no_error_bits sample_defs
      (rdi0_irq sample_defs.TFE_CSID_PATH_INFO_INPUT_SOF).irq_status = true ∧
    sof_debug_inactive sample_defs hw_init_rdi0 = true ∧
    hw_init_rdi0.error_irq_count = 0 ∧
    (cam_tfe_csid_irq sample_defs hw_init_rdi0
      (rdi0_irq sample_defs.TFE_CSID_PATH_INFO_INPUT_SOF)).free_payload_list =
        hw_init_rdi0.free_payload_list ∧
    (cam_tfe_csid_irq sample_defs hw_init_rdi0
      (rdi0_irq sample_defs.TFE_CSID_PATH_INFO_INPUT_SOF)).tasklet_queue =
        hw_init_rdi0.tasklet_queue ∧
    (cam_tfe_csid_irq sample_defs hw_init_rdi0
      (rdi0_irq sample_defs.TFE_CSID_PATH_INFO_INPUT_SOF)).error_irq_count = 0 :=
  ⟨by decide, by decide, by decide,
    irq_without_error_submits_nothing sample_defs hw_init_rdi0
      (rdi0_irq sample_defs.TFE_CSID_PATH_INFO_INPUT_SOF) (by decide) (by decide) (by decide)⟩

end TfeCsid
